import Mathlib

/-!
# Pool scan engine (`module/zfs/dsl_scan.c`)

A shallow embedding of the scrub/resilver coordinator of `dsl_scan.c`.
C structures become Lean structures with the C field names, functions that
mutate `dsl_scan_t` or the pool become functions returning the new pool, and
calls into collaborators that only have an effect outside this file (event
notification, history log, device layer) are recorded in `dp_trace`.

`uint64_t` values are `Nat`, reduced modulo `2 ^ 64` where the C arithmetic
can wrap; `int64_t` values are `Int`.  A function returns `none` when the C
code does not return: a failed `VERIFY`, or a `cv_wait` loop that nobody can
wake up.

The last part of the development is a model of the parameter ranges of the
benchmark driver (`get_next` of `cmd/zpios/zpios_main.c`), in the namespace
`Zpios`.
-/

namespace DslScan

/-! ## Machine integers -/

/-- Truncation of a natural number to an unsigned 64-bit word. -/
def wrap64 (n : Nat) : Nat := n % 2 ^ 64

/-- Reading of an unsigned 64-bit word as `int64_t` (the `(int64_t)` cast). -/
def to_int64 (n : Nat) : Int :=
  if n % 2 ^ 64 < 2 ^ 63 then ((n % 2 ^ 64 : Nat) : Int)
  else ((n % 2 ^ 64 : Nat) : Int) - 2 ^ 64

/-- Storing of an `int64_t` in an unsigned 64-bit word (two's complement). -/
def of_int64 (i : Int) : Nat := (i % 2 ^ 64).toNat

/-- Left shift of a 64-bit word, `x << s`.  The count is taken modulo 64, as
the x86-64 shift instruction does; C defines the result only for
`0 <= s < 64`. -/
def shl64 (x : Nat) (s : Int) : Nat := (x * 2 ^ (s % 64).toNat) % 2 ^ 64

/-- Right shift of a 64-bit word by a constant count, `x >> s`. -/
def shr64 (x : Nat) (s : Nat) : Nat := (x % 2 ^ 64) / 2 ^ s

/-! ## Constants of the headers

The headers (`sys/dsl_scan.h`, `sys/fs/zfs.h`, `sys/spa.h`, `sys/dnode.h`,
`errno.h`) are not part of the two source files; the values are the ones the
code relies on (`scan_funcs` is indexed by `pool_scan_func_t`, a zeroed
`dsl_scan_phys_t` is an idle scan). -/

def POOL_SCAN_NONE : Nat := 0
def POOL_SCAN_SCRUB : Nat := 1
def POOL_SCAN_RESILVER : Nat := 2
def POOL_SCAN_FUNCS : Nat := 3

def DSS_NONE : Nat := 0
def DSS_SCANNING : Nat := 1
def DSS_FINISHED : Nat := 2
def DSS_CANCELED : Nat := 3

def DSF_VISIT_DS_AGAIN : Nat := 1

def ENOENT : Nat := 2
def EIO : Nat := 5
def EBUSY : Nat := 16
def EEXIST : Nat := 17
def ECKSUM : Nat := 52
def EOVERFLOW : Nat := 75
def ERESTART : Nat := 85

def SPA_LOAD_NONE : Nat := 0
def SPA_VERSION_DSL_SCRUB : Nat := 11
def SPA_VERSION_SCAN : Nat := 25
def SPA_VERSION_DEADLISTS : Nat := 26

def TXG_INITIAL : Nat := 4

def DDT_CLASS_DITTO : Nat := 0
def DDT_CLASS_DUPLICATE : Nat := 1
def DDT_CLASS_UNIQUE : Nat := 2
def DDT_CLASSES : Nat := 3

def SPA_MINBLOCKSHIFT : Nat := 9
def SPA_BLKPTRSHIFT : Nat := 7
def DNODE_SHIFT : Nat := 9
def DNODE_BLOCK_SHIFT : Nat := 14

def DMU_META_OBJSET : Nat := 0
def DMU_META_DNODE_OBJECT : Nat := 0
/-- The deadlist object id, `(-3ULL)`. -/
def DMU_DEADLIST_OBJECT : Nat := 2 ^ 64 - 3
/-- The objset id stored in the bookmark of a destroyed dataset, `(-1ULL)`. -/
def ZB_DESTROYED_OBJSET : Nat := 2 ^ 64 - 1
def ZB_ROOT_OBJECT : Nat := 0
def ZB_ROOT_LEVEL : Int := -1
def ZB_ROOT_BLKID : Nat := 0
def ZB_ZIL_OBJECT : Nat := 0
def ZB_ZIL_LEVEL : Int := -2

/-- The name of the directory entry that holds the scan record. -/
def DMU_POOL_SCAN : String := "scan"

/-! ## Tunables (the globals at the head of the file) -/

/-- The module parameters `zfs_*` read by the scan code. -/
structure tunables where
  zfs_scan_min_time_ms : Nat
  zfs_free_min_time_ms : Nat
  zfs_resilver_min_time_ms : Nat
  zfs_no_scrub_io : Bool
  zfs_no_scrub_prefetch : Bool
  zfs_scrub_ddt_class_max : Nat
  zfs_txg_timeout : Nat

/-- The values the globals are initialised with (`zfs_txg_timeout` is declared
`extern`; its value is the one of the txg layer). -/
def default_tunables : tunables :=
  { zfs_scan_min_time_ms := 1000
    zfs_free_min_time_ms := 1000
    zfs_resilver_min_time_ms := 3000
    zfs_no_scrub_io := false
    zfs_no_scrub_prefetch := false
    zfs_scrub_ddt_class_max := DDT_CLASS_DUPLICATE
    zfs_txg_timeout := 30 }

/-! ## Data model -/

/-- The bookmark `zbookmark_t`: `<objset, object, level, blkid>`. -/
structure zbookmark where
  zb_objset : Nat
  zb_object : Nat
  zb_level : Int
  zb_blkid : Nat
deriving DecidableEq, Repr

/-- The cursor into the dedup table, `ddt_bookmark_t`. -/
structure ddt_bookmark where
  ddb_class : Nat
  ddb_type : Nat
  ddb_checksum : Nat
  ddb_cursor : Nat
deriving DecidableEq, Repr

/-- The persisted scan record `dsl_scan_phys_t`, an array of
`SCAN_PHYS_NUMINTS` 64-bit words on disk. -/
structure dsl_scan_phys where
  scn_func : Nat
  scn_state : Nat
  scn_queue_obj : Nat
  scn_min_txg : Nat
  scn_max_txg : Nat
  scn_cur_min_txg : Nat
  scn_cur_max_txg : Nat
  scn_start_time : Nat
  scn_end_time : Nat
  scn_to_examine : Nat
  scn_examined : Nat
  scn_to_process : Nat
  scn_processed : Nat
  scn_errors : Nat
  scn_ddt_class_max : Nat
  scn_ddt_bookmark : ddt_bookmark
  scn_bookmark : zbookmark
  scn_flags : Nat
deriving DecidableEq, Repr

/-- The number of 64-bit words of `dsl_scan_phys_t`. -/
def SCAN_PHYS_NUMINTS : Nat := 24

/-- The all-zero bookmark (`bzero` of a `zbookmark_t`). -/
def zbookmark_zero : zbookmark :=
  { zb_objset := 0, zb_object := 0, zb_level := 0, zb_blkid := 0 }

/-- The all-zero record (`bzero` / `kmem_zalloc` of a `dsl_scan_phys_t`). -/
def dsl_scan_phys_zero : dsl_scan_phys :=
  { scn_func := 0, scn_state := 0, scn_queue_obj := 0, scn_min_txg := 0
    scn_max_txg := 0, scn_cur_min_txg := 0, scn_cur_max_txg := 0
    scn_start_time := 0, scn_end_time := 0, scn_to_examine := 0
    scn_examined := 0, scn_to_process := 0, scn_processed := 0
    scn_errors := 0, scn_ddt_class_max := 0
    scn_ddt_bookmark := { ddb_class := 0, ddb_type := 0, ddb_checksum := 0, ddb_cursor := 0 }
    scn_bookmark := zbookmark_zero
    scn_flags := 0 }

/-- The in-memory scan context `dsl_scan_t` (without the back pointer
`scn_dp`: the functions below receive the pool itself). -/
structure dsl_scan_t where
  scn_phys : dsl_scan_phys
  scn_restart_txg : Nat
  scn_pausing : Bool
  scn_sync_start_time : Nat
  scn_visited_this_txg : Nat
  scn_zio_root : Option Nat
deriving DecidableEq, Repr

/-- A freshly allocated context (`kmem_zalloc`). -/
def dsl_scan_zalloc : dsl_scan_t :=
  { scn_phys := dsl_scan_phys_zero, scn_restart_txg := 0, scn_pausing := false
    scn_sync_start_time := 0, scn_visited_this_txg := 0, scn_zio_root := none }


/-! ## Block pointers and dnodes

The accessor macros of `sys/spa.h` (`BP_GET_*`, `DVA_GET_*`) decode bit
fields of the on-disk block pointer; the fields are kept decoded here. -/

/-- One copy of a block: device, allocated size, gang bit (`dva_t`). -/
structure dva where
  dva_vdev : Nat
  dva_asize : Nat
  dva_gang : Bool
deriving DecidableEq, Repr

/-- The block pointer `blkptr_t`, with its three DVA slots. -/
structure blkptr where
  blk_dva0 : dva
  blk_dva1 : dva
  blk_dva2 : dva
  blk_lsize : Nat
  blk_psize : Nat
  blk_level : Nat
  blk_type : Nat
  blk_phys_birth : Nat
  blk_birth : Nat
deriving DecidableEq, Repr

/-- The slot `bp->blk_dva[d]`. -/
def blk_dva (bp : blkptr) (d : Nat) : dva :=
  match d with
  | 0 => bp.blk_dva0
  | 1 => bp.blk_dva1
  | _ => bp.blk_dva2

def DVA_GET_VDEV (d : dva) : Nat := d.dva_vdev
def DVA_GET_ASIZE (d : dva) : Nat := d.dva_asize
def DVA_GET_GANG (d : dva) : Bool := d.dva_gang

/-- The number of allocated DVAs, `!!asize0 + !!asize1 + !!asize2`. -/
def BP_GET_NDVAS (bp : blkptr) : Nat :=
  (if DVA_GET_ASIZE bp.blk_dva0 ≠ 0 then 1 else 0) +
  (if DVA_GET_ASIZE bp.blk_dva1 ≠ 0 then 1 else 0) +
  (if DVA_GET_ASIZE bp.blk_dva2 ≠ 0 then 1 else 0)

def BP_GET_ASIZE (bp : blkptr) : Nat :=
  DVA_GET_ASIZE bp.blk_dva0 + DVA_GET_ASIZE bp.blk_dva1 + DVA_GET_ASIZE bp.blk_dva2

def BP_COUNT_GANG (bp : blkptr) : Nat :=
  (if DVA_GET_GANG bp.blk_dva0 then 1 else 0) +
  (if DVA_GET_GANG bp.blk_dva1 then 1 else 0) +
  (if DVA_GET_GANG bp.blk_dva2 then 1 else 0)

def BP_GET_LSIZE (bp : blkptr) : Nat := bp.blk_lsize
def BP_GET_PSIZE (bp : blkptr) : Nat := bp.blk_psize
def BP_GET_LEVEL (bp : blkptr) : Nat := bp.blk_level
def BP_GET_TYPE (bp : blkptr) : Nat := bp.blk_type

/-- The physical birth txg: `blk_phys_birth`, or `blk_birth` when that is 0. -/
def BP_PHYSICAL_BIRTH (bp : blkptr) : Nat :=
  if bp.blk_phys_birth ≠ 0 then bp.blk_phys_birth else bp.blk_birth

/-- The fields of `dnode_phys_t` the bookmark order reads. -/
structure dnode_phys where
  dn_indblkshift : Nat
  dn_nlevels : Nat
  dn_nblkptr : Nat
  dn_flags : Nat
  dn_datablkszsec : Nat
deriving DecidableEq, Repr

/-! ## Scrub reads -/

/-- The flags of `enum zio_flag` the scan code sets or tests. -/
inductive zio_flag where
  | ZIO_FLAG_RESILVER
  | ZIO_FLAG_SCRUB
  | ZIO_FLAG_SCRUB_THREAD
  | ZIO_FLAG_CANFAIL
  | ZIO_FLAG_MUSTSUCCEED
  | ZIO_FLAG_SPECULATIVE
  | ZIO_FLAG_RAW
deriving DecidableEq, Repr

/-- The two priorities the scrub reads are issued at. -/
inductive zio_priority where
  | ZIO_PRIORITY_SCRUB
  | ZIO_PRIORITY_RESILVER
deriving DecidableEq, Repr

/-- A scrub read (`zio_t`) as `dsl_scan_scrub_done` sees it.  `io_error` is
the error the read completes with; it is fixed by the devices, not by the
scan code. -/
structure zio where
  io_bp : blkptr
  io_size : Nat
  io_priority : zio_priority
  io_flags : List zio_flag
  io_bookmark : zbookmark
  io_error : Nat
deriving DecidableEq, Repr

/-! ## Block statistics -/

/-- One cell of the statistics table, `zfs_blkstat_t`. -/
structure zfs_blkstat where
  zb_count : Nat
  zb_asize : Nat
  zb_lsize : Nat
  zb_psize : Nat
  zb_gangs : Nat
  zb_ditto_2_of_2_samevdev : Nat
  zb_ditto_2_of_3_samevdev : Nat
  zb_ditto_3_of_3_samevdev : Nat
deriving DecidableEq, Repr

def zfs_blkstat_zero : zfs_blkstat :=
  { zb_count := 0, zb_asize := 0, zb_lsize := 0, zb_psize := 0, zb_gangs := 0
    zb_ditto_2_of_2_samevdev := 0, zb_ditto_2_of_3_samevdev := 0
    zb_ditto_3_of_3_samevdev := 0 }

/-- The row of the table that holds the totals over all levels. -/
def DN_MAX_LEVELS : Nat := 20
/-- The column of the table that holds the totals over all types
(`DMU_OT_NUMTYPES`). -/
def DMU_OT_TOTAL : Nat := 54

/-- The table `zfs_all_blkstats_t`: `zab_type[level][type]`. -/
structure zfs_all_blkstats where
  zab_type : Nat → Nat → zfs_blkstat

/-- A zeroed table (`bzero(dp->dp_blkstats, ...)`). -/
def zfs_all_blkstats_zero : zfs_all_blkstats :=
  { zab_type := fun _ _ => zfs_blkstat_zero }


/-! ## The pool

`spa_t`, the device tree, the meta object set and `dsl_pool_t`, reduced to
what `dsl_scan.c` reads and writes. -/

/-- A top-level vdev with its partial dirty-time log, a list of txg ranges
`[start, end)`. -/
structure vdev where
  vdev_dtl_partial : List (Nat × Nat)
deriving DecidableEq, Repr

/-- The root vdev `spa->spa_root_vdev`. -/
structure root_vdev where
  vs_alloc : Nat
  vdev_child : List vdev
  /-- The answer of `vdev_resilver_needed`: the dirty txg window, when there
  is one. -/
  vdev_resilver_window : Option (Nat × Nat)
deriving DecidableEq, Repr

/-- Modelled from the spec: the device layer's `vdev_lookup_top` (`vdev.c` is
not among the sources): the top-level vdev with the given id, `NULL` when
the id is not one of the children of the root. -/
def vdev_lookup_top (rvd : root_vdev) (id : Nat) : Option vdev :=
  rvd.vdev_child.get? id

/-- Modelled from the spec: the device layer's
`dtl_contains(vd, PARTIAL, txg, span)`: whether the partial DTL of `vd`
covers `[txg, txg + span)`. -/
def vdev_dtl_contains (vd : vdev) (txg span : Nat) : Bool :=
  vd.vdev_dtl_partial.any (fun r => decide (r.1 ≤ txg ∧ txg + span ≤ r.2))

/-- Modelled from the spec:
the device layer's `resilver_needed(root, &min_txg, &max_txg)`: true when
the device tree has an outstanding dirty txg range, and then the range is
stored through the two pointers; nothing is stored otherwise.  The result is
`(needed, *minp, *maxp)`. -/
def vdev_resilver_needed (rvd : root_vdev) (minp maxp : Nat) : Bool × Nat × Nat :=
  match rvd.vdev_resilver_window with
  | some (lo, hi) => (true, lo, hi)
  | none => (false, minp, maxp)

/-- The system events the scan posts with `spa_event_notify`. -/
inductive sysevent where
  | ESC_ZFS_RESILVER_START
  | ESC_ZFS_SCRUB_START
  | ESC_ZFS_RESILVER_FINISH
  | ESC_ZFS_SCRUB_FINISH
deriving DecidableEq, Repr

/-- Calls whose effect lies outside the scan code; they are appended to
`dp_trace` in the order they are made. -/
inductive effect where
  | spa_event_notify (ev : sysevent)
  | spa_history_log_scan (func mintxg maxtxg : Nat)
  | spa_history_log_scan_done (complete : Bool)
  | vdev_config_dirty
  | vdev_dtl_reassess (txg scrub_txg : Nat) (scrub_done : Bool)
  | spa_errlog_rotate
  | spa_async_request_resilver_done
  | vdev_reopen
  | zio_read (z : zio)
  | arc_prefetch (bp : blkptr) (zb : zbookmark)
  | zio_free (txg : Nat) (bp : blkptr)
  | dsl_dir_diduse_space (used compressed uncompressed : Int)
  | ddt_sync (txg : Nat)
  | spa_set_rootblkptr (bp : blkptr)
  | dmu_buf_will_dirty (dsobj : Nat)
deriving DecidableEq, Repr

/-- The pool-wide state `spa_t`. -/
structure spa where
  spa_load_state : Nat
  /-- The value of `spa_shutting_down(spa)`. -/
  spa_shutting_down : Bool
  /-- The value of `spa_version(spa)`. -/
  spa_version : Nat
  /-- The value of `spa_prev_software_version(spa)`. -/
  spa_prev_software_version : Nat
  spa_scrub_inflight : Nat
  spa_scrub_maxinflight : Nat
  spa_scrub_started : Bool
  spa_scrub_active : Bool
  spa_scrub_reopen : Bool
  spa_scan_pass_start : Nat
  spa_scan_pass_exam : Nat
  spa_root_vdev : root_vdev
  /-- The scrub reads issued with `zio_nowait` that have not completed yet,
  oldest first. -/
  spa_scrub_zios : List zio
deriving DecidableEq, Repr

/-- Modelled from the spec: the on-disk key/value store (ZAP) of the meta
object set: the pool directory maps a name to an array of 64-bit words, and
each ZAP object with integer keys (the work queue) maps a key to a word. -/
structure objset where
  os_directory : List (String × List Nat)
  os_zaps : List (Nat × List (Nat × Nat))
deriving DecidableEq, Repr

/-- Modelled from the spec: the deferred-free queue `free_bpobj`, with the
space totals `bpobj_space` reports. -/
structure bpobj where
  bpo_blkptrs : List blkptr
  bpo_bytes : Nat
  bpo_comp : Nat
  bpo_uncomp : Nat
deriving DecidableEq, Repr

/-- The pool `dsl_pool_t`, with `dp_spa` and `dp_scan` held by value. -/
structure dsl_pool where
  dp_spa : spa
  dp_meta_objset : objset
  dp_free_bpobj : bpobj
  dp_blkstats : Option zfs_all_blkstats
  dp_scan : dsl_scan_t
  dp_trace : List effect

/-- The transaction handle `dmu_tx_t`. -/
structure dmu_tx where
  tx_txg : Nat
deriving DecidableEq, Repr

/-! ## ZAP operations -/

/-- Modelled from the spec: ZAP `lookup` of `num` words under `name`:
`ENOENT` when the name is absent, `EOVERFLOW` when the entry holds more than
`num` words, the words otherwise. -/
def zap_lookup (os : objset) (name : String) (num : Nat) : Except Nat (List Nat) :=
  match os.os_directory.lookup name with
  | none => Except.error ENOENT
  | some ws => if num < ws.length then Except.error EOVERFLOW else Except.ok ws

/-- Modelled from the spec: ZAP `update`: the entry `name` holds `ws`
afterwards, whether or not it existed. -/
def zap_update (os : objset) (name : String) (ws : List Nat) : objset :=
  { os with os_directory := (name, ws) :: os.os_directory.filter (fun e => e.1 ≠ name) }

/-- Modelled from the spec: ZAP `remove`: the entry `name` is absent
afterwards (the scan code ignores the error for a missing entry). -/
def zap_remove (os : objset) (name : String) : objset :=
  { os with os_directory := os.os_directory.filter (fun e => e.1 ≠ name) }

/-- Modelled from the spec: ZAP `create`: the object `obj` chosen by the
object allocator holds an empty ZAP afterwards. -/
def zap_create (os : objset) (obj : Nat) : objset :=
  { os with os_zaps := (obj, []) :: os.os_zaps.filter (fun e => e.1 ≠ obj) }

/-- Modelled from the spec: `dmu_object_free`: `ENOENT` when the object is
not allocated, otherwise the object is gone. -/
def dmu_object_free (os : objset) (obj : Nat) : Nat × objset :=
  match os.os_zaps.lookup obj with
  | none => (ENOENT, os)
  | some _ => (0, { os with os_zaps := os.os_zaps.filter (fun e => e.1 ≠ obj) })

/-- Modelled from the spec: `bpobj_space`: the space used by the entries of
the queue. -/
def bpobj_space (bpo : bpobj) : Nat × Nat × Nat :=
  (bpo.bpo_bytes, bpo.bpo_comp, bpo.bpo_uncomp)

/-! ## The persisted record -/

/-- The memory image of `dsl_scan_phys_t`: its 24 words in declaration
order. -/
def scan_phys_words (p : dsl_scan_phys) : List Nat :=
  [ p.scn_func, p.scn_state, p.scn_queue_obj, p.scn_min_txg, p.scn_max_txg
  , p.scn_cur_min_txg, p.scn_cur_max_txg, p.scn_start_time, p.scn_end_time
  , p.scn_to_examine, p.scn_examined, p.scn_to_process, p.scn_processed
  , p.scn_errors, p.scn_ddt_class_max
  , p.scn_ddt_bookmark.ddb_class, p.scn_ddt_bookmark.ddb_type
  , p.scn_ddt_bookmark.ddb_checksum, p.scn_ddt_bookmark.ddb_cursor
  , p.scn_bookmark.zb_objset, p.scn_bookmark.zb_object
  , of_int64 p.scn_bookmark.zb_level, p.scn_bookmark.zb_blkid
  , p.scn_flags ]

/-- The record read back from the words a lookup copied over a zeroed
`dsl_scan_phys_t` (a word the entry does not hold stays 0). -/
def scan_phys_of_words (ws : List Nat) : dsl_scan_phys :=
  let w := fun i => ws.getD i 0
  { scn_func := w 0, scn_state := w 1, scn_queue_obj := w 2, scn_min_txg := w 3
    scn_max_txg := w 4, scn_cur_min_txg := w 5, scn_cur_max_txg := w 6
    scn_start_time := w 7, scn_end_time := w 8, scn_to_examine := w 9
    scn_examined := w 10, scn_to_process := w 11, scn_processed := w 12
    scn_errors := w 13, scn_ddt_class_max := w 14
    scn_ddt_bookmark :=
      { ddb_class := w 15, ddb_type := w 16, ddb_checksum := w 17, ddb_cursor := w 18 }
    scn_bookmark :=
      { zb_objset := w 19, zb_object := w 20, zb_level := to_int64 (w 21), zb_blkid := w 22 }
    scn_flags := w 23 }


/-! ## The coordinator: load, start, finish, cancel -/

def DSL_SCAN_IS_SCRUB_RESILVER (scn : dsl_scan_t) : Bool :=
  decide (scn.scn_phys.scn_func = POOL_SCAN_SCRUB ∨
    scn.scn_phys.scn_func = POOL_SCAN_RESILVER)

/-- Modelled from the spec: statistics rendering is an external collaborator;
`spa_scan_stat_init` starts a new pass of the statistics that are not stored
on disk, at the wall-clock second `now`. -/
def spa_scan_stat_init (sp : spa) (now : Nat) : spa :=
  { sp with spa_scan_pass_start := now, spa_scan_pass_exam := 0 }

/-- The function `dsl_scan_sync_state`: the record is written to the pool
directory under `DMU_POOL_SCAN`. -/
def dsl_scan_sync_state (dp : dsl_pool) : dsl_pool :=
  { dp with dp_meta_objset :=
      zap_update dp.dp_meta_objset DMU_POOL_SCAN (scan_phys_words dp.dp_scan.scn_phys) }

/-- The function `dsl_scan_init`, called on pool import in txg `txg`; `now` is
`gethrestime_sec()`.  The result is the error code and the pool with its new
`dp_scan`. -/
def dsl_scan_init (dp : dsl_pool) (txg now : Nat) : Nat × dsl_pool :=
  let scn := dsl_scan_zalloc
  match zap_lookup dp.dp_meta_objset "scrub_func" 1 with
  | Except.ok _ =>
    let scn := { scn with scn_restart_txg := txg }
    let scn :=
      match zap_lookup dp.dp_meta_objset "scrub_queue" 1 with
      | Except.ok ws => { scn with scn_phys := { scn.scn_phys with scn_queue_obj := ws.getD 0 0 } }
      | Except.error _ => scn
    (0, { dp with dp_scan := scn, dp_spa := spa_scan_stat_init dp.dp_spa now })
  | Except.error _ =>
    match zap_lookup dp.dp_meta_objset DMU_POOL_SCAN SCAN_PHYS_NUMINTS with
    | Except.error err =>
      if err = ENOENT then (0, { dp with dp_scan := scn })
      else (err, { dp with dp_scan := scn })
    | Except.ok ws =>
      let scn := { scn with scn_phys := scan_phys_of_words ws }
      let scn :=
        if scn.scn_phys.scn_state = DSS_SCANNING ∧
            dp.dp_spa.spa_prev_software_version < SPA_VERSION_SCAN then
          { scn with scn_restart_txg := txg }
        else scn
      (0, { dp with dp_scan := scn, dp_spa := spa_scan_stat_init dp.dp_spa now })

/-- The pre-check `dsl_scan_setup_check` of the start sync task. -/
def dsl_scan_setup_check (dp : dsl_pool) : Nat :=
  if dp.dp_scan.scn_phys.scn_state = DSS_SCANNING then EBUSY else 0

/-- The function `dsl_scan_setup_sync`: `func` is `*funcp`, `now` is
`gethrestime_sec()` and `newobj` the object number `zap_create` allocates for
the work queue.  The two `ASSERT`s (the state is not SCANNING, `func` is a
scan function) are compiled out of production builds and do not guard
anything here. -/
def dsl_scan_setup_sync (tun : tunables) (dp : dsl_pool) (func : Nat) (tx : dmu_tx)
    (now newobj : Nat) : dsl_pool :=
  let sp := dp.dp_spa
  let phys : dsl_scan_phys :=
    { dsl_scan_phys_zero with
      scn_func := func
      scn_state := DSS_SCANNING
      scn_min_txg := 0
      scn_max_txg := tx.tx_txg
      scn_ddt_class_max := DDT_CLASSES - 1
      scn_start_time := now
      scn_errors := 0
      scn_to_examine := sp.spa_root_vdev.vs_alloc }
  let scn : dsl_scan_t := { dp.dp_scan with scn_phys := phys, scn_restart_txg := 0 }
  let dp : dsl_pool := { dp with dp_scan := scn, dp_spa := spa_scan_stat_init sp now }
  let dp : dsl_pool :=
    if DSL_SCAN_IS_SCRUB_RESILVER dp.dp_scan then
      let r := vdev_resilver_needed dp.dp_spa.spa_root_vdev
        dp.dp_scan.scn_phys.scn_min_txg dp.dp_scan.scn_phys.scn_max_txg
      let phys := { dp.dp_scan.scn_phys with
        scn_ddt_class_max := tun.zfs_scrub_ddt_class_max
        scn_min_txg := r.2.1
        scn_max_txg := r.2.2 }
      let ev := if r.1 then sysevent.ESC_ZFS_RESILVER_START else sysevent.ESC_ZFS_SCRUB_START
      let phys :=
        if phys.scn_min_txg > TXG_INITIAL then
          { phys with scn_ddt_class_max := DDT_CLASS_DITTO }
        else phys
      { dp with
        dp_scan := { dp.dp_scan with scn_phys := phys }
        dp_spa := { dp.dp_spa with spa_scrub_started := true }
        dp_trace := dp.dp_trace ++ [effect.vdev_config_dirty, effect.spa_event_notify ev] }
    else dp
  let dp : dsl_pool := { dp with dp_blkstats := some zfs_all_blkstats_zero }
  let dp : dsl_pool :=
    { dp with
      dp_meta_objset := zap_create dp.dp_meta_objset newobj
      dp_scan := { dp.dp_scan with
        scn_phys := { dp.dp_scan.scn_phys with scn_queue_obj := newobj } } }
  let dp := dsl_scan_sync_state dp
  { dp with dp_trace := dp.dp_trace ++
      [effect.spa_history_log_scan func dp.dp_scan.scn_phys.scn_min_txg
        dp.dp_scan.scn_phys.scn_max_txg] }

/-- The completion callback `dsl_scan_scrub_done` of a scrub read. -/
def dsl_scan_scrub_done (dp : dsl_pool) (z : zio) : dsl_pool :=
  let sp := { dp.dp_spa with
    spa_scrub_inflight := wrap64 (dp.dp_spa.spa_scrub_inflight + (2 ^ 64 - 1)) }
  let dp := { dp with dp_spa := sp }
  if z.io_error ≠ 0 ∧
      (z.io_error ≠ ECKSUM ∨ ¬ (z.io_flags.contains zio_flag.ZIO_FLAG_SPECULATIVE)) then
    { dp with dp_scan := { dp.dp_scan with
        scn_phys := { dp.dp_scan.scn_phys with
          scn_errors := wrap64 (dp.dp_scan.scn_phys.scn_errors + 1) } } }
  else dp

/-- A loop `while (waiting(spa)) cv_wait(&spa_scrub_io_cv, ...)`.  The caller
sleeps until a scrub read completes; the completions run
`dsl_scan_scrub_done`, oldest read first.  With no read outstanding nobody
signals the condition variable and the caller sleeps for ever (`none`). -/
def scrub_cv_wait_loop (waiting : spa → Bool) : List zio → dsl_pool → Option dsl_pool
  | [], dp => if waiting dp.dp_spa then none else some dp
  | z :: zs, dp =>
    if waiting dp.dp_spa then
      scrub_cv_wait_loop waiting zs
        (dsl_scan_scrub_done { dp with dp_spa := { dp.dp_spa with spa_scrub_zios := zs } } z)
    else some dp

/-- The wait loop run on the reads outstanding in the pool. -/
def scrub_cv_wait (waiting : spa → Bool) (dp : dsl_pool) : Option dsl_pool :=
  scrub_cv_wait_loop waiting dp.dp_spa.spa_scrub_zios dp

/-- The names of an old-style scrub that `dsl_scan_done` removes. -/
def old_names : List String :=
  [ "scrub_bookmark", "scrub_ddt_bookmark", "scrub_ddt_class_max", "scrub_queue"
  , "scrub_min_txg", "scrub_max_txg", "scrub_func", "scrub_errors" ]

/-- The first block of `dsl_scan_done`: the remnants of an old-style scrub are
removed from the pool directory and the work queue object, if there is one,
is freed.  `VERIFY(0 == dmu_object_free(...))` stops the run (`none`) when the
object cannot be freed. -/
def dsl_scan_done_free_queue (dp : dsl_pool) : Option dsl_pool :=
  let dp : dsl_pool :=
    { dp with dp_meta_objset := old_names.foldl zap_remove dp.dp_meta_objset }
  if dp.dp_scan.scn_phys.scn_queue_obj ≠ 0 then
    let r := dmu_object_free dp.dp_meta_objset dp.dp_scan.scn_phys.scn_queue_obj
    if r.1 = 0 then
      some { dp with
        dp_meta_objset := r.2
        dp_scan := { dp.dp_scan with
          scn_phys := { dp.dp_scan.scn_phys with scn_queue_obj := 0 } } }
    else none
  else some dp

/-- The second block of `dsl_scan_done`, run when the state is SCANNING: the
new state, the wait for the scrub reads in flight, the DTL update, the finish
event and the end time. -/
def dsl_scan_done_finish (dp : dsl_pool) (complete : Bool) (tx : dmu_tx) (now : Nat) :
    Option dsl_pool :=
  let dp : dsl_pool :=
    { dp with
      dp_scan := { dp.dp_scan with
        scn_phys := { dp.dp_scan.scn_phys with
          scn_state := if complete then DSS_FINISHED else DSS_CANCELED } }
      dp_trace := dp.dp_trace ++ [effect.spa_history_log_scan_done complete] }
  let finished : Option dsl_pool :=
    if DSL_SCAN_IS_SCRUB_RESILVER dp.dp_scan then
      (scrub_cv_wait (fun sp => decide (sp.spa_scrub_inflight > 0)) dp).map fun dp =>
        { dp with
          dp_spa := { dp.dp_spa with spa_scrub_started := false, spa_scrub_active := false }
          dp_trace := dp.dp_trace ++
            [effect.vdev_dtl_reassess tx.tx_txg
              (if complete then dp.dp_scan.scn_phys.scn_max_txg else 0) true] ++
            (if complete then
              [effect.spa_event_notify
                (if dp.dp_scan.scn_phys.scn_min_txg ≠ 0 then
                  sysevent.ESC_ZFS_RESILVER_FINISH
                else sysevent.ESC_ZFS_SCRUB_FINISH)]
            else []) ++
            [effect.spa_errlog_rotate, effect.spa_async_request_resilver_done] }
    else some dp
  finished.map fun dp =>
    { dp with dp_scan := { dp.dp_scan with
        scn_phys := { dp.dp_scan.scn_phys with scn_end_time := now } } }

/-- The function `dsl_scan_done`; `now` is `gethrestime_sec()`.  A scan that
was "restarted" from a stopped state returns after the first block. -/
def dsl_scan_done (dp : dsl_pool) (complete : Bool) (tx : dmu_tx) (now : Nat) :
    Option dsl_pool :=
  (dsl_scan_done_free_queue dp).bind fun dp =>
    if dp.dp_scan.scn_phys.scn_state ≠ DSS_SCANNING then some dp
    else dsl_scan_done_finish dp complete tx now

/-- The pre-check `dsl_scan_cancel_check` of the cancel sync task. -/
def dsl_scan_cancel_check (dp : dsl_pool) : Nat :=
  if dp.dp_scan.scn_phys.scn_state ≠ DSS_SCANNING then ENOENT else 0

/-- The function `dsl_scan_cancel_sync`. -/
def dsl_scan_cancel_sync (dp : dsl_pool) (tx : dmu_tx) (now : Nat) : Option dsl_pool :=
  (dsl_scan_done dp false tx now).map dsl_scan_sync_state

/-- Modelled from the spec: the sync task framework
`sync_task_do(pool, check, sync, arg1, arg2, dep)` (`dsl_synctask.c` is not
among the sources): the transition `sync` is gated by the pre-check `check`;
a non-zero result of the check is returned and nothing is changed. -/
def dsl_sync_task_do (dp : dsl_pool) (checkfunc : dsl_pool → Nat)
    (syncfunc : dsl_pool → Option dsl_pool) : Option (Nat × dsl_pool) :=
  if checkfunc dp ≠ 0 then some (checkfunc dp, dp)
  else (syncfunc dp).map fun dp' => (0, dp')

/-- The function `dsl_scan_cancel`; the sync task runs in the txg of `tx`. -/
def dsl_scan_cancel (dp : dsl_pool) (tx : dmu_tx) (now : Nat) : Option (Nat × dsl_pool) :=
  dsl_sync_task_do dp dsl_scan_cancel_check (fun dp => dsl_scan_cancel_sync dp tx now)

/-- The function `dsl_scan`: the devices are reopened under
`spa_scrub_reopen`, then the start sync task is run in the txg of `tx`. -/
def dsl_scan (tun : tunables) (dp : dsl_pool) (func : Nat) (tx : dmu_tx)
    (now newobj : Nat) : Option (Nat × dsl_pool) :=
  let dp : dsl_pool :=
    { dp with
      dp_spa := { dp.dp_spa with spa_scrub_reopen := false }
      dp_trace := dp.dp_trace ++ [effect.vdev_reopen] }
  dsl_sync_task_do dp dsl_scan_setup_check
    (fun dp => some (dsl_scan_setup_sync tun dp func tx now newobj))

/-- The function `dsl_scan_active`. -/
def dsl_scan_active (dp : dsl_pool) : Bool :=
  if dp.dp_spa.spa_load_state ≠ SPA_LOAD_NONE then false
  else if dp.dp_spa.spa_shutting_down then false
  else if dp.dp_scan.scn_phys.scn_state = DSS_SCANNING then true
  else
    let used :=
      if dp.dp_spa.spa_version ≥ SPA_VERSION_DEADLISTS then
        (bpobj_space dp.dp_free_bpobj).1
      else 0
    decide (used ≠ 0)

/-- The function `dsl_scan_resilvering`. -/
def dsl_scan_resilvering (dp : dsl_pool) : Bool :=
  decide (dp.dp_scan.scn_phys.scn_state = DSS_SCANNING ∧
    dp.dp_scan.scn_phys.scn_func = POOL_SCAN_RESILVER)

/-! ## Bookmarks, pause and resume -/

def bookmark_is_zero (zb : zbookmark) : Bool :=
  decide (zb.zb_objset = 0 ∧ zb.zb_object = 0 ∧ zb.zb_level = 0 ∧ zb.zb_blkid = 0)

/-- The function `bookmark_is_before`; `dnp` is the dnode of `zb1.zb_object`
(`none` for `NULL`).  The two `ASSERT`s (same objset, `zb2` at level 0) are
not checked. -/
def bookmark_is_before (dnp : Option dnode_phys) (zb1 zb2 : zbookmark) : Bool :=
  if zb2.zb_object = DMU_DEADLIST_OBJECT then true
  else
    match dnp with
    | none => false
    | some dn =>
      let zb1nextL0 := shl64 (wrap64 (zb1.zb_blkid + 1))
        (zb1.zb_level * ((dn.dn_indblkshift : Int) - (SPA_BLKPTRSHIFT : Int)))
      let zb2thisobj :=
        if zb2.zb_object ≠ 0 then zb2.zb_object
        else shl64 zb2.zb_blkid ((DNODE_BLOCK_SHIFT : Int) - (DNODE_SHIFT : Int))
      if zb1.zb_object = DMU_META_DNODE_OBJECT then
        let nextobj :=
          shr64 (wrap64 (zb1nextL0 * (dn.dn_datablkszsec * 2 ^ SPA_MINBLOCKSHIFT))) DNODE_SHIFT
        decide (nextobj ≤ zb2thisobj)
      else if zb1.zb_object < zb2thisobj then true
      else if zb1.zb_object > zb2thisobj then false
      else if zb2.zb_object = DMU_META_DNODE_OBJECT then false
      else decide (zb1nextL0 ≤ zb2.zb_blkid)

def NANOSEC : Nat := 1000000000
def MICROSEC : Nat := 1000000

/-- The function `dsl_scan_check_pause`; `zb` is `none` for a `NULL`
bookmark, `hrtime` is the value of `gethrtime()` and `sync_waiting` the value
of `txg_sync_waiting(dp)` at the call. -/
def dsl_scan_check_pause (tun : tunables) (dp : dsl_pool) (zb : Option zbookmark)
    (hrtime : Nat) (sync_waiting : Bool) : Bool × dsl_pool :=
  let scn := dp.dp_scan
  if (match zb with
      | some z => decide (to_int64 z.zb_object < 0)
      | none => false) then (false, dp)
  else if scn.scn_pausing then (true, dp)
  else if ¬ bookmark_is_zero scn.scn_phys.scn_bookmark then (false, dp)
  else if (match zb with
      | some z => decide (z.zb_level ≠ 0)
      | none => false) then (false, dp)
  else
    let mintime :=
      if scn.scn_phys.scn_func = POOL_SCAN_RESILVER then tun.zfs_resilver_min_time_ms
      else tun.zfs_scan_min_time_ms
    let elapsed_nanosecs := wrap64 (hrtime + (2 ^ 64 - scn.scn_sync_start_time % 2 ^ 64))
    if elapsed_nanosecs / NANOSEC > tun.zfs_txg_timeout ∨
        (elapsed_nanosecs / MICROSEC > mintime ∧ sync_waiting) ∨
        dp.dp_spa.spa_shutting_down then
      let scn : dsl_scan_t :=
        match zb with
        | some z => { scn with scn_phys := { scn.scn_phys with scn_bookmark := z } }
        | none => scn
      (true, { dp with dp_scan := { scn with scn_pausing := true } })
    else (false, dp)

/-- The function `dsl_scan_check_resume`. -/
def dsl_scan_check_resume (dp : dsl_pool) (dnp : Option dnode_phys) (zb : zbookmark) :
    Bool × dsl_pool :=
  let scn := dp.dp_scan
  if ¬ bookmark_is_zero scn.scn_phys.scn_bookmark ∧ to_int64 zb.zb_object ≥ 0 then
    if bookmark_is_before dnp zb scn.scn_phys.scn_bookmark then (true, dp)
    else if zb = scn.scn_phys.scn_bookmark ∨
        zb.zb_object > scn.scn_phys.scn_bookmark.zb_object then
      (false, { dp with dp_scan := { scn with
        scn_phys := { scn.scn_phys with scn_bookmark := zbookmark_zero } } })
    else (false, dp)
  else (false, dp)


/-! ## Scrub consumers -/

/-- The body of the loop of `count_block` on one cell of the table. -/
def count_block_cell (bp : blkptr) (zb : zfs_blkstat) : zfs_blkstat :=
  let zb : zfs_blkstat :=
    { zb with
      zb_count := wrap64 (zb.zb_count + 1)
      zb_asize := wrap64 (zb.zb_asize + BP_GET_ASIZE bp)
      zb_lsize := wrap64 (zb.zb_lsize + BP_GET_LSIZE bp)
      zb_psize := wrap64 (zb.zb_psize + BP_GET_PSIZE bp)
      zb_gangs := wrap64 (zb.zb_gangs + BP_COUNT_GANG bp) }
  match BP_GET_NDVAS bp with
  | 2 =>
    if DVA_GET_VDEV bp.blk_dva0 = DVA_GET_VDEV bp.blk_dva1 then
      { zb with zb_ditto_2_of_2_samevdev := wrap64 (zb.zb_ditto_2_of_2_samevdev + 1) }
    else zb
  | 3 =>
    let equal :=
      (if DVA_GET_VDEV bp.blk_dva0 = DVA_GET_VDEV bp.blk_dva1 then 1 else 0) +
      (if DVA_GET_VDEV bp.blk_dva0 = DVA_GET_VDEV bp.blk_dva2 then 1 else 0) +
      (if DVA_GET_VDEV bp.blk_dva1 = DVA_GET_VDEV bp.blk_dva2 then 1 else 0)
    if equal = 1 then
      { zb with zb_ditto_2_of_3_samevdev := wrap64 (zb.zb_ditto_2_of_3_samevdev + 1) }
    else if equal = 3 then
      { zb with zb_ditto_3_of_3_samevdev := wrap64 (zb.zb_ditto_3_of_3_samevdev + 1) }
    else zb
  | _ => zb

/-- The assignment to `zab->zab_type[l][t]`. -/
def zab_update (zab : zfs_all_blkstats) (l t : Nat) (f : zfs_blkstat → zfs_blkstat) :
    zfs_all_blkstats :=
  { zab_type := fun l' t' =>
      if l' = l ∧ t' = t then f (zab.zab_type l t) else zab.zab_type l' t' }

/-- The iteration `i` of the loop of `count_block`. -/
def count_block_step (bp : blkptr) (zab : zfs_all_blkstats) (i : Nat) : zfs_all_blkstats :=
  let l := if i < 2 then BP_GET_LEVEL bp else DN_MAX_LEVELS
  let t := if i % 2 = 1 then BP_GET_TYPE bp else DMU_OT_TOTAL
  zab_update zab l t (count_block_cell bp)

/-- The function `count_block`; `none` is the `NULL` table of a scan resumed
after a reboot. -/
def count_block (zab : Option zfs_all_blkstats) (bp : blkptr) : Option zfs_all_blkstats :=
  match zab with
  | none => none
  | some zab => some ((List.range 4).foldl (count_block_step bp) zab)

/-- The DVAs the loop of `dsl_scan_scrub_cb` visits: the slots
`blk_dva[0]` .. `blk_dva[BP_GET_NDVAS(bp) - 1]`. -/
def scrub_cb_dva_list (bp : blkptr) : List dva :=
  (List.range (BP_GET_NDVAS bp)).map (blk_dva bp)

/-- The loop over the DVAs of `dsl_scan_scrub_cb`, on the state
`(scn_examined, spa_scan_pass_exam, needs_io)`.  `vdev_dtl_contains` reads
through the vdev pointer, so a DVA on a vdev id without top-level vdev
(`NULL`) ends the run (`none`). -/
def scrub_cb_dvas (rvd : root_vdev) (phys_birth : Nat) :
    List dva → Nat × Nat × Bool → Option (Nat × Nat × Bool)
  | [], st => some st
  | d :: ds, (examined, pass_exam, needs_io) =>
    let vd := vdev_lookup_top rvd (DVA_GET_VDEV d)
    let examined := wrap64 (examined + DVA_GET_ASIZE d)
    let pass_exam := wrap64 (pass_exam + DVA_GET_ASIZE d)
    if ¬ needs_io then
      if DVA_GET_GANG d then scrub_cb_dvas rvd phys_birth ds (examined, pass_exam, true)
      else
        match vd with
        | none => none
        | some vd =>
          scrub_cb_dvas rvd phys_birth ds (examined, pass_exam, vdev_dtl_contains vd phys_birth 1)
    else scrub_cb_dvas rvd phys_birth ds (examined, pass_exam, needs_io)

/-- The function `dsl_scan_scrub_cb`, the scan callback of scrub and resilver.
`io_error` is the error the read of `bp` will complete with, should one be
issued.  With a `scn_func` that is neither SCRUB nor RESILVER the C code reads
`needs_io` uninitialised (`none`). -/
def dsl_scan_scrub_cb (tun : tunables) (dp : dsl_pool) (bp : blkptr) (zb : zbookmark)
    (io_error : Nat) : Option (Nat × dsl_pool) :=
  let scn := dp.dp_scan
  let size := BP_GET_PSIZE bp
  let phys_birth := BP_PHYSICAL_BIRTH bp
  let zio_flags :=
    [zio_flag.ZIO_FLAG_SCRUB_THREAD, zio_flag.ZIO_FLAG_RAW, zio_flag.ZIO_FLAG_CANFAIL]
  if phys_birth ≤ scn.scn_phys.scn_min_txg ∨ phys_birth ≥ scn.scn_phys.scn_max_txg then
    some (0, dp)
  else
    let dp : dsl_pool := { dp with dp_blkstats := count_block dp.dp_blkstats bp }
    let mode : Option (List zio_flag × zio_priority × Bool) :=
      if scn.scn_phys.scn_func = POOL_SCAN_SCRUB then
        some (zio_flag.ZIO_FLAG_SCRUB :: zio_flags, zio_priority.ZIO_PRIORITY_SCRUB, true)
      else if scn.scn_phys.scn_func = POOL_SCAN_RESILVER then
        some (zio_flag.ZIO_FLAG_RESILVER :: zio_flags, zio_priority.ZIO_PRIORITY_RESILVER, false)
      else none
    mode.bind fun (zio_flags, zio_priority, needs_io) =>
      let zio_flags :=
        if zb.zb_level = ZB_ZIL_LEVEL then zio_flag.ZIO_FLAG_SPECULATIVE :: zio_flags
        else zio_flags
      (scrub_cb_dvas dp.dp_spa.spa_root_vdev phys_birth
          (scrub_cb_dva_list bp)
          (scn.scn_phys.scn_examined, dp.dp_spa.spa_scan_pass_exam, needs_io)).bind
        fun (examined, pass_exam, needs_io) =>
          let dp : dsl_pool :=
            { dp with
              dp_scan := { dp.dp_scan with
                scn_phys := { dp.dp_scan.scn_phys with scn_examined := examined } }
              dp_spa := { dp.dp_spa with spa_scan_pass_exam := pass_exam } }
          if needs_io ∧ ¬ tun.zfs_no_scrub_io then
            (scrub_cv_wait
                (fun sp => decide (sp.spa_scrub_inflight ≥ sp.spa_scrub_maxinflight)) dp).map
              fun dp =>
                let z : zio :=
                  { io_bp := bp, io_size := size, io_priority := zio_priority
                    io_flags := zio_flags, io_bookmark := zb, io_error := io_error }
                (0, { dp with
                  dp_spa := { dp.dp_spa with
                    spa_scrub_inflight := wrap64 (dp.dp_spa.spa_scrub_inflight + 1)
                    spa_scrub_zios := dp.dp_spa.spa_scrub_zios ++ [z] }
                  dp_trace := dp.dp_trace ++ [effect.zio_read z] })
          else some (0, dp)


/-- The pool after some of its outstanding scrub reads have completed: the
completions change `spa_scrub_inflight`, the list of outstanding reads and
`scn_errors`, and nothing else. -/
def with_scrub_progress (dp : dsl_pool) (inflight : Nat) (zios : List zio) (errors : Nat) :
    dsl_pool :=
  { dp with
    dp_spa := { dp.dp_spa with spa_scrub_inflight := inflight, spa_scrub_zios := zios }
    dp_scan := { dp.dp_scan with
      scn_phys := { dp.dp_scan.scn_phys with scn_errors := errors } } }

/-- The pool after `dsl_scan_scrub_cb` has counted a block inside the scan
window: the statistics table, `scn_examined` and `spa_scan_pass_exam`. -/
def scrub_cb_counted (dp : dsl_pool) (bp : blkptr) (examined pass_exam : Nat) : dsl_pool :=
  { dp with
    dp_blkstats := count_block dp.dp_blkstats bp
    dp_scan := { dp.dp_scan with
      scn_phys := { dp.dp_scan.scn_phys with scn_examined := examined } }
    dp_spa := { dp.dp_spa with spa_scan_pass_exam := pass_exam } }

/-- The read `dsl_scan_scrub_cb` issues for a block when the scan function is
`func`. -/
def scrub_cb_zio (func : Nat) (bp : blkptr) (zb : zbookmark) (io_error : Nat) : zio :=
  let base :=
    [zio_flag.ZIO_FLAG_SCRUB_THREAD, zio_flag.ZIO_FLAG_RAW, zio_flag.ZIO_FLAG_CANFAIL]
  let flags :=
    if func = POOL_SCAN_SCRUB then zio_flag.ZIO_FLAG_SCRUB :: base
    else zio_flag.ZIO_FLAG_RESILVER :: base
  { io_bp := bp, io_size := BP_GET_PSIZE bp
    io_priority :=
      if func = POOL_SCAN_SCRUB then zio_priority.ZIO_PRIORITY_SCRUB
      else zio_priority.ZIO_PRIORITY_RESILVER
    io_flags :=
      if zb.zb_level = ZB_ZIL_LEVEL then zio_flag.ZIO_FLAG_SPECULATIVE :: flags else flags
    io_bookmark := zb, io_error := io_error }

/-- The pool after the read `z` has been issued: one more read in flight. -/
def scrub_cb_issued (dp : dsl_pool) (z : zio) : dsl_pool :=
  { dp with
    dp_spa := { dp.dp_spa with
      spa_scrub_inflight := wrap64 (dp.dp_spa.spa_scrub_inflight + 1)
      spa_scrub_zios := dp.dp_spa.spa_scrub_zios ++ [z] }
    dp_trace := dp.dp_trace ++ [effect.zio_read z] }

/-- Whether a DVA puts a block in the target range of a resilver: a gang
block, or a DVA on a top-level vdev whose partial DTL contains the birth
txg. -/
def dva_needs_resilver (rvd : root_vdev) (phys_birth : Nat) (d : dva) : Bool :=
  DVA_GET_GANG d ||
    (match vdev_lookup_top rvd (DVA_GET_VDEV d) with
    | some vd => vdev_dtl_contains vd phys_birth 1
    | none => false)

/-- The allocated DVAs of a block pointer fill its slots from the front, as
the allocator leaves them. -/
def bp_dvas_packed (bp : blkptr) : Prop :=
  (DVA_GET_ASIZE bp.blk_dva1 ≠ 0 → DVA_GET_ASIZE bp.blk_dva0 ≠ 0) ∧
    (DVA_GET_ASIZE bp.blk_dva2 ≠ 0 → DVA_GET_ASIZE bp.blk_dva1 ≠ 0)

/-! ## Hypotheses under which the C code returns -/

/-- Every read counted in `spa_scrub_inflight` is outstanding, so a thread
that waits on `spa_scrub_io_cv` is woken up. -/
def scrub_reads_accounted (dp : dsl_pool) : Prop :=
  dp.dp_spa.spa_scrub_inflight ≤ dp.dp_spa.spa_scrub_zios.length

/-- The work queue named by `scn_queue_obj`, if any, is an object of the
meta object set: the `VERIFY` of `dmu_object_free` holds. -/
def queue_obj_allocated (dp : dsl_pool) : Prop :=
  dp.dp_scan.scn_phys.scn_queue_obj = 0 ∨
    (dp.dp_meta_objset.os_zaps.lookup dp.dp_scan.scn_phys.scn_queue_obj).isSome = true

/-- The sum of the allocated sizes of a list of DVAs. -/
def dvas_asize (ds : List dva) : Nat := (ds.map DVA_GET_ASIZE).sum

/-- Every DVA of the list lies on a top-level vdev of the pool, so that
`vdev_lookup_top` does not return `NULL` for it. -/
def dvas_on_vdevs (rvd : root_vdev) (ds : List dva) : Prop :=
  ∀ d ∈ ds, (vdev_lookup_top rvd (DVA_GET_VDEV d)).isSome = true

/-- The hypotheses on the pool under which a call of the scan callback for a
scrub or a resilver returns: the func is one of the two, the in-flight limit
is positive and the reads counted in flight are outstanding. -/
def scan_cb_ready (dp : dsl_pool) : Prop :=
  (dp.dp_scan.scn_phys.scn_func = POOL_SCAN_SCRUB ∨
    dp.dp_scan.scn_phys.scn_func = POOL_SCAN_RESILVER) ∧
  0 < dp.dp_spa.spa_scrub_maxinflight ∧ scrub_reads_accounted dp

/-- What the scan callback leaves alone in the pool: all of the scan context
but `scn_examined` and `scn_errors`, the device tree, the in-flight limit, the
meta object set and the free queue. -/
def scan_cb_frame (dp dp' : dsl_pool) : Prop :=
  dp'.dp_scan =
    { dp.dp_scan with
      scn_phys := { dp.dp_scan.scn_phys with
        scn_examined := dp'.dp_scan.scn_phys.scn_examined
        scn_errors := dp'.dp_scan.scn_phys.scn_errors } } ∧
  dp'.dp_spa.spa_root_vdev = dp.dp_spa.spa_root_vdev ∧
  dp'.dp_spa.spa_scrub_maxinflight = dp.dp_spa.spa_scrub_maxinflight ∧
  dp'.dp_spa.spa_shutting_down = dp.dp_spa.spa_shutting_down ∧
  dp'.dp_meta_objset = dp.dp_meta_objset ∧
  dp'.dp_free_bpobj = dp.dp_free_bpobj

/-! ## Datasets and the work queue -/

/-- The fields of `dsl_dataset_t`, of its `ds_phys` and of its directory the
scan code reads. -/
structure dsl_dataset where
  ds_object : Nat
  ds_creation_txg : Nat
  ds_prev_snap_obj : Nat
  ds_prev_snap_txg : Nat
  ds_next_snap_obj : Nat
  ds_num_children : Nat
  ds_next_clones_obj : Nat
  /-- The value of `ds->ds_dir->dd_phys->dd_origin_obj`. -/
  dd_origin_obj : Nat
deriving DecidableEq, Repr

/-- Modelled from the spec: the dataset layer's `is_snapshot`
(`dsl_dataset.h` is not among the sources): a snapshot is a dataset with
`ds_num_children != 0`. -/
def dsl_dataset_is_snapshot (ds : dsl_dataset) : Bool :=
  decide (ds.ds_num_children ≠ 0)

/-- The function `dsl_scan_ds_maxtxg`: `MIN(scn_max_txg, ds_creation_txg)`
for a snapshot, `scn_max_txg` for any other dataset. -/
def dsl_scan_ds_maxtxg (dp : dsl_pool) (ds : dsl_dataset) : Nat :=
  let smt := dp.dp_scan.scn_phys.scn_max_txg
  if dsl_dataset_is_snapshot ds then min smt ds.ds_creation_txg
  else smt

/-- Modelled from the spec: the ZAP object `obj` with its entries replaced by
`es`. -/
def zap_set_entries (os : objset) (obj : Nat) (es : List (Nat × Nat)) : objset :=
  { os with os_zaps := os.os_zaps.map fun e => if e.1 = obj then (obj, es) else e }

/-- Modelled from the spec: ZAP `lookup_int_key` on the object `obj`: the
value stored under `key`, `ENOENT` when there is none (or no such object). -/
def zap_lookup_int_key (os : objset) (obj key : Nat) : Except Nat Nat :=
  match os.os_zaps.lookup obj with
  | none => Except.error ENOENT
  | some es =>
    match es.lookup key with
    | none => Except.error ENOENT
    | some v => Except.ok v

/-- Modelled from the spec: ZAP `remove_int`: `ENOENT` when `key` is not in
the object, otherwise 0 and the key is gone. -/
def zap_remove_int (os : objset) (obj key : Nat) : Nat × objset :=
  match os.os_zaps.lookup obj with
  | none => (ENOENT, os)
  | some es =>
    match es.lookup key with
    | none => (ENOENT, os)
    | some _ => (0, zap_set_entries os obj (es.filter fun e => e.1 ≠ key))

/-- Modelled from the spec: ZAP `add_int_key`: `EEXIST` when `key` is already
in the object, otherwise 0 and the object maps `key` to `value`.  The new
entry goes behind the entries the object holds. -/
def zap_add_int_key (os : objset) (obj key value : Nat) : Nat × objset :=
  match os.os_zaps.lookup obj with
  | none => (ENOENT, os)
  | some es =>
    match es.lookup key with
    | some _ => (EEXIST, os)
    | none => (0, zap_set_entries os obj (es ++ [(key, value)]))

/-- The function `dsl_scan_ds_destroyed`.  The result is `none` when a
`VERIFY` fails.  The `ASSERT3U` on `ds_num_children` is compiled out of
production builds. -/
def dsl_scan_ds_destroyed (dp : dsl_pool) (ds : dsl_dataset) (_tx : dmu_tx) :
    Option dsl_pool :=
  let scn := dp.dp_scan
  if scn.scn_phys.scn_state ≠ DSS_SCANNING then some dp
  else
    let r : Option dsl_pool :=
      if scn.scn_phys.scn_bookmark.zb_objset = ds.ds_object then
        if dsl_dataset_is_snapshot ds then
          some { dp with dp_scan := { scn with scn_phys := { scn.scn_phys with
            scn_bookmark :=
              { scn.scn_phys.scn_bookmark with zb_objset := ds.ds_next_snap_obj }
            scn_flags := scn.scn_phys.scn_flags ||| DSF_VISIT_DS_AGAIN } } }
        else
          some { dp with dp_scan := { scn with scn_phys := { scn.scn_phys with
            scn_bookmark :=
              { zb_objset := ZB_DESTROYED_OBJSET, zb_object := 0, zb_level := 0
                zb_blkid := 0 } } } }
      else
        match zap_lookup_int_key dp.dp_meta_objset scn.scn_phys.scn_queue_obj
            ds.ds_object with
        | Except.ok mintxg =>
          let r := zap_remove_int dp.dp_meta_objset scn.scn_phys.scn_queue_obj ds.ds_object
          if r.1 ≠ 0 then none
          else if dsl_dataset_is_snapshot ds then
            let a := zap_add_int_key r.2 scn.scn_phys.scn_queue_obj ds.ds_next_snap_obj mintxg
            if a.1 ≠ 0 then none
            else some { dp with dp_meta_objset := a.2 }
          else some { dp with dp_meta_objset := r.2 }
        | Except.error _ => some dp
    r.map dsl_scan_sync_state

/-- The function `dsl_scan_ds_snapshotted`.  The `ASSERT` on
`ds_prev_snap_obj` is compiled out of production builds. -/
def dsl_scan_ds_snapshotted (dp : dsl_pool) (ds : dsl_dataset) (_tx : dmu_tx) :
    Option dsl_pool :=
  let scn := dp.dp_scan
  if scn.scn_phys.scn_state ≠ DSS_SCANNING then some dp
  else
    let r : Option dsl_pool :=
      if scn.scn_phys.scn_bookmark.zb_objset = ds.ds_object then
        some { dp with dp_scan := { scn with scn_phys := { scn.scn_phys with
          scn_bookmark :=
            { scn.scn_phys.scn_bookmark with zb_objset := ds.ds_prev_snap_obj } } } }
      else
        match zap_lookup_int_key dp.dp_meta_objset scn.scn_phys.scn_queue_obj
            ds.ds_object with
        | Except.ok mintxg =>
          let r := zap_remove_int dp.dp_meta_objset scn.scn_phys.scn_queue_obj ds.ds_object
          if r.1 ≠ 0 then none
          else
            let a := zap_add_int_key r.2 scn.scn_phys.scn_queue_obj ds.ds_prev_snap_obj mintxg
            if a.1 ≠ 0 then none
            else some { dp with dp_meta_objset := a.2 }
        | Except.error _ => some dp
    r.map dsl_scan_sync_state

/-- The function `dsl_scan_ds_clone_swapped`.  The result is `none` when a
`VERIFY` fails.  The `ASSERT3U`s on `ds_prev_snap_txg` are compiled out of
production builds. -/
def dsl_scan_ds_clone_swapped (dp : dsl_pool) (ds1 ds2 : dsl_dataset) (_tx : dmu_tx) :
    Option dsl_pool :=
  let scn := dp.dp_scan
  if scn.scn_phys.scn_state ≠ DSS_SCANNING then some dp
  else
    let zb := scn.scn_phys.scn_bookmark
    let zb : zbookmark :=
      if zb.zb_objset = ds1.ds_object then { zb with zb_objset := ds2.ds_object }
      else if zb.zb_objset = ds2.ds_object then { zb with zb_objset := ds1.ds_object }
      else zb
    let dp : dsl_pool :=
      { dp with dp_scan := { scn with scn_phys := { scn.scn_phys with scn_bookmark := zb } } }
    let q := scn.scn_phys.scn_queue_obj
    let r : Option dsl_pool :=
      match zap_lookup_int_key dp.dp_meta_objset q ds1.ds_object with
      | Except.ok mintxg =>
        let r := zap_remove_int dp.dp_meta_objset q ds1.ds_object
        if r.1 ≠ 0 then none
        else
          let a := zap_add_int_key r.2 q ds2.ds_object mintxg
          if ¬ (a.1 = 0 ∨ a.1 = EEXIST) then none
          else if a.1 = EEXIST then
            let b := zap_add_int_key a.2 q ds1.ds_object mintxg
            if b.1 ≠ 0 then none
            else some { dp with dp_meta_objset := b.2 }
          else some { dp with dp_meta_objset := a.2 }
      | Except.error _ =>
        match zap_lookup_int_key dp.dp_meta_objset q ds2.ds_object with
        | Except.ok mintxg =>
          let r := zap_remove_int dp.dp_meta_objset q ds2.ds_object
          if r.1 ≠ 0 then none
          else
            let a := zap_add_int_key r.2 q ds1.ds_object mintxg
            if a.1 ≠ 0 then none
            else some { dp with dp_meta_objset := a.2 }
        | Except.error _ => some dp
    r.map dsl_scan_sync_state

/-! ## The blocks on disk

What the traversal reads: the intent log, the dedup table, and the tree of
block pointers, each block pointer together with the buffer a read of it
returns.  The constants and the macro `BP_IS_HOLE` are those of the headers
`sys/dmu.h`, `sys/dnode.h`, `sys/zil.h`, `sys/ddt.h` and `sys/spa.h`, which
are not part of the two source files. -/

def DMU_OT_DNODE : Nat := 10
def DMU_OT_OBJSET : Nat := 11
def DMU_OT_USERGROUP_USED : Nat := 39
def DMU_OT_DEDUP : Nat := 49
def DMU_OST_NONE : Nat := 0
/-- The object id of the group accounting object, `(-2ULL)`. -/
def DMU_GROUPUSED_OBJECT : Nat := 2 ^ 64 - 2
/-- The object id of the user accounting object, `(-1ULL)`. -/
def DMU_USERUSED_OBJECT : Nat := 2 ^ 64 - 1
/-- The block id of the spill block, `(-2ULL)`. -/
def DMU_SPILL_BLKID : Nat := 2 ^ 64 - 2
def DNODE_FLAG_SPILL_BLKPTR : Nat := 4
def TX_WRITE : Nat := 9
def DDT_PHYS_TYPES : Nat := 4

/-- The macro `BP_IS_HOLE`. -/
def BP_IS_HOLE (bp : blkptr) : Bool := decide (bp.blk_birth = 0)

/-- The fields of a log record (`lr_t`, `lr_write_t`) the scan reads. -/
structure lr_write where
  lrc_txtype : Nat
  lr_foid : Nat
  lr_offset : Nat
  lr_blkptr : blkptr
deriving DecidableEq, Repr

/-- Modelled from the spec: one call `zil_parse` makes while it walks the log
chain (`zil.c` is not among the sources): the block callback on a log block,
whose sequence number is `blk_cksum.zc_word[ZIL_ZC_SEQ]`, or the record
callback on a record of the block. -/
inductive zil_item where
  | block (bp : blkptr) (seq : Nat)
  | record (lr : lr_write)
deriving DecidableEq, Repr

/-- The intent log header `zil_header_t`: `zh_claim_txg`, the objset word of
the checksum of `zh_log`, and the chain as `zil_parse` walks it. -/
structure zil_header where
  zh_claim_txg : Nat
  zh_log_objset : Nat
  zh_chain : List zil_item
deriving DecidableEq, Repr

/-- One physical copy of a dedup entry, `ddt_phys_t`. -/
structure ddt_phys where
  ddp_dva0 : dva
  ddp_dva1 : dva
  ddp_dva2 : dva
  ddp_refcnt : Nat
  ddp_phys_birth : Nat
deriving DecidableEq, Repr

/-- The key of a dedup entry, `ddt_key_t`, with the sizes of `ddk_prop`
decoded. -/
structure ddt_key where
  ddk_lsize : Nat
  ddk_psize : Nat
deriving DecidableEq, Repr

/-- A dedup entry `ddt_entry_t` with its `DDT_PHYS_TYPES` physical copies. -/
structure ddt_entry where
  dde_key : ddt_key
  dde_phys0 : ddt_phys
  dde_phys1 : ddt_phys
  dde_phys2 : ddt_phys
  dde_phys3 : ddt_phys
deriving DecidableEq, Repr

/-- The slot `dde->dde_phys[p]`. -/
def dde_phys (dde : ddt_entry) (p : Nat) : ddt_phys :=
  match p with
  | 0 => dde.dde_phys0
  | 1 => dde.dde_phys1
  | 2 => dde.dde_phys2
  | _ => dde.dde_phys3

/-- Modelled from the spec: the DDT's `bp_create(checksum, key, phys, &bp)`
(`ddt.c` is not among the sources): a level-0 block pointer of type
`DMU_OT_DEDUP` with the DVAs and the birth txg of the copy and the sizes of
the key. -/
def ddt_bp_create (_checksum : Nat) (ddk : ddt_key) (ddp : ddt_phys) : blkptr :=
  { blk_dva0 := ddp.ddp_dva0, blk_dva1 := ddp.ddp_dva1, blk_dva2 := ddp.ddp_dva2
    blk_lsize := ddk.ddk_lsize, blk_psize := ddk.ddk_psize, blk_level := 0
    blk_type := DMU_OT_DEDUP, blk_phys_birth := 0, blk_birth := ddp.ddp_phys_birth }

mutual
/-- A block pointer together with the buffer a read of it returns. -/
inductive bptree where
  | mk (bp : blkptr) (buf : arcbuf) : bptree
/-- Modelled from the spec: the outcome of the read cache's
`arc_read_nolock` on a block pointer (`arc.c` is not among the sources): an
error, or the buffer `b_data` as the code casts it: an array of block
pointers (an indirect block), an array of dnodes (a block of the meta-dnode),
an `objset_phys_t`, or data the scan does not look into. -/
inductive arcbuf where
  | data : arcbuf
  | error (err : Nat) : arcbuf
  | indirect (cbp : bptree_list) : arcbuf
  | dnodes (cdnp : dntree_list) : arcbuf
  | objset (os_type : Nat) (os_zil_header : zil_header) (os_meta_dnode : dntree)
      (has_userused : Bool) (os_groupused_dnode os_userused_dnode : dntree) : arcbuf
/-- An array of block pointers. -/
inductive bptree_list where
  | nil : bptree_list
  | cons (t : bptree) (ts : bptree_list) : bptree_list
/-- A dnode `dnode_phys_t` with its array `dn_blkptr` and its spill pointer
`dn_spill`. -/
inductive dntree where
  | mk (dnp : dnode_phys) (dn_blkptr : bptree_list) (dn_spill : bptree) : dntree
/-- An array of dnodes. -/
inductive dntree_list where
  | nil : dntree_list
  | cons (d : dntree) (ds : dntree_list) : dntree_list
end

/-- The block pointer at the root of a tree. -/
def bptree.bp : bptree → blkptr
  | bptree.mk bp _ => bp

/-- The header of a dnode. -/
def dntree.dnp : dntree → dnode_phys
  | dntree.mk dnp _ _ => dnp

/-- The array `dn_blkptr` of a dnode. -/
def dntree.dn_blkptr : dntree → bptree_list
  | dntree.mk _ bps _ => bps

/-- The entries of an array of block pointers. -/
def bptree_list.bps : bptree_list → List blkptr
  | bptree_list.nil => []
  | bptree_list.cons t ts => t.bp :: ts.bps

/-! ## The environment of a sync -/

/-- Modelled from the spec: what one call of `dsl_scan_sync` reads from the
rest of the system: the tunables, the clocks, the object allocator, and the
collaborators of the scan code that live in other files (the DDT, the dataset
layer, the I/O pipeline), each reduced to the answers it gives. -/
structure scan_env where
  env_tun : tunables
  /-- The value of `gethrtime()` at the `k`-th test of the time budget of
  this sync (`k = 0` is the reading that sets `scn_sync_start_time`). -/
  env_gethrtime : Nat → Nat
  /-- The value of `txg_sync_waiting(dp)` at the `k`-th test of the budget. -/
  env_txg_sync_waiting : Nat → Bool
  /-- The value of `gethrestime_sec()`. -/
  env_gethrestime_sec : Nat
  /-- The object number `zap_create` allocates for a new work queue. -/
  env_newobj : Nat
  /-- The value of `spa_sync_pass(spa)`. -/
  env_spa_sync_pass : Nat
  /-- The value of `spa_writeable(spa)`. -/
  env_spa_writeable : Bool
  /-- The value of `spa_first_txg(spa)`. -/
  env_spa_first_txg : Nat
  /-- The DDT's `class_contains(pool, max_class, bp)`. -/
  env_ddt_class_contains : Nat → blkptr → Bool
  /-- The DDT's `walk(bookmark, &entry)`: the entries the walk yields from a
  bookmark on, each with the bookmark the walk leaves behind it. -/
  env_ddt_walk : ddt_bookmark → List (ddt_bookmark × ddt_entry)
  /-- The error a scrub read of a block pointer completes with. -/
  env_io_error : blkptr → Nat
  /-- The value of `bp_get_dsize_sync(spa, bp)`. -/
  env_bp_get_dsize_sync : blkptr → Nat
  /-- The value of the macro `BP_GET_UCSIZE(bp)`. -/
  env_bp_get_ucsize : blkptr → Nat
  /-- The dataset layer's `hold_obj`: the dataset with its root block
  pointer `ds_bp`, `none` when the hold fails. -/
  env_dsl_dataset_hold_obj : Nat → Option (dsl_dataset × bptree)
  /-- The datasets `dmu_objset_find_spa(.., DS_FIND_CHILDREN)` calls its
  callback on, in order. -/
  env_dmu_objset_find : List Nat
  /-- The root block pointer of the meta object set, `dp_meta_rootbp`. -/
  env_dp_meta_rootbp : bptree
  /-- The object number of `dp_origin_snap`. -/
  env_dp_origin_snap : Nat

/-- The state of a run of the scan code: the pool, the number of tests of
the time budget made so far (the index into the clock of the environment),
and the calls of the scan callback `scan_funcs[scn_func]` made so far, each
with its block pointer and bookmark. -/
structure scan_run where
  run_dp : dsl_pool
  run_checks : Nat
  run_calls : List (blkptr × zbookmark)

/-- The call `scan_funcs[scn->scn_phys.scn_func](dp, bp, zb)`.  The table is
`{ NULL, dsl_scan_scrub_cb, dsl_scan_scrub_cb }`: the run ends (`none`) on
the `NULL` entry and on an index outside the table. -/
def scan_funcs (env : scan_env) (run : scan_run) (bp : blkptr) (zb : zbookmark) :
    Option (Nat × scan_run) :=
  let func := run.run_dp.dp_scan.scn_phys.scn_func
  if func = POOL_SCAN_SCRUB ∨ func = POOL_SCAN_RESILVER then
    (dsl_scan_scrub_cb env.env_tun run.run_dp bp zb (env.env_io_error bp)).map fun r =>
      (r.1, { run with run_dp := r.2, run_calls := run.run_calls ++ [(bp, zb)] })
  else none

/-- The test of the time budget `dsl_scan_check_pause`, at the clock of the
environment. -/
def run_check_pause (env : scan_env) (run : scan_run) (zb : Option zbookmark) :
    Bool × scan_run :=
  let r := dsl_scan_check_pause env.env_tun run.run_dp zb (env.env_gethrtime run.run_checks)
    (env.env_txg_sync_waiting run.run_checks)
  (r.1, { run with run_dp := r.2, run_checks := run.run_checks + 1 })

/-- The pool of a run with `scn_visited_this_txg++`. -/
def run_visited_incr (run : scan_run) : scan_run :=
  { run with run_dp := { run.run_dp with dp_scan := { run.run_dp.dp_scan with
      scn_visited_this_txg := wrap64 (run.run_dp.dp_scan.scn_visited_this_txg + 1) } } }

/-- The pool of a run with `scn->scn_phys.scn_errors++`. -/
def run_errors_incr (run : scan_run) : scan_run :=
  { run with run_dp := { run.run_dp with dp_scan := { run.run_dp.dp_scan with
      scn_phys := { run.run_dp.dp_scan.scn_phys with
        scn_errors := wrap64 (run.run_dp.dp_scan.scn_phys.scn_errors + 1) } } } }

/-- The pool of a run with one more call recorded in `dp_trace`. -/
def run_effect (run : scan_run) (e : effect) : scan_run :=
  { run with run_dp := { run.run_dp with dp_trace := run.run_dp.dp_trace ++ [e] } }

/-! ## The intent log -/

/-- The callback `dsl_scan_zil_block`; the result is `none` when the
`VERIFY` on the result of the scan callback fails. -/
def dsl_scan_zil_block (env : scan_env) (zh : zil_header) (bp : blkptr) (seq : Nat)
    (claim_txg : Nat) (run : scan_run) : Option (Nat × scan_run) :=
  if bp.blk_birth ≤ run.run_dp.dp_scan.scn_phys.scn_cur_min_txg then some (0, run)
  else if claim_txg = 0 ∧ bp.blk_birth ≥ env.env_spa_first_txg then some (0, run)
  else
    let zb : zbookmark :=
      { zb_objset := zh.zh_log_objset, zb_object := ZB_ZIL_OBJECT, zb_level := ZB_ZIL_LEVEL
        zb_blkid := seq }
    (scan_funcs env run bp zb).bind fun r =>
      if r.1 ≠ 0 then none else some (0, r.2)

/-- The callback `dsl_scan_zil_record`. -/
def dsl_scan_zil_record (env : scan_env) (zh : zil_header) (lr : lr_write)
    (claim_txg : Nat) (run : scan_run) : Option (Nat × scan_run) :=
  if lr.lrc_txtype = TX_WRITE then
    let bp := lr.lr_blkptr
    if bp.blk_birth ≤ run.run_dp.dp_scan.scn_phys.scn_cur_min_txg then some (0, run)
    else if claim_txg = 0 ∨ bp.blk_birth < claim_txg then some (0, run)
    else
      let zb : zbookmark :=
        { zb_objset := zh.zh_log_objset, zb_object := lr.lr_foid, zb_level := ZB_ZIL_LEVEL
          zb_blkid := lr.lr_offset / BP_GET_LSIZE bp }
      (scan_funcs env run bp zb).bind fun r =>
        if r.1 ≠ 0 then none else some (0, r.2)
  else some (0, run)

/-- Modelled from the spec: `zil_parse` with the two callbacks of the scan:
the calls are made in the order of the chain; a non-zero result of a callback
ends the walk. -/
def zil_parse (env : scan_env) (zh : zil_header) (claim_txg : Nat) :
    List zil_item → scan_run → Option scan_run
  | [], run => some run
  | zil_item.block bp seq :: items, run =>
    (dsl_scan_zil_block env zh bp seq claim_txg run).bind fun r =>
      if r.1 ≠ 0 then some r.2 else zil_parse env zh claim_txg items r.2
  | zil_item.record lr :: items, run =>
    (dsl_scan_zil_record env zh lr claim_txg run).bind fun r =>
      if r.1 ≠ 0 then some r.2 else zil_parse env zh claim_txg items r.2

/-- The function `dsl_scan_zil`. -/
def dsl_scan_zil (env : scan_env) (zh : zil_header) (run : scan_run) : Option scan_run :=
  let claim_txg := zh.zh_claim_txg
  if claim_txg = 0 ∧ env.env_spa_writeable then some run
  else zil_parse env zh claim_txg zh.zh_chain run

/-! ## The tree walk -/

/-- The function `dsl_scan_prefetch`: the prefetch read goes to the trace. -/
def dsl_scan_prefetch (env : scan_env) (run : scan_run) (bp : blkptr)
    (objset object blkid : Nat) : scan_run :=
  if env.env_tun.zfs_no_scrub_prefetch then run
  else if BP_IS_HOLE bp ∨ bp.blk_birth ≤ run.run_dp.dp_scan.scn_phys.scn_min_txg ∨
      (BP_GET_LEVEL bp = 0 ∧ BP_GET_TYPE bp ≠ DMU_OT_DNODE) then run
  else
    run_effect run (effect.arc_prefetch bp
      { zb_objset := objset, zb_object := object, zb_level := (BP_GET_LEVEL bp : Int)
        zb_blkid := blkid })

/-- The first loop of `dsl_scan_recurse` on an indirect block: the prefetch
of `cbp[i]`, `cbp[i + 1]`, .. below `epb`. -/
def prefetch_children (env : scan_env) (zb : zbookmark) (epb : Nat) :
    List blkptr → Nat → scan_run → scan_run
  | [], _, run => run
  | cbp :: cbps, i, run =>
    if i < epb then
      prefetch_children env zb epb cbps (i + 1)
        (dsl_scan_prefetch env run cbp zb.zb_objset zb.zb_object
          (wrap64 (zb.zb_blkid * epb + i)))
    else run

/-- The inner loop of the prefetch of a block of dnodes: the block pointers
`dn_blkptr[j]`, `dn_blkptr[j + 1]`, .. below `dn_nblkptr`. -/
def prefetch_dnode (env : scan_env) (objset object nblkptr : Nat) :
    List blkptr → Nat → scan_run → scan_run
  | [], _, run => run
  | cbp :: cbps, j, run =>
    if j < nblkptr then
      prefetch_dnode env objset object nblkptr cbps (j + 1)
        (dsl_scan_prefetch env run cbp objset object j)
    else run

/-- The first loop of `dsl_scan_recurse` on a block of dnodes. -/
def prefetch_dnodes (env : scan_env) (zb : zbookmark) (epb : Nat) :
    dntree_list → Nat → scan_run → scan_run
  | dntree_list.nil, _, run => run
  | dntree_list.cons d ds, i, run =>
    if i < epb then
      prefetch_dnodes env zb epb ds (i + 1)
        (prefetch_dnode env zb.zb_objset (wrap64 (zb.zb_blkid * epb + i)) d.dnp.dn_nblkptr
          d.dn_blkptr.bps 0 run)
    else run

mutual
/-- The function `dsl_scan_visitbp` on the block pointer at the root of a
tree.  The result is `none` when the run does not return (a `VERIFY` fails,
the scan callback is missing or does not return) and when a buffer does not
hold what its block pointer announces, which is outside the model. -/
def dsl_scan_visitbp (env : scan_env) (zb : zbookmark) (dnp : Option dnode_phys)
    (ds : Option dsl_dataset) (ostype : Nat) (tx : dmu_tx) :
    bptree → scan_run → Option scan_run
  | bptree.mk bp buf, run =>
    let p := run_check_pause env run (some zb)
    if p.1 then some p.2
    else
      let r := dsl_scan_check_resume p.2.run_dp dnp zb
      let run : scan_run := { p.2 with run_dp := r.2 }
      if r.1 then some run
      else if bp.blk_birth = 0 then some run
      else
        let run := run_visited_incr run
        if bp.blk_birth ≤ run.run_dp.dp_scan.scn_phys.scn_cur_min_txg then some run
        else
          (dsl_scan_recurse env bp zb dnp ds ostype tx buf run).bind fun rr =>
            if rr.1 ≠ 0 then some rr.2
            else if env.env_ddt_class_contains
                rr.2.run_dp.dp_scan.scn_phys.scn_ddt_class_max bp then some rr.2
            else if bp.blk_birth ≤ rr.2.run_dp.dp_scan.scn_phys.scn_cur_max_txg then
              (scan_funcs env rr.2 bp zb).map fun c => c.2
            else some rr.2
/-- The function `dsl_scan_recurse` on the block pointer `bp` and the buffer
a read of it returns.  `epb` fits the `int` it is stored in, since
`BP_GET_LSIZE` is at most `2 ^ 25`. -/
def dsl_scan_recurse (env : scan_env) (bp : blkptr) (zb : zbookmark)
    (dnp : Option dnode_phys) (ds : Option dsl_dataset) (ostype : Nat) (tx : dmu_tx) :
    arcbuf → scan_run → Option (Nat × scan_run)
  | arcbuf.data, run =>
    if BP_GET_LEVEL bp > 0 ∨ BP_GET_TYPE bp = DMU_OT_USERGROUP_USED ∨
        BP_GET_TYPE bp = DMU_OT_DNODE ∨ BP_GET_TYPE bp = DMU_OT_OBJSET then
      if BP_GET_LEVEL bp = 0 ∧ BP_GET_TYPE bp = DMU_OT_USERGROUP_USED then some (0, run)
      else none
    else some (0, run)
  | arcbuf.error err, run =>
    if BP_GET_LEVEL bp > 0 ∨ BP_GET_TYPE bp = DMU_OT_USERGROUP_USED ∨
        BP_GET_TYPE bp = DMU_OT_DNODE ∨ BP_GET_TYPE bp = DMU_OT_OBJSET then
      if err ≠ 0 then some (err, run_errors_incr run) else none
    else some (0, run)
  | arcbuf.indirect cbp, run =>
    if BP_GET_LEVEL bp > 0 then
      let epb := BP_GET_LSIZE bp / 2 ^ SPA_BLKPTRSHIFT
      (visit_children env zb dnp ds ostype tx epb cbp 0
        (prefetch_children env zb epb cbp.bps 0 run)).map fun run => (0, run)
    else if BP_GET_TYPE bp = DMU_OT_USERGROUP_USED ∨ BP_GET_TYPE bp = DMU_OT_DNODE ∨
        BP_GET_TYPE bp = DMU_OT_OBJSET then none
    else some (0, run)
  | arcbuf.dnodes cdnp, run =>
    if BP_GET_LEVEL bp > 0 then none
    else if BP_GET_TYPE bp = DMU_OT_USERGROUP_USED then none
    else if BP_GET_TYPE bp = DMU_OT_DNODE then
      let epb := BP_GET_LSIZE bp / 2 ^ DNODE_SHIFT
      (visit_dnodes env zb ds ostype tx epb cdnp 0
        (prefetch_dnodes env zb epb cdnp 0 run)).map fun run => (0, run)
    else if BP_GET_TYPE bp = DMU_OT_OBJSET then none
    else some (0, run)
  | arcbuf.objset os_type zh mdn has_userused gdn udn, run =>
    if BP_GET_LEVEL bp > 0 then none
    else if BP_GET_TYPE bp = DMU_OT_USERGROUP_USED then none
    else if BP_GET_TYPE bp = DMU_OT_DNODE then none
    else if BP_GET_TYPE bp = DMU_OT_OBJSET then
      (if DSL_SCAN_IS_SCRUB_RESILVER run.run_dp.dp_scan then dsl_scan_zil env zh run
        else some run).bind fun run =>
      (dsl_scan_visitdnode env ds os_type tx DMU_META_DNODE_OBJECT mdn run).bind fun run =>
        if has_userused then
          (dsl_scan_visitdnode env ds os_type tx DMU_GROUPUSED_OBJECT gdn run).bind fun run =>
            (dsl_scan_visitdnode env ds os_type tx DMU_USERUSED_OBJECT udn run).map
              fun run => (0, run)
        else some (0, run)
    else some (0, run)
/-- The second loop of `dsl_scan_recurse` on an indirect block: the visit of
`cbp[i]`, `cbp[i + 1]`, .. below `epb`. -/
def visit_children (env : scan_env) (zb : zbookmark) (dnp : Option dnode_phys)
    (ds : Option dsl_dataset) (ostype : Nat) (tx : dmu_tx) (epb : Nat) :
    bptree_list → Nat → scan_run → Option scan_run
  | bptree_list.nil, _, run => some run
  | bptree_list.cons t ts, i, run =>
    if i < epb then
      (dsl_scan_visitbp env
        { zb_objset := zb.zb_objset, zb_object := zb.zb_object, zb_level := zb.zb_level - 1
          zb_blkid := wrap64 (zb.zb_blkid * epb + i) } dnp ds ostype tx t run).bind fun run =>
        visit_children env zb dnp ds ostype tx epb ts (i + 1) run
    else some run
/-- The second loop of `dsl_scan_recurse` on a block of dnodes. -/
def visit_dnodes (env : scan_env) (zb : zbookmark) (ds : Option dsl_dataset) (ostype : Nat)
    (tx : dmu_tx) (epb : Nat) : dntree_list → Nat → scan_run → Option scan_run
  | dntree_list.nil, _, run => some run
  | dntree_list.cons d dns, i, run =>
    if i < epb then
      (dsl_scan_visitdnode env ds ostype tx (wrap64 (zb.zb_blkid * epb + i)) d run).bind
        fun run => visit_dnodes env zb ds ostype tx epb dns (i + 1) run
    else some run
/-- The function `dsl_scan_visitdnode`. -/
def dsl_scan_visitdnode (env : scan_env) (ds : Option dsl_dataset) (ostype : Nat)
    (tx : dmu_tx) (object : Nat) : dntree → scan_run → Option scan_run
  | dntree.mk dnp bps spill, run =>
    (visit_dnode_blkptrs env ds ostype tx object dnp bps 0 run).bind fun run =>
      if dnp.dn_flags &&& DNODE_FLAG_SPILL_BLKPTR ≠ 0 then
        dsl_scan_visitbp env
          { zb_objset := (match ds with
              | some d => d.ds_object
              | none => 0)
            zb_object := object, zb_level := 0, zb_blkid := DMU_SPILL_BLKID }
          (some dnp) ds ostype tx spill run
      else some run
/-- The loop of `dsl_scan_visitdnode` over `dn_blkptr[j]`, `dn_blkptr[j + 1]`,
.. below `dn_nblkptr`. -/
def visit_dnode_blkptrs (env : scan_env) (ds : Option dsl_dataset) (ostype : Nat)
    (tx : dmu_tx) (object : Nat) (dnp : dnode_phys) :
    bptree_list → Nat → scan_run → Option scan_run
  | bptree_list.nil, _, run => some run
  | bptree_list.cons t ts, j, run =>
    if j < dnp.dn_nblkptr then
      (dsl_scan_visitbp env
        { zb_objset := (match ds with
            | some d => d.ds_object
            | none => 0)
          zb_object := object, zb_level := (dnp.dn_nlevels : Int) - 1, zb_blkid := j }
        (some dnp) ds ostype tx t run).bind fun run =>
        visit_dnode_blkptrs env ds ostype tx object dnp ts (j + 1) run
    else some run
end

/-! ## The dedup table pre-pass -/

/-- The copies `dde_phys[0]` .. `dde_phys[DDT_PHYS_TYPES - 1]` of an entry. -/
def dde_phys_list (dde : ddt_entry) : List ddt_phys :=
  (List.range DDT_PHYS_TYPES).map (dde_phys dde)

/-- The loop of `dsl_scan_ddt_entry` over the physical copies of an entry. -/
def ddt_entry_copies (env : scan_env) (checksum : Nat) (ddk : ddt_key) :
    List ddt_phys → scan_run → Option scan_run
  | [], run => some run
  | ddp :: ddps, run =>
    if ddp.ddp_phys_birth = 0 ∨
        ddp.ddp_phys_birth > run.run_dp.dp_scan.scn_phys.scn_cur_max_txg then
      ddt_entry_copies env checksum ddk ddps run
    else
      let bp := ddt_bp_create checksum ddk ddp
      let run := run_visited_incr run
      (scan_funcs env run bp zbookmark_zero).bind fun r =>
        ddt_entry_copies env checksum ddk ddps r.2

/-- The function `dsl_scan_ddt_entry`. -/
def dsl_scan_ddt_entry (env : scan_env) (checksum : Nat) (dde : ddt_entry) (_tx : dmu_tx)
    (run : scan_run) : Option scan_run :=
  if run.run_dp.dp_scan.scn_phys.scn_state ≠ DSS_SCANNING then some run
  else ddt_entry_copies env checksum dde.dde_key (dde_phys_list dde) run

/-- The pool of a run with `scn_ddt_bookmark` set. -/
def run_set_ddt_bookmark (run : scan_run) (ddb : ddt_bookmark) : scan_run :=
  { run with run_dp := { run.run_dp with dp_scan := { run.run_dp.dp_scan with
      scn_phys := { run.run_dp.dp_scan.scn_phys with scn_ddt_bookmark := ddb } } } }

/-- The loop of `dsl_scan_ddt` on the entries `ddt_walk` yields.  At the end
of the table `ddt_walk` returns `ENOENT` and leaves the bookmark behind the
last class. -/
def dsl_scan_ddt_loop (env : scan_env) (tx : dmu_tx) :
    List (ddt_bookmark × ddt_entry) → scan_run → Option scan_run
  | [], run =>
    some (run_set_ddt_bookmark run
      { ddb_class := DDT_CLASSES, ddb_type := 0, ddb_checksum := 0, ddb_cursor := 0 })
  | (ddb, dde) :: rest, run =>
    let run := run_set_ddt_bookmark run ddb
    if ddb.ddb_class > run.run_dp.dp_scan.scn_phys.scn_ddt_class_max then some run
    else
      (dsl_scan_ddt_entry env ddb.ddb_checksum dde tx run).bind fun run =>
        let p := run_check_pause env run none
        if p.1 then some p.2 else dsl_scan_ddt_loop env tx rest p.2

/-- The function `dsl_scan_ddt`. -/
def dsl_scan_ddt (env : scan_env) (tx : dmu_tx) (run : scan_run) : Option scan_run :=
  dsl_scan_ddt_loop env tx (env.env_ddt_walk run.run_dp.dp_scan.scn_phys.scn_ddt_bookmark) run

/-! ## The visit of the datasets -/

/-- The function `dsl_scan_visit_rootbp`; `ds` is `none` for `NULL`. -/
def dsl_scan_visit_rootbp (env : scan_env) (ds : Option dsl_dataset) (bp : bptree)
    (tx : dmu_tx) (run : scan_run) : Option scan_run :=
  dsl_scan_visitbp env
    { zb_objset := (match ds with
        | some d => d.ds_object
        | none => DMU_META_OBJSET)
      zb_object := ZB_ROOT_OBJECT, zb_level := ZB_ROOT_LEVEL, zb_blkid := ZB_ROOT_BLKID }
    none ds DMU_OST_NONE tx bp run

/-- Modelled from the spec: ZAP `count`: the number of entries of an object,
`ENOENT` when there is no such object. -/
def zap_count (os : objset) (obj : Nat) : Except Nat Nat :=
  match os.os_zaps.lookup obj with
  | none => Except.error ENOENT
  | some es => Except.ok es.length

/-- Modelled from the spec: the loop of `zap_join_key` over the keys of the
source object. -/
def zap_join_keys (intoobj value : Nat) : List (Nat × Nat) → objset → Nat × objset
  | [], os => (0, os)
  | e :: es, os =>
    let a := zap_add_int_key os intoobj e.1 value
    if a.1 ≠ 0 then a else zap_join_keys intoobj value es a.2

/-- Modelled from the spec: ZAP `join_key`: every key of `fromobj` is added
to `intoobj` with the value `value`; the first error ends the loop. -/
def zap_join_key (os : objset) (fromobj intoobj value : Nat) : Nat × objset :=
  match os.os_zaps.lookup fromobj with
  | none => (ENOENT, os)
  | some es => zap_join_keys intoobj value es os

/-- Modelled from the spec: a ZAP cursor at the start of an object: the first
entry, `none` when the object is empty (or missing). -/
def zap_cursor_retrieve (os : objset) (obj : Nat) : Option (Nat × Nat) :=
  match os.os_zaps.lookup obj with
  | none => none
  | some es => es.head?

/-- The pool of a run with a new meta object set. -/
def run_set_mos (run : scan_run) (os : objset) : scan_run :=
  { run with run_dp := { run.run_dp with dp_meta_objset := os } }

/-- The loop of `enqueue_clones_cb`: back along `ds_prev_snap_obj` to the
snapshot made right after the origin.  The result is `none` when `fuel` runs
out, an error when a hold fails. -/
def enqueue_clones_walk (env : scan_env) (originobj : Nat) :
    Nat → dsl_dataset → Option (Except Nat dsl_dataset)
  | 0, _ => none
  | fuel + 1, ds =>
    if ds.ds_prev_snap_obj ≠ originobj then
      match env.env_dsl_dataset_hold_obj ds.ds_prev_snap_obj with
      | none => some (Except.error ENOENT)
      | some prev => enqueue_clones_walk env originobj fuel prev.1
    else some (Except.ok ds)

/-- The callback `enqueue_clones_cb`. -/
def enqueue_clones_cb (env : scan_env) (originobj : Nat) (fuel : Nat) (dsobj : Nat)
    (run : scan_run) : Option (Nat × scan_run) :=
  match env.env_dsl_dataset_hold_obj dsobj with
  | none => some (ENOENT, run)
  | some ds =>
    if ds.1.dd_origin_obj = originobj then
      (enqueue_clones_walk env originobj fuel ds.1).bind fun w =>
        match w with
        | Except.error err => some (err, run)
        | Except.ok ds =>
          let a := zap_add_int_key run.run_dp.dp_meta_objset
            run.run_dp.dp_scan.scn_phys.scn_queue_obj ds.ds_object ds.ds_prev_snap_txg
          if a.1 ≠ 0 then none else some (0, run_set_mos run a.2)
    else some (0, run)

/-- The loop of `enqueue_cb`: back along `ds_prev_snap_obj` while the chain
of snapshots is linear.  The result is `none` when `fuel` runs out;
`Except.ok none` is the early `return (0)` at a clone. -/
def enqueue_walk (env : scan_env) : Nat → dsl_dataset → Option (Except Nat (Option dsl_dataset))
  | 0, _ => none
  | fuel + 1, ds =>
    if ds.ds_prev_snap_obj ≠ 0 then
      match env.env_dsl_dataset_hold_obj ds.ds_prev_snap_obj with
      | none => some (Except.error ENOENT)
      | some prev =>
        if prev.1.ds_next_snap_obj ≠ ds.ds_object then some (Except.ok none)
        else enqueue_walk env fuel prev.1
    else some (Except.ok (some ds))

/-- The callback `enqueue_cb`. -/
def enqueue_cb (env : scan_env) (fuel : Nat) (dsobj : Nat) (run : scan_run) :
    Option (Nat × scan_run) :=
  match env.env_dsl_dataset_hold_obj dsobj with
  | none => some (ENOENT, run)
  | some ds =>
    (enqueue_walk env fuel ds.1).bind fun w =>
      match w with
      | Except.error err => some (err, run)
      | Except.ok none => some (0, run)
      | Except.ok (some ds) =>
        let a := zap_add_int_key run.run_dp.dp_meta_objset
          run.run_dp.dp_scan.scn_phys.scn_queue_obj ds.ds_object ds.ds_prev_snap_txg
        if a.1 ≠ 0 then none else some (0, run_set_mos run a.2)

/-- Modelled from the spec: `dmu_objset_find_spa(spa, NULL, func, arg,
DS_FIND_CHILDREN)`: the callback is called on the datasets in order; the
first non-zero result ends the loop and is returned. -/
def dmu_objset_find_spa (func : Nat → scan_run → Option (Nat × scan_run)) :
    List Nat → scan_run → Option (Nat × scan_run)
  | [], run => some (0, run)
  | dsobj :: rest, run =>
    (func dsobj run).bind fun r =>
      if r.1 ≠ 0 then some r else dmu_objset_find_spa func rest r.2

/-- The function `dsl_scan_visitds`.  The result is `none` when a `VERIFY`
fails or `fuel` runs out. -/
def dsl_scan_visitds (env : scan_env) (fuel : Nat) (dsobj : Nat) (tx : dmu_tx)
    (run : scan_run) : Option scan_run :=
  match env.env_dsl_dataset_hold_obj dsobj with
  | none => none
  | some (ds, ds_bp) =>
    let run := run_effect run (effect.dmu_buf_will_dirty ds.ds_object)
    (dsl_scan_visit_rootbp env (some ds) ds_bp tx run).bind fun run =>
      let scn := run.run_dp.dp_scan
      if scn.scn_pausing then some run
      else if scn.scn_phys.scn_flags &&& DSF_VISIT_DS_AGAIN ≠ 0 then
        let run : scan_run :=
          { run with run_dp := { run.run_dp with dp_scan := { scn with
              scn_phys := { scn.scn_phys with
                scn_flags := scn.scn_phys.scn_flags &&& (2 ^ 64 - 1 - DSF_VISIT_DS_AGAIN) } } } }
        let a := zap_add_int_key run.run_dp.dp_meta_objset scn.scn_phys.scn_queue_obj
          ds.ds_object scn.scn_phys.scn_cur_max_txg
        if a.1 ≠ 0 then none else some (run_set_mos run a.2)
      else
        let next : Option scan_run :=
          if ds.ds_next_snap_obj ≠ 0 then
            let a := zap_add_int_key run.run_dp.dp_meta_objset scn.scn_phys.scn_queue_obj
              ds.ds_next_snap_obj ds.ds_creation_txg
            if a.1 ≠ 0 then none else some (run_set_mos run a.2)
          else some run
        next.bind fun run =>
          if ds.ds_num_children > 1 then
            let usenext : Bool :=
              if ds.ds_next_clones_obj ≠ 0 then
                match zap_count run.run_dp.dp_meta_objset ds.ds_next_clones_obj with
                | Except.ok count => decide (count = ds.ds_num_children - 1)
                | Except.error _ => false
              else false
            if usenext then
              let j := zap_join_key run.run_dp.dp_meta_objset ds.ds_next_clones_obj
                scn.scn_phys.scn_queue_obj ds.ds_creation_txg
              if j.1 ≠ 0 then none else some (run_set_mos run j.2)
            else
              (dmu_objset_find_spa (enqueue_clones_cb env ds.ds_object fuel)
                env.env_dmu_objset_find run).map fun r => r.2
          else some run

/-- The pool of a run with the window `scn_cur_min_txg`, `scn_cur_max_txg`
set. -/
def run_set_cur_txg (run : scan_run) (cur_min cur_max : Nat) : scan_run :=
  { run with run_dp := { run.run_dp with dp_scan := { run.run_dp.dp_scan with
      scn_phys := { run.run_dp.dp_scan.scn_phys with
        scn_cur_min_txg := cur_min, scn_cur_max_txg := cur_max } } } }

/-- The pool of a run with the traversal bookmark zeroed. -/
def run_zero_bookmark (run : scan_run) : scan_run :=
  { run with run_dp := { run.run_dp with dp_scan := { run.run_dp.dp_scan with
      scn_phys := { run.run_dp.dp_scan.scn_phys with scn_bookmark := zbookmark_zero } } } }

/-- The loop of `dsl_scan_visit` that pulls the datasets out of the work
queue, bounded by `fuel`. -/
def dsl_scan_visit_queue (env : scan_env) (tx : dmu_tx) : Nat → scan_run → Option scan_run
  | 0, _ => none
  | fuel + 1, run =>
    let scn := run.run_dp.dp_scan
    match zap_cursor_retrieve run.run_dp.dp_meta_objset scn.scn_phys.scn_queue_obj with
    | none => some run
    | some (dsobj, first_integer) =>
      let r := zap_remove_int run.run_dp.dp_meta_objset scn.scn_phys.scn_queue_obj dsobj
      if r.1 ≠ 0 then none
      else
        let run := run_set_mos run r.2
        match env.env_dsl_dataset_hold_obj dsobj with
        | none => none
        | some (ds, _) =>
          let cur_min :=
            if first_integer ≠ 0 then max scn.scn_phys.scn_min_txg first_integer
            else max scn.scn_phys.scn_min_txg ds.ds_prev_snap_txg
          let run := run_set_cur_txg run cur_min (dsl_scan_ds_maxtxg run.run_dp ds)
          (dsl_scan_visitds env fuel dsobj tx run).bind fun run =>
            if run.run_dp.dp_scan.scn_pausing then some run
            else dsl_scan_visit_queue env tx fuel run

/-- The function `dsl_scan_visit`.  The `ASSERT` after the first visit is
compiled out of production builds. -/
def dsl_scan_visit (env : scan_env) (fuel : Nat) (tx : dmu_tx) (run : scan_run) :
    Option scan_run :=
  let scn := run.run_dp.dp_scan
  let ddt : Option (Bool × scan_run) :=
    if scn.scn_phys.scn_ddt_bookmark.ddb_class ≤ scn.scn_phys.scn_ddt_class_max then
      (dsl_scan_ddt env tx
        (run_set_cur_txg run scn.scn_phys.scn_min_txg scn.scn_phys.scn_max_txg)).map
        fun run => (run.run_dp.dp_scan.scn_pausing, run)
    else some (false, run)
  ddt.bind fun d =>
    let run := d.2
    let scn := run.run_dp.dp_scan
    if d.1 then some run
    else
      let first : Option (Bool × scan_run) :=
        if scn.scn_phys.scn_bookmark.zb_objset = DMU_META_OBJSET then
          let run := run_set_cur_txg run scn.scn_phys.scn_min_txg scn.scn_phys.scn_max_txg
          (dsl_scan_visit_rootbp env none env.env_dp_meta_rootbp tx run).bind fun run =>
            let run := run_effect run (effect.spa_set_rootblkptr env.env_dp_meta_rootbp.bp)
            if run.run_dp.dp_scan.scn_pausing then some (true, run)
            else if run.run_dp.dp_spa.spa_version < SPA_VERSION_DSL_SCRUB then
              (dmu_objset_find_spa (enqueue_cb env fuel) env.env_dmu_objset_find run).bind
                fun r => if r.1 ≠ 0 then none else some (false, r.2)
            else
              (dsl_scan_visitds env fuel env.env_dp_origin_snap tx run).map
                fun run => (false, run)
        else if scn.scn_phys.scn_bookmark.zb_objset ≠ ZB_DESTROYED_OBJSET then
          (dsl_scan_visitds env fuel scn.scn_phys.scn_bookmark.zb_objset tx run).map
            fun run => (run.run_dp.dp_scan.scn_pausing, run)
        else some (false, run)
      first.bind fun r =>
        if r.1 then some r.2
        else dsl_scan_visit_queue env tx fuel (run_zero_bookmark r.2)

/-! ## The deferred frees and the sync -/

/-- The callback `dsl_scan_free_cb`, at the clock of the environment. -/
def dsl_scan_free_cb (env : scan_env) (run : scan_run) (bp : blkptr) (tx : dmu_tx) :
    Nat × scan_run :=
  let scn := run.run_dp.dp_scan
  let elapsed_nanosecs :=
    wrap64 (env.env_gethrtime run.run_checks + (2 ^ 64 - scn.scn_sync_start_time % 2 ^ 64))
  let sync_waiting := env.env_txg_sync_waiting run.run_checks
  let run : scan_run := { run with run_checks := run.run_checks + 1 }
  if elapsed_nanosecs / NANOSEC > env.env_tun.zfs_txg_timeout ∨
      (elapsed_nanosecs / MICROSEC > env.env_tun.zfs_free_min_time_ms ∧ sync_waiting) ∨
      run.run_dp.dp_spa.spa_shutting_down then (ERESTART, run)
  else
    let run := run_effect run (effect.zio_free tx.tx_txg bp)
    let run := run_effect run
      (effect.dsl_dir_diduse_space (-(env.env_bp_get_dsize_sync bp : Int))
        (-(BP_GET_PSIZE bp : Int)) (-(env.env_bp_get_ucsize bp : Int)))
    (0, run_visited_incr run)

/-- Modelled from the spec: the deferred-free queue after `bpobj_iterate` has
handed its first entry `bp` to the callback and freed it. -/
def bpobj_freed (env : scan_env) (bpo : bpobj) (bp : blkptr) : bpobj :=
  { bpo_blkptrs := bpo.bpo_blkptrs.tail
    bpo_bytes := wrap64 (bpo.bpo_bytes + (2 ^ 64 - env.env_bp_get_dsize_sync bp % 2 ^ 64))
    bpo_comp := wrap64 (bpo.bpo_comp + (2 ^ 64 - BP_GET_PSIZE bp % 2 ^ 64))
    bpo_uncomp := wrap64 (bpo.bpo_uncomp + (2 ^ 64 - env.env_bp_get_ucsize bp % 2 ^ 64)) }

/-- Modelled from the spec: `bpobj_iterate(bpo, func, arg, tx)` with the
callback `dsl_scan_free_cb` (`bpobj.c` is not among the sources): the entries
are handed to the callback in order; an entry the callback accepts is freed
from the queue; a non-zero result ends the loop and is returned. -/
def bpobj_iterate (env : scan_env) (tx : dmu_tx) : List blkptr → scan_run → Nat × scan_run
  | [], run => (0, run)
  | bp :: bps, run =>
    let r := dsl_scan_free_cb env run bp tx
    if r.1 ≠ 0 then r
    else
      bpobj_iterate env tx bps
        { r.2 with run_dp := { r.2.run_dp with
            dp_free_bpobj := bpobj_freed env r.2.run_dp.dp_free_bpobj bp } }

/-- The first block of `dsl_scan_sync`: a restart that is due ends the scan
with `dsl_scan_done(scn, B_FALSE, tx)` and sets up a new one, a resilver
when `vdev_resilver_needed` says so and a scrub otherwise. -/
def dsl_scan_sync_restart (env : scan_env) (dp : dsl_pool) (tx : dmu_tx) : Option dsl_pool :=
  if dp.dp_scan.scn_restart_txg ≠ 0 ∧ dp.dp_scan.scn_restart_txg ≤ tx.tx_txg then
    (dsl_scan_done dp false tx env.env_gethrestime_sec).map fun dp =>
      let func :=
        if (vdev_resilver_needed dp.dp_spa.spa_root_vdev 0 0).1 then POOL_SCAN_RESILVER
        else POOL_SCAN_SCRUB
      dsl_scan_setup_sync env.env_tun dp func tx env.env_gethrestime_sec env.env_newobj
  else some dp

/-- The start of a pass of `dsl_scan_sync`: the counters of the pass are
reset and the clock is read. -/
def dsl_scan_sync_begin (env : scan_env) (dp : dsl_pool) : scan_run :=
  { run_dp :=
      { dp with
        dp_scan := { dp.dp_scan with
          scn_visited_this_txg := 0, scn_pausing := false
          scn_sync_start_time := env.env_gethrtime 0 }
        dp_spa := { dp.dp_spa with spa_scrub_active := true } }
    run_checks := 1
    run_calls := [] }

/-- The block of `dsl_scan_sync` that processes the free list: the result of
`bpobj_iterate` and the run after it. -/
def dsl_scan_sync_free (env : scan_env) (tx : dmu_tx) (run : scan_run) : Nat × scan_run :=
  let run : scan_run :=
    { run with run_dp := { run.run_dp with dp_scan := { run.run_dp.dp_scan with
        scn_zio_root := some 0 } } }
  let r := bpobj_iterate env tx run.run_dp.dp_free_bpobj.bpo_blkptrs run
  let run := r.2
  let run : scan_run :=
    if run.run_dp.dp_scan.scn_visited_this_txg ≠ 0 then
      run_effect
        { run with run_dp := { run.run_dp with dp_scan := { run.run_dp.dp_scan with
            scn_visited_this_txg := 0 } } }
        (effect.ddt_sync tx.tx_txg)
    else run
  (r.1, run)

/-- The block of `dsl_scan_sync` that scans: the visit, the end of the scan
when the visit did not pause, the wait for the scrub reads and the write of
the scan record. -/
def dsl_scan_sync_scan (env : scan_env) (fuel : Nat) (tx : dmu_tx) (run : scan_run) :
    Option scan_run :=
  let run : scan_run :=
    { run with run_dp := { run.run_dp with dp_scan := { run.run_dp.dp_scan with
        scn_zio_root := some 0 } } }
  (dsl_scan_visit env fuel tx run).bind fun run =>
    let run : scan_run :=
      { run with run_dp := { run.run_dp with dp_scan := { run.run_dp.dp_scan with
          scn_zio_root := none } } }
    let done : Option dsl_pool :=
      if ¬ run.run_dp.dp_scan.scn_pausing then
        dsl_scan_done run.run_dp true tx env.env_gethrestime_sec
      else some run.run_dp
    done.bind fun dp =>
      let waited : Option dsl_pool :=
        if DSL_SCAN_IS_SCRUB_RESILVER dp.dp_scan then
          scrub_cv_wait (fun sp => decide (sp.spa_scrub_inflight > 0)) dp
        else some dp
      waited.map fun dp => { run with run_dp := dsl_scan_sync_state dp }

/-- The function `dsl_scan_sync`.  The result is `none` when the call does
not return or `fuel` runs out in one of the loops of the visit. -/
def dsl_scan_sync (env : scan_env) (fuel : Nat) (dp : dsl_pool) (tx : dmu_tx) :
    Option scan_run :=
  (dsl_scan_sync_restart env dp tx).bind fun dp =>
    if ¬ dsl_scan_active dp ∨ env.env_spa_sync_pass > 1 then
      some { run_dp := dp, run_checks := 0, run_calls := [] }
    else
      let run := dsl_scan_sync_begin env dp
      let r : Nat × scan_run :=
        if run.run_dp.dp_spa.spa_version ≥ SPA_VERSION_DEADLISTS then
          dsl_scan_sync_free env tx run
        else (0, run)
      if run.run_dp.dp_spa.spa_version ≥ SPA_VERSION_DEADLISTS ∧ r.1 = ERESTART then some r.2
      else if r.2.run_dp.dp_scan.scn_phys.scn_state ≠ DSS_SCANNING then some r.2
      else dsl_scan_sync_scan env fuel tx r.2

/-! ## Projections of the state used in the statements -/

/-- The bookmark after `dsl_scan_ds_clone_swapped`: an objset `o1` becomes `o2`
and an objset `o2` becomes `o1`. -/
def clone_swapped_bookmark (zb : zbookmark) (o1 o2 : Nat) : zbookmark :=
  if zb.zb_objset = o1 then { zb with zb_objset := o2 }
  else if zb.zb_objset = o2 then { zb with zb_objset := o1 }
  else zb

/-- What the walk of a block tree leaves alone in a run: the meta object set
(with the work queue), the flags, the work queue object and the upper end of
the window of the dataset. -/
def walk_kept (run : scan_run) : objset × Nat × Nat × Nat :=
  (run.run_dp.dp_meta_objset, run.run_dp.dp_scan.scn_phys.scn_flags,
    run.run_dp.dp_scan.scn_phys.scn_queue_obj, run.run_dp.dp_scan.scn_phys.scn_cur_max_txg)

/-- The work queue of `run'` holds every entry the work queue of `run` holds,
with its value, and the scan context is the same. -/
def queue_grown (run run' : scan_run) : Prop :=
  run'.run_dp.dp_scan = run.run_dp.dp_scan ∧
  ∀ k v, zap_lookup_int_key run.run_dp.dp_meta_objset
      run.run_dp.dp_scan.scn_phys.scn_queue_obj k = Except.ok v →
    zap_lookup_int_key run'.run_dp.dp_meta_objset
      run.run_dp.dp_scan.scn_phys.scn_queue_obj k = Except.ok v

/-! ## Sample pools and inputs -/

/-- An imported pool of version 28 with one top-level vdev, no scan and an
empty free queue. -/
def pool_idle : dsl_pool :=
  { dp_spa :=
      { spa_load_state := SPA_LOAD_NONE, spa_shutting_down := false, spa_version := 28
        spa_prev_software_version := 28, spa_scrub_inflight := 0, spa_scrub_maxinflight := 10
        spa_scrub_started := false, spa_scrub_active := false, spa_scrub_reopen := false
        spa_scan_pass_start := 0, spa_scan_pass_exam := 0
        spa_root_vdev :=
          { vs_alloc := 4096, vdev_child := [{ vdev_dtl_partial := [] }]
            vdev_resilver_window := none }
        spa_scrub_zios := [] }
    dp_meta_objset := { os_directory := [], os_zaps := [] }
    dp_free_bpobj := { bpo_blkptrs := [], bpo_bytes := 0, bpo_comp := 0, bpo_uncomp := 0 }
    dp_blkstats := none
    dp_scan := dsl_scan_zalloc
    dp_trace := [] }

/-- The pool `pool_idle` in the middle of a scrub of the txgs `(0, 100)`, with
the work queue in object 7. -/
def pool_scrubbing : dsl_pool :=
  { pool_idle with
    dp_meta_objset := { os_directory := [], os_zaps := [(7, [])] }
    dp_scan := { dsl_scan_zalloc with
      scn_phys := { dsl_scan_phys_zero with
        scn_func := POOL_SCAN_SCRUB, scn_state := DSS_SCANNING, scn_queue_obj := 7
        scn_max_txg := 100, scn_cur_max_txg := 100 } } }

/-- The pool `pool_scrubbing` while it is being loaded (`SPA_LOAD_OPEN`). -/
def pool_scrubbing_loading : dsl_pool :=
  { pool_scrubbing with dp_spa := { pool_scrubbing.dp_spa with spa_load_state := 1 } }

/-- The pool `pool_idle` with a device that missed the txgs `(5, 10]`. -/
def pool_needs_resilver : dsl_pool :=
  { pool_idle with
    dp_spa := { pool_idle.dp_spa with
      spa_root_vdev := { pool_idle.dp_spa.spa_root_vdev with
        vdev_resilver_window := some (5, 10) } } }

/-- The pool `pool_scrubbing` with the directory entries of an old-style scrub
still in place. -/
def pool_scrubbing_legacy : dsl_pool :=
  { pool_scrubbing with
    dp_meta_objset :=
      { os_directory := [("scrub_func", [1]), ("scrub_queue", [7])], os_zaps := [(7, [])] } }

/-- A dnode with 128K data blocks and 16K indirect blocks. -/
def dnode_file : dnode_phys :=
  { dn_indblkshift := 14, dn_nlevels := 1, dn_nblkptr := 1, dn_flags := 0
    dn_datablkszsec := 256 }

/-- The level-0 bookmark of block 3 of object 5 in dataset 1. -/
def zb_block3 : zbookmark :=
  { zb_objset := 1, zb_object := 5, zb_level := 0, zb_blkid := 3 }

/-- The value of `gethrtime()` 31 seconds after the start of the sync pass of
the sample pools (`scn_sync_start_time = 0`), past `zfs_txg_timeout`. -/
def hrtime_late : Nat := 31 * NANOSEC

/-- The pool at the next sync pass after a pause: the persisted record is
kept, `scn_pausing` is reset. -/
def next_pass (dp : dsl_pool) : dsl_pool :=
  { dp with dp_scan := { dp.dp_scan with scn_pausing := false } }

/-- A level-0 data block born in `txg`, with one copy of 512 bytes on the
top-level vdev 0. -/
def bp_born (txg : Nat) : blkptr :=
  { blk_dva0 := { dva_vdev := 0, dva_asize := 512, dva_gang := false }
    blk_dva1 := { dva_vdev := 0, dva_asize := 0, dva_gang := false }
    blk_dva2 := { dva_vdev := 0, dva_asize := 0, dva_gang := false }
    blk_lsize := 512, blk_psize := 512, blk_level := 0, blk_type := 19
    blk_phys_birth := 0, blk_birth := txg }

/-- The pool `pool_scrubbing` with the scan window `min_txg = 5`,
`max_txg = 100` and a zeroed statistics table. -/
def pool_scrub_from5 : dsl_pool :=
  { pool_scrubbing with
    dp_blkstats := some zfs_all_blkstats_zero
    dp_scan := { pool_scrubbing.dp_scan with
      scn_phys := { pool_scrubbing.dp_scan.scn_phys with scn_min_txg := 5 } } }

/-- A scrub read of an intent-log block (flagged SPECULATIVE) that failed
with `EIO`. -/
def zio_zil_eio : zio :=
  { io_bp := bp_born 50, io_size := 512, io_priority := zio_priority.ZIO_PRIORITY_SCRUB
    io_flags :=
      [ zio_flag.ZIO_FLAG_SPECULATIVE, zio_flag.ZIO_FLAG_SCRUB, zio_flag.ZIO_FLAG_SCRUB_THREAD
      , zio_flag.ZIO_FLAG_RAW, zio_flag.ZIO_FLAG_CANFAIL ]
    io_bookmark :=
      { zb_objset := 1, zb_object := ZB_ZIL_OBJECT, zb_level := ZB_ZIL_LEVEL, zb_blkid := 7 }
    io_error := EIO }

/-- The pool `pool_scrubbing` with the read `zio_zil_eio` in flight. -/
def pool_one_inflight : dsl_pool :=
  { pool_scrubbing with
    dp_spa := { pool_scrubbing.dp_spa with
      spa_scrub_inflight := 1, spa_scrub_zios := [zio_zil_eio] } }

/-- The only top-level vdev of `pool_resilvering`: it missed the txgs 50 to
60. -/
def vdev_missed_50_60 : vdev := { vdev_dtl_partial := [(50, 61)] }

/-- The pool `pool_idle` in the middle of a resilver of the txgs `(0, 100)`:
its top-level vdev missed the txgs 50 to 60. -/
def pool_resilvering : dsl_pool :=
  { pool_scrubbing with
    dp_spa := { pool_scrubbing.dp_spa with
      spa_root_vdev := { pool_scrubbing.dp_spa.spa_root_vdev with
        vdev_child := [vdev_missed_50_60] } }
    dp_scan := { pool_scrubbing.dp_scan with
      scn_phys := { pool_scrubbing.dp_scan.scn_phys with scn_func := POOL_SCAN_RESILVER } } }

/-- The only allocated DVA of the blocks `bp_born`. -/
def bp_born_dva (txg : Nat) : dva := (bp_born txg).blk_dva0

/-- A snapshot created in txg 150, with the successor snapshot 12. -/
def ds_snapshot9 : dsl_dataset :=
  { ds_object := 9, ds_creation_txg := 150, ds_prev_snap_obj := 0, ds_prev_snap_txg := 0
    ds_next_snap_obj := 12, ds_num_children := 1, ds_next_clones_obj := 0
    dd_origin_obj := 0 }

/-- A file system (not a snapshot) with the object number 9. -/
def ds_head9 : dsl_dataset := { ds_snapshot9 with ds_num_children := 0, ds_next_snap_obj := 0 }

/-- A file system with the object number 11. -/
def ds_head11 : dsl_dataset := { ds_head9 with ds_object := 11 }

/-- The pool `pool_scrubbing` with the dataset 9 in the work queue, to be
visited from txg 5 on. -/
def pool_queued9 : dsl_pool :=
  { pool_scrubbing with
    dp_meta_objset := { os_directory := [], os_zaps := [(7, [(9, 5)])] } }

/-- The pool `pool_queued9` paused inside the dataset 9, at block 3 of
object 5. -/
def pool_visiting9 : dsl_pool :=
  { pool_queued9 with
    dp_scan := { pool_queued9.dp_scan with
      scn_phys := { pool_queued9.dp_scan.scn_phys with
        scn_bookmark := { zb_objset := 9, zb_object := 5, zb_level := 0, zb_blkid := 3 } } } }

/-- An environment with a clock that stands still, no dedup table and no
datasets. -/
def env_idle : scan_env :=
  { env_tun := default_tunables
    env_gethrtime := fun _ => 0
    env_txg_sync_waiting := fun _ => false
    env_gethrestime_sec := 1000
    env_newobj := 8
    env_spa_sync_pass := 1
    env_spa_writeable := true
    env_spa_first_txg := 4
    env_ddt_class_contains := fun _ _ => false
    env_ddt_walk := fun _ => []
    env_io_error := fun _ => 0
    env_bp_get_dsize_sync := fun bp => BP_GET_ASIZE bp
    env_bp_get_ucsize := fun bp => BP_GET_LSIZE bp
    env_dsl_dataset_hold_obj := fun _ => none
    env_dmu_objset_find := []
    env_dp_meta_rootbp := bptree.mk (bp_born 0) arcbuf.data
    env_dp_origin_snap := 0 }

/-- The pool `pool_scrubbing` while it visits a dataset in the window
`cur_min_txg = 5`, `cur_max_txg = 100`. -/
def pool_visiting_5_100 : dsl_pool :=
  { pool_scrubbing with
    dp_scan := { pool_scrubbing.dp_scan with
      scn_phys := { pool_scrubbing.dp_scan.scn_phys with scn_cur_min_txg := 5 } } }

/-- An unused copy of a dedup entry. -/
def ddt_phys_zero : ddt_phys :=
  { ddp_dva0 := { dva_vdev := 0, dva_asize := 0, dva_gang := false }
    ddp_dva1 := { dva_vdev := 0, dva_asize := 0, dva_gang := false }
    ddp_dva2 := { dva_vdev := 0, dva_asize := 0, dva_gang := false }
    ddp_refcnt := 0, ddp_phys_birth := 0 }

/-- A dedup entry with one copy of 512 bytes on the vdev 0, born in txg 3. -/
def dde_born3 : ddt_entry :=
  { dde_key := { ddk_lsize := 512, ddk_psize := 512 }
    dde_phys0 :=
      { ddt_phys_zero with
        ddp_dva0 := { dva_vdev := 0, dva_asize := 512, dva_gang := false }
        ddp_refcnt := 2, ddp_phys_birth := 3 }
    dde_phys1 := ddt_phys_zero, dde_phys2 := ddt_phys_zero, dde_phys3 := ddt_phys_zero }

/-- An intent log header that has not been claimed, with an empty chain. -/
def zh_unclaimed : zil_header := { zh_claim_txg := 0, zh_log_objset := 1, zh_chain := [] }

/-- A write record of the intent log for the first block of object 5, written
in txg 50. -/
def lr_write_born50 : lr_write :=
  { lrc_txtype := TX_WRITE, lr_foid := 5, lr_offset := 0, lr_blkptr := bp_born 50 }

/-- The environment `env_idle` with a clock that reads 0 when the sync starts
and 31 seconds at every later reading. -/
def env_late : scan_env :=
  { env_idle with env_gethrtime := fun k => if k = 0 then 0 else hrtime_late }

/-- The pool `pool_scrubbing` with a restart of the scan scheduled for
txg 5. -/
def pool_restart_due : dsl_pool :=
  { pool_scrubbing with dp_scan := { pool_scrubbing.dp_scan with scn_restart_txg := 5 } }

/-- The pool `pool_scrubbing` after 1000 bytes have been examined, with one
block on the deferred-free queue. -/
def pool_frees_pending : dsl_pool :=
  { pool_scrubbing with
    dp_free_bpobj :=
      { bpo_blkptrs := [bp_born 20], bpo_bytes := 512, bpo_comp := 512, bpo_uncomp := 512 }
    dp_scan := { pool_scrubbing.dp_scan with
      scn_phys := { pool_scrubbing.dp_scan.scn_phys with scn_examined := 1000 } } }

/-- The pool `pool_frees_pending` with a restart of the scan scheduled for
txg 5. -/
def pool_frees_restart : dsl_pool :=
  { pool_frees_pending with
    dp_scan := { pool_frees_pending.dp_scan with scn_restart_txg := 5 } }

/-- The level-1 bookmark of the indirect block 2 of object 5 in dataset 1. -/
def zb_indirect2 : zbookmark :=
  { zb_objset := 1, zb_object := 5, zb_level := 1, zb_blkid := 2 }

/-- The level-0 bookmark of block 384 of object 5 in dataset 1: the first
block behind the subtree of `zb_indirect2` under `dnode_file`. -/
def zb_block384 : zbookmark :=
  { zb_objset := 1, zb_object := 5, zb_level := 0, zb_blkid := 384 }

/-- The pool `pool_scrubbing` after its scrub has finished with two errors, at
the time 900, with the work queue object 7 still named in the scan record. -/
def pool_finished_queue7 : dsl_pool :=
  { pool_scrubbing with
    dp_scan := { pool_scrubbing.dp_scan with
      scn_phys := { pool_scrubbing.dp_scan.scn_phys with
        scn_state := DSS_FINISHED, scn_end_time := 900, scn_errors := 2
        scn_flags := DSF_VISIT_DS_AGAIN } } }

/-- The pool `pool_scrubbing` paused inside the dataset 11, with the dataset 9
in the work queue, to be visited from txg 5 on, and the dataset 13 from txg 8
on. -/
def pool_visiting11_queued9 : dsl_pool :=
  { pool_scrubbing with
    dp_meta_objset := { os_directory := [], os_zaps := [(7, [(9, 5), (13, 8)])] }
    dp_scan := { pool_scrubbing.dp_scan with
      scn_phys := { pool_scrubbing.dp_scan.scn_phys with
        scn_bookmark := { zb_objset := 11, zb_object := 5, zb_level := 0, zb_blkid := 3 } } } }

/-- A level-0 block of type `DMU_OT_OBJSET` born in `txg`, with one copy of 512
bytes on the top-level vdev 0. -/
def bp_objset_born (txg : Nat) : blkptr :=
  { bp_born txg with blk_type := DMU_OT_OBJSET }

/-- A dnode without block pointers. -/
def dnode_unused : dntree :=
  dntree.mk
    { dn_indblkshift := 0, dn_nlevels := 0, dn_nblkptr := 0, dn_flags := 0
      dn_datablkszsec := 0 }
    bptree_list.nil (bptree.mk (bp_born 0) arcbuf.data)

/-- The root block of an object set without objects, written in `txg`: the
intent log is empty and there are no accounting objects. -/
def objset_empty (txg : Nat) : bptree :=
  bptree.mk (bp_objset_born txg)
    (arcbuf.objset 2 zh_unclaimed dnode_unused false dnode_unused dnode_unused)

/-- The environment `env_idle` with the dataset 9, the snapshot `ds_snapshot9`
with an empty object set written in txg 50. -/
def env_ds9 : scan_env :=
  { env_idle with
    env_dsl_dataset_hold_obj := fun dsobj =>
      if dsobj = 9 then some (ds_snapshot9, objset_empty 50) else none }

/-- A run on the pool `pool_scrubbing`, at the second reading of the clock. -/
def run_scrubbing : scan_run :=
  { run_dp := pool_scrubbing, run_checks := 1, run_calls := [] }

/-- The run `run_scrubbing` with `DSF_VISIT_DS_AGAIN` set in the flags of the
scan. -/
def run_visit_again : scan_run :=
  { run_scrubbing with
    run_dp := { pool_scrubbing with
      dp_scan := { pool_scrubbing.dp_scan with
        scn_phys := { pool_scrubbing.dp_scan.scn_phys with
          scn_flags := DSF_VISIT_DS_AGAIN } } } }

end DslScan

/-! ## The parameter ranges of `zpios` (`cmd/zpios/zpios_main.c`) -/

namespace Zpios

/-- Truncation of a natural number to an unsigned 32-bit word. -/
def wrap32 (n : Nat) : Nat := n % 2 ^ 32

/-- Modelled from the spec: the parameter range `range_repeat_t` (`zpios.h`
is not among the sources): the array `val` of 64-bit values given as a comma
separated list, the number `val_count` of values in it, the bounds `val_low`
and `val_high` and the increment `val_inc_perc` of a range given by its
bounds, and the cursor `next_val` of `get_next`; the fields other than `val`
are 32-bit words. -/
structure range_repeat where
  val : List Nat
  val_count : Nat
  val_low : Nat
  val_high : Nat
  val_inc_perc : Nat
  next_val : Nat
deriving DecidableEq, Repr

/-- The function `get_next(val, range)`: the result is the value returned,
the word `*val` and the range after the call; `val` is the word `*val` before
the call.  The result is `none` when the call reads `range->val` behind the
values the array holds. -/
def get_next (val : Nat) (range : range_repeat) : Option (Nat × Nat × range_repeat) :=
  if range.val_count = 0 then
    let val := wrap32 (range.val_low + wrap32 (range.val_low * range.next_val) / 100)
    if val > range.val_high then some (0, val, range)
    else
      let range : range_repeat :=
        if range.next_val = 0 then { range with next_val := range.val_inc_perc }
        else { range with next_val := wrap32 (range.next_val + range.val_inc_perc) }
      some (1, val, range)
  else if range.val_count = 1 then
    if range.next_val ≠ 0 then some (0, val, range)
    else
      match range.val[0]? with
      | none => none
      | some v => some (1, v, { range with next_val := 1 })
  else if range.val_count > 1 then
    if range.next_val > range.val_count - 1 then some (0, val, range)
    else
      match range.val[range.next_val]? with
      | none => none
      | some v => some (1, v, { range with next_val := wrap32 (range.next_val + 1) })
  else some (0, val, range)

/-- The results of `n` calls of `get_next` in a row on the same word `*val`
and the same range: the value returned and the word `*val` after each call,
then the word and the range after the last call. -/
def get_next_calls : Nat → Nat → range_repeat → Option (List (Nat × Nat) × Nat × range_repeat)
  | 0, val, range => some ([], val, range)
  | n + 1, val, range =>
    (get_next val range).bind fun r =>
      (get_next_calls n r.2.1 r.2.2).map fun rest => ((r.1, r.2.1) :: rest.1, rest.2)

/-- The range given as the list `4,8,16`. -/
def range_4_8_16 : range_repeat :=
  { val := [4, 8, 16], val_count := 3, val_low := 0, val_high := 0, val_inc_perc := 0
    next_val := 0 }

end Zpios

namespace DslScan

/-! ## Theorems -/

/-- C1 (as stated, refuted): a pool that is still being loaded has a scan in
state SCANNING, and `dsl_scan_active` is false. -/
theorem active_iff_scanning_or_frees_counterexample :
    ¬ (dsl_scan_active pool_scrubbing_loading = true ↔
        (pool_scrubbing_loading.dp_scan.scn_phys.scn_state = DSS_SCANNING ∨
          pool_scrubbing_loading.dp_free_bpobj.bpo_bytes ≠ 0)) := by
  decide

/-- C1 (amended): `dsl_scan_active` is true if and only if the pool is neither
being loaded nor shutting down, and the scan state is SCANNING or the pool
version has deadlists and the deferred-free queue uses a non-zero amount of
space. -/
theorem active_iff (dp : dsl_pool) :
    dsl_scan_active dp = true ↔
      (dp.dp_spa.spa_load_state = SPA_LOAD_NONE ∧ dp.dp_spa.spa_shutting_down = false ∧
        (dp.dp_scan.scn_phys.scn_state = DSS_SCANNING ∨
          (SPA_VERSION_DEADLISTS ≤ dp.dp_spa.spa_version ∧
            dp.dp_free_bpobj.bpo_bytes ≠ 0))) := by
  unfold dsl_scan_active bpobj_space
  by_cases hl : dp.dp_spa.spa_load_state = SPA_LOAD_NONE
  · by_cases hs : dp.dp_spa.spa_shutting_down = true
    · simp [hl, hs]
    · by_cases hst : dp.dp_scan.scn_phys.scn_state = DSS_SCANNING
      · simp [hl, hs, hst]
      · by_cases hv : SPA_VERSION_DEADLISTS ≤ dp.dp_spa.spa_version
        · simp [hl, hs, hst, hv]
        · simp [hl, hs, hst, hv]
  · simp [hl]


/-- C2 (as stated, refuted): the device tree needs resilver, a start with
func = SCRUB succeeds, and the scan's func is SCRUB, not RESILVER. -/
theorem start_scrub_func_counterexample :
    (vdev_resilver_needed pool_needs_resilver.dp_spa.spa_root_vdev 0 100).1 = true ∧
      (dsl_scan default_tunables pool_needs_resilver POOL_SCAN_SCRUB { tx_txg := 100 }
          1000 7).map (fun r => (r.1, r.2.dp_scan.scn_phys.scn_func)) =
        some (0, POOL_SCAN_SCRUB) ∧
      POOL_SCAN_SCRUB ≠ POOL_SCAN_RESILVER := by
  decide

/-- The device reopen that `dsl_scan` does before it runs the sync task
leaves the scan context and the meta object set alone; with a scan that is
not SCANNING the sync task then runs `dsl_scan_setup_sync`. -/
theorem dsl_scan_of_not_scanning (tun : tunables) (dp : dsl_pool) (func : Nat) (tx : dmu_tx)
    (now newobj : Nat) (h : dp.dp_scan.scn_phys.scn_state ≠ DSS_SCANNING) :
    dsl_scan tun dp func tx now newobj =
      some (0, dsl_scan_setup_sync tun
        { dp with
          dp_spa := { dp.dp_spa with spa_scrub_reopen := false }
          dp_trace := dp.dp_trace ++ [effect.vdev_reopen] } func tx now newobj) := by
  simp [dsl_scan, dsl_sync_task_do, dsl_scan_setup_check, h]

/-- The function `dsl_scan_setup_sync` stores the requested func. -/
theorem setup_sync_func (tun : tunables) (dp : dsl_pool) (func : Nat) (tx : dmu_tx)
    (now newobj : Nat) :
    (dsl_scan_setup_sync tun dp func tx now newobj).dp_scan.scn_phys.scn_func = func := by
  simp only [dsl_scan_setup_sync, dsl_scan_sync_state]
  split <;> (try split) <;> rfl

/-- The function `dsl_scan_setup_sync` leaves the scan SCANNING. -/
theorem setup_sync_state (tun : tunables) (dp : dsl_pool) (func : Nat) (tx : dmu_tx)
    (now newobj : Nat) :
    (dsl_scan_setup_sync tun dp func tx now newobj).dp_scan.scn_phys.scn_state =
      DSS_SCANNING := by
  simp only [dsl_scan_setup_sync, dsl_scan_sync_state]
  split <;> (try split) <;> rfl

/-- C2 (amended): after a successful start requested with func = SCRUB the
scan's func is SCRUB whether or not the device tree needs resilver; the need
for resilver decides the event posted, RESILVER_START or SCRUB_START. -/
theorem start_scrub_keeps_func (tun : tunables) (dp : dsl_pool) (tx : dmu_tx)
    (now newobj : Nat) (h : dp.dp_scan.scn_phys.scn_state ≠ DSS_SCANNING) :
    ∃ dp', dsl_scan tun dp POOL_SCAN_SCRUB tx now newobj = some (0, dp') ∧
      dp'.dp_scan.scn_phys.scn_func = POOL_SCAN_SCRUB ∧
      dp'.dp_scan.scn_phys.scn_state = DSS_SCANNING ∧
      effect.spa_event_notify
          (if (vdev_resilver_needed dp.dp_spa.spa_root_vdev 0 tx.tx_txg).1 = true then
            sysevent.ESC_ZFS_RESILVER_START
          else sysevent.ESC_ZFS_SCRUB_START) ∈ dp'.dp_trace := by
  refine ⟨_, dsl_scan_of_not_scanning tun dp POOL_SCAN_SCRUB tx now newobj h,
    setup_sync_func _ _ _ _ _ _, setup_sync_state _ _ _ _ _ _, ?_⟩
  simp [dsl_scan_setup_sync, dsl_scan_sync_state, DSL_SCAN_IS_SCRUB_RESILVER,
    POOL_SCAN_SCRUB, dsl_scan_phys_zero, spa_scan_stat_init]

/-- C2 (witness): the amended statement at the pool that needs resilver. -/
theorem start_scrub_keeps_func_witness :
    pool_needs_resilver.dp_scan.scn_phys.scn_state ≠ DSS_SCANNING ∧
      ∃ dp', dsl_scan default_tunables pool_needs_resilver POOL_SCAN_SCRUB { tx_txg := 100 }
          1000 7 = some (0, dp') ∧
        dp'.dp_scan.scn_phys.scn_func = POOL_SCAN_SCRUB ∧
        dp'.dp_scan.scn_phys.scn_state = DSS_SCANNING ∧
        effect.spa_event_notify
            (if (vdev_resilver_needed pool_needs_resilver.dp_spa.spa_root_vdev 0
                ({ tx_txg := 100 } : dmu_tx).tx_txg).1 = true then
              sysevent.ESC_ZFS_RESILVER_START
            else sysevent.ESC_ZFS_SCRUB_START) ∈ dp'.dp_trace :=
  ⟨by decide, start_scrub_keeps_func default_tunables pool_needs_resilver { tx_txg := 100 }
    1000 7 (by decide)⟩


/-! ### The waits for scrub reads -/

/-- A completion changes the in-flight count and the error count only. -/
theorem scrub_done_progress (dp : dsl_pool) (zs : List zio) (z : zio) :
    ∃ e, dsl_scan_scrub_done { dp with dp_spa := { dp.dp_spa with spa_scrub_zios := zs } } z =
      with_scrub_progress dp (wrap64 (dp.dp_spa.spa_scrub_inflight + (2 ^ 64 - 1))) zs e := by
  unfold dsl_scan_scrub_done
  split
  · exact ⟨_, rfl⟩
  · exact ⟨dp.dp_scan.scn_phys.scn_errors, rfl⟩

/-- Progress on top of progress is progress. -/
theorem with_scrub_progress_twice (dp : dsl_pool) (a n : Nat) (b zs : List zio) (c e : Nat) :
    with_scrub_progress (with_scrub_progress dp a b c) n zs e =
      with_scrub_progress dp n zs e := by
  simp only [with_scrub_progress]

/-- A wait returns with the condition it waited for, and what it changed is
the progress of the scrub reads. -/
theorem scrub_cv_wait_loop_shape (waiting : spa → Bool) :
    ∀ (zs : List zio) (dp dp' : dsl_pool),
      scrub_cv_wait_loop waiting zs dp = some dp' →
        waiting dp'.dp_spa = false ∧
          ∃ n zs' e, dp' = with_scrub_progress dp n zs' e
  | [], dp, dp' => by
    intro h
    unfold scrub_cv_wait_loop at h
    by_cases hw : waiting dp.dp_spa = true
    · simp [hw] at h
    · simp [hw] at h
      subst h
      exact ⟨by simpa using hw, _, _, _, rfl⟩
  | z :: zs, dp, dp' => by
    intro h
    unfold scrub_cv_wait_loop at h
    by_cases hw : waiting dp.dp_spa = true
    · simp only [hw, if_true] at h
      obtain ⟨e, he⟩ := scrub_done_progress dp zs z
      rw [he] at h
      obtain ⟨h1, n, zs', e', h2⟩ := scrub_cv_wait_loop_shape waiting zs _ dp' h
      exact ⟨h1, n, zs', e', by rw [h2, with_scrub_progress_twice]⟩
    · simp [hw] at h
      subst h
      exact ⟨by simpa using hw, _, _, _, rfl⟩

/-- The wait of `dsl_scan_done` for `spa_scrub_inflight == 0` returns when the
reads in flight are outstanding. -/
theorem scrub_cv_wait_loop_drain :
    ∀ (zs : List zio) (dp : dsl_pool), dp.dp_spa.spa_scrub_inflight ≤ zs.length →
      ∃ dp', scrub_cv_wait_loop (fun sp => decide (sp.spa_scrub_inflight > 0)) zs dp = some dp'
  | [], dp => by
    intro h
    have h0 : dp.dp_spa.spa_scrub_inflight = 0 := by simpa using h
    exact ⟨dp, by simp [scrub_cv_wait_loop, h0]⟩
  | z :: zs, dp => by
    intro h
    unfold scrub_cv_wait_loop
    by_cases hw : dp.dp_spa.spa_scrub_inflight > 0
    · simp only [hw, decide_True, if_true]
      obtain ⟨e, he⟩ := scrub_done_progress dp zs z
      rw [he]
      apply scrub_cv_wait_loop_drain zs
      simp only [with_scrub_progress, wrap64]
      simp only [List.length_cons] at h
      have : (dp.dp_spa.spa_scrub_inflight + (2 ^ 64 - 1)) % 2 ^ 64 ≤
          dp.dp_spa.spa_scrub_inflight - 1 := by
        omega
      omega
    · exact ⟨dp, by simp [hw]⟩


/-! ### Finishing a scan -/

/-- Removing names from the pool directory leaves the ZAP objects alone. -/
theorem foldl_zap_remove_zaps (names : List String) (os : objset) :
    (names.foldl zap_remove os).os_zaps = os.os_zaps := by
  induction names generalizing os with
  | nil => rfl
  | cons n ns ih => simp [List.foldl, ih, zap_remove]

/-- A key filtered out of an association list is not found in it. -/
theorem lookup_filter_ne {β : Type} (k : Nat) (l : List (Nat × β)) :
    (l.filter (fun e => decide (e.1 ≠ k))).lookup k = none := by
  induction l with
  | nil => rfl
  | cons a l ih =>
    by_cases hk : a.1 = k
    · simpa [List.filter, hk] using ih
    · have hk' : (k == a.1) = false := by
        simp only [beq_eq_false_iff_ne, ne_eq]
        exact fun h => hk h.symm
      simpa [List.filter, hk, List.lookup, hk'] using ih

/-- The first block of `dsl_scan_done` returns when the work queue object is
allocated; it changes the meta object set and clears `scn_queue_obj`, and the
object the scan named is gone. -/
theorem done_free_queue_returns (dp : dsl_pool) (hq : queue_obj_allocated dp) :
    ∃ os', dsl_scan_done_free_queue dp =
        some { dp with
          dp_meta_objset := os'
          dp_scan := { dp.dp_scan with
            scn_phys := { dp.dp_scan.scn_phys with scn_queue_obj := 0 } } } ∧
      (dp.dp_scan.scn_phys.scn_queue_obj ≠ 0 →
        os'.os_zaps.lookup dp.dp_scan.scn_phys.scn_queue_obj = none) := by
  unfold dsl_scan_done_free_queue
  by_cases hq0 : dp.dp_scan.scn_phys.scn_queue_obj = 0
  · refine ⟨old_names.foldl zap_remove dp.dp_meta_objset, ?_, fun h => absurd hq0 h⟩
    simp only [hq0, ne_eq, not_true_eq_false, if_false]
    rw [← hq0]
  · rcases hq with hq | hq
    · exact absurd hq hq0
    · obtain ⟨q, hq⟩ := Option.isSome_iff_exists.mp hq
      refine ⟨{ (old_names.foldl zap_remove dp.dp_meta_objset) with
          os_zaps := dp.dp_meta_objset.os_zaps.filter
            (fun e => decide (e.1 ≠ dp.dp_scan.scn_phys.scn_queue_obj)) }, ?_, fun _ => ?_⟩
      · simp [hq0, dmu_object_free, foldl_zap_remove_zaps, hq]
      · exact lookup_filter_ne _ _


/-- The second block of `dsl_scan_done` returns when the reads in flight are
outstanding; it sets the final state and the end time, and leaves the work
queue field and the meta object set alone. -/
theorem done_finish_returns (dp : dsl_pool) (complete : Bool) (tx : dmu_tx) (now : Nat)
    (hr : scrub_reads_accounted dp) :
    ∃ dp', dsl_scan_done_finish dp complete tx now = some dp' ∧
      dp'.dp_scan.scn_phys.scn_state =
        (if complete = true then DSS_FINISHED else DSS_CANCELED) ∧
      dp'.dp_scan.scn_phys.scn_end_time = now ∧
      dp'.dp_scan.scn_phys.scn_queue_obj = dp.dp_scan.scn_phys.scn_queue_obj ∧
      dp'.dp_meta_objset = dp.dp_meta_objset := by
  unfold dsl_scan_done_finish
  by_cases hsr : dp.dp_scan.scn_phys.scn_func = POOL_SCAN_SCRUB ∨
      dp.dp_scan.scn_phys.scn_func = POOL_SCAN_RESILVER
  · obtain ⟨dpw, hw⟩ := scrub_cv_wait_loop_drain dp.dp_spa.spa_scrub_zios
      { dp with
        dp_scan := { dp.dp_scan with
          scn_phys := { dp.dp_scan.scn_phys with
            scn_state := if complete = true then DSS_FINISHED else DSS_CANCELED } }
        dp_trace := dp.dp_trace ++ [effect.spa_history_log_scan_done complete] } hr
    obtain ⟨-, n, zs, e, hs⟩ := scrub_cv_wait_loop_shape _ _ _ _ hw
    simp only [DSL_SCAN_IS_SCRUB_RESILVER, hsr, decide_True, if_true, scrub_cv_wait, hw,
      Option.map_some']
    rw [hs]
    exact ⟨_, rfl, rfl, rfl, rfl, rfl⟩
  · simp only [DSL_SCAN_IS_SCRUB_RESILVER, hsr, decide_False, Bool.false_eq_true, if_false,
      Option.map_some']
    exact ⟨_, rfl, rfl, rfl, rfl, rfl⟩

/-- The function `dsl_scan_done` on a scan in state SCANNING returns when the
work queue object is allocated and the reads in flight are outstanding: the
state is FINISHED or CANCELED, the end time is recorded, `scn_queue_obj` is 0
and the object it named is freed. -/
theorem dsl_scan_done_scanning (dp : dsl_pool) (complete : Bool) (tx : dmu_tx) (now : Nat)
    (h : dp.dp_scan.scn_phys.scn_state = DSS_SCANNING) (hq : queue_obj_allocated dp)
    (hr : scrub_reads_accounted dp) :
    ∃ dp', dsl_scan_done dp complete tx now = some dp' ∧
      dp'.dp_scan.scn_phys.scn_state =
        (if complete = true then DSS_FINISHED else DSS_CANCELED) ∧
      dp'.dp_scan.scn_phys.scn_end_time = now ∧
      dp'.dp_scan.scn_phys.scn_queue_obj = 0 ∧
      (dp.dp_scan.scn_phys.scn_queue_obj ≠ 0 →
        dp'.dp_meta_objset.os_zaps.lookup dp.dp_scan.scn_phys.scn_queue_obj = none) := by
  obtain ⟨os', hfree, hgone⟩ := done_free_queue_returns dp hq
  obtain ⟨dp', hfin, hst, hend, hqo, hos⟩ := done_finish_returns
    { dp with
      dp_meta_objset := os'
      dp_scan := { dp.dp_scan with
        scn_phys := { dp.dp_scan.scn_phys with scn_queue_obj := 0 } } } complete tx now hr
  refine ⟨dp', ?_, hst, hend, hqo, ?_⟩
  · unfold dsl_scan_done
    rw [hfree]
    simp only [Option.some_bind, h, ne_eq, not_true_eq_false, if_false]
    exact hfin
  · intro hne
    rw [hos]
    exact hgone hne


/-! ### Start while scanning, cancel, completion -/

/-- C3: for a scan in state SCANNING the pre-check `dsl_scan_setup_check`
returns EBUSY and `dsl_scan` returns EBUSY with the scan context and the
persisted record unchanged; for a scan in any other state the pre-check
returns 0. -/
theorem start_while_scanning_busy (tun : tunables) (dp : dsl_pool) (func : Nat) (tx : dmu_tx)
    (now newobj : Nat) :
    (dp.dp_scan.scn_phys.scn_state = DSS_SCANNING →
      dsl_scan_setup_check dp = EBUSY ∧
        ∃ dp', dsl_scan tun dp func tx now newobj = some (EBUSY, dp') ∧
          dp'.dp_scan = dp.dp_scan ∧ dp'.dp_meta_objset = dp.dp_meta_objset) ∧
    (dp.dp_scan.scn_phys.scn_state ≠ DSS_SCANNING → dsl_scan_setup_check dp = 0) := by
  constructor
  · intro h
    refine ⟨by simp [dsl_scan_setup_check, h],
      { dp with
        dp_spa := { dp.dp_spa with spa_scrub_reopen := false }
        dp_trace := dp.dp_trace ++ [effect.vdev_reopen] }, ?_, rfl, rfl⟩
    simp [dsl_scan, dsl_sync_task_do, dsl_scan_setup_check, h, EBUSY]
  · intro h
    simp [dsl_scan_setup_check, h]

/-- C3 (witness): a start on the scrubbing pool is refused, the pre-check on
the idle pool passes. -/
theorem start_while_scanning_busy_witness :
    (pool_scrubbing.dp_scan.scn_phys.scn_state = DSS_SCANNING ∧
      dsl_scan_setup_check pool_scrubbing = EBUSY ∧
        ∃ dp', dsl_scan default_tunables pool_scrubbing POOL_SCAN_SCRUB { tx_txg := 120 }
            1000 8 = some (EBUSY, dp') ∧
          dp'.dp_scan = pool_scrubbing.dp_scan ∧
          dp'.dp_meta_objset = pool_scrubbing.dp_meta_objset) ∧
    (pool_idle.dp_scan.scn_phys.scn_state ≠ DSS_SCANNING ∧
      dsl_scan_setup_check pool_idle = 0) :=
  ⟨⟨by decide, (start_while_scanning_busy default_tunables pool_scrubbing POOL_SCAN_SCRUB
      { tx_txg := 120 } 1000 8).1 (by decide)⟩,
    ⟨by decide, (start_while_scanning_busy default_tunables pool_idle POOL_SCAN_SCRUB
      { tx_txg := 120 } 1000 8).2 (by decide)⟩⟩

/-- C4: for a scan in state SCANNING (whose `dsl_scan_done` returns) the first
cancel passes `dsl_scan_cancel_check`, returns 0 and leaves the state
CANCELED, and a second cancel right after it returns ENOENT and changes
nothing. -/
theorem cancel_twice (dp : dsl_pool) (tx tx2 : dmu_tx) (now now2 : Nat)
    (h : dp.dp_scan.scn_phys.scn_state = DSS_SCANNING) (hq : queue_obj_allocated dp)
    (hr : scrub_reads_accounted dp) :
    dsl_scan_cancel_check dp = 0 ∧
      ∃ dp1, dsl_scan_cancel dp tx now = some (0, dp1) ∧
        dp1.dp_scan.scn_phys.scn_state = DSS_CANCELED ∧
        dsl_scan_cancel_check dp1 = ENOENT ∧
        dsl_scan_cancel dp1 tx2 now2 = some (ENOENT, dp1) := by
  obtain ⟨dp', hdone, hst, -, -, -⟩ := dsl_scan_done_scanning dp false tx now h hq hr
  have hst' : (dsl_scan_sync_state dp').dp_scan.scn_phys.scn_state = DSS_CANCELED := by
    simpa [dsl_scan_sync_state] using hst
  have hne : DSS_CANCELED ≠ DSS_SCANNING := by decide
  have hchk : dsl_scan_cancel_check (dsl_scan_sync_state dp') = ENOENT := by
    simp [dsl_scan_cancel_check, hst', hne]
  refine ⟨by simp [dsl_scan_cancel_check, h], dsl_scan_sync_state dp', ?_, hst', hchk, ?_⟩
  · simp [dsl_scan_cancel, dsl_sync_task_do, dsl_scan_cancel_check, h, dsl_scan_cancel_sync,
      hdone]
  · have hE : ENOENT ≠ 0 := by decide
    simp [dsl_scan_cancel, dsl_sync_task_do, hchk, hE]

/-- C4 (witness): two cancels on the scrubbing pool. -/
theorem cancel_twice_witness :
    pool_scrubbing.dp_scan.scn_phys.scn_state = DSS_SCANNING ∧
      queue_obj_allocated pool_scrubbing ∧ scrub_reads_accounted pool_scrubbing ∧
      dsl_scan_cancel_check pool_scrubbing = 0 ∧
      ∃ dp1, dsl_scan_cancel pool_scrubbing { tx_txg := 120 } 2000 = some (0, dp1) ∧
        dp1.dp_scan.scn_phys.scn_state = DSS_CANCELED ∧
        dsl_scan_cancel_check dp1 = ENOENT ∧
        dsl_scan_cancel dp1 { tx_txg := 121 } 2001 = some (ENOENT, dp1) :=
  ⟨by decide, Or.inr (by decide), by unfold scrub_reads_accounted; decide,
    cancel_twice pool_scrubbing { tx_txg := 120 } { tx_txg := 121 } 2000 2001 (by decide)
      (Or.inr (by decide)) (by unfold scrub_reads_accounted; decide)⟩

/-- C5: for a scan in state SCANNING (whose work queue object is allocated and
whose reads in flight are outstanding, so that the call returns)
`dsl_scan_done(complete)` sets the state to FINISHED when `complete` is true
and to CANCELED when it is false, records the end time, leaves
`scn_queue_obj` equal to 0, and the work queue object is freed. -/
theorem done_sets_final_state (dp : dsl_pool) (complete : Bool) (tx : dmu_tx) (now : Nat)
    (h : dp.dp_scan.scn_phys.scn_state = DSS_SCANNING) (hq : queue_obj_allocated dp)
    (hr : scrub_reads_accounted dp) :
    ∃ dp', dsl_scan_done dp complete tx now = some dp' ∧
      dp'.dp_scan.scn_phys.scn_state =
        (if complete = true then DSS_FINISHED else DSS_CANCELED) ∧
      dp'.dp_scan.scn_phys.scn_end_time = now ∧
      dp'.dp_scan.scn_phys.scn_queue_obj = 0 ∧
      (dp.dp_scan.scn_phys.scn_queue_obj ≠ 0 →
        dp'.dp_meta_objset.os_zaps.lookup dp.dp_scan.scn_phys.scn_queue_obj = none) :=
  dsl_scan_done_scanning dp complete tx now h hq hr

/-- C5 (witness): completion of the scrub of the sample pool. -/
theorem done_sets_final_state_witness :
    pool_scrubbing.dp_scan.scn_phys.scn_state = DSS_SCANNING ∧
      queue_obj_allocated pool_scrubbing ∧ scrub_reads_accounted pool_scrubbing ∧
      ∃ dp', dsl_scan_done pool_scrubbing true { tx_txg := 120 } 2000 = some dp' ∧
        dp'.dp_scan.scn_phys.scn_state =
          (if true = true then DSS_FINISHED else DSS_CANCELED) ∧
        dp'.dp_scan.scn_phys.scn_end_time = 2000 ∧
        dp'.dp_scan.scn_phys.scn_queue_obj = 0 ∧
        (pool_scrubbing.dp_scan.scn_phys.scn_queue_obj ≠ 0 →
          dp'.dp_meta_objset.os_zaps.lookup pool_scrubbing.dp_scan.scn_phys.scn_queue_obj =
            none) :=
  ⟨by decide, Or.inr (by decide), by unfold scrub_reads_accounted; decide,
    done_sets_final_state pool_scrubbing true { tx_txg := 120 } 2000 (by decide)
      (Or.inr (by decide)) (by unfold scrub_reads_accounted; decide)⟩


/-! ### A fresh scan -/

/-- C6 (as stated, refuted): the idle pool whose device tree needs resilver
for the txgs `(5, 10]` gets `min_txg = 5` and `max_txg = 10` from
`dsl_scan_setup_sync` in txg 100, not 0 and 100. -/
theorem setup_sync_fresh_counterexample :
    pool_needs_resilver.dp_scan.scn_phys.scn_state ≠ DSS_SCANNING ∧
      (dsl_scan_setup_sync default_tunables pool_needs_resilver POOL_SCAN_SCRUB
        { tx_txg := 100 } 1000 7).dp_scan.scn_phys.scn_min_txg = 5 ∧
      (dsl_scan_setup_sync default_tunables pool_needs_resilver POOL_SCAN_SCRUB
        { tx_txg := 100 } 1000 7).dp_scan.scn_phys.scn_max_txg = 10 := by
  decide

/-- C6 (amended): for func in {SCRUB, RESILVER}, after `dsl_scan_setup_sync`
in txg T the state is SCANNING, func is the requested func, the bookmark is
zero, errors is 0, `scn_queue_obj` is the newly created (empty) queue object
and `restart_txg` is 0; `min_txg` and `max_txg` are what
`vdev_resilver_needed` leaves in them, which is 0 and T when the device tree
does not need resilver. -/
theorem setup_sync_fresh (tun : tunables) (dp : dsl_pool) (func : Nat) (tx : dmu_tx)
    (now newobj : Nat) (hf : func = POOL_SCAN_SCRUB ∨ func = POOL_SCAN_RESILVER) :
    (dsl_scan_setup_sync tun dp func tx now newobj).dp_scan.scn_phys.scn_state =
        DSS_SCANNING ∧
      (dsl_scan_setup_sync tun dp func tx now newobj).dp_scan.scn_phys.scn_func = func ∧
      (dsl_scan_setup_sync tun dp func tx now newobj).dp_scan.scn_phys.scn_bookmark =
        zbookmark_zero ∧
      (dsl_scan_setup_sync tun dp func tx now newobj).dp_scan.scn_phys.scn_min_txg =
        (vdev_resilver_needed dp.dp_spa.spa_root_vdev 0 tx.tx_txg).2.1 ∧
      (dsl_scan_setup_sync tun dp func tx now newobj).dp_scan.scn_phys.scn_max_txg =
        (vdev_resilver_needed dp.dp_spa.spa_root_vdev 0 tx.tx_txg).2.2 ∧
      ((vdev_resilver_needed dp.dp_spa.spa_root_vdev 0 tx.tx_txg).1 = false →
        (dsl_scan_setup_sync tun dp func tx now newobj).dp_scan.scn_phys.scn_min_txg = 0 ∧
        (dsl_scan_setup_sync tun dp func tx now newobj).dp_scan.scn_phys.scn_max_txg =
          tx.tx_txg) ∧
      (dsl_scan_setup_sync tun dp func tx now newobj).dp_scan.scn_phys.scn_errors = 0 ∧
      (dsl_scan_setup_sync tun dp func tx now newobj).dp_scan.scn_phys.scn_queue_obj =
        newobj ∧
      (dsl_scan_setup_sync tun dp func tx now newobj).dp_meta_objset.os_zaps.lookup newobj =
        some [] ∧
      (dsl_scan_setup_sync tun dp func tx now newobj).dp_scan.scn_restart_txg = 0 := by
  have hsr : (func = POOL_SCAN_SCRUB ∨ func = POOL_SCAN_RESILVER) = True := eq_true hf
  have hmin : (dsl_scan_setup_sync tun dp func tx now newobj).dp_scan.scn_phys.scn_min_txg =
      (vdev_resilver_needed dp.dp_spa.spa_root_vdev 0 tx.tx_txg).2.1 := by
    simp only [dsl_scan_setup_sync, dsl_scan_sync_state, DSL_SCAN_IS_SCRUB_RESILVER, hsr,
      decide_True, if_true, spa_scan_stat_init, dsl_scan_phys_zero]
    split <;> rfl
  have hmax : (dsl_scan_setup_sync tun dp func tx now newobj).dp_scan.scn_phys.scn_max_txg =
      (vdev_resilver_needed dp.dp_spa.spa_root_vdev 0 tx.tx_txg).2.2 := by
    simp only [dsl_scan_setup_sync, dsl_scan_sync_state, DSL_SCAN_IS_SCRUB_RESILVER, hsr,
      decide_True, if_true, spa_scan_stat_init, dsl_scan_phys_zero]
    split <;> rfl
  refine ⟨setup_sync_state _ _ _ _ _ _, setup_sync_func _ _ _ _ _ _, ?_, hmin, hmax, ?_, ?_,
    ?_, ?_, ?_⟩
  · simp only [dsl_scan_setup_sync, dsl_scan_sync_state]
    split <;> (try split) <;> rfl
  · intro hn
    rw [hmin, hmax]
    unfold vdev_resilver_needed at hn ⊢
    cases hw : dp.dp_spa.spa_root_vdev.vdev_resilver_window with
    | none => exact ⟨rfl, rfl⟩
    | some w => simp [hw] at hn
  · simp only [dsl_scan_setup_sync, dsl_scan_sync_state]
    split <;> (try split) <;> rfl
  · simp only [dsl_scan_setup_sync, dsl_scan_sync_state]
  · simp [dsl_scan_setup_sync, dsl_scan_sync_state, zap_create, zap_update, List.lookup]
  · simp only [dsl_scan_setup_sync, dsl_scan_sync_state]
    split <;> (try split) <;> rfl

/-- C6 (witness): a scrub set up on the idle pool in txg 100. -/
theorem setup_sync_fresh_witness :
    (POOL_SCAN_SCRUB = POOL_SCAN_SCRUB ∨ POOL_SCAN_SCRUB = POOL_SCAN_RESILVER) ∧
      (dsl_scan_setup_sync default_tunables pool_idle POOL_SCAN_SCRUB { tx_txg := 100 } 1000
          7).dp_scan.scn_phys.scn_state = DSS_SCANNING ∧
      (dsl_scan_setup_sync default_tunables pool_idle POOL_SCAN_SCRUB { tx_txg := 100 } 1000
          7).dp_scan.scn_phys.scn_min_txg = 0 ∧
      (dsl_scan_setup_sync default_tunables pool_idle POOL_SCAN_SCRUB { tx_txg := 100 } 1000
          7).dp_scan.scn_phys.scn_max_txg = 100 :=
  ⟨Or.inl rfl,
    (setup_sync_fresh default_tunables pool_idle POOL_SCAN_SCRUB { tx_txg := 100 } 1000 7
      (Or.inl rfl)).1,
    ((setup_sync_fresh default_tunables pool_idle POOL_SCAN_SCRUB { tx_txg := 100 } 1000 7
      (Or.inl rfl)).2.2.2.2.2.1 (by decide)).1,
    ((setup_sync_fresh default_tunables pool_idle POOL_SCAN_SCRUB { tx_txg := 100 } 1000 7
      (Or.inl rfl)).2.2.2.2.2.1 (by decide)).2⟩


/-! ### Persisting and reloading -/

/-- An `int64_t` survives the store into a 64-bit word. -/
theorem to_int64_of_int64 (i : Int) (h : -(2 ^ 63) ≤ i ∧ i < 2 ^ 63) :
    to_int64 (of_int64 i) = i := by
  unfold to_int64 of_int64
  split <;> omega

/-- The record survives the copy to its memory image and back. -/
theorem scan_phys_of_words_words (p : dsl_scan_phys)
    (h : -(2 ^ 63) ≤ p.scn_bookmark.zb_level ∧ p.scn_bookmark.zb_level < 2 ^ 63) :
    scan_phys_of_words (scan_phys_words p) = p := by
  simp [scan_phys_of_words, scan_phys_words, to_int64_of_int64 _ h]

/-- A name that is not in the directory is not in a filtered directory. -/
theorem lookup_filter_none {β : Type} (k : String) (q : String × β → Bool)
    (l : List (String × β)) (h : l.lookup k = none) : (l.filter q).lookup k = none := by
  induction l with
  | nil => rfl
  | cons a l ih =>
    cases hk : (k == a.1) with
    | true => simp [List.lookup, hk] at h
    | false =>
      have ht : l.lookup k = none := by simpa [List.lookup, hk] using h
      cases hq : q a with
      | true => simpa [List.filter, hq, List.lookup, hk] using ih ht
      | false => simpa [List.filter, hq] using ih ht

/-- C7 (as stated, refuted): with the entries of an old-style scrub in the
pool directory, `dsl_scan_init` after `dsl_scan_sync_state` does not read the
record back: the reloaded scan is idle with a restart scheduled, the scan
that was persisted is SCANNING. -/
theorem sync_state_init_roundtrip_counterexample :
    pool_scrubbing_legacy.dp_scan.scn_phys.scn_state = DSS_SCANNING ∧
      (dsl_scan_init (dsl_scan_sync_state pool_scrubbing_legacy) 120 2000).1 = 0 ∧
      (dsl_scan_init (dsl_scan_sync_state pool_scrubbing_legacy) 120
        2000).2.dp_scan.scn_phys.scn_state = DSS_NONE ∧
      (dsl_scan_init (dsl_scan_sync_state pool_scrubbing_legacy) 120
        2000).2.dp_scan.scn_phys ≠ pool_scrubbing_legacy.dp_scan.scn_phys := by
  decide

/-- C7 (amended): when the pool directory holds no old-style `scrub_func`
entry, `dsl_scan_init` after `dsl_scan_sync_state` succeeds and reproduces the
persisted record `scn_phys`; the fields that live in memory only are those of
a fresh context, with `scn_restart_txg` set to the import txg when a SCANNING
scan was last written by software older than `SPA_VERSION_SCAN`. -/
theorem sync_state_init_roundtrip (dp : dsl_pool) (txg now : Nat)
    (hleg : dp.dp_meta_objset.os_directory.lookup "scrub_func" = none)
    (hlvl : -(2 ^ 63) ≤ dp.dp_scan.scn_phys.scn_bookmark.zb_level ∧
      dp.dp_scan.scn_phys.scn_bookmark.zb_level < 2 ^ 63) :
    (dsl_scan_init (dsl_scan_sync_state dp) txg now).1 = 0 ∧
      (dsl_scan_init (dsl_scan_sync_state dp) txg now).2.dp_scan =
        { dsl_scan_zalloc with
          scn_phys := dp.dp_scan.scn_phys
          scn_restart_txg :=
            if dp.dp_scan.scn_phys.scn_state = DSS_SCANNING ∧
                dp.dp_spa.spa_prev_software_version < SPA_VERSION_SCAN then txg
            else 0 } := by
  have h1 : zap_lookup (dsl_scan_sync_state dp).dp_meta_objset "scrub_func" 1 =
      Except.error ENOENT := by
    have hne : ("scrub_func" == DMU_POOL_SCAN) = false := by decide
    simp [zap_lookup, dsl_scan_sync_state, zap_update, List.lookup, hne,
      lookup_filter_none _ _ _ hleg]
  have h2 : zap_lookup (dsl_scan_sync_state dp).dp_meta_objset DMU_POOL_SCAN
      SCAN_PHYS_NUMINTS = Except.ok (scan_phys_words dp.dp_scan.scn_phys) := by
    simp [zap_lookup, dsl_scan_sync_state, zap_update, List.lookup, SCAN_PHYS_NUMINTS,
      scan_phys_words]
  unfold dsl_scan_init
  have h3 : (dsl_scan_sync_state dp).dp_spa = dp.dp_spa := rfl
  simp only [h1, h2, h3, scan_phys_of_words_words _ hlvl]
  by_cases hc : dp.dp_scan.scn_phys.scn_state = DSS_SCANNING ∧
      dp.dp_spa.spa_prev_software_version < SPA_VERSION_SCAN
  · simp only [hc, and_self, if_true]
  · simp only [hc, if_false]
    exact ⟨trivial, rfl⟩

/-- C7 (witness): the scrubbing pool, written and reloaded. -/
theorem sync_state_init_roundtrip_witness :
    pool_scrubbing.dp_meta_objset.os_directory.lookup "scrub_func" = none ∧
      (-(2 ^ 63) ≤ pool_scrubbing.dp_scan.scn_phys.scn_bookmark.zb_level ∧
        pool_scrubbing.dp_scan.scn_phys.scn_bookmark.zb_level < 2 ^ 63) ∧
      (dsl_scan_init (dsl_scan_sync_state pool_scrubbing) 120 2000).1 = 0 ∧
      (dsl_scan_init (dsl_scan_sync_state pool_scrubbing) 120 2000).2.dp_scan =
        { dsl_scan_zalloc with
          scn_phys := pool_scrubbing.dp_scan.scn_phys
          scn_restart_txg :=
            if pool_scrubbing.dp_scan.scn_phys.scn_state = DSS_SCANNING ∧
                pool_scrubbing.dp_spa.spa_prev_software_version < SPA_VERSION_SCAN then 120
            else 0 } :=
  ⟨by decide, by decide,
    sync_state_init_roundtrip pool_scrubbing 120 2000 (by decide) (by decide)⟩


/-! ### Pause and resume at the same block -/

/-- A fresh pause with a bookmark: the object id is not negative, the level is
0 and the bookmark is stored. -/
theorem check_pause_fresh (tun : tunables) (dp : dsl_pool) (zb : zbookmark) (hrtime : Nat)
    (sync_waiting : Bool) (hnp : dp.dp_scan.scn_pausing = false)
    (hp : (dsl_scan_check_pause tun dp (some zb) hrtime sync_waiting).1 = true) :
    0 ≤ to_int64 zb.zb_object ∧ zb.zb_level = 0 ∧
      (dsl_scan_check_pause tun dp (some zb) hrtime sync_waiting).2.dp_scan.scn_phys.scn_bookmark
        = zb := by
  unfold dsl_scan_check_pause at hp ⊢
  simp only [hnp] at hp ⊢
  by_cases h1 : to_int64 zb.zb_object < 0
  · simp [h1] at hp
  · by_cases h2 : bookmark_is_zero dp.dp_scan.scn_phys.scn_bookmark = true
    · by_cases h3 : zb.zb_level = 0
      · refine ⟨by omega, h3, ?_⟩
        simp only [h1, h2, h3, decide_False, Bool.false_eq_true, if_false, not_true_eq_false,
          ne_eq, decide_True, decide_not, Bool.not_true] at hp ⊢
        split_ifs at hp ⊢ <;> rfl
      · simp [h1, h2, h3] at hp
    · simp [h1, h2] at hp

/-- A level-0 bookmark is not before itself, when its block id is not the
last one and, in the meta-dnode, the dnode blocks hold at least 32 sectors. -/
theorem bookmark_is_before_self (dnp : Option dnode_phys) (zb : zbookmark)
    (hobj : 0 ≤ to_int64 zb.zb_object) (hlvl : zb.zb_level = 0)
    (hblk : zb.zb_blkid + 1 < 2 ^ 64)
    (hdom : zb.zb_object ≠ DMU_META_DNODE_OBJECT ∨ dnp = none ∨
      ∃ dn, dnp = some dn ∧ 32 ≤ dn.dn_datablkszsec ∧
        (zb.zb_blkid + 1) * (dn.dn_datablkszsec * 512) < 2 ^ 64) :
    bookmark_is_before dnp zb zb = false := by
  have hdead : zb.zb_object ≠ DMU_DEADLIST_OBJECT := by
    intro h
    rw [h] at hobj
    revert hobj
    decide
  unfold bookmark_is_before
  simp only [hdead, if_false]
  cases dnp with
  | none => rfl
  | some dn =>
    have hnext : shl64 (wrap64 (zb.zb_blkid + 1))
        (zb.zb_level * ((dn.dn_indblkshift : Int) - (SPA_BLKPTRSHIFT : Int))) =
        zb.zb_blkid + 1 := by
      simp only [hlvl, zero_mul, shl64, wrap64]
      simp
      omega
    simp only [hnext]
    by_cases hm : zb.zb_object = 0
    · have hd : 32 ≤ dn.dn_datablkszsec ∧
          (zb.zb_blkid + 1) * (dn.dn_datablkszsec * 512) < 2 ^ 64 := by
        rcases hdom with h | h | ⟨dn', h1, h2⟩
        · exact absurd hm h
        · cases h
        · cases h1
          exact h2
      simp only [hm, DMU_META_DNODE_OBJECT, ne_eq, not_true_eq_false, if_false, if_true,
        shl64, shr64, wrap64,
        SPA_MINBLOCKSHIFT, DNODE_SHIFT, DNODE_BLOCK_SHIFT, decide_eq_false_iff_not, not_le]
      have e1 : ((((14 : Nat) : Int) - ((9 : Nat) : Int)) % 64).toNat = 5 := by decide
      have h29 : (2 : Nat) ^ 9 = 512 := by norm_num
      have h25 : (2 : Nat) ^ 5 = 32 := by norm_num
      rw [e1, h29, h25, Nat.mod_mod, Nat.mod_eq_of_lt hd.2, ← Nat.mul_assoc,
        Nat.mul_div_cancel _ (by norm_num : 0 < 512)]
      calc zb.zb_blkid * 32 % 2 ^ 64 ≤ zb.zb_blkid * 32 := Nat.mod_le _ _
        _ < (zb.zb_blkid + 1) * 32 := by omega
        _ ≤ (zb.zb_blkid + 1) * dn.dn_datablkszsec := Nat.mul_le_mul_left _ hd.1
    · have hm0 : zb.zb_object ≠ DMU_META_DNODE_OBJECT := hm
      simp [hm, hm0]


/-- A bookmark that `bookmark_is_zero` accepts is the zero bookmark. -/
theorem eq_zero_of_bookmark_is_zero (zb : zbookmark) (h : bookmark_is_zero zb = true) :
    zb = zbookmark_zero := by
  cases zb
  simp only [bookmark_is_zero, decide_eq_true_eq] at h
  simp only [zbookmark_zero, zbookmark.mk.injEq]
  exact h

/-- Claim C8. If a scan pauses at a level-0 bookmark `zb`, then
`dsl_scan_check_pause` has stored `zb` as the resume bookmark, and on resume
`dsl_scan_check_resume` called with that same `zb` does not skip it: it
returns false and clears the resume bookmark.  The bookmark is one the
traversal builds: its block id is at most `DMU_SPILL_BLKID` (`2 ^ 64 - 2`, the
largest one `dsl_scan_visitdnode` sets), and in the meta-dnode (object 0) the
dnode passed, if there is one, has data blocks of at least 32 sectors (the
16K of `DNODE_BLOCK_SHIFT`) whose byte offsets fit 64 bits. -/
theorem resume_visits_pause_block (tun : tunables) (dp dq : dsl_pool) (zb : zbookmark)
    (dnp : Option dnode_phys) (hrtime : Nat) (sync_waiting : Bool)
    (hnp : dp.dp_scan.scn_pausing = false)
    (hp : (dsl_scan_check_pause tun dp (some zb) hrtime sync_waiting).1 = true)
    (hdq : dq.dp_scan.scn_phys.scn_bookmark =
      (dsl_scan_check_pause tun dp (some zb) hrtime
        sync_waiting).2.dp_scan.scn_phys.scn_bookmark)
    (hblk : zb.zb_blkid + 1 < 2 ^ 64)
    (hdom : zb.zb_object ≠ DMU_META_DNODE_OBJECT ∨ dnp = none ∨
      ∃ dn, dnp = some dn ∧ 32 ≤ dn.dn_datablkszsec ∧
        (zb.zb_blkid + 1) * (dn.dn_datablkszsec * 512) < 2 ^ 64) :
    zb.zb_level = 0 ∧ dq.dp_scan.scn_phys.scn_bookmark = zb ∧
      (dsl_scan_check_resume dq dnp zb).1 = false ∧
      (dsl_scan_check_resume dq dnp zb).2.dp_scan.scn_phys.scn_bookmark = zbookmark_zero := by
  obtain ⟨hobj, hlvl, hbm⟩ := check_pause_fresh tun dp zb hrtime sync_waiting hnp hp
  have hq : dq.dp_scan.scn_phys.scn_bookmark = zb := hdq.trans hbm
  refine ⟨hlvl, hq, ?_⟩
  unfold dsl_scan_check_resume
  simp only [hq]
  by_cases hz : bookmark_is_zero zb = true
  · simp only [hz, not_true_eq_false, false_and, if_false, hq, true_and]
    exact eq_zero_of_bookmark_is_zero zb hz
  · simp [hz, hobj, bookmark_is_before_self dnp zb hobj hlvl hblk hdom]

/-- Claim C8 (witness): a pause at block 3 of object 5 and the resume at it. -/
theorem resume_visits_pause_block_witness :
    pool_scrubbing.dp_scan.scn_pausing = false ∧
      (dsl_scan_check_pause default_tunables pool_scrubbing (some zb_block3) hrtime_late
        false).1 = true ∧
      zb_block3.zb_blkid + 1 < 2 ^ 64 ∧
      zb_block3.zb_level = 0 ∧
      (next_pass (dsl_scan_check_pause default_tunables pool_scrubbing (some zb_block3)
        hrtime_late false).2).dp_scan.scn_phys.scn_bookmark = zb_block3 ∧
      (dsl_scan_check_resume
        (next_pass (dsl_scan_check_pause default_tunables pool_scrubbing (some zb_block3)
          hrtime_late false).2) (some dnode_file) zb_block3).1 = false ∧
      (dsl_scan_check_resume
        (next_pass (dsl_scan_check_pause default_tunables pool_scrubbing (some zb_block3)
          hrtime_late false).2) (some dnode_file)
        zb_block3).2.dp_scan.scn_phys.scn_bookmark = zbookmark_zero :=
  ⟨by decide, by decide, by decide,
    resume_visits_pause_block default_tunables pool_scrubbing
      (next_pass (dsl_scan_check_pause default_tunables pool_scrubbing (some zb_block3)
        hrtime_late false).2) zb_block3 (some dnode_file) hrtime_late false (by decide)
      (by decide) rfl (by decide) (Or.inl (by decide))⟩


/-! ### The scan window of the scrub callback -/

/-- The loop over the DVAs returns when every DVA lies on a top-level vdev. -/
theorem scrub_cb_dvas_returns (rvd : root_vdev) (pb : Nat) :
    ∀ (ds : List dva) (st : Nat × Nat × Bool), dvas_on_vdevs rvd ds →
      ∃ st', scrub_cb_dvas rvd pb ds st = some st'
  | [], st, _ => ⟨st, rfl⟩
  | d :: ds, (ex, pe, nio), h => by
    have hd : (vdev_lookup_top rvd (DVA_GET_VDEV d)).isSome = true := h d (List.mem_cons_self _ _)
    have hds : dvas_on_vdevs rvd ds := fun x hx => h x (List.mem_cons_of_mem _ hx)
    obtain ⟨vd, hvd⟩ := Option.isSome_iff_exists.mp hd
    unfold scrub_cb_dvas
    simp only [hvd]
    split
    · split
      · exact scrub_cb_dvas_returns rvd pb ds _ hds
      · exact scrub_cb_dvas_returns rvd pb ds _ hds
    · exact scrub_cb_dvas_returns rvd pb ds _ hds

/-- With `needs_io` set from the start (a scrub) the loop over the DVAs
returns whatever the vdev ids are. -/
theorem scrub_cb_dvas_returns_scrub (rvd : root_vdev) (pb : Nat) :
    ∀ (ds : List dva) (ex pe : Nat),
      ∃ st', scrub_cb_dvas rvd pb ds (ex, pe, true) = some st'
  | [], ex, pe => ⟨_, rfl⟩
  | d :: ds, ex, pe => by
    unfold scrub_cb_dvas
    simp only [not_true_eq_false, if_false]
    exact scrub_cb_dvas_returns_scrub rvd pb ds _ _

/-- The loop over the DVAs adds the allocated size of every DVA it visits to
`scn_examined`, modulo `2 ^ 64`. -/
theorem scrub_cb_dvas_examined (rvd : root_vdev) (pb : Nat) :
    ∀ (ds : List dva) (st st' : Nat × Nat × Bool), scrub_cb_dvas rvd pb ds st = some st' →
      st'.1 % 2 ^ 64 = (st.1 + dvas_asize ds) % 2 ^ 64
  | [], st, st', h => by
    simp only [scrub_cb_dvas, Option.some.injEq] at h
    subst h
    simp [dvas_asize]
  | d :: ds, (ex, pe, nio), st', h => by
    unfold scrub_cb_dvas at h
    have key : ∀ b, scrub_cb_dvas rvd pb ds (wrap64 (ex + DVA_GET_ASIZE d),
        wrap64 (pe + DVA_GET_ASIZE d), b) = some st' →
        st'.1 % 2 ^ 64 = (ex + dvas_asize (d :: ds)) % 2 ^ 64 := by
      intro b hb
      have := scrub_cb_dvas_examined rvd pb ds _ st' hb
      rw [this]
      simp only [wrap64, dvas_asize, List.map_cons, List.sum_cons]
      omega
    split at h
    · split at h
      · exact key _ h
      · simp only [] at h
        cases hvd : vdev_lookup_top rvd (DVA_GET_VDEV d) with
        | none => simp [hvd] at h
        | some vd =>
          simp only [hvd] at h
          exact key _ h
    · exact key _ h


/-- Progress of the scrub reads leaves the in-flight limit alone. -/
theorem with_scrub_progress_maxinflight (dp : dsl_pool) (n : Nat) (zs : List zio) (e : Nat) :
    (with_scrub_progress dp n zs e).dp_spa.spa_scrub_maxinflight =
      dp.dp_spa.spa_scrub_maxinflight := rfl

/-- Progress of the scrub reads sets the in-flight count. -/
theorem with_scrub_progress_inflight (dp : dsl_pool) (n : Nat) (zs : List zio) (e : Nat) :
    (with_scrub_progress dp n zs e).dp_spa.spa_scrub_inflight = n := rfl

/-- The wait of `dsl_scan_scrub_cb` for a free slot returns when the limit is
positive and the reads in flight are outstanding. -/
theorem scrub_cv_wait_loop_below_limit :
    ∀ (zs : List zio) (dp : dsl_pool), 0 < dp.dp_spa.spa_scrub_maxinflight →
      dp.dp_spa.spa_scrub_inflight ≤ zs.length →
      ∃ dp', scrub_cv_wait_loop
        (fun sp => decide (sp.spa_scrub_inflight ≥ sp.spa_scrub_maxinflight)) zs dp = some dp'
  | [], dp => by
    intro hm h
    have h0 : dp.dp_spa.spa_scrub_inflight = 0 := by simpa using h
    have hm' : dp.dp_spa.spa_scrub_maxinflight ≠ 0 := by omega
    exact ⟨dp, by simp [scrub_cv_wait_loop, h0, hm']⟩
  | z :: zs, dp => by
    intro hm h
    unfold scrub_cv_wait_loop
    by_cases hw : dp.dp_spa.spa_scrub_inflight ≥ dp.dp_spa.spa_scrub_maxinflight
    · simp only [hw, decide_True, if_true]
      obtain ⟨e, he⟩ := scrub_done_progress dp zs z
      rw [he]
      apply scrub_cv_wait_loop_below_limit zs
      · rw [with_scrub_progress_maxinflight]
        exact hm
      · rw [with_scrub_progress_inflight]
        simp only [wrap64]
        simp only [List.length_cons] at h
        omega
    · exact ⟨dp, by simp [hw]⟩

/-- The result of the wait of `dsl_scan_scrub_cb` for a free slot. -/
theorem scrub_cv_wait_limit_of_eq (dp : dsl_pool) (o : Option dsl_pool)
    (h : scrub_cv_wait (fun sp => decide (sp.spa_scrub_inflight ≥ sp.spa_scrub_maxinflight))
      dp = o)
    (hm : 0 < dp.dp_spa.spa_scrub_maxinflight) (hr : scrub_reads_accounted dp) :
    ∃ n zs e, o = some (with_scrub_progress dp n zs e) := by
  obtain ⟨dp', hw⟩ := scrub_cv_wait_loop_below_limit dp.dp_spa.spa_scrub_zios dp hm hr
  obtain ⟨-, n, zs, e, hs⟩ := scrub_cv_wait_loop_shape _ _ _ _ hw
  refine ⟨n, zs, e, ?_⟩
  rw [← h, ← hs]
  exact hw

/-- C9 (amended): `dsl_scan_scrub_cb` treats a block as inside the scan window
exactly when `min_txg < phys_birth < max_txg`.  For a block outside the window
it returns 0 and changes nothing.  For a block inside it (when the call
returns: the func is SCRUB or RESILVER, the DVAs lie on top-level vdevs, the
in-flight limit is positive and the reads in flight are outstanding) it
returns 0, the block is counted in the block statistics and the allocated
sizes of its DVAs are added to `scn_examined`. -/
theorem scrub_cb_window (tun : tunables) (dp : dsl_pool) (bp : blkptr) (zb : zbookmark)
    (io_error : Nat) :
    (¬ (dp.dp_scan.scn_phys.scn_min_txg < BP_PHYSICAL_BIRTH bp ∧
        BP_PHYSICAL_BIRTH bp < dp.dp_scan.scn_phys.scn_max_txg) →
      dsl_scan_scrub_cb tun dp bp zb io_error = some (0, dp)) ∧
    (dp.dp_scan.scn_phys.scn_min_txg < BP_PHYSICAL_BIRTH bp ∧
        BP_PHYSICAL_BIRTH bp < dp.dp_scan.scn_phys.scn_max_txg →
      (dp.dp_scan.scn_phys.scn_func = POOL_SCAN_SCRUB ∨
        dp.dp_scan.scn_phys.scn_func = POOL_SCAN_RESILVER) →
      dvas_on_vdevs dp.dp_spa.spa_root_vdev (scrub_cb_dva_list bp) →
      0 < dp.dp_spa.spa_scrub_maxinflight →
      scrub_reads_accounted dp →
      ∃ dp', dsl_scan_scrub_cb tun dp bp zb io_error = some (0, dp') ∧
        dp'.dp_blkstats = count_block dp.dp_blkstats bp ∧
        dp'.dp_scan.scn_phys.scn_examined % 2 ^ 64 =
          (dp.dp_scan.scn_phys.scn_examined + dvas_asize (scrub_cb_dva_list bp)) % 2 ^ 64) := by
  constructor
  · intro hout
    have : BP_PHYSICAL_BIRTH bp ≤ dp.dp_scan.scn_phys.scn_min_txg ∨
        BP_PHYSICAL_BIRTH bp ≥ dp.dp_scan.scn_phys.scn_max_txg := by omega
    simp [dsl_scan_scrub_cb, this]
  · intro hin hf hv hm hr
    have hn : ¬ (BP_PHYSICAL_BIRTH bp ≤ dp.dp_scan.scn_phys.scn_min_txg ∨
        BP_PHYSICAL_BIRTH bp ≥ dp.dp_scan.scn_phys.scn_max_txg) := by omega
    have hne : POOL_SCAN_RESILVER ≠ POOL_SCAN_SCRUB := by decide
    -- the state of the loop over the DVAs when it starts
    obtain ⟨nio, hmode⟩ : ∃ nio : Bool,
        (if dp.dp_scan.scn_phys.scn_func = POOL_SCAN_SCRUB then
          some (zio_flag.ZIO_FLAG_SCRUB ::
              [zio_flag.ZIO_FLAG_SCRUB_THREAD, zio_flag.ZIO_FLAG_RAW, zio_flag.ZIO_FLAG_CANFAIL],
            zio_priority.ZIO_PRIORITY_SCRUB, true)
        else if dp.dp_scan.scn_phys.scn_func = POOL_SCAN_RESILVER then
          some (zio_flag.ZIO_FLAG_RESILVER ::
              [zio_flag.ZIO_FLAG_SCRUB_THREAD, zio_flag.ZIO_FLAG_RAW, zio_flag.ZIO_FLAG_CANFAIL],
            zio_priority.ZIO_PRIORITY_RESILVER, false)
        else none) =
        some (if nio then
            (zio_flag.ZIO_FLAG_SCRUB ::
              [zio_flag.ZIO_FLAG_SCRUB_THREAD, zio_flag.ZIO_FLAG_RAW, zio_flag.ZIO_FLAG_CANFAIL],
            zio_priority.ZIO_PRIORITY_SCRUB, nio)
          else
            (zio_flag.ZIO_FLAG_RESILVER ::
              [zio_flag.ZIO_FLAG_SCRUB_THREAD, zio_flag.ZIO_FLAG_RAW, zio_flag.ZIO_FLAG_CANFAIL],
            zio_priority.ZIO_PRIORITY_RESILVER, nio)) := by
      rcases hf with hf | hf
      · exact ⟨true, by simp [hf]⟩
      · exact ⟨false, by simp [hf, hne]⟩
    obtain ⟨st', hst⟩ := scrub_cb_dvas_returns dp.dp_spa.spa_root_vdev (BP_PHYSICAL_BIRTH bp)
      (scrub_cb_dva_list bp) (dp.dp_scan.scn_phys.scn_examined, dp.dp_spa.spa_scan_pass_exam, nio)
      hv
    have hex := scrub_cb_dvas_examined _ _ _ _ _ hst
    unfold dsl_scan_scrub_cb
    simp only [hn, if_false, hmode, Option.some_bind]
    have hst' : scrub_cb_dvas dp.dp_spa.spa_root_vdev (BP_PHYSICAL_BIRTH bp)
        (scrub_cb_dva_list bp) (dp.dp_scan.scn_phys.scn_examined, dp.dp_spa.spa_scan_pass_exam,
          (if nio = true then
            (zio_flag.ZIO_FLAG_SCRUB ::
              [zio_flag.ZIO_FLAG_SCRUB_THREAD, zio_flag.ZIO_FLAG_RAW, zio_flag.ZIO_FLAG_CANFAIL],
            zio_priority.ZIO_PRIORITY_SCRUB, nio)
          else
            (zio_flag.ZIO_FLAG_RESILVER ::
              [zio_flag.ZIO_FLAG_SCRUB_THREAD, zio_flag.ZIO_FLAG_RAW, zio_flag.ZIO_FLAG_CANFAIL],
            zio_priority.ZIO_PRIORITY_RESILVER, nio)).2.2) = some st' := by
      cases nio <;> exact hst
    simp only [hst', Option.some_bind]
    by_cases hio : st'.2.2 = true ∧ ¬ tun.zfs_no_scrub_io = true
    · simp only [hio, not_false_eq_true, and_self, if_true]
      generalize hw : scrub_cv_wait _ _ = o
      obtain ⟨n, zs, e, rfl⟩ := scrub_cv_wait_limit_of_eq _ _ hw hm hr
      exact ⟨_, rfl, rfl, hex⟩
    · simp only [hio, if_false]
      exact ⟨_, rfl, rfl, hex⟩


/-- C9 (as stated, refuted): with `min_txg = 5` and `max_txg = 100`, a block
with `phys_birth = 5` satisfies `min_txg <= phys_birth < max_txg`, and
`dsl_scan_scrub_cb` returns 0 without counting its 512 allocated bytes: the
pool is unchanged. -/
theorem scrub_cb_window_counterexample :
    pool_scrub_from5.dp_scan.scn_phys.scn_min_txg ≤ BP_PHYSICAL_BIRTH (bp_born 5) ∧
      BP_PHYSICAL_BIRTH (bp_born 5) < pool_scrub_from5.dp_scan.scn_phys.scn_max_txg ∧
      BP_GET_ASIZE (bp_born 5) = 512 ∧
      dsl_scan_scrub_cb default_tunables pool_scrub_from5 (bp_born 5) zb_block3 0 =
        some (0, pool_scrub_from5) :=
  ⟨by decide, by decide, by decide, rfl⟩

/-- C9 (witness): the block born in txg 5 is outside the window `(5, 100)`, the
block born in txg 50 is inside it and is counted. -/
theorem scrub_cb_window_witness :
    (¬ (pool_scrub_from5.dp_scan.scn_phys.scn_min_txg < BP_PHYSICAL_BIRTH (bp_born 5) ∧
        BP_PHYSICAL_BIRTH (bp_born 5) < pool_scrub_from5.dp_scan.scn_phys.scn_max_txg) ∧
      dsl_scan_scrub_cb default_tunables pool_scrub_from5 (bp_born 5) zb_block3 0 =
        some (0, pool_scrub_from5)) ∧
    ((pool_scrub_from5.dp_scan.scn_phys.scn_min_txg < BP_PHYSICAL_BIRTH (bp_born 50) ∧
        BP_PHYSICAL_BIRTH (bp_born 50) < pool_scrub_from5.dp_scan.scn_phys.scn_max_txg) ∧
      (pool_scrub_from5.dp_scan.scn_phys.scn_func = POOL_SCAN_SCRUB ∨
        pool_scrub_from5.dp_scan.scn_phys.scn_func = POOL_SCAN_RESILVER) ∧
      dvas_on_vdevs pool_scrub_from5.dp_spa.spa_root_vdev (scrub_cb_dva_list (bp_born 50)) ∧
      0 < pool_scrub_from5.dp_spa.spa_scrub_maxinflight ∧
      scrub_reads_accounted pool_scrub_from5 ∧
      ∃ dp', dsl_scan_scrub_cb default_tunables pool_scrub_from5 (bp_born 50) zb_block3 0 =
          some (0, dp') ∧
        dp'.dp_blkstats = count_block pool_scrub_from5.dp_blkstats (bp_born 50) ∧
        dp'.dp_scan.scn_phys.scn_examined % 2 ^ 64 =
          (pool_scrub_from5.dp_scan.scn_phys.scn_examined +
            dvas_asize (scrub_cb_dva_list (bp_born 50))) % 2 ^ 64) :=
  ⟨⟨by decide,
      (scrub_cb_window default_tunables pool_scrub_from5 (bp_born 5) zb_block3 0).1
        (by decide)⟩,
    ⟨by decide, by decide, by unfold dvas_on_vdevs; decide, by decide,
      by unfold scrub_reads_accounted; decide,
      (scrub_cb_window default_tunables pool_scrub_from5 (bp_born 50) zb_block3 0).2
        (by decide) (by decide) (by unfold dvas_on_vdevs; decide) (by decide)
        (by unfold scrub_reads_accounted; decide)⟩⟩

/-! ### Completion of a scrub read -/

/-- C10 (as stated, refuted): a read flagged SPECULATIVE that failed with `EIO`
raises the error count of the scan by one. -/
theorem scrub_done_errors_counterexample :
    zio_zil_eio.io_error ≠ 0 ∧
      zio_zil_eio.io_flags.contains zio_flag.ZIO_FLAG_SPECULATIVE = true ∧
      (dsl_scan_scrub_done pool_one_inflight zio_zil_eio).dp_scan.scn_phys.scn_errors =
        pool_one_inflight.dp_scan.scn_phys.scn_errors + 1 := by
  decide

/-- C10 (amended): `dsl_scan_scrub_done` decrements `spa_scrub_inflight` by
exactly one, and increments the scan's error count by one exactly when the
read failed and either the error is not a checksum error (`ECKSUM`) or the I/O
was not flagged SPECULATIVE; otherwise the error count is unchanged.  (The
read was counted in flight, and the counters do not wrap.) -/
theorem scrub_done_accounting (dp : dsl_pool) (z : zio)
    (hin : 0 < dp.dp_spa.spa_scrub_inflight) (hin64 : dp.dp_spa.spa_scrub_inflight < 2 ^ 64)
    (herr : dp.dp_scan.scn_phys.scn_errors + 1 < 2 ^ 64) :
    (dsl_scan_scrub_done dp z).dp_spa.spa_scrub_inflight + 1 = dp.dp_spa.spa_scrub_inflight ∧
      (dsl_scan_scrub_done dp z).dp_scan.scn_phys.scn_errors =
        dp.dp_scan.scn_phys.scn_errors +
          (if z.io_error ≠ 0 ∧
              (z.io_error ≠ ECKSUM ∨
                z.io_flags.contains zio_flag.ZIO_FLAG_SPECULATIVE = false) then 1
          else 0) := by
  unfold dsl_scan_scrub_done
  simp only []
  by_cases hc : z.io_error ≠ 0 ∧
      (z.io_error ≠ ECKSUM ∨ ¬ (z.io_flags.contains zio_flag.ZIO_FLAG_SPECULATIVE) = true)
  · have hc' : z.io_error ≠ 0 ∧
        (z.io_error ≠ ECKSUM ∨ z.io_flags.contains zio_flag.ZIO_FLAG_SPECULATIVE = false) := by
      simpa using hc
    rw [if_pos hc, if_pos hc']
    simp only [wrap64]
    constructor <;> omega
  · have hc' : ¬ (z.io_error ≠ 0 ∧
        (z.io_error ≠ ECKSUM ∨ z.io_flags.contains zio_flag.ZIO_FLAG_SPECULATIVE = false)) := by
      simpa using hc
    rw [if_neg hc, if_neg hc']
    simp only [wrap64]
    constructor <;> omega

/-- C10 (witness): the completion of the failed intent-log read. -/
theorem scrub_done_accounting_witness :
    0 < pool_one_inflight.dp_spa.spa_scrub_inflight ∧
      pool_one_inflight.dp_spa.spa_scrub_inflight < 2 ^ 64 ∧
      pool_one_inflight.dp_scan.scn_phys.scn_errors + 1 < 2 ^ 64 ∧
      (dsl_scan_scrub_done pool_one_inflight zio_zil_eio).dp_spa.spa_scrub_inflight + 1 =
        pool_one_inflight.dp_spa.spa_scrub_inflight ∧
      (dsl_scan_scrub_done pool_one_inflight zio_zil_eio).dp_scan.scn_phys.scn_errors =
        pool_one_inflight.dp_scan.scn_phys.scn_errors +
          (if zio_zil_eio.io_error ≠ 0 ∧
              (zio_zil_eio.io_error ≠ ECKSUM ∨
                zio_zil_eio.io_flags.contains zio_flag.ZIO_FLAG_SPECULATIVE = false) then 1
          else 0) :=
  ⟨by decide, by decide, by decide,
    scrub_done_accounting pool_one_inflight zio_zil_eio (by decide) (by decide) (by decide)⟩

/-! ### What the scrub callback does to a block inside the window -/

/-- Progress of the scrub reads sets the list of outstanding reads. -/
theorem with_scrub_progress_zios (dp : dsl_pool) (n : Nat) (zs : List zio) (e : Nat) :
    (with_scrub_progress dp n zs e).dp_spa.spa_scrub_zios = zs := rfl

/-- The wait for a free slot keeps the reads in flight outstanding. -/
theorem scrub_cv_wait_loop_accounted :
    ∀ (zs : List zio) (dp dp' : dsl_pool), dp.dp_spa.spa_scrub_zios = zs →
      0 < dp.dp_spa.spa_scrub_maxinflight →
      dp.dp_spa.spa_scrub_inflight ≤ zs.length →
      scrub_cv_wait_loop
        (fun sp => decide (sp.spa_scrub_inflight ≥ sp.spa_scrub_maxinflight)) zs dp = some dp' →
      dp'.dp_spa.spa_scrub_inflight ≤ dp'.dp_spa.spa_scrub_zios.length
  | [], dp, dp' => by
    intro hz _ h hw
    unfold scrub_cv_wait_loop at hw
    split at hw
    · cases hw
    · cases hw
      rw [hz]
      exact h
  | z :: zs, dp, dp' => by
    intro hz hm h hw
    unfold scrub_cv_wait_loop at hw
    split at hw
    · rename_i hwait
      have hge : dp.dp_spa.spa_scrub_inflight ≥ dp.dp_spa.spa_scrub_maxinflight := by
        simpa using hwait
      obtain ⟨e, he⟩ := scrub_done_progress dp zs z
      rw [he] at hw
      refine scrub_cv_wait_loop_accounted zs _ dp' (with_scrub_progress_zios _ _ _ _) ?_ ?_ hw
      · rw [with_scrub_progress_maxinflight]
        exact hm
      · rw [with_scrub_progress_inflight]
        simp only [wrap64]
        simp only [List.length_cons] at h
        omega
    · cases hw
      rw [hz]
      exact h

/-- The result of the wait of `dsl_scan_scrub_cb` for a free slot: progress of
the scrub reads, with the reads in flight still outstanding. -/
theorem scrub_cv_wait_limit_accounted (dp : dsl_pool) (o : Option dsl_pool)
    (h : scrub_cv_wait (fun sp => decide (sp.spa_scrub_inflight ≥ sp.spa_scrub_maxinflight))
      dp = o)
    (hm : 0 < dp.dp_spa.spa_scrub_maxinflight) (hr : scrub_reads_accounted dp) :
    ∃ n zs e, o = some (with_scrub_progress dp n zs e) ∧ n ≤ zs.length := by
  obtain ⟨n, zs, e, ho⟩ := scrub_cv_wait_limit_of_eq dp o h hm hr
  refine ⟨n, zs, e, ho, ?_⟩
  rw [ho] at h
  have := scrub_cv_wait_loop_accounted _ dp _ rfl hm hr h
  rw [with_scrub_progress_inflight, with_scrub_progress_zios] at this
  exact this

/-- The flag `needs_io` at the end of the loop over the DVAs: set at the
start, or raised by a gang block or by a DVA in the partial DTL of its
vdev. -/
theorem scrub_cb_dvas_needs_io (rvd : root_vdev) (pb : Nat) :
    ∀ (ds : List dva) (st st' : Nat × Nat × Bool), scrub_cb_dvas rvd pb ds st = some st' →
      st'.2.2 = (st.2.2 || ds.any (dva_needs_resilver rvd pb))
  | [], st, st', h => by
    simp only [scrub_cb_dvas, Option.some.injEq] at h
    subst h
    simp
  | d :: ds, (ex, pe, nio), st', h => by
    unfold scrub_cb_dvas at h
    cases nio with
    | true =>
      simp only [not_true_eq_false, if_false] at h
      have := scrub_cb_dvas_needs_io rvd pb ds _ st' h
      simpa using this
    | false =>
      simp only [Bool.false_eq_true, not_false_eq_true, if_true] at h
      by_cases hg : DVA_GET_GANG d = true
      · simp only [hg, if_true] at h
        have := scrub_cb_dvas_needs_io rvd pb ds _ st' h
        simp [this, dva_needs_resilver, hg]
      · simp only [hg, if_false] at h
        cases hvd : vdev_lookup_top rvd (DVA_GET_VDEV d) with
        | none => simp [hvd] at h
        | some vd =>
          simp only [hvd] at h
          have := scrub_cb_dvas_needs_io rvd pb ds _ st' h
          have hg' : DVA_GET_GANG d = false := by simpa using hg
          simp [this, dva_needs_resilver, hg', hvd]

/-- The loop over the DVAs adds the allocated sizes to `scn_examined` exactly,
as long as the counter does not wrap. -/
theorem scrub_cb_dvas_examined_exact (rvd : root_vdev) (pb : Nat) :
    ∀ (ds : List dva) (st st' : Nat × Nat × Bool), scrub_cb_dvas rvd pb ds st = some st' →
      st.1 + dvas_asize ds < 2 ^ 64 → st'.1 = st.1 + dvas_asize ds
  | [], st, st', h => by
    simp only [scrub_cb_dvas, Option.some.injEq] at h
    subst h
    simp [dvas_asize]
  | d :: ds, (ex, pe, nio), st', h => by
    intro hlt
    simp only [dvas_asize, List.map_cons, List.sum_cons] at hlt
    have hw : wrap64 (ex + DVA_GET_ASIZE d) = ex + DVA_GET_ASIZE d := by
      simp only [wrap64]
      omega
    unfold scrub_cb_dvas at h
    rw [hw] at h
    have key : ∀ b, scrub_cb_dvas rvd pb ds (ex + DVA_GET_ASIZE d,
        wrap64 (pe + DVA_GET_ASIZE d), b) = some st' →
        st'.1 = ex + dvas_asize (d :: ds) := by
      intro b hb
      have := scrub_cb_dvas_examined_exact rvd pb ds _ st' hb
        (by simp only [dvas_asize]; omega)
      rw [this]
      simp only [dvas_asize, List.map_cons, List.sum_cons]
      omega
    split at h
    · split at h
      · exact key _ h
      · simp only [] at h
        cases hvd : vdev_lookup_top rvd (DVA_GET_VDEV d) with
        | none => simp [hvd] at h
        | some vd =>
          simp only [hvd] at h
          exact key _ h
    · exact key _ h

/-- For a block pointer whose allocated DVAs fill the slots from the front,
the DVAs the callback visits hold the whole allocated size of the block. -/
theorem dvas_asize_of_packed (bp : blkptr) (h : bp_dvas_packed bp) :
    dvas_asize (scrub_cb_dva_list bp) = BP_GET_ASIZE bp := by
  obtain ⟨h1, h2⟩ := h
  unfold dvas_asize scrub_cb_dva_list BP_GET_NDVAS BP_GET_ASIZE
  by_cases a0 : DVA_GET_ASIZE bp.blk_dva0 = 0 <;>
    by_cases a1 : DVA_GET_ASIZE bp.blk_dva1 = 0 <;>
    by_cases a2 : DVA_GET_ASIZE bp.blk_dva2 = 0 <;>
    (simp_all [List.range_succ, blk_dva]; try omega)


/-- What `dsl_scan_scrub_cb` does to a block inside the scan window, when the
call returns: the block is counted, and when `needs_io` is set at the end of
the loop over the DVAs and scrub I/O is not disabled, the callback waits for a
free slot and issues the read. -/
theorem scrub_cb_in_window (tun : tunables) (dp : dsl_pool) (bp : blkptr) (zb : zbookmark)
    (io_error : Nat)
    (hin : dp.dp_scan.scn_phys.scn_min_txg < BP_PHYSICAL_BIRTH bp ∧
      BP_PHYSICAL_BIRTH bp < dp.dp_scan.scn_phys.scn_max_txg)
    (hf : dp.dp_scan.scn_phys.scn_func = POOL_SCAN_SCRUB ∨
      dp.dp_scan.scn_phys.scn_func = POOL_SCAN_RESILVER)
    (hv : dvas_on_vdevs dp.dp_spa.spa_root_vdev (scrub_cb_dva_list bp))
    (hm : 0 < dp.dp_spa.spa_scrub_maxinflight) (hr : scrub_reads_accounted dp) :
    ∃ ex pe nio n zs e,
      scrub_cb_dvas dp.dp_spa.spa_root_vdev (BP_PHYSICAL_BIRTH bp) (scrub_cb_dva_list bp)
        (dp.dp_scan.scn_phys.scn_examined, dp.dp_spa.spa_scan_pass_exam,
          decide (dp.dp_scan.scn_phys.scn_func = POOL_SCAN_SCRUB)) = some (ex, pe, nio) ∧
      n ≤ zs.length ∧
      dsl_scan_scrub_cb tun dp bp zb io_error =
        some (0,
          if nio = true ∧ tun.zfs_no_scrub_io = false then
            scrub_cb_issued (with_scrub_progress (scrub_cb_counted dp bp ex pe) n zs e)
              (scrub_cb_zio dp.dp_scan.scn_phys.scn_func bp zb io_error)
          else scrub_cb_counted dp bp ex pe) := by
  have hn : ¬ (BP_PHYSICAL_BIRTH bp ≤ dp.dp_scan.scn_phys.scn_min_txg ∨
      BP_PHYSICAL_BIRTH bp ≥ dp.dp_scan.scn_phys.scn_max_txg) := by omega
  have hne : POOL_SCAN_RESILVER ≠ POOL_SCAN_SCRUB := by decide
  obtain ⟨⟨ex, pe, nio⟩, hst⟩ := scrub_cb_dvas_returns dp.dp_spa.spa_root_vdev
    (BP_PHYSICAL_BIRTH bp) (scrub_cb_dva_list bp)
    (dp.dp_scan.scn_phys.scn_examined, dp.dp_spa.spa_scan_pass_exam,
      decide (dp.dp_scan.scn_phys.scn_func = POOL_SCAN_SCRUB)) hv
  have key : ∀ (b : Bool) (flags : List zio_flag) (pr : zio_priority),
      scrub_cb_dvas dp.dp_spa.spa_root_vdev (BP_PHYSICAL_BIRTH bp) (scrub_cb_dva_list bp)
        (dp.dp_scan.scn_phys.scn_examined, dp.dp_spa.spa_scan_pass_exam, b) =
          some (ex, pe, nio) →
      ∃ n zs e, n ≤ zs.length ∧
        (if nio = true ∧ ¬ tun.zfs_no_scrub_io = true then
          (scrub_cv_wait (fun sp => decide (sp.spa_scrub_inflight ≥ sp.spa_scrub_maxinflight))
              (scrub_cb_counted dp bp ex pe)).map
            fun dp1 => (0, scrub_cb_issued dp1
              { io_bp := bp, io_size := BP_GET_PSIZE bp, io_priority := pr, io_flags := flags,
                io_bookmark := zb, io_error := io_error })
        else some (0, scrub_cb_counted dp bp ex pe)) =
        some (0,
          if nio = true ∧ tun.zfs_no_scrub_io = false then
            scrub_cb_issued (with_scrub_progress (scrub_cb_counted dp bp ex pe) n zs e)
              { io_bp := bp, io_size := BP_GET_PSIZE bp, io_priority := pr, io_flags := flags,
                io_bookmark := zb, io_error := io_error }
          else scrub_cb_counted dp bp ex pe) := by
    intro b flags pr _
    by_cases hio : nio = true ∧ ¬ tun.zfs_no_scrub_io = true
    · have hio' : nio = true ∧ tun.zfs_no_scrub_io = false := by simpa using hio
      rw [if_pos hio]
      obtain ⟨n, zs, e, hw, hle⟩ :=
        scrub_cv_wait_limit_accounted (scrub_cb_counted dp bp ex pe) _ rfl hm hr
      exact ⟨n, zs, e, hle, by rw [hw, if_pos hio']; rfl⟩
    · have hio' : ¬ (nio = true ∧ tun.zfs_no_scrub_io = false) := by simpa using hio
      rw [if_neg hio]
      exact ⟨0, [], 0, Nat.le_refl _, by rw [if_neg hio']⟩
  rcases hf with hf | hf
  · rw [hf] at hst
    obtain ⟨n, zs, e, hle, hk⟩ := key _
      (if zb.zb_level = ZB_ZIL_LEVEL then
        [zio_flag.ZIO_FLAG_SPECULATIVE, zio_flag.ZIO_FLAG_SCRUB, zio_flag.ZIO_FLAG_SCRUB_THREAD,
          zio_flag.ZIO_FLAG_RAW, zio_flag.ZIO_FLAG_CANFAIL]
       else [zio_flag.ZIO_FLAG_SCRUB, zio_flag.ZIO_FLAG_SCRUB_THREAD,
          zio_flag.ZIO_FLAG_RAW, zio_flag.ZIO_FLAG_CANFAIL])
      zio_priority.ZIO_PRIORITY_SCRUB hst
    refine ⟨ex, pe, nio, n, zs, e, by rw [hf]; exact hst, hle, ?_⟩
    have hz : scrub_cb_zio dp.dp_scan.scn_phys.scn_func bp zb io_error =
        { io_bp := bp, io_size := BP_GET_PSIZE bp, io_priority := zio_priority.ZIO_PRIORITY_SCRUB,
          io_flags := (if zb.zb_level = ZB_ZIL_LEVEL then
            [zio_flag.ZIO_FLAG_SPECULATIVE, zio_flag.ZIO_FLAG_SCRUB,
              zio_flag.ZIO_FLAG_SCRUB_THREAD, zio_flag.ZIO_FLAG_RAW, zio_flag.ZIO_FLAG_CANFAIL]
           else [zio_flag.ZIO_FLAG_SCRUB, zio_flag.ZIO_FLAG_SCRUB_THREAD,
              zio_flag.ZIO_FLAG_RAW, zio_flag.ZIO_FLAG_CANFAIL]),
          io_bookmark := zb, io_error := io_error } := by
      rw [hf]; unfold scrub_cb_zio; simp
    rw [hz, ← hk]
    unfold dsl_scan_scrub_cb
    simp only [hn, if_false]
    rw [if_pos hf]
    simp only [decide_True] at hst
    simp only [Option.some_bind, hst]
    rfl
  · have hd : decide (dp.dp_scan.scn_phys.scn_func = POOL_SCAN_SCRUB) = false := by
      simp [hf, hne]
    rw [hd] at hst
    obtain ⟨n, zs, e, hle, hk⟩ := key _
      (if zb.zb_level = ZB_ZIL_LEVEL then
        [zio_flag.ZIO_FLAG_SPECULATIVE, zio_flag.ZIO_FLAG_RESILVER,
          zio_flag.ZIO_FLAG_SCRUB_THREAD, zio_flag.ZIO_FLAG_RAW, zio_flag.ZIO_FLAG_CANFAIL]
       else [zio_flag.ZIO_FLAG_RESILVER, zio_flag.ZIO_FLAG_SCRUB_THREAD,
          zio_flag.ZIO_FLAG_RAW, zio_flag.ZIO_FLAG_CANFAIL])
      zio_priority.ZIO_PRIORITY_RESILVER hst
    refine ⟨ex, pe, nio, n, zs, e, by rw [hd]; exact hst, hle, ?_⟩
    have hz : scrub_cb_zio dp.dp_scan.scn_phys.scn_func bp zb io_error =
        { io_bp := bp, io_size := BP_GET_PSIZE bp,
          io_priority := zio_priority.ZIO_PRIORITY_RESILVER,
          io_flags := (if zb.zb_level = ZB_ZIL_LEVEL then
            [zio_flag.ZIO_FLAG_SPECULATIVE, zio_flag.ZIO_FLAG_RESILVER,
              zio_flag.ZIO_FLAG_SCRUB_THREAD, zio_flag.ZIO_FLAG_RAW, zio_flag.ZIO_FLAG_CANFAIL]
           else [zio_flag.ZIO_FLAG_RESILVER, zio_flag.ZIO_FLAG_SCRUB_THREAD,
              zio_flag.ZIO_FLAG_RAW, zio_flag.ZIO_FLAG_CANFAIL]),
          io_bookmark := zb, io_error := io_error } := by
      rw [hf]; unfold scrub_cb_zio; simp [hne]
    rw [hz, ← hk]
    unfold dsl_scan_scrub_cb
    have hns : ¬ dp.dp_scan.scn_phys.scn_func = POOL_SCAN_SCRUB := by rw [hf]; exact hne
    simp only [hn, if_false]
    rw [if_neg hns, if_pos hf]
    simp only [Option.some_bind, hst]
    rfl


/-- Claim C11. For a block inside the scan window `dsl_scan_scrub_cb` returns
0, and it issues a read of the block (one `zio_read` more in the trace)
exactly when scrub I/O is not disabled and either the func is SCRUB, or the
func is RESILVER and one of the DVAs of the block is a gang block or lies on
a top-level vdev whose partial DTL contains `phys_birth`; in every other case
it issues nothing. -/
theorem scrub_cb_read_iff (tun : tunables) (dp : dsl_pool) (bp : blkptr) (zb : zbookmark)
    (io_error : Nat)
    (hin : dp.dp_scan.scn_phys.scn_min_txg < BP_PHYSICAL_BIRTH bp ∧
      BP_PHYSICAL_BIRTH bp < dp.dp_scan.scn_phys.scn_max_txg)
    (hf : dp.dp_scan.scn_phys.scn_func = POOL_SCAN_SCRUB ∨
      dp.dp_scan.scn_phys.scn_func = POOL_SCAN_RESILVER)
    (hv : dvas_on_vdevs dp.dp_spa.spa_root_vdev (scrub_cb_dva_list bp))
    (hm : 0 < dp.dp_spa.spa_scrub_maxinflight) (hr : scrub_reads_accounted dp) :
    ∃ dp', dsl_scan_scrub_cb tun dp bp zb io_error = some (0, dp') ∧
      ((tun.zfs_no_scrub_io = false ∧
          (dp.dp_scan.scn_phys.scn_func = POOL_SCAN_SCRUB ∨
            (dp.dp_scan.scn_phys.scn_func = POOL_SCAN_RESILVER ∧
              ∃ d ∈ scrub_cb_dva_list bp,
                DVA_GET_GANG d = true ∨
                ∃ vd, vdev_lookup_top dp.dp_spa.spa_root_vdev (DVA_GET_VDEV d) = some vd ∧
                  vdev_dtl_contains vd (BP_PHYSICAL_BIRTH bp) 1 = true)) →
        dp'.dp_trace = dp.dp_trace ++
          [effect.zio_read (scrub_cb_zio dp.dp_scan.scn_phys.scn_func bp zb io_error)]) ∧
      (¬ (tun.zfs_no_scrub_io = false ∧
          (dp.dp_scan.scn_phys.scn_func = POOL_SCAN_SCRUB ∨
            (dp.dp_scan.scn_phys.scn_func = POOL_SCAN_RESILVER ∧
              ∃ d ∈ scrub_cb_dva_list bp,
                DVA_GET_GANG d = true ∨
                ∃ vd, vdev_lookup_top dp.dp_spa.spa_root_vdev (DVA_GET_VDEV d) = some vd ∧
                  vdev_dtl_contains vd (BP_PHYSICAL_BIRTH bp) 1 = true))) →
        dp'.dp_trace = dp.dp_trace)) := by
  obtain ⟨ex, pe, nio, n, zs, e, hst, -, heq⟩ :=
    scrub_cb_in_window tun dp bp zb io_error hin hf hv hm hr
  have hnio := scrub_cb_dvas_needs_io _ _ _ _ _ hst
  simp only at hnio
  have hne : POOL_SCAN_RESILVER ≠ POOL_SCAN_SCRUB := by decide
  have hany : (scrub_cb_dva_list bp).any
        (dva_needs_resilver dp.dp_spa.spa_root_vdev (BP_PHYSICAL_BIRTH bp)) = true ↔
      ∃ d ∈ scrub_cb_dva_list bp,
        DVA_GET_GANG d = true ∨
        ∃ vd, vdev_lookup_top dp.dp_spa.spa_root_vdev (DVA_GET_VDEV d) = some vd ∧
          vdev_dtl_contains vd (BP_PHYSICAL_BIRTH bp) 1 = true := by
    rw [List.any_eq_true]
    constructor
    · rintro ⟨d, hd, hx⟩
      refine ⟨d, hd, ?_⟩
      unfold dva_needs_resilver at hx
      rw [Bool.or_eq_true] at hx
      rcases hx with hx | hx
      · exact Or.inl hx
      · cases hvd : vdev_lookup_top dp.dp_spa.spa_root_vdev (DVA_GET_VDEV d) with
        | none => rw [hvd] at hx; cases hx
        | some vd => rw [hvd] at hx; exact Or.inr ⟨vd, rfl, hx⟩
    · rintro ⟨d, hd, hx⟩
      refine ⟨d, hd, ?_⟩
      unfold dva_needs_resilver
      rw [Bool.or_eq_true]
      rcases hx with hx | ⟨vd, hvd, hx⟩
      · exact Or.inl hx
      · rw [hvd]; exact Or.inr hx
  have hcond : (nio = true ∧ tun.zfs_no_scrub_io = false) ↔
      (tun.zfs_no_scrub_io = false ∧
          (dp.dp_scan.scn_phys.scn_func = POOL_SCAN_SCRUB ∨
            (dp.dp_scan.scn_phys.scn_func = POOL_SCAN_RESILVER ∧
              ∃ d ∈ scrub_cb_dva_list bp,
                DVA_GET_GANG d = true ∨
                ∃ vd, vdev_lookup_top dp.dp_spa.spa_root_vdev (DVA_GET_VDEV d) = some vd ∧
                  vdev_dtl_contains vd (BP_PHYSICAL_BIRTH bp) 1 = true))) := by
    rw [← hany, hnio, Bool.or_eq_true, decide_eq_true_eq]
    constructor
    · rintro ⟨h1 | h1, h2⟩
      · exact ⟨h2, Or.inl h1⟩
      · rcases hf with hf | hf
        · exact ⟨h2, Or.inl hf⟩
        · exact ⟨h2, Or.inr ⟨hf, h1⟩⟩
    · rintro ⟨h2, h1 | ⟨-, h1⟩⟩
      · exact ⟨Or.inl h1, h2⟩
      · exact ⟨Or.inr h1, h2⟩
  refine ⟨_, heq, ?_, ?_⟩
  · intro hc
    rw [if_pos (hcond.mpr hc)]
    rfl
  · intro hc
    rw [if_neg (fun h => hc (hcond.mp h))]
    rfl


/-- Claim C11 (witness): during a resilver of a vdev that missed the txgs
50 to 60, the block born in txg 55 is read. -/
theorem scrub_cb_read_iff_witness :
    (pool_resilvering.dp_scan.scn_phys.scn_min_txg < BP_PHYSICAL_BIRTH (bp_born 55) ∧
      BP_PHYSICAL_BIRTH (bp_born 55) < pool_resilvering.dp_scan.scn_phys.scn_max_txg) ∧
    (pool_resilvering.dp_scan.scn_phys.scn_func = POOL_SCAN_SCRUB ∨
      pool_resilvering.dp_scan.scn_phys.scn_func = POOL_SCAN_RESILVER) ∧
    dvas_on_vdevs pool_resilvering.dp_spa.spa_root_vdev (scrub_cb_dva_list (bp_born 55)) ∧
    0 < pool_resilvering.dp_spa.spa_scrub_maxinflight ∧
    scrub_reads_accounted pool_resilvering ∧
    ∃ dp', dsl_scan_scrub_cb default_tunables pool_resilvering (bp_born 55) zb_block3 0 =
        some (0, dp') ∧
      dp'.dp_trace = pool_resilvering.dp_trace ++
        [effect.zio_read (scrub_cb_zio POOL_SCAN_RESILVER (bp_born 55) zb_block3 0)] :=
  ⟨by decide, by decide, by unfold dvas_on_vdevs; decide, by decide,
    by unfold scrub_reads_accounted; decide,
    (scrub_cb_read_iff default_tunables pool_resilvering (bp_born 55) zb_block3 0
      (by decide) (by decide) (by unfold dvas_on_vdevs; decide) (by decide)
      (by unfold scrub_reads_accounted; decide)).imp
      fun _ h => ⟨h.1, h.2.1 ⟨rfl, Or.inr ⟨rfl, bp_born_dva 55, by decide,
        Or.inr ⟨vdev_missed_50_60, rfl, by decide⟩⟩⟩⟩⟩

/-- Claim C12. `dsl_scan_scrub_cb` returns 0 whenever it returns.  For a block
inside the scan window it returns, and as long as the 64-bit counter does not
wrap it raises `scn_examined` by exactly the sum of the allocated sizes of
the DVAs it goes through, whatever the func and whether or not a read is
issued; for a block pointer whose allocated DVAs fill the slots from the front
this is the allocated size of all the DVAs of the block. -/
theorem scrub_cb_examined (tun : tunables) (dp : dsl_pool) (bp : blkptr) (zb : zbookmark)
    (io_error : Nat) :
    (∀ r, dsl_scan_scrub_cb tun dp bp zb io_error = some r → r.1 = 0) ∧
    (dp.dp_scan.scn_phys.scn_min_txg < BP_PHYSICAL_BIRTH bp ∧
        BP_PHYSICAL_BIRTH bp < dp.dp_scan.scn_phys.scn_max_txg →
      (dp.dp_scan.scn_phys.scn_func = POOL_SCAN_SCRUB ∨
        dp.dp_scan.scn_phys.scn_func = POOL_SCAN_RESILVER) →
      dvas_on_vdevs dp.dp_spa.spa_root_vdev (scrub_cb_dva_list bp) →
      0 < dp.dp_spa.spa_scrub_maxinflight →
      scrub_reads_accounted dp →
      dp.dp_scan.scn_phys.scn_examined + dvas_asize (scrub_cb_dva_list bp) < 2 ^ 64 →
      ∃ dp', dsl_scan_scrub_cb tun dp bp zb io_error = some (0, dp') ∧
        dp'.dp_scan.scn_phys.scn_examined =
          dp.dp_scan.scn_phys.scn_examined + dvas_asize (scrub_cb_dva_list bp) ∧
        (bp_dvas_packed bp →
          dp'.dp_scan.scn_phys.scn_examined =
            dp.dp_scan.scn_phys.scn_examined + BP_GET_ASIZE bp)) := by
  constructor
  · intro r h
    unfold dsl_scan_scrub_cb at h
    by_cases hw : BP_PHYSICAL_BIRTH bp ≤ dp.dp_scan.scn_phys.scn_min_txg ∨
        BP_PHYSICAL_BIRTH bp ≥ dp.dp_scan.scn_phys.scn_max_txg
    · rw [if_pos hw] at h
      cases h
      rfl
    · rw [if_neg hw] at h
      obtain ⟨m, -, h⟩ := Option.bind_eq_some.mp h
      obtain ⟨fl, pr, b⟩ := m
      obtain ⟨st, -, h⟩ := Option.bind_eq_some.mp h
      obtain ⟨ex, pe, nio⟩ := st
      by_cases hio : nio = true ∧ ¬ tun.zfs_no_scrub_io = true
      · simp only [hio, not_false_eq_true, and_self, if_true] at h
        obtain ⟨dp1, -, h⟩ := Option.map_eq_some'.mp h
        rw [← h]
      · simp only [hio, if_false] at h
        cases h
        rfl
  · intro hin hf hv hm hr hno
    obtain ⟨ex, pe, nio, n, zs, e, hst, -, heq⟩ :=
      scrub_cb_in_window tun dp bp zb io_error hin hf hv hm hr
    have hex := scrub_cb_dvas_examined_exact _ _ _ _ _ hst hno
    simp only at hex
    have hexam : ∀ dp', dp' = (if nio = true ∧ tun.zfs_no_scrub_io = false then
            scrub_cb_issued (with_scrub_progress (scrub_cb_counted dp bp ex pe) n zs e)
              (scrub_cb_zio dp.dp_scan.scn_phys.scn_func bp zb io_error)
          else scrub_cb_counted dp bp ex pe) → dp'.dp_scan.scn_phys.scn_examined = ex := by
      intro dp' h
      rw [h]
      split_ifs
      · rfl
      · rfl
    refine ⟨_, heq, ?_, ?_⟩
    · rw [hexam _ rfl, hex]
    · intro hp
      rw [hexam _ rfl, hex, dvas_asize_of_packed bp hp]

/-- Claim C12 (witness): the scrub of the txgs `(5, 100)` counts the 512
allocated bytes of the block born in txg 50. -/
theorem scrub_cb_examined_witness :
    (pool_scrub_from5.dp_scan.scn_phys.scn_min_txg < BP_PHYSICAL_BIRTH (bp_born 50) ∧
      BP_PHYSICAL_BIRTH (bp_born 50) < pool_scrub_from5.dp_scan.scn_phys.scn_max_txg) ∧
    (pool_scrub_from5.dp_scan.scn_phys.scn_func = POOL_SCAN_SCRUB ∨
      pool_scrub_from5.dp_scan.scn_phys.scn_func = POOL_SCAN_RESILVER) ∧
    dvas_on_vdevs pool_scrub_from5.dp_spa.spa_root_vdev (scrub_cb_dva_list (bp_born 50)) ∧
    0 < pool_scrub_from5.dp_spa.spa_scrub_maxinflight ∧
    scrub_reads_accounted pool_scrub_from5 ∧
    pool_scrub_from5.dp_scan.scn_phys.scn_examined +
      dvas_asize (scrub_cb_dva_list (bp_born 50)) < 2 ^ 64 ∧
    bp_dvas_packed (bp_born 50) ∧
    ∃ dp', dsl_scan_scrub_cb default_tunables pool_scrub_from5 (bp_born 50) zb_block3 0 =
        some (0, dp') ∧
      dp'.dp_scan.scn_phys.scn_examined =
        pool_scrub_from5.dp_scan.scn_phys.scn_examined + BP_GET_ASIZE (bp_born 50) :=
  ⟨by decide, by decide, by unfold dvas_on_vdevs; decide, by decide,
    by unfold scrub_reads_accounted; decide, by decide, by unfold bp_dvas_packed; decide,
    ((scrub_cb_examined default_tunables pool_scrub_from5 (bp_born 50) zb_block3 0).2
      (by decide) (by decide) (by unfold dvas_on_vdevs; decide) (by decide)
      (by unfold scrub_reads_accounted; decide) (by decide)).imp
      fun _ h => ⟨h.1, h.2.2 (by unfold bp_dvas_packed; decide)⟩⟩

/-! ### The maximum txg of a dataset -/

/-- Claim C20 (as stated, refuted): the scan ends at `max_txg = 100`; for a
snapshot created in txg 150 `dsl_scan_ds_maxtxg` returns 100, not the txg of
creation. -/
theorem ds_maxtxg_snapshot_counterexample :
    dsl_dataset_is_snapshot ds_snapshot9 = true ∧
      ds_snapshot9.ds_creation_txg > pool_scrubbing.dp_scan.scn_phys.scn_max_txg ∧
      dsl_scan_ds_maxtxg pool_scrubbing ds_snapshot9 = 100 ∧
      dsl_scan_ds_maxtxg pool_scrubbing ds_snapshot9 ≠ ds_snapshot9.ds_creation_txg := by
  decide

/-- Claim C20 (amended): for a snapshot `dsl_scan_ds_maxtxg` returns the
smaller of the scan's `max_txg` and the creation txg of the snapshot: the
scan's `max_txg` when the creation txg exceeds it, the creation txg when it
does not. -/
theorem ds_maxtxg_snapshot (dp : dsl_pool) (ds : dsl_dataset)
    (h : dsl_dataset_is_snapshot ds = true) :
    dsl_scan_ds_maxtxg dp ds = min dp.dp_scan.scn_phys.scn_max_txg ds.ds_creation_txg ∧
      (ds.ds_creation_txg > dp.dp_scan.scn_phys.scn_max_txg →
        dsl_scan_ds_maxtxg dp ds = dp.dp_scan.scn_phys.scn_max_txg) ∧
      (ds.ds_creation_txg ≤ dp.dp_scan.scn_phys.scn_max_txg →
        dsl_scan_ds_maxtxg dp ds = ds.ds_creation_txg) := by
  have e : dsl_scan_ds_maxtxg dp ds =
      min dp.dp_scan.scn_phys.scn_max_txg ds.ds_creation_txg := by
    unfold dsl_scan_ds_maxtxg
    rw [if_pos h]
  refine ⟨e, fun hc => ?_, fun hc => ?_⟩
  · rw [e]
    exact Nat.min_eq_left (Nat.le_of_lt hc)
  · rw [e]
    exact Nat.min_eq_right hc

/-- Claim C20 (witness): the snapshot created in txg 150 of a pool scanned up
to txg 100. -/
theorem ds_maxtxg_snapshot_witness :
    dsl_dataset_is_snapshot ds_snapshot9 = true ∧
      dsl_scan_ds_maxtxg pool_scrubbing ds_snapshot9 =
        min pool_scrubbing.dp_scan.scn_phys.scn_max_txg ds_snapshot9.ds_creation_txg :=
  ⟨by decide, (ds_maxtxg_snapshot pool_scrubbing ds_snapshot9 (by decide)).1⟩


/-! ### The work queue -/

/-- Looking a key up in an association list where the value of `obj` has been
replaced. -/
theorem lookup_map_set {β : Type} (obj obj' : Nat) (es : β) (l : List (Nat × β)) :
    (l.map fun e => if e.1 = obj then (obj, es) else e).lookup obj' =
      if obj' = obj then (l.lookup obj).map (fun _ => es) else l.lookup obj' := by
  induction l with
  | nil => simp
  | cons a l ih =>
    obtain ⟨ak, av⟩ := a
    rw [List.map_cons]
    by_cases ha : ak = obj
    · subst ha
      rw [if_pos rfl, List.lookup_cons, List.lookup_cons]
      by_cases ho : obj' = ak
      · subst ho
        simp
      · have h1 : (obj' == ak) = false := by simpa using ho
        rw [h1, if_neg ho, List.lookup_cons, h1]
        rw [if_neg ho] at ih
        exact ih
    · rw [if_neg ha, List.lookup_cons, ih]
      have h3 : (obj == ak) = false := by simpa using fun h : obj = ak => ha h.symm
      by_cases ho : obj' = ak
      · subst ho
        have hne : ¬ obj' = obj := ha
        simp [hne]
      · have h1 : (obj' == ak) = false := by simpa using ho
        rw [h1, List.lookup_cons, List.lookup_cons, h1, h3]

/-- A key other than the one filtered out is found as before. -/
theorem lookup_filter_other {β : Type} (k k' : Nat) (l : List (Nat × β)) (h : k' ≠ k) :
    (l.filter (fun e => decide (e.1 ≠ k))).lookup k' = l.lookup k' := by
  induction l with
  | nil => rfl
  | cons a l ih =>
    obtain ⟨ak, av⟩ := a
    by_cases hk : ak = k
    · subst hk
      have hk' : (k' == ak) = false := by simpa using h
      simp only [List.filter, ne_eq, not_true_eq_false, decide_False, List.lookup_cons, hk']
      exact ih
    · simp only [List.filter, ne_eq, hk, not_false_eq_true, decide_True, List.lookup_cons]
      rw [ih]

/-- Looking a key up behind an appended entry. -/
theorem lookup_append_entry {β : Type} (k k' : Nat) (v : β) (l : List (Nat × β)) :
    (l ++ [(k, v)]).lookup k' =
      match l.lookup k' with
      | some x => some x
      | none => if k' = k then some v else none := by
  induction l with
  | nil =>
    by_cases h : k' = k
    · simp [List.lookup, h]
    · have : (k' == k) = false := by simpa using h
      simp [List.lookup, h, this]
  | cons a l ih =>
    obtain ⟨ak, av⟩ := a
    simp only [List.cons_append, List.lookup_cons]
    cases hb : (k' == ak) with
    | true => rfl
    | false => exact ih

/-- The entries of a ZAP object after `zap_set_entries`. -/
theorem zap_set_entries_lookup (os : objset) (obj obj' : Nat) (es : List (Nat × Nat)) :
    (zap_set_entries os obj es).os_zaps.lookup obj' =
      if obj' = obj then (os.os_zaps.lookup obj).map (fun _ => es)
      else os.os_zaps.lookup obj' :=
  lookup_map_set obj obj' es os.os_zaps

/-- A key that `zap_lookup_int_key` finds is removed by `zap_remove_int`. -/
theorem zap_remove_int_ok (os : objset) (obj key v : Nat)
    (h : zap_lookup_int_key os obj key = Except.ok v) : (zap_remove_int os obj key).1 = 0 := by
  unfold zap_lookup_int_key at h
  unfold zap_remove_int
  cases ho : os.os_zaps.lookup obj with
  | none => simp [ho] at h
  | some es =>
    simp only [ho] at h ⊢
    cases hk : es.lookup key with
    | none => simp [hk] at h
    | some w => rfl

/-- The work queue after a `zap_remove_int` that returned 0. -/
theorem zap_remove_int_lookup (os : objset) (obj key key' : Nat)
    (h : (zap_remove_int os obj key).1 = 0) :
    zap_lookup_int_key (zap_remove_int os obj key).2 obj key' =
      if key' = key then Except.error ENOENT else zap_lookup_int_key os obj key' := by
  unfold zap_remove_int at h ⊢
  unfold zap_lookup_int_key
  cases ho : os.os_zaps.lookup obj with
  | none => simp [ho, ENOENT] at h
  | some es =>
    simp only [ho] at h ⊢
    cases hk : es.lookup key with
    | none => simp [hk, ENOENT] at h
    | some w =>
      simp only [zap_set_entries_lookup, if_true, ho, Option.map_some']
      by_cases hkk : key' = key
      · subst hkk
        rw [lookup_filter_ne, if_pos rfl]
      · rw [lookup_filter_other _ _ _ hkk, if_neg hkk]

/-- The error of `zap_add_int_key`: 0 for a key that is not in an allocated
object, `EEXIST` for one that is in it. -/
theorem zap_add_int_key_err (os : objset) (obj key value : Nat) :
    (∀ e, zap_lookup_int_key os obj key = Except.error e →
        (os.os_zaps.lookup obj).isSome = true → (zap_add_int_key os obj key value).1 = 0) ∧
      (∀ v, zap_lookup_int_key os obj key = Except.ok v →
        zap_add_int_key os obj key value = (EEXIST, os)) := by
  unfold zap_lookup_int_key zap_add_int_key
  cases ho : os.os_zaps.lookup obj with
  | none => simp
  | some es =>
    cases hk : es.lookup key with
    | none => simp [hk]
    | some w => simp [hk]

/-- The work queue after a `zap_add_int_key` that returned 0. -/
theorem zap_add_int_key_lookup (os : objset) (obj key value key' : Nat)
    (h : (zap_add_int_key os obj key value).1 = 0) :
    zap_lookup_int_key (zap_add_int_key os obj key value).2 obj key' =
      if key' = key then Except.ok value else zap_lookup_int_key os obj key' := by
  unfold zap_add_int_key at h ⊢
  unfold zap_lookup_int_key
  cases ho : os.os_zaps.lookup obj with
  | none => simp [ho, ENOENT] at h
  | some es =>
    simp only [ho] at h ⊢
    cases hk : es.lookup key with
    | some w => simp [hk, EEXIST] at h
    | none =>
      simp only [zap_set_entries_lookup, if_true, ho, Option.map_some', lookup_append_entry]
      by_cases hkk : key' = key
      · subst hkk
        simp [hk]
      · simp only [hkk, if_false]
        cases es.lookup key' <;> rfl

/-- The ZAP objects stay allocated through `zap_remove_int`. -/
theorem zap_remove_int_isSome (os : objset) (obj key obj' : Nat) :
    ((zap_remove_int os obj key).2.os_zaps.lookup obj').isSome =
      (os.os_zaps.lookup obj').isSome := by
  unfold zap_remove_int
  cases ho : os.os_zaps.lookup obj with
  | none => rfl
  | some es =>
    cases hk : es.lookup key with
    | none => simp only [hk]
    | some w =>
      simp only [hk, zap_set_entries_lookup]
      by_cases h : obj' = obj
      · subst h
        simp [ho]
      · simp [h]

/-- A key is looked up in an allocated object only. -/
theorem zap_lookup_int_key_isSome (os : objset) (obj key v : Nat)
    (h : zap_lookup_int_key os obj key = Except.ok v) :
    (os.os_zaps.lookup obj).isSome = true := by
  unfold zap_lookup_int_key at h
  cases ho : os.os_zaps.lookup obj with
  | none => simp [ho] at h
  | some es => rfl

/-- Persisting the scan record leaves the work queue alone. -/
theorem sync_state_lookup_int_key (dp : dsl_pool) (obj key : Nat) :
    zap_lookup_int_key (dsl_scan_sync_state dp).dp_meta_objset obj key =
      zap_lookup_int_key dp.dp_meta_objset obj key := rfl

/-- Persisting the scan record leaves the scan record alone. -/
theorem sync_state_scan (dp : dsl_pool) : (dsl_scan_sync_state dp).dp_scan = dp.dp_scan := rfl


/-- The only error of `zap_lookup_int_key` is `ENOENT`. -/
theorem zap_lookup_int_key_error (os : objset) (obj key e : Nat)
    (h : zap_lookup_int_key os obj key = Except.error e) : e = ENOENT := by
  unfold zap_lookup_int_key at h
  cases ho : os.os_zaps.lookup obj with
  | none =>
    simp only [ho] at h
    cases h
    rfl
  | some es =>
    simp only [ho] at h
    cases hk : es.lookup key with
    | none =>
      simp only [hk] at h
      cases h
      rfl
    | some w => simp [hk] at h

/-- The flag `DSF_VISIT_DS_AGAIN` is set in `flags | DSF_VISIT_DS_AGAIN`. -/
theorem visit_ds_again_set (flags : Nat) :
    (flags ||| DSF_VISIT_DS_AGAIN) &&& DSF_VISIT_DS_AGAIN = DSF_VISIT_DS_AGAIN := by
  apply Nat.eq_of_testBit_eq
  intro i
  simp only [Nat.testBit_land, Nat.testBit_lor]
  cases Nat.testBit flags i <;> cases Nat.testBit DSF_VISIT_DS_AGAIN i <;> rfl

/-! ### Destruction of a dataset -/

/-- Claim C16. While the scan is SCANNING with the bookmark in the dataset
`ds`, `dsl_scan_ds_destroyed` returns; for a snapshot it moves the objset of
the bookmark to the successor snapshot `ds_next_snap_obj`, sets
`DSF_VISIT_DS_AGAIN` and leaves `scn_cur_min_txg`, `scn_cur_max_txg` and the
object, level and blkid of the bookmark as they are; for any other dataset it
sets the bookmark to `<ZB_DESTROYED_OBJSET, 0, 0, 0>`. -/
theorem ds_destroyed_current (dp : dsl_pool) (ds : dsl_dataset) (tx : dmu_tx)
    (hs : dp.dp_scan.scn_phys.scn_state = DSS_SCANNING)
    (hb : dp.dp_scan.scn_phys.scn_bookmark.zb_objset = ds.ds_object) :
    ∃ dp', dsl_scan_ds_destroyed dp ds tx = some dp' ∧
      (dsl_dataset_is_snapshot ds = true →
        dp'.dp_scan.scn_phys.scn_bookmark.zb_objset = ds.ds_next_snap_obj ∧
        dp'.dp_scan.scn_phys.scn_flags =
          dp.dp_scan.scn_phys.scn_flags ||| DSF_VISIT_DS_AGAIN ∧
        dp'.dp_scan.scn_phys.scn_flags &&& DSF_VISIT_DS_AGAIN = DSF_VISIT_DS_AGAIN ∧
        dp'.dp_scan.scn_phys.scn_cur_min_txg = dp.dp_scan.scn_phys.scn_cur_min_txg ∧
        dp'.dp_scan.scn_phys.scn_cur_max_txg = dp.dp_scan.scn_phys.scn_cur_max_txg ∧
        dp'.dp_scan.scn_phys.scn_bookmark.zb_object =
          dp.dp_scan.scn_phys.scn_bookmark.zb_object ∧
        dp'.dp_scan.scn_phys.scn_bookmark.zb_level =
          dp.dp_scan.scn_phys.scn_bookmark.zb_level ∧
        dp'.dp_scan.scn_phys.scn_bookmark.zb_blkid =
          dp.dp_scan.scn_phys.scn_bookmark.zb_blkid) ∧
      (dsl_dataset_is_snapshot ds = false →
        dp'.dp_scan.scn_phys.scn_bookmark =
          { zb_objset := ZB_DESTROYED_OBJSET, zb_object := 0, zb_level := 0, zb_blkid := 0 }) := by
  have hs' : ¬ dp.dp_scan.scn_phys.scn_state ≠ DSS_SCANNING := fun h => h hs
  unfold dsl_scan_ds_destroyed
  simp only [hs', if_false, hb, if_true]
  cases hsn : dsl_dataset_is_snapshot ds with
  | true =>
    refine ⟨_, rfl, fun _ => ⟨rfl, rfl, visit_ds_again_set _, rfl, rfl, rfl, rfl, rfl⟩, ?_⟩
    intro h
    cases h
  | false =>
    refine ⟨_, rfl, ?_, fun _ => rfl⟩
    intro h
    cases h

/-- Claim C16 (witness): the scan is paused inside the snapshot 9, whose
successor is the snapshot 12. -/
theorem ds_destroyed_current_witness :
    pool_visiting9.dp_scan.scn_phys.scn_state = DSS_SCANNING ∧
    pool_visiting9.dp_scan.scn_phys.scn_bookmark.zb_objset = ds_snapshot9.ds_object ∧
    dsl_dataset_is_snapshot ds_snapshot9 = true ∧
    ∃ dp', dsl_scan_ds_destroyed pool_visiting9 ds_snapshot9 { tx_txg := 60 } = some dp' ∧
      dp'.dp_scan.scn_phys.scn_bookmark.zb_objset = 12 :=
  ⟨by decide, by decide, by decide,
    (ds_destroyed_current pool_visiting9 ds_snapshot9 { tx_txg := 60 } (by decide)
      (by decide)).imp fun _ h => ⟨h.1, (h.2.1 (by decide)).1⟩⟩


/-- Claim C15. While the scan is SCANNING and the work queue maps `ds` to
`mintxg`, `dsl_scan_ds_destroyed` returns, the queue no longer contains `ds`,
and for a snapshot the queue maps the successor `ds_next_snap_obj` to
`mintxg`.  The dataset waits in the queue, so the scan is not inside it (the
bookmark is in another dataset: `dsl_scan_visit` takes a dataset out of the
queue before it visits it), and the successor of a snapshot is another dataset
that is not in the queue yet, as the `VERIFY` on `zap_add_int_key` demands. -/
theorem ds_destroyed_queue (dp : dsl_pool) (ds : dsl_dataset) (tx : dmu_tx) (mintxg : Nat)
    (hs : dp.dp_scan.scn_phys.scn_state = DSS_SCANNING)
    (hq : zap_lookup_int_key dp.dp_meta_objset dp.dp_scan.scn_phys.scn_queue_obj
      ds.ds_object = Except.ok mintxg)
    (hb : dp.dp_scan.scn_phys.scn_bookmark.zb_objset ≠ ds.ds_object)
    (hn : dsl_dataset_is_snapshot ds = true →
      ds.ds_next_snap_obj ≠ ds.ds_object ∧
      zap_lookup_int_key dp.dp_meta_objset dp.dp_scan.scn_phys.scn_queue_obj
        ds.ds_next_snap_obj = Except.error ENOENT) :
    ∃ dp', dsl_scan_ds_destroyed dp ds tx = some dp' ∧
      dp'.dp_scan.scn_phys.scn_queue_obj = dp.dp_scan.scn_phys.scn_queue_obj ∧
      zap_lookup_int_key dp'.dp_meta_objset dp'.dp_scan.scn_phys.scn_queue_obj
        ds.ds_object = Except.error ENOENT ∧
      (dsl_dataset_is_snapshot ds = true →
        zap_lookup_int_key dp'.dp_meta_objset dp'.dp_scan.scn_phys.scn_queue_obj
          ds.ds_next_snap_obj = Except.ok mintxg) := by
  have hs' : ¬ dp.dp_scan.scn_phys.scn_state ≠ DSS_SCANNING := fun h => h hs
  have hrm := zap_remove_int_ok _ _ _ _ hq
  have hrl := zap_remove_int_lookup dp.dp_meta_objset dp.dp_scan.scn_phys.scn_queue_obj
    ds.ds_object
  unfold dsl_scan_ds_destroyed
  simp only [hs', if_false, hb, hq, hrm, ne_eq, not_true_eq_false]
  cases hsn : dsl_dataset_is_snapshot ds with
  | false =>
    simp only [Bool.false_eq_true, if_false, Option.map_some']
    refine ⟨_, rfl, rfl, ?_, fun h => by cases h⟩
    rw [sync_state_lookup_int_key]
    simp only [sync_state_scan]
    rw [hrl _ hrm, if_pos rfl]
  | true =>
    obtain ⟨hne, hnq⟩ := hn hsn
    have hnq' : zap_lookup_int_key
        (zap_remove_int dp.dp_meta_objset dp.dp_scan.scn_phys.scn_queue_obj ds.ds_object).2
        dp.dp_scan.scn_phys.scn_queue_obj ds.ds_next_snap_obj = Except.error ENOENT := by
      rw [hrl _ hrm, if_neg hne, hnq]
    have hsome : ((zap_remove_int dp.dp_meta_objset dp.dp_scan.scn_phys.scn_queue_obj
        ds.ds_object).2.os_zaps.lookup dp.dp_scan.scn_phys.scn_queue_obj).isSome = true := by
      rw [zap_remove_int_isSome]
      exact zap_lookup_int_key_isSome _ _ _ _ hq
    have had := (zap_add_int_key_err _ _ _ mintxg).1 _ hnq' hsome
    have hal := zap_add_int_key_lookup _ _ _ _ (ds.ds_object) had
    have hal' := zap_add_int_key_lookup _ _ _ _ (ds.ds_next_snap_obj) had
    simp only [if_true, had, ne_eq, not_true_eq_false, if_false, Option.map_some']
    refine ⟨_, rfl, rfl, ?_, fun _ => ?_⟩
    · rw [sync_state_lookup_int_key]
      simp only [sync_state_scan]
      rw [hal, if_neg (fun h => hne h.symm), hrl _ hrm, if_pos rfl]
    · rw [sync_state_lookup_int_key]
      simp only [sync_state_scan]
      rw [hal', if_pos rfl]

/-- Claim C15 (witness): the snapshot 9 waits in the work queue with
`mintxg = 5` while the scan is in another dataset; its successor 12 takes its
place. -/
theorem ds_destroyed_queue_witness :
    pool_queued9.dp_scan.scn_phys.scn_state = DSS_SCANNING ∧
    zap_lookup_int_key pool_queued9.dp_meta_objset
      pool_queued9.dp_scan.scn_phys.scn_queue_obj ds_snapshot9.ds_object = Except.ok 5 ∧
    pool_queued9.dp_scan.scn_phys.scn_bookmark.zb_objset ≠ ds_snapshot9.ds_object ∧
    dsl_dataset_is_snapshot ds_snapshot9 = true ∧
    ds_snapshot9.ds_next_snap_obj ≠ ds_snapshot9.ds_object ∧
    ∃ dp', dsl_scan_ds_destroyed pool_queued9 ds_snapshot9 { tx_txg := 60 } = some dp' ∧
      zap_lookup_int_key dp'.dp_meta_objset dp'.dp_scan.scn_phys.scn_queue_obj
        ds_snapshot9.ds_object = Except.error ENOENT ∧
      zap_lookup_int_key dp'.dp_meta_objset dp'.dp_scan.scn_phys.scn_queue_obj
        ds_snapshot9.ds_next_snap_obj = Except.ok 5 :=
  ⟨by decide, rfl, by decide, by decide, by decide,
    (ds_destroyed_queue pool_queued9 ds_snapshot9 { tx_txg := 60 } 5 (by decide) rfl
      (by decide) (fun _ => ⟨by decide, rfl⟩)).imp
      fun _ h => ⟨h.1, h.2.2.1, h.2.2.2 (by decide)⟩⟩


/-! ### Swap of a clone with its origin head -/

/-- Claim C17. While the scan is SCANNING `dsl_scan_ds_clone_swapped` returns.
A bookmark in `ds1` moves to `ds2` and a bookmark in `ds2` moves to `ds1`
(object, level and blkid stay).  When exactly one of the two datasets is in
the work queue its entry is replaced by an entry for the other one with the
same `mintxg`; when both are in the queue both stay, each with its value;
the entries of other datasets are left alone. -/
theorem clone_swapped_swaps (dp : dsl_pool) (ds1 ds2 : dsl_dataset) (tx : dmu_tx)
    (hs : dp.dp_scan.scn_phys.scn_state = DSS_SCANNING) :
    ∃ dp', dsl_scan_ds_clone_swapped dp ds1 ds2 tx = some dp' ∧
      dp'.dp_scan.scn_phys.scn_queue_obj = dp.dp_scan.scn_phys.scn_queue_obj ∧
      (dp.dp_scan.scn_phys.scn_bookmark.zb_objset = ds1.ds_object →
        dp'.dp_scan.scn_phys.scn_bookmark =
          { dp.dp_scan.scn_phys.scn_bookmark with zb_objset := ds2.ds_object }) ∧
      (dp.dp_scan.scn_phys.scn_bookmark.zb_objset = ds2.ds_object →
        dp'.dp_scan.scn_phys.scn_bookmark =
          { dp.dp_scan.scn_phys.scn_bookmark with zb_objset := ds1.ds_object }) ∧
      (dp.dp_scan.scn_phys.scn_bookmark.zb_objset ≠ ds1.ds_object →
        dp.dp_scan.scn_phys.scn_bookmark.zb_objset ≠ ds2.ds_object →
        dp'.dp_scan.scn_phys.scn_bookmark = dp.dp_scan.scn_phys.scn_bookmark) ∧
      (∀ m, zap_lookup_int_key dp.dp_meta_objset dp.dp_scan.scn_phys.scn_queue_obj
            ds1.ds_object = Except.ok m →
          zap_lookup_int_key dp.dp_meta_objset dp.dp_scan.scn_phys.scn_queue_obj
            ds2.ds_object = Except.error ENOENT →
          zap_lookup_int_key dp'.dp_meta_objset dp.dp_scan.scn_phys.scn_queue_obj
            ds1.ds_object = Except.error ENOENT ∧
          zap_lookup_int_key dp'.dp_meta_objset dp.dp_scan.scn_phys.scn_queue_obj
            ds2.ds_object = Except.ok m) ∧
      (∀ m, zap_lookup_int_key dp.dp_meta_objset dp.dp_scan.scn_phys.scn_queue_obj
            ds2.ds_object = Except.ok m →
          zap_lookup_int_key dp.dp_meta_objset dp.dp_scan.scn_phys.scn_queue_obj
            ds1.ds_object = Except.error ENOENT →
          zap_lookup_int_key dp'.dp_meta_objset dp.dp_scan.scn_phys.scn_queue_obj
            ds2.ds_object = Except.error ENOENT ∧
          zap_lookup_int_key dp'.dp_meta_objset dp.dp_scan.scn_phys.scn_queue_obj
            ds1.ds_object = Except.ok m) ∧
      (∀ m1 m2, zap_lookup_int_key dp.dp_meta_objset dp.dp_scan.scn_phys.scn_queue_obj
            ds1.ds_object = Except.ok m1 →
          zap_lookup_int_key dp.dp_meta_objset dp.dp_scan.scn_phys.scn_queue_obj
            ds2.ds_object = Except.ok m2 →
          zap_lookup_int_key dp'.dp_meta_objset dp.dp_scan.scn_phys.scn_queue_obj
            ds1.ds_object = Except.ok m1 ∧
          zap_lookup_int_key dp'.dp_meta_objset dp.dp_scan.scn_phys.scn_queue_obj
            ds2.ds_object = Except.ok m2) ∧
      (∀ k, k ≠ ds1.ds_object → k ≠ ds2.ds_object →
          zap_lookup_int_key dp'.dp_meta_objset dp.dp_scan.scn_phys.scn_queue_obj k =
            zap_lookup_int_key dp.dp_meta_objset dp.dp_scan.scn_phys.scn_queue_obj k) := by
  have hs' : ¬ dp.dp_scan.scn_phys.scn_state ≠ DSS_SCANNING := fun h => h hs
  -- the bookmark
  have hbm : ∀ zb : zbookmark, ∀ o1 o2 : Nat,
      (zb.zb_objset = o1 →
        (if zb.zb_objset = o1 then { zb with zb_objset := o2 }
          else if zb.zb_objset = o2 then { zb with zb_objset := o1 } else zb) =
          { zb with zb_objset := o2 }) ∧
      (zb.zb_objset = o2 →
        (if zb.zb_objset = o1 then { zb with zb_objset := o2 }
          else if zb.zb_objset = o2 then { zb with zb_objset := o1 } else zb) =
          { zb with zb_objset := o1 }) ∧
      (zb.zb_objset ≠ o1 → zb.zb_objset ≠ o2 →
        (if zb.zb_objset = o1 then { zb with zb_objset := o2 }
          else if zb.zb_objset = o2 then { zb with zb_objset := o1 } else zb) = zb) := by
    intro zb o1 o2
    refine ⟨fun h => by rw [if_pos h], fun h => ?_, fun h1 h2 => by rw [if_neg h1, if_neg h2]⟩
    by_cases h1 : zb.zb_objset = o1
    · rw [if_pos h1]
      have : o1 = o2 := h1.symm.trans h
      rw [this]
    · rw [if_neg h1, if_pos h]
  obtain ⟨hb1, hb2, hb3⟩ := hbm dp.dp_scan.scn_phys.scn_bookmark ds1.ds_object ds2.ds_object
  unfold dsl_scan_ds_clone_swapped
  simp only [hs', if_false]
  cases h1 : zap_lookup_int_key dp.dp_meta_objset dp.dp_scan.scn_phys.scn_queue_obj
      ds1.ds_object with
  | ok m1 =>
    have hrm := zap_remove_int_ok _ _ _ _ h1
    have hrl := zap_remove_int_lookup dp.dp_meta_objset dp.dp_scan.scn_phys.scn_queue_obj
      ds1.ds_object
    have hsome : ((zap_remove_int dp.dp_meta_objset dp.dp_scan.scn_phys.scn_queue_obj
        ds1.ds_object).2.os_zaps.lookup dp.dp_scan.scn_phys.scn_queue_obj).isSome = true := by
      rw [zap_remove_int_isSome]
      exact zap_lookup_int_key_isSome _ _ _ _ h1
    simp only [hrm, ne_eq, not_true_eq_false, if_false]
    cases h2 : zap_lookup_int_key
        (zap_remove_int dp.dp_meta_objset dp.dp_scan.scn_phys.scn_queue_obj ds1.ds_object).2
        dp.dp_scan.scn_phys.scn_queue_obj ds2.ds_object with
    | error e =>
      -- `ds2` is not in the queue (or is `ds1` itself): the entry moves
      have had := (zap_add_int_key_err _ _ _ m1).1 _ h2 hsome
      have hal := fun k => zap_add_int_key_lookup _ _ _ _ k had
      have hnE : ¬ (0 : Nat) = EEXIST := by decide
      simp only [had, true_or, not_true_eq_false, if_false, hnE, Option.map_some']
      refine ⟨_, rfl, rfl, hb1, hb2, hb3, ?_, ?_, ?_, ?_⟩
      · intro m hm hn
        cases hm
        have hne : ds1.ds_object ≠ ds2.ds_object := by
          intro h
          rw [← h, h1] at hn
          cases hn
        rw [sync_state_lookup_int_key]
        constructor
        · show zap_lookup_int_key (zap_add_int_key _ _ _ _).2 _ _ = _
          rw [hal, if_neg hne, hrl _ hrm, if_pos rfl]
        · show zap_lookup_int_key (zap_add_int_key _ _ _ _).2 _ _ = _
          rw [hal, if_pos rfl]
      · intro m hm hn
        try rw [h1] at hn
        cases hn
      · intro m1' m2 hm1 hm2
        cases hm1
        by_cases hne : ds2.ds_object = ds1.ds_object
        · rw [hne, h1] at hm2
          cases hm2
          rw [sync_state_lookup_int_key]
          have : ∀ k, k = ds1.ds_object → zap_lookup_int_key
              (zap_add_int_key (zap_remove_int dp.dp_meta_objset
                dp.dp_scan.scn_phys.scn_queue_obj ds1.ds_object).2
                dp.dp_scan.scn_phys.scn_queue_obj ds2.ds_object m1).2
              dp.dp_scan.scn_phys.scn_queue_obj k = Except.ok m1 := by
            intro k hk
            rw [hal, if_pos (hk.trans hne.symm)]
          exact ⟨this _ rfl, this _ hne⟩
        · rw [hrl _ hrm, if_neg hne, hm2] at h2
          cases h2
      · intro k hk1 hk2
        rw [sync_state_lookup_int_key]
        show zap_lookup_int_key (zap_add_int_key _ _ _ _).2 _ _ = _
        rw [hal, if_neg hk2, hrl _ hrm, if_neg hk1]
    | ok m2 =>
      -- both were in the queue: `ds1` is put back
      have hne : ds2.ds_object ≠ ds1.ds_object := by
        intro h
        rw [hrl _ hrm, if_pos h] at h2
        cases h2
      have h2' : zap_lookup_int_key dp.dp_meta_objset dp.dp_scan.scn_phys.scn_queue_obj
          ds2.ds_object = Except.ok m2 := by
        rw [hrl _ hrm, if_neg hne] at h2
        exact h2
      have hex := (zap_add_int_key_err _ _ _ m1).2 _ h2
      have h1r : zap_lookup_int_key
          (zap_remove_int dp.dp_meta_objset dp.dp_scan.scn_phys.scn_queue_obj ds1.ds_object).2
          dp.dp_scan.scn_phys.scn_queue_obj ds1.ds_object = Except.error ENOENT := by
        rw [hrl _ hrm, if_pos rfl]
      have had := (zap_add_int_key_err _ _ _ m1).1 _ h1r hsome
      have hal := fun k => zap_add_int_key_lookup _ _ _ _ k had
      have hE : ¬ (EEXIST = 0) := by decide
      simp only [hex, hE, false_or, not_true_eq_false, if_false, if_true, had, ne_eq,
        Option.map_some']
      refine ⟨_, rfl, rfl, hb1, hb2, hb3, ?_, ?_, ?_, ?_⟩
      · intro m hm hn
        rw [h2'] at hn
        cases hn
      · intro m hm hn
        try rw [h1] at hn
        cases hn
      · intro m1' m2' hm1 hm2
        cases hm1
        rw [h2'] at hm2
        cases hm2
        rw [sync_state_lookup_int_key]
        constructor
        · show zap_lookup_int_key (zap_add_int_key _ _ _ _).2 _ _ = _
          rw [hal, if_pos rfl]
        · show zap_lookup_int_key (zap_add_int_key _ _ _ _).2 _ _ = _
          rw [hal, if_neg hne, h2]
      · intro k hk1 hk2
        rw [sync_state_lookup_int_key]
        show zap_lookup_int_key (zap_add_int_key _ _ _ _).2 _ _ = _
        rw [hal, if_neg hk1, hrl _ hrm, if_neg hk1]
  | error e1 =>
    have he1 := zap_lookup_int_key_error _ _ _ _ h1
    subst he1
    simp only []
    cases h2 : zap_lookup_int_key dp.dp_meta_objset dp.dp_scan.scn_phys.scn_queue_obj
        ds2.ds_object with
    | error e2 =>
      simp only [Option.map_some']
      refine ⟨_, rfl, rfl, hb1, hb2, hb3, ?_, ?_, ?_, fun k _ _ => rfl⟩
      · intro m hm
        cases hm
      · intro m hm
        cases hm
      · intro m1 m2 hm
        cases hm
    | ok m2 =>
      have hrm := zap_remove_int_ok _ _ _ _ h2
      have hrl := zap_remove_int_lookup dp.dp_meta_objset dp.dp_scan.scn_phys.scn_queue_obj
        ds2.ds_object
      have hsome : ((zap_remove_int dp.dp_meta_objset dp.dp_scan.scn_phys.scn_queue_obj
          ds2.ds_object).2.os_zaps.lookup dp.dp_scan.scn_phys.scn_queue_obj).isSome = true := by
        rw [zap_remove_int_isSome]
        exact zap_lookup_int_key_isSome _ _ _ _ h2
      have hne : ds1.ds_object ≠ ds2.ds_object := by
        intro h
        rw [h, h2] at h1
        cases h1
      have h1r : zap_lookup_int_key
          (zap_remove_int dp.dp_meta_objset dp.dp_scan.scn_phys.scn_queue_obj ds2.ds_object).2
          dp.dp_scan.scn_phys.scn_queue_obj ds1.ds_object = Except.error ENOENT := by
        rw [hrl _ hrm, if_neg hne, h1]
      have had := (zap_add_int_key_err _ _ _ m2).1 _ h1r hsome
      have hal := fun k => zap_add_int_key_lookup _ _ _ _ k had
      simp only [hrm, had, ne_eq, not_true_eq_false, if_false, Option.map_some']
      refine ⟨_, rfl, rfl, hb1, hb2, hb3, ?_, ?_, ?_, ?_⟩
      · intro m hm
        cases hm
      · intro m hm _
        cases hm
        rw [sync_state_lookup_int_key]
        constructor
        · show zap_lookup_int_key (zap_add_int_key _ _ _ _).2 _ _ = _
          rw [hal, if_neg (fun h => hne h.symm), hrl _ hrm, if_pos rfl]
        · show zap_lookup_int_key (zap_add_int_key _ _ _ _).2 _ _ = _
          rw [hal, if_pos rfl]
      · intro m1 m2' hm
        cases hm
      · intro k hk1 hk2
        rw [sync_state_lookup_int_key]
        show zap_lookup_int_key (zap_add_int_key _ _ _ _).2 _ _ = _
        rw [hal, if_neg hk1, hrl _ hrm, if_neg hk2]


/-- Claim C17 (witness): the dataset 9 waits in the work queue with
`mintxg = 5` and is swapped with the dataset 11, which is not in the queue:
afterwards 11 waits in the queue with `mintxg = 5`. -/
theorem clone_swapped_swaps_witness :
    pool_queued9.dp_scan.scn_phys.scn_state = DSS_SCANNING ∧
    ∃ dp', dsl_scan_ds_clone_swapped pool_queued9 ds_head9 ds_head11 { tx_txg := 60 } =
        some dp' ∧
      zap_lookup_int_key dp'.dp_meta_objset pool_queued9.dp_scan.scn_phys.scn_queue_obj
        ds_head9.ds_object = Except.error ENOENT ∧
      zap_lookup_int_key dp'.dp_meta_objset pool_queued9.dp_scan.scn_phys.scn_queue_obj
        ds_head11.ds_object = Except.ok 5 :=
  ⟨by decide,
    (clone_swapped_swaps pool_queued9 ds_head9 ds_head11 { tx_txg := 60 } (by decide)).imp
      fun _ h => ⟨h.1, h.2.2.2.2.2.1 5 rfl rfl⟩⟩

/-! ### The scan callback inside a traversal -/

/-- The shape of the pool a call of `dsl_scan_scrub_cb` returns. -/
theorem scrub_cb_shape (tun : tunables) (dp : dsl_pool) (bp : blkptr) (zb : zbookmark)
    (io_error : Nat) (r : Nat × dsl_pool)
    (h : dsl_scan_scrub_cb tun dp bp zb io_error = some r) :
    r.1 = 0 ∧
      (r.2 = dp ∨ ∃ ex pe, r.2 = scrub_cb_counted dp bp ex pe ∨
        ∃ n zs e z, (0 < dp.dp_spa.spa_scrub_maxinflight → scrub_reads_accounted dp →
            n ≤ zs.length) ∧
          r.2 = scrub_cb_issued (with_scrub_progress (scrub_cb_counted dp bp ex pe) n zs e) z) := by
  unfold dsl_scan_scrub_cb at h
  by_cases hw : BP_PHYSICAL_BIRTH bp ≤ dp.dp_scan.scn_phys.scn_min_txg ∨
      BP_PHYSICAL_BIRTH bp ≥ dp.dp_scan.scn_phys.scn_max_txg
  · rw [if_pos hw] at h
    cases h
    exact ⟨rfl, Or.inl rfl⟩
  · rw [if_neg hw] at h
    obtain ⟨m, -, h⟩ := Option.bind_eq_some.mp h
    obtain ⟨fl, pr, b⟩ := m
    obtain ⟨st, -, h⟩ := Option.bind_eq_some.mp h
    obtain ⟨ex, pe, nio⟩ := st
    by_cases hio : nio = true ∧ ¬ tun.zfs_no_scrub_io = true
    · simp only [hio, not_false_eq_true, and_self, if_true] at h
      obtain ⟨dp1, hwait, h⟩ := Option.map_eq_some'.mp h
      rw [← h]
      refine ⟨rfl, Or.inr ⟨ex, pe, Or.inr ?_⟩⟩
      have hw1 : scrub_cv_wait
          (fun sp => decide (sp.spa_scrub_inflight ≥ sp.spa_scrub_maxinflight))
          (scrub_cb_counted dp bp ex pe) = some dp1 := hwait
      obtain ⟨-, n, zs, e, hs⟩ := scrub_cv_wait_loop_shape _ _ _ _ hw1
      refine ⟨n, zs, e,
        { io_bp := bp, io_size := BP_GET_PSIZE bp, io_priority := pr
          io_flags :=
            if zb.zb_level = ZB_ZIL_LEVEL then zio_flag.ZIO_FLAG_SPECULATIVE :: fl else fl
          io_bookmark := zb, io_error := io_error }, ?_, ?_⟩
      · intro hm hr
        have := scrub_cv_wait_loop_accounted _ (scrub_cb_counted dp bp ex pe) _ rfl hm hr hw1
        rw [hs, with_scrub_progress_inflight, with_scrub_progress_zios] at this
        exact this
      · rw [hs]
        rfl
    · simp only [hio, if_false] at h
      cases h
      exact ⟨rfl, Or.inr ⟨ex, pe, Or.inl rfl⟩⟩

/-- A call of `dsl_scan_scrub_cb` that returns leaves the scan context (but
for the two counters), the device tree and the meta object set alone; the
hypotheses under which calls return keep holding. -/
theorem scrub_cb_frame (tun : tunables) (dp : dsl_pool) (bp : blkptr) (zb : zbookmark)
    (io_error : Nat) (r : Nat × dsl_pool)
    (h : dsl_scan_scrub_cb tun dp bp zb io_error = some r) :
    scan_cb_frame dp r.2 ∧ (scan_cb_ready dp → scan_cb_ready r.2) := by
  obtain ⟨-, hsh⟩ := scrub_cb_shape tun dp bp zb io_error r h
  rcases hsh with hsh | ⟨ex, pe, hsh | ⟨n, zs, e, z, hle, hsh⟩⟩
  · rw [hsh]
    exact ⟨⟨rfl, rfl, rfl, rfl, rfl, rfl⟩, fun hr => hr⟩
  · rw [hsh]
    exact ⟨⟨rfl, rfl, rfl, rfl, rfl, rfl⟩, fun hr => hr⟩
  · rw [hsh]
    refine ⟨⟨rfl, rfl, rfl, rfl, rfl, rfl⟩, fun hr => ⟨hr.1, hr.2.1, ?_⟩⟩
    have hn := hle hr.2.1 hr.2.2
    show wrap64 (n + 1) ≤ (zs ++ [z]).length
    rw [List.length_append, List.length_singleton]
    unfold wrap64
    exact Nat.le_trans (Nat.mod_le _ _) (Nat.succ_le_succ hn)

/-- A call of `dsl_scan_scrub_cb` returns 0 under the hypotheses
`scan_cb_ready`, when the DVAs of the block lie on top-level vdevs. -/
theorem scrub_cb_returns (tun : tunables) (dp : dsl_pool) (bp : blkptr) (zb : zbookmark)
    (io_error : Nat) (hr : scan_cb_ready dp)
    (hv : dvas_on_vdevs dp.dp_spa.spa_root_vdev (scrub_cb_dva_list bp)) :
    ∃ dp', dsl_scan_scrub_cb tun dp bp zb io_error = some (0, dp') := by
  by_cases hin : dp.dp_scan.scn_phys.scn_min_txg < BP_PHYSICAL_BIRTH bp ∧
      BP_PHYSICAL_BIRTH bp < dp.dp_scan.scn_phys.scn_max_txg
  · obtain ⟨ex, pe, nio, n, zs, e, -, -, heq⟩ :=
      scrub_cb_in_window tun dp bp zb io_error hin hr.1 hv hr.2.1 hr.2.2
    exact ⟨_, heq⟩
  · have : BP_PHYSICAL_BIRTH bp ≤ dp.dp_scan.scn_phys.scn_min_txg ∨
        BP_PHYSICAL_BIRTH bp ≥ dp.dp_scan.scn_phys.scn_max_txg := by omega
    exact ⟨dp, by unfold dsl_scan_scrub_cb; rw [if_pos this]⟩

/-- A call of the scan callback through `scan_funcs`: it returns 0, records
the call, and leaves the clock of the run alone. -/
theorem scan_funcs_returns (env : scan_env) (run : scan_run) (bp : blkptr) (zb : zbookmark)
    (hr : scan_cb_ready run.run_dp)
    (hv : dvas_on_vdevs run.run_dp.dp_spa.spa_root_vdev (scrub_cb_dva_list bp)) :
    ∃ dp', scan_funcs env run bp zb =
        some (0, { run with run_dp := dp', run_calls := run.run_calls ++ [(bp, zb)] }) ∧
      scan_cb_frame run.run_dp dp' ∧ scan_cb_ready dp' := by
  obtain ⟨dp', h⟩ := scrub_cb_returns env.env_tun run.run_dp bp zb (env.env_io_error bp) hr hv
  obtain ⟨hf, hrd⟩ := scrub_cb_frame _ _ _ _ _ _ h
  refine ⟨dp', ?_, hf, hrd hr⟩
  unfold scan_funcs
  simp only [hr.1, if_true, h, Option.map_some']

/-- A call of the scan callback through `scan_funcs` that returns. -/
theorem scan_funcs_some (env : scan_env) (run : scan_run) (bp : blkptr) (zb : zbookmark)
    (r : Nat × scan_run) (h : scan_funcs env run bp zb = some r) :
    r.1 = 0 ∧ r.2.run_calls = run.run_calls ++ [(bp, zb)] ∧ r.2.run_checks = run.run_checks ∧
      scan_cb_frame run.run_dp r.2.run_dp := by
  unfold scan_funcs at h
  simp only at h
  split_ifs at h with hf
  obtain ⟨c, hc, h⟩ := Option.map_eq_some'.mp h
  obtain ⟨h0, -⟩ := scrub_cb_shape _ _ _ _ _ _ hc
  obtain ⟨hfr, -⟩ := scrub_cb_frame _ _ _ _ _ _ hc
  rw [← h]
  exact ⟨h0, rfl, rfl, hfr⟩


/-- The fields of the scan context the scan callback leaves alone. -/
theorem scan_cb_frame_fields (dp dp' : dsl_pool) (h : scan_cb_frame dp dp') :
    dp'.dp_scan.scn_visited_this_txg = dp.dp_scan.scn_visited_this_txg ∧
    dp'.dp_scan.scn_phys.scn_cur_min_txg = dp.dp_scan.scn_phys.scn_cur_min_txg ∧
    dp'.dp_scan.scn_phys.scn_cur_max_txg = dp.dp_scan.scn_phys.scn_cur_max_txg ∧
    dp'.dp_scan.scn_phys.scn_state = dp.dp_scan.scn_phys.scn_state ∧
    dp'.dp_scan.scn_phys.scn_ddt_class_max = dp.dp_scan.scn_phys.scn_ddt_class_max := by
  obtain ⟨h, -⟩ := h
  rw [h]
  exact ⟨rfl, rfl, rfl, rfl, rfl⟩

/-- The loop of `dsl_scan_ddt_entry` calls the scan callback once for each
copy with `ddp_phys_birth != 0` and `ddp_phys_birth <= scn_cur_max_txg`, in
order, and counts each call in `scn_visited_this_txg`. -/
theorem ddt_entry_copies_calls (env : scan_env) (checksum : Nat) (ddk : ddt_key) :
    ∀ (ddps : List ddt_phys) (run : scan_run), scan_cb_ready run.run_dp →
      (∀ ddp ∈ ddps, ddp.ddp_phys_birth ≠ 0 →
        ddp.ddp_phys_birth ≤ run.run_dp.dp_scan.scn_phys.scn_cur_max_txg →
        dvas_on_vdevs run.run_dp.dp_spa.spa_root_vdev
          (scrub_cb_dva_list (ddt_bp_create checksum ddk ddp))) →
      ∃ run', ddt_entry_copies env checksum ddk ddps run = some run' ∧
        run'.run_calls = run.run_calls ++
          (ddps.filter fun ddp => decide (ddp.ddp_phys_birth ≠ 0 ∧
            ddp.ddp_phys_birth ≤ run.run_dp.dp_scan.scn_phys.scn_cur_max_txg)).map
            (fun ddp => (ddt_bp_create checksum ddk ddp, zbookmark_zero)) ∧
        (run.run_dp.dp_scan.scn_visited_this_txg +
            (ddps.filter fun ddp => decide (ddp.ddp_phys_birth ≠ 0 ∧
              ddp.ddp_phys_birth ≤ run.run_dp.dp_scan.scn_phys.scn_cur_max_txg)).length
            < 2 ^ 64 →
          run'.run_dp.dp_scan.scn_visited_this_txg =
            run.run_dp.dp_scan.scn_visited_this_txg +
              (ddps.filter fun ddp => decide (ddp.ddp_phys_birth ≠ 0 ∧
                ddp.ddp_phys_birth ≤ run.run_dp.dp_scan.scn_phys.scn_cur_max_txg)).length)
  | [], run, _, _ => ⟨run, rfl, by simp, by simp⟩
  | ddp :: ddps, run, hr, hv => by
    have hvt : ∀ d ∈ ddps, d.ddp_phys_birth ≠ 0 →
        d.ddp_phys_birth ≤ run.run_dp.dp_scan.scn_phys.scn_cur_max_txg →
        dvas_on_vdevs run.run_dp.dp_spa.spa_root_vdev
          (scrub_cb_dva_list (ddt_bp_create checksum ddk d)) :=
      fun d hd => hv d (List.mem_cons_of_mem _ hd)
    unfold ddt_entry_copies
    by_cases hskip : ddp.ddp_phys_birth = 0 ∨
        ddp.ddp_phys_birth > run.run_dp.dp_scan.scn_phys.scn_cur_max_txg
    · rw [if_pos hskip]
      have hf : decide (ddp.ddp_phys_birth ≠ 0 ∧
          ddp.ddp_phys_birth ≤ run.run_dp.dp_scan.scn_phys.scn_cur_max_txg) = false := by
        rw [decide_eq_false_iff_not]
        omega
      obtain ⟨run', h, hc, hn⟩ := ddt_entry_copies_calls env checksum ddk ddps run hr hvt
      refine ⟨run', h, ?_, ?_⟩
      · rw [hc, List.filter_cons_of_neg (by simpa using hf)]
      · rw [List.filter_cons_of_neg (by simpa using hf)]
        exact hn
    · rw [if_neg hskip]
      have hin : ddp.ddp_phys_birth ≠ 0 ∧
          ddp.ddp_phys_birth ≤ run.run_dp.dp_scan.scn_phys.scn_cur_max_txg := by omega
      have ht : decide (ddp.ddp_phys_birth ≠ 0 ∧
          ddp.ddp_phys_birth ≤ run.run_dp.dp_scan.scn_phys.scn_cur_max_txg) = true := by
        rw [decide_eq_true_iff]
        exact hin
      obtain ⟨dp', hcb, hfr, hrd⟩ := scan_funcs_returns env (run_visited_incr run)
        (ddt_bp_create checksum ddk ddp) zbookmark_zero hr
        (hv ddp (List.mem_cons_self _ _) hin.1 hin.2)
      obtain ⟨hvis, -, hmax, -, -⟩ := scan_cb_frame_fields _ _ hfr
      have hmx : (run_visited_incr run).run_dp.dp_scan.scn_phys.scn_cur_max_txg =
          run.run_dp.dp_scan.scn_phys.scn_cur_max_txg := rfl
      have hvi : (run_visited_incr run).run_dp.dp_scan.scn_visited_this_txg =
          wrap64 (run.run_dp.dp_scan.scn_visited_this_txg + 1) := rfl
      rw [hmx] at hmax
      rw [hvi] at hvis
      have hvt' : ∀ d ∈ ddps, d.ddp_phys_birth ≠ 0 →
          d.ddp_phys_birth ≤ dp'.dp_scan.scn_phys.scn_cur_max_txg →
          dvas_on_vdevs dp'.dp_spa.spa_root_vdev
            (scrub_cb_dva_list (ddt_bp_create checksum ddk d)) := by
        intro d hd h0 h1
        rw [hfr.2.1]
        rw [hmax] at h1
        exact hvt d hd h0 h1
      obtain ⟨run', h, hc, hn⟩ := ddt_entry_copies_calls env checksum ddk ddps
        { run_visited_incr run with
          run_dp := dp'
          run_calls := (run_visited_incr run).run_calls ++
            [(ddt_bp_create checksum ddk ddp, zbookmark_zero)] } hrd hvt'
      simp only [hcb, Option.some_bind]
      simp only [hmax, hvis] at hc hn
      refine ⟨run', h, ?_, ?_⟩
      · rw [hc, List.filter_cons_of_pos (by simpa using ht)]
        show (run.run_calls ++ _) ++ _ = _
        simp
      · rw [List.filter_cons_of_pos (by simpa using ht), List.length_cons]
        intro hlt
        have hw : wrap64 (run.run_dp.dp_scan.scn_visited_this_txg + 1) =
            run.run_dp.dp_scan.scn_visited_this_txg + 1 := by
          unfold wrap64
          omega
        rw [hw] at hn
        rw [hn (by omega)]
        omega

/-! ### The callback of the dedup table -/

/-- Claim C14 (as stated, refuted): the scan is SCANNING in the window
`cur_min_txg = 5`, `cur_max_txg = 100`; the first copy of the entry was born in
txg 3, below the window, and `dsl_scan_ddt_entry` calls the scan callback on
it. -/
theorem ddt_entry_window_counterexample :
    pool_visiting_5_100.dp_scan.scn_phys.scn_state = DSS_SCANNING ∧
    pool_visiting_5_100.dp_scan.scn_phys.scn_cur_min_txg = 5 ∧
    pool_visiting_5_100.dp_scan.scn_phys.scn_cur_max_txg = 100 ∧
    dde_born3.dde_phys0.ddp_phys_birth = 3 ∧
    (dsl_scan_ddt_entry env_idle 0 dde_born3 { tx_txg := 60 }
        { run_dp := pool_visiting_5_100, run_checks := 0, run_calls := [] }).map
      (fun run => run.run_calls) =
      some [(ddt_bp_create 0 dde_born3.dde_key dde_born3.dde_phys0, zbookmark_zero)] := by
  decide

/-- Claim C14 (amended): while the scan is SCANNING `dsl_scan_ddt_entry`
returns (under the hypotheses under which the scan callback returns) and calls
the scan callback once for each physical copy of the entry whose birth txg is
not 0 and at most `cur_max_txg`, in the order of the copies, on the block
pointer `ddt_bp_create` makes of the copy and with a zeroed bookmark, and for
no other copy; `cur_min_txg` is not looked at. -/
theorem ddt_entry_calls (env : scan_env) (checksum : Nat) (dde : ddt_entry) (tx : dmu_tx)
    (run : scan_run) (hs : run.run_dp.dp_scan.scn_phys.scn_state = DSS_SCANNING)
    (hr : scan_cb_ready run.run_dp)
    (hv : ∀ ddp ∈ dde_phys_list dde, ddp.ddp_phys_birth ≠ 0 →
      ddp.ddp_phys_birth ≤ run.run_dp.dp_scan.scn_phys.scn_cur_max_txg →
      dvas_on_vdevs run.run_dp.dp_spa.spa_root_vdev
        (scrub_cb_dva_list (ddt_bp_create checksum dde.dde_key ddp))) :
    ∃ run', dsl_scan_ddt_entry env checksum dde tx run = some run' ∧
      run'.run_calls = run.run_calls ++
        ((dde_phys_list dde).filter fun ddp => decide (ddp.ddp_phys_birth ≠ 0 ∧
          ddp.ddp_phys_birth ≤ run.run_dp.dp_scan.scn_phys.scn_cur_max_txg)).map
          (fun ddp => (ddt_bp_create checksum dde.dde_key ddp, zbookmark_zero)) := by
  obtain ⟨run', h, hc, -⟩ := ddt_entry_copies_calls env checksum dde.dde_key
    (dde_phys_list dde) run hr hv
  refine ⟨run', ?_, hc⟩
  unfold dsl_scan_ddt_entry
  rw [if_neg (fun hne => hne hs)]
  exact h

/-- Claim C14 (witness): the entry with one copy born in txg 3, in a scan of
the window `cur_min_txg = 5`, `cur_max_txg = 100`. -/
theorem ddt_entry_calls_witness :
    pool_visiting_5_100.dp_scan.scn_phys.scn_state = DSS_SCANNING ∧
    scan_cb_ready pool_visiting_5_100 ∧
    ∃ run', dsl_scan_ddt_entry env_idle 0 dde_born3 { tx_txg := 60 }
        { run_dp := pool_visiting_5_100, run_checks := 0, run_calls := [] } = some run' ∧
      run'.run_calls =
        [(ddt_bp_create 0 dde_born3.dde_key dde_born3.dde_phys0, zbookmark_zero)] :=
  ⟨by decide, by unfold scan_cb_ready scrub_reads_accounted; decide,
    ddt_entry_calls env_idle 0 dde_born3 { tx_txg := 60 }
      { run_dp := pool_visiting_5_100, run_checks := 0, run_calls := [] } (by decide)
      (by unfold scan_cb_ready scrub_reads_accounted; decide)
      (by unfold dvas_on_vdevs; decide)⟩

/-! ### The counter of visited blocks -/

/-- A test of the budget that does not pause leaves the pool alone. -/
theorem check_pause_false (tun : tunables) (dp : dsl_pool) (zb : Option zbookmark)
    (hrtime : Nat) (sync_waiting : Bool)
    (h : (dsl_scan_check_pause tun dp zb hrtime sync_waiting).1 = false) :
    (dsl_scan_check_pause tun dp zb hrtime sync_waiting).2 = dp := by
  unfold dsl_scan_check_pause at h ⊢
  simp only at h ⊢
  split_ifs at h ⊢ <;> rfl

/-- The resume check changes nothing but the bookmark. -/
theorem check_resume_frame (dp : dsl_pool) (dnp : Option dnode_phys) (zb : zbookmark) :
    (dsl_scan_check_resume dp dnp zb).2 =
      { dp with dp_scan := { dp.dp_scan with scn_phys := { dp.dp_scan.scn_phys with
          scn_bookmark := (dsl_scan_check_resume dp dnp zb).2.dp_scan.scn_phys.scn_bookmark } } } := by
  unfold dsl_scan_check_resume
  simp only
  split_ifs <;> rfl

/-- The function `dsl_scan_recurse` does not read a level-0 block that is
neither an accounting block, a block of dnodes nor an objset. -/
theorem recurse_leaf (env : scan_env) (bp : blkptr) (zb : zbookmark) (dnp : Option dnode_phys)
    (ds : Option dsl_dataset) (ostype : Nat) (tx : dmu_tx) (buf : arcbuf) (run : scan_run)
    (hl : BP_GET_LEVEL bp = 0) (h1 : BP_GET_TYPE bp ≠ DMU_OT_USERGROUP_USED)
    (h2 : BP_GET_TYPE bp ≠ DMU_OT_DNODE) (h3 : BP_GET_TYPE bp ≠ DMU_OT_OBJSET) :
    dsl_scan_recurse env bp zb dnp ds ostype tx buf run = some (0, run) := by
  cases buf <;> unfold dsl_scan_recurse <;> simp [hl, h1, h2, h3]


/-- The function `dsl_scan_visitbp` on a block that `dsl_scan_recurse` does
not read: the checks, the counter, and the scan callback. -/
theorem visitbp_leaf_eq (env : scan_env) (zb : zbookmark) (dnp : Option dnode_phys)
    (ds : Option dsl_dataset) (ostype : Nat) (tx : dmu_tx) (bp : blkptr) (buf : arcbuf)
    (run : scan_run)
    (hl : BP_GET_LEVEL bp = 0) (h1 : BP_GET_TYPE bp ≠ DMU_OT_USERGROUP_USED)
    (h2 : BP_GET_TYPE bp ≠ DMU_OT_DNODE) (h3 : BP_GET_TYPE bp ≠ DMU_OT_OBJSET) :
    dsl_scan_visitbp env zb dnp ds ostype tx (bptree.mk bp buf) run =
      if (run_check_pause env run (some zb)).1 = true then
        some (run_check_pause env run (some zb)).2
      else if (dsl_scan_check_resume (run_check_pause env run (some zb)).2.run_dp dnp zb).1
          = true then
        some { (run_check_pause env run (some zb)).2 with
          run_dp := (dsl_scan_check_resume (run_check_pause env run (some zb)).2.run_dp
            dnp zb).2 }
      else if bp.blk_birth = 0 then
        some { (run_check_pause env run (some zb)).2 with
          run_dp := (dsl_scan_check_resume (run_check_pause env run (some zb)).2.run_dp
            dnp zb).2 }
      else if bp.blk_birth ≤ run.run_dp.dp_scan.scn_phys.scn_cur_min_txg ∨
          env.env_ddt_class_contains run.run_dp.dp_scan.scn_phys.scn_ddt_class_max bp = true ∨
          ¬ bp.blk_birth ≤ run.run_dp.dp_scan.scn_phys.scn_cur_max_txg then
        some (run_visited_incr { (run_check_pause env run (some zb)).2 with
          run_dp := (dsl_scan_check_resume (run_check_pause env run (some zb)).2.run_dp
            dnp zb).2 })
      else
        (scan_funcs env (run_visited_incr { (run_check_pause env run (some zb)).2 with
          run_dp := (dsl_scan_check_resume (run_check_pause env run (some zb)).2.run_dp
            dnp zb).2 }) bp zb).map fun c => c.2 := by
  unfold dsl_scan_visitbp
  simp only
  by_cases hp : (run_check_pause env run (some zb)).1 = true
  · rw [if_pos hp, if_pos hp]
  · rw [if_neg hp, if_neg hp]
    have hpf : (run_check_pause env run (some zb)).1 = false := by simpa using hp
    have hdp : (run_check_pause env run (some zb)).2.run_dp = run.run_dp :=
      check_pause_false _ _ _ _ _ hpf
    by_cases hr : (dsl_scan_check_resume (run_check_pause env run (some zb)).2.run_dp
        dnp zb).1 = true
    · rw [if_pos hr, if_pos hr]
    · rw [if_neg hr, if_neg hr]
      by_cases hb : bp.blk_birth = 0
      · rw [if_pos hb, if_pos hb]
      · rw [if_neg hb, if_neg hb]
        have hfr := check_resume_frame (run_check_pause env run (some zb)).2.run_dp dnp zb
        rw [hdp] at hfr
        have hmin : (run_visited_incr { (run_check_pause env run (some zb)).2 with
            run_dp := (dsl_scan_check_resume (run_check_pause env run (some zb)).2.run_dp
              dnp zb).2 }).run_dp.dp_scan.scn_phys.scn_cur_min_txg =
            run.run_dp.dp_scan.scn_phys.scn_cur_min_txg := by
          show (dsl_scan_check_resume (run_check_pause env run (some zb)).2.run_dp
              dnp zb).2.dp_scan.scn_phys.scn_cur_min_txg = _
          rw [hdp, hfr]
        have hmax : (run_visited_incr { (run_check_pause env run (some zb)).2 with
            run_dp := (dsl_scan_check_resume (run_check_pause env run (some zb)).2.run_dp
              dnp zb).2 }).run_dp.dp_scan.scn_phys.scn_cur_max_txg =
            run.run_dp.dp_scan.scn_phys.scn_cur_max_txg := by
          show (dsl_scan_check_resume (run_check_pause env run (some zb)).2.run_dp
              dnp zb).2.dp_scan.scn_phys.scn_cur_max_txg = _
          rw [hdp, hfr]
        have hcls : (run_visited_incr { (run_check_pause env run (some zb)).2 with
            run_dp := (dsl_scan_check_resume (run_check_pause env run (some zb)).2.run_dp
              dnp zb).2 }).run_dp.dp_scan.scn_phys.scn_ddt_class_max =
            run.run_dp.dp_scan.scn_phys.scn_ddt_class_max := by
          show (dsl_scan_check_resume (run_check_pause env run (some zb)).2.run_dp
              dnp zb).2.dp_scan.scn_phys.scn_ddt_class_max = _
          rw [hdp, hfr]
        rw [hmin]
        by_cases hc : bp.blk_birth ≤ run.run_dp.dp_scan.scn_phys.scn_cur_min_txg
        · rw [if_pos hc, if_pos (Or.inl hc)]
        · rw [if_neg hc, recurse_leaf env bp zb dnp ds ostype tx buf _ hl h1 h2 h3]
          simp only [Option.some_bind, ne_eq, not_true_eq_false, if_false]
          rw [hcls, hmax]
          by_cases hd : env.env_ddt_class_contains
              run.run_dp.dp_scan.scn_phys.scn_ddt_class_max bp = true
          · rw [if_pos hd, if_pos (Or.inr (Or.inl hd))]
          · rw [if_neg hd]
            by_cases hx : bp.blk_birth ≤ run.run_dp.dp_scan.scn_phys.scn_cur_max_txg
            · rw [if_pos hx, if_neg]
              intro hor
              rcases hor with h | h | h
              · exact hc h
              · exact hd h
              · exact h hx
            · rw [if_neg hx, if_pos (Or.inr (Or.inr hx))]


/-- A test of the budget leaves the counter of visited blocks and the calls of
the scan callback alone. -/
theorem run_check_pause_counts (env : scan_env) (run : scan_run) (zb : Option zbookmark) :
    (run_check_pause env run zb).2.run_dp.dp_scan.scn_visited_this_txg =
        run.run_dp.dp_scan.scn_visited_this_txg ∧
      (run_check_pause env run zb).2.run_calls = run.run_calls := by
  refine ⟨?_, rfl⟩
  unfold run_check_pause dsl_scan_check_pause
  simp only
  split_ifs <;> first | rfl | (cases zb <;> rfl)

/-- Claim C13 (as stated, refuted): the block was born in txg 3, not after
`cur_min_txg = 5`.  `dsl_scan_visitbp` raises `scn_visited_this_txg` from 0 to
1 and does not call the scan callback. -/
theorem visited_counts_counterexample :
    pool_visiting_5_100.dp_scan.scn_visited_this_txg = 0 ∧
    (dsl_scan_visitbp env_idle zb_block3 none none DMU_OST_NONE { tx_txg := 60 }
        (bptree.mk (bp_born 3) arcbuf.data)
        { run_dp := pool_visiting_5_100, run_checks := 0, run_calls := [] }).map
      (fun run => (run.run_dp.dp_scan.scn_visited_this_txg, run.run_calls)) =
      some (1, []) := by
  decide

/-- Claim C13 (amended): `scn_visited_this_txg` is not the number of calls of
the scan callback.  A call of `dsl_scan_ddt_entry` raises the counter by the
number of calls of the scan callback it makes.  A step of `dsl_scan_visitbp`
on a block pointer it does not recurse into (level 0, neither a block of
dnodes, an objset nor an accounting block) raises the counter by one exactly
when the pause and resume checks pass and `blk_birth != 0`; it calls the scan
callback (once) only when moreover `blk_birth > cur_min_txg`, the block is
not in the DDT classes up to `ddt_class_max` and `blk_birth <= cur_max_txg`.
The callbacks of the intent log, `dsl_scan_zil_block` and
`dsl_scan_zil_record`, call the scan callback, once their own tests of the
birth and claim txg pass, without raising the counter.  The hypotheses are
those under which the scan callback returns. -/
theorem visited_counts (env : scan_env) (tx : dmu_tx) (run : scan_run)
    (checksum : Nat) (dde : ddt_entry)
    (zb : zbookmark) (dnp : Option dnode_phys) (ds : Option dsl_dataset) (ostype : Nat)
    (bp : blkptr) (buf : arcbuf)
    (zh : zil_header) (zbp : blkptr) (seq claim_txg : Nat) (lr : lr_write)
    (hr : scan_cb_ready run.run_dp) :
    (run.run_dp.dp_scan.scn_phys.scn_state = DSS_SCANNING →
      (∀ ddp ∈ dde_phys_list dde, ddp.ddp_phys_birth ≠ 0 →
        ddp.ddp_phys_birth ≤ run.run_dp.dp_scan.scn_phys.scn_cur_max_txg →
        dvas_on_vdevs run.run_dp.dp_spa.spa_root_vdev
          (scrub_cb_dva_list (ddt_bp_create checksum dde.dde_key ddp))) →
      run.run_dp.dp_scan.scn_visited_this_txg + DDT_PHYS_TYPES < 2 ^ 64 →
      ∃ run', dsl_scan_ddt_entry env checksum dde tx run = some run' ∧
        run'.run_calls.length ≥ run.run_calls.length ∧
        run'.run_dp.dp_scan.scn_visited_this_txg =
          run.run_dp.dp_scan.scn_visited_this_txg +
            (run'.run_calls.length - run.run_calls.length)) ∧
    (BP_GET_LEVEL bp = 0 → BP_GET_TYPE bp ≠ DMU_OT_USERGROUP_USED →
      BP_GET_TYPE bp ≠ DMU_OT_DNODE → BP_GET_TYPE bp ≠ DMU_OT_OBJSET →
      dvas_on_vdevs run.run_dp.dp_spa.spa_root_vdev (scrub_cb_dva_list bp) →
      ∃ run', dsl_scan_visitbp env zb dnp ds ostype tx (bptree.mk bp buf) run = some run' ∧
        (((run_check_pause env run (some zb)).1 = false ∧
            (dsl_scan_check_resume run.run_dp dnp zb).1 = false ∧ bp.blk_birth ≠ 0) →
          run'.run_dp.dp_scan.scn_visited_this_txg =
            wrap64 (run.run_dp.dp_scan.scn_visited_this_txg + 1)) ∧
        (¬ ((run_check_pause env run (some zb)).1 = false ∧
            (dsl_scan_check_resume run.run_dp dnp zb).1 = false ∧ bp.blk_birth ≠ 0) →
          run'.run_dp.dp_scan.scn_visited_this_txg =
            run.run_dp.dp_scan.scn_visited_this_txg) ∧
        (((run_check_pause env run (some zb)).1 = false ∧
            (dsl_scan_check_resume run.run_dp dnp zb).1 = false ∧ bp.blk_birth ≠ 0 ∧
            run.run_dp.dp_scan.scn_phys.scn_cur_min_txg < bp.blk_birth ∧
            env.env_ddt_class_contains run.run_dp.dp_scan.scn_phys.scn_ddt_class_max bp
              = false ∧
            bp.blk_birth ≤ run.run_dp.dp_scan.scn_phys.scn_cur_max_txg) →
          run'.run_calls = run.run_calls ++ [(bp, zb)]) ∧
        (¬ ((run_check_pause env run (some zb)).1 = false ∧
            (dsl_scan_check_resume run.run_dp dnp zb).1 = false ∧ bp.blk_birth ≠ 0 ∧
            run.run_dp.dp_scan.scn_phys.scn_cur_min_txg < bp.blk_birth ∧
            env.env_ddt_class_contains run.run_dp.dp_scan.scn_phys.scn_ddt_class_max bp
              = false ∧
            bp.blk_birth ≤ run.run_dp.dp_scan.scn_phys.scn_cur_max_txg) →
          run'.run_calls = run.run_calls)) ∧
    (run.run_dp.dp_scan.scn_phys.scn_cur_min_txg < zbp.blk_birth →
      ¬ (claim_txg = 0 ∧ zbp.blk_birth ≥ env.env_spa_first_txg) →
      dvas_on_vdevs run.run_dp.dp_spa.spa_root_vdev (scrub_cb_dva_list zbp) →
      ∃ run', dsl_scan_zil_block env zh zbp seq claim_txg run = some (0, run') ∧
        run'.run_dp.dp_scan.scn_visited_this_txg = run.run_dp.dp_scan.scn_visited_this_txg ∧
        run'.run_calls = run.run_calls ++
          [(zbp, { zb_objset := zh.zh_log_objset, zb_object := ZB_ZIL_OBJECT
                   zb_level := ZB_ZIL_LEVEL, zb_blkid := seq })]) ∧
    (lr.lrc_txtype = TX_WRITE →
      run.run_dp.dp_scan.scn_phys.scn_cur_min_txg < lr.lr_blkptr.blk_birth →
      ¬ (claim_txg = 0 ∨ lr.lr_blkptr.blk_birth < claim_txg) →
      dvas_on_vdevs run.run_dp.dp_spa.spa_root_vdev (scrub_cb_dva_list lr.lr_blkptr) →
      ∃ run', dsl_scan_zil_record env zh lr claim_txg run = some (0, run') ∧
        run'.run_dp.dp_scan.scn_visited_this_txg = run.run_dp.dp_scan.scn_visited_this_txg ∧
        run'.run_calls = run.run_calls ++
          [(lr.lr_blkptr, { zb_objset := zh.zh_log_objset, zb_object := lr.lr_foid
                            zb_level := ZB_ZIL_LEVEL
                            zb_blkid := lr.lr_offset / BP_GET_LSIZE lr.lr_blkptr })]) := by
  refine ⟨?_, ?_, ?_, ?_⟩
  · -- the callback of the dedup table
    intro hs hv hlt
    obtain ⟨run', h, hc, hn⟩ := ddt_entry_copies_calls env checksum dde.dde_key
      (dde_phys_list dde) run hr hv
    have hlen : ((dde_phys_list dde).filter fun ddp => decide (ddp.ddp_phys_birth ≠ 0 ∧
        ddp.ddp_phys_birth ≤ run.run_dp.dp_scan.scn_phys.scn_cur_max_txg)).length ≤
        DDT_PHYS_TYPES := by
      refine Nat.le_trans (List.length_filter_le _ _) ?_
      simp [dde_phys_list]
    have hcl : run'.run_calls.length = run.run_calls.length +
        ((dde_phys_list dde).filter fun ddp => decide (ddp.ddp_phys_birth ≠ 0 ∧
          ddp.ddp_phys_birth ≤ run.run_dp.dp_scan.scn_phys.scn_cur_max_txg)).length := by
      rw [hc, List.length_append, List.length_map]
    refine ⟨run', ?_, by omega, ?_⟩
    · unfold dsl_scan_ddt_entry
      rw [if_neg (fun hne => hne hs)]
      exact h
    · rw [hn (by omega), hcl]
      omega
  · -- a step of the tree walk
    intro hl h1 h2 h3 hv
    rw [visitbp_leaf_eq env zb dnp ds ostype tx bp buf run hl h1 h2 h3]
    obtain ⟨hpv, hpc⟩ := run_check_pause_counts env run (some zb)
    by_cases hp : (run_check_pause env run (some zb)).1 = true
    · rw [if_pos hp]
      have hnp : ¬ (run_check_pause env run (some zb)).1 = false := by simp [hp]
      exact ⟨_, rfl, fun h => absurd h.1 hnp, fun _ => hpv, fun h => absurd h.1 hnp,
        fun _ => hpc⟩
    · rw [if_neg hp]
      have hpf : (run_check_pause env run (some zb)).1 = false := by simpa using hp
      have hdp : (run_check_pause env run (some zb)).2.run_dp = run.run_dp :=
        check_pause_false _ _ _ _ _ hpf
      rw [hdp]
      have hfr := check_resume_frame run.run_dp dnp zb
      by_cases hrs : (dsl_scan_check_resume run.run_dp dnp zb).1 = true
      · rw [if_pos hrs]
        have hnr : ¬ (dsl_scan_check_resume run.run_dp dnp zb).1 = false := by simp [hrs]
        refine ⟨_, rfl, fun h => absurd h.2.1 hnr, fun _ => ?_, fun h => absurd h.2.1 hnr,
          fun _ => hpc⟩
        show (dsl_scan_check_resume run.run_dp dnp zb).2.dp_scan.scn_visited_this_txg = _
        rw [hfr]
      · rw [if_neg hrs]
        have hrf : (dsl_scan_check_resume run.run_dp dnp zb).1 = false := by simpa using hrs
        by_cases hb : bp.blk_birth = 0
        · rw [if_pos hb]
          refine ⟨_, rfl, fun h => absurd hb h.2.2, fun _ => ?_, fun h => absurd hb h.2.2.1,
            fun _ => hpc⟩
          show (dsl_scan_check_resume run.run_dp dnp zb).2.dp_scan.scn_visited_this_txg = _
          rw [hfr]
        · rw [if_neg hb]
          have hcnt : (run_check_pause env run (some zb)).1 = false ∧
              (dsl_scan_check_resume run.run_dp dnp zb).1 = false ∧ bp.blk_birth ≠ 0 :=
            ⟨hpf, hrf, hb⟩
          have hvis : (run_visited_incr { (run_check_pause env run (some zb)).2 with
              run_dp := (dsl_scan_check_resume run.run_dp dnp zb).2 }).run_dp.dp_scan.scn_visited_this_txg
              = wrap64 (run.run_dp.dp_scan.scn_visited_this_txg + 1) := by
            show wrap64 ((dsl_scan_check_resume run.run_dp dnp
              zb).2.dp_scan.scn_visited_this_txg + 1) = _
            rw [hfr]
          by_cases hskip : bp.blk_birth ≤ run.run_dp.dp_scan.scn_phys.scn_cur_min_txg ∨
              env.env_ddt_class_contains run.run_dp.dp_scan.scn_phys.scn_ddt_class_max bp
                = true ∨
              ¬ bp.blk_birth ≤ run.run_dp.dp_scan.scn_phys.scn_cur_max_txg
          · rw [if_pos hskip]
            refine ⟨_, rfl, fun _ => hvis, fun h => absurd hcnt h, fun h => ?_, fun _ => hpc⟩
            exfalso
            rcases hskip with h' | h' | h'
            · exact absurd h.2.2.2.1 (by omega)
            · rw [h.2.2.2.2.1] at h'
              cases h'
            · exact h' h.2.2.2.2.2
          · rw [if_neg hskip]
            have hrd : scan_cb_ready (run_visited_incr
                { (run_check_pause env run (some zb)).2 with
                  run_dp := (dsl_scan_check_resume run.run_dp dnp zb).2 }).run_dp := by
              show scan_cb_ready { (dsl_scan_check_resume run.run_dp dnp zb).2 with
                dp_scan := { (dsl_scan_check_resume run.run_dp dnp zb).2.dp_scan with
                  scn_visited_this_txg := wrap64 ((dsl_scan_check_resume run.run_dp dnp
                    zb).2.dp_scan.scn_visited_this_txg + 1) } }
              rw [hfr]
              exact hr
            have hvd : dvas_on_vdevs (run_visited_incr
                { (run_check_pause env run (some zb)).2 with
                  run_dp := (dsl_scan_check_resume run.run_dp dnp
                    zb).2 }).run_dp.dp_spa.spa_root_vdev (scrub_cb_dva_list bp) := by
              show dvas_on_vdevs (dsl_scan_check_resume run.run_dp dnp
                zb).2.dp_spa.spa_root_vdev _
              rw [hfr]
              exact hv
            obtain ⟨dp', hcb, hfc, -⟩ := scan_funcs_returns env _ bp zb hrd hvd
            obtain ⟨hv', -⟩ := scan_cb_frame_fields _ _ hfc
            rw [hcb]
            refine ⟨_, rfl, fun _ => ?_, fun h => absurd hcnt h, fun _ => ?_, fun h => ?_⟩
            · show dp'.dp_scan.scn_visited_this_txg = _
              rw [hv', hvis]
            · show (run_check_pause env run (some zb)).2.run_calls ++ _ = _
              rw [hpc]
            · exfalso
              apply h
              refine ⟨hpf, hrf, hb, ?_, ?_, ?_⟩
              · by_contra hh
                exact hskip (Or.inl (by omega))
              · by_contra hh
                exact hskip (Or.inr (Or.inl (by simpa using hh)))
              · by_contra hh
                exact hskip (Or.inr (Or.inr hh))
  · -- a block of the intent log
    intro hmin hcl hv
    obtain ⟨dp', hcb, hfc, -⟩ := scan_funcs_returns env run zbp
      { zb_objset := zh.zh_log_objset, zb_object := ZB_ZIL_OBJECT, zb_level := ZB_ZIL_LEVEL
        zb_blkid := seq } hr hv
    obtain ⟨hv', -⟩ := scan_cb_frame_fields _ _ hfc
    unfold dsl_scan_zil_block
    rw [if_neg (by omega), if_neg hcl]
    simp only [hcb, Option.some_bind, ne_eq, not_true_eq_false, if_false]
    exact ⟨_, rfl, hv', rfl⟩
  · -- a write record of the intent log
    intro hw hmin hcl hv
    obtain ⟨dp', hcb, hfc, -⟩ := scan_funcs_returns env run lr.lr_blkptr
      { zb_objset := zh.zh_log_objset, zb_object := lr.lr_foid, zb_level := ZB_ZIL_LEVEL
        zb_blkid := lr.lr_offset / BP_GET_LSIZE lr.lr_blkptr } hr hv
    obtain ⟨hv', -⟩ := scan_cb_frame_fields _ _ hfc
    unfold dsl_scan_zil_record
    rw [if_pos hw]
    simp only
    rw [if_neg (by omega), if_neg hcl]
    simp only [hcb, Option.some_bind, ne_eq, not_true_eq_false, if_false]
    exact ⟨_, rfl, hv', rfl⟩


/-- Claim C13 (witness): a step of `dsl_scan_visitbp` on a data block born in
txg 50, in the window `cur_min_txg = 5`, `cur_max_txg = 100`: the counter goes
up by one and the scan callback is called once. -/
theorem visited_counts_witness :
    scan_cb_ready pool_visiting_5_100 ∧
    ∃ run', dsl_scan_visitbp env_idle zb_block3 none none DMU_OST_NONE { tx_txg := 60 }
        (bptree.mk (bp_born 50) arcbuf.data)
        { run_dp := pool_visiting_5_100, run_checks := 0, run_calls := [] } = some run' ∧
      run'.run_dp.dp_scan.scn_visited_this_txg =
        wrap64 (pool_visiting_5_100.dp_scan.scn_visited_this_txg + 1) ∧
      run'.run_calls = [(bp_born 50, zb_block3)] :=
  ⟨by unfold scan_cb_ready scrub_reads_accounted; decide,
    ((visited_counts env_idle { tx_txg := 60 }
        { run_dp := pool_visiting_5_100, run_checks := 0, run_calls := [] } 0 dde_born3
        zb_block3 none none DMU_OST_NONE (bp_born 50) arcbuf.data zh_unclaimed (bp_born 50) 7 0
        lr_write_born50 (by unfold scan_cb_ready scrub_reads_accounted; decide)).2.1
      (by decide) (by decide) (by decide) (by decide) (by unfold dvas_on_vdevs; decide)).imp
      fun _ h => ⟨h.1, h.2.1 (by decide), h.2.2.2.1 (by decide)⟩⟩

/-! ### The sync: restart and deferred frees -/

/-- The function `dsl_scan_setup_sync` clears `scn_restart_txg`. -/
theorem setup_sync_restart_txg (tun : tunables) (dp : dsl_pool) (func : Nat) (tx : dmu_tx)
    (now newobj : Nat) :
    (dsl_scan_setup_sync tun dp func tx now newobj).dp_scan.scn_restart_txg = 0 := by
  simp only [dsl_scan_setup_sync, dsl_scan_sync_state]
  split <;> (try split) <;> rfl

/-- The function `dsl_scan_done` returns when the work queue object is
allocated and the reads in flight are outstanding. -/
theorem dsl_scan_done_returns (dp : dsl_pool) (complete : Bool) (tx : dmu_tx) (now : Nat)
    (hq : queue_obj_allocated dp) (hr : scrub_reads_accounted dp) :
    ∃ dp', dsl_scan_done dp complete tx now = some dp' := by
  obtain ⟨os', hfree, -⟩ := done_free_queue_returns dp hq
  obtain ⟨dp', hfin, -⟩ := done_finish_returns
    { dp with
      dp_meta_objset := os'
      dp_scan := { dp.dp_scan with
        scn_phys := { dp.dp_scan.scn_phys with scn_queue_obj := 0 } } } complete tx now hr
  unfold dsl_scan_done
  rw [hfree]
  simp only [Option.some_bind]
  split_ifs
  · exact ⟨_, rfl⟩
  · exact ⟨dp', hfin⟩

/-- Claim C18. In `dsl_scan_sync`, when `scn_restart_txg` is not 0 and at most
the txg of the sync, the scan is ended with `dsl_scan_done(scn, B_FALSE, tx)`
and a new scan is set up, with the func RESILVER when `vdev_resilver_needed`
holds of the device tree and SCRUB otherwise; the new scan is SCANNING,
`scn_restart_txg` is 0 and the sync goes on with it.  When `scn_restart_txg`
is 0 or greater than the txg of the sync the first block of the sync changes
nothing. -/
theorem sync_restart (env : scan_env) (fuel : Nat) (dp : dsl_pool) (tx : dmu_tx) :
    (dp.dp_scan.scn_restart_txg ≠ 0 ∧ dp.dp_scan.scn_restart_txg ≤ tx.tx_txg →
      queue_obj_allocated dp → scrub_reads_accounted dp →
      ∃ dp1 dp2, dsl_scan_done dp false tx env.env_gethrestime_sec = some dp1 ∧
        dp2 = dsl_scan_setup_sync env.env_tun dp1
          (if (vdev_resilver_needed dp1.dp_spa.spa_root_vdev 0 0).1 = true then
            POOL_SCAN_RESILVER else POOL_SCAN_SCRUB)
          tx env.env_gethrestime_sec env.env_newobj ∧
        dsl_scan_sync_restart env dp tx = some dp2 ∧
        dp2.dp_scan.scn_phys.scn_func =
          (if (vdev_resilver_needed dp1.dp_spa.spa_root_vdev 0 0).1 = true then
            POOL_SCAN_RESILVER else POOL_SCAN_SCRUB) ∧
        dp2.dp_scan.scn_phys.scn_state = DSS_SCANNING ∧
        dp2.dp_scan.scn_restart_txg = 0 ∧
        dsl_scan_sync env fuel dp tx = dsl_scan_sync env fuel dp2 tx) ∧
    (¬ (dp.dp_scan.scn_restart_txg ≠ 0 ∧ dp.dp_scan.scn_restart_txg ≤ tx.tx_txg) →
      dsl_scan_sync_restart env dp tx = some dp) := by
  constructor
  · intro hdue hq hr
    obtain ⟨dp1, hdone⟩ := dsl_scan_done_returns dp false tx env.env_gethrestime_sec hq hr
    have hrs : dsl_scan_sync_restart env dp tx =
        some (dsl_scan_setup_sync env.env_tun dp1
          (if (vdev_resilver_needed dp1.dp_spa.spa_root_vdev 0 0).1 = true then
            POOL_SCAN_RESILVER else POOL_SCAN_SCRUB)
          tx env.env_gethrestime_sec env.env_newobj) := by
      unfold dsl_scan_sync_restart
      rw [if_pos hdue, hdone]
      rfl
    have h0 := setup_sync_restart_txg env.env_tun dp1
      (if (vdev_resilver_needed dp1.dp_spa.spa_root_vdev 0 0).1 = true then
        POOL_SCAN_RESILVER else POOL_SCAN_SCRUB) tx env.env_gethrestime_sec env.env_newobj
    refine ⟨dp1, _, hdone, rfl, hrs, setup_sync_func _ _ _ _ _ _, setup_sync_state _ _ _ _ _ _,
      h0, ?_⟩
    have hrs2 : dsl_scan_sync_restart env
        (dsl_scan_setup_sync env.env_tun dp1
          (if (vdev_resilver_needed dp1.dp_spa.spa_root_vdev 0 0).1 = true then
            POOL_SCAN_RESILVER else POOL_SCAN_SCRUB)
          tx env.env_gethrestime_sec env.env_newobj) tx =
        some (dsl_scan_setup_sync env.env_tun dp1
          (if (vdev_resilver_needed dp1.dp_spa.spa_root_vdev 0 0).1 = true then
            POOL_SCAN_RESILVER else POOL_SCAN_SCRUB)
          tx env.env_gethrestime_sec env.env_newobj) := by
      unfold dsl_scan_sync_restart
      rw [if_neg]
      intro h
      exact h.1 h0
    unfold dsl_scan_sync
    rw [hrs, hrs2]
  · intro hn
    unfold dsl_scan_sync_restart
    rw [if_neg hn]

/-- Claim C18 (witness): a scrub with a restart scheduled for txg 5, at the
sync of txg 60, on a device tree that does not need a resilver. -/
theorem sync_restart_witness :
    (pool_restart_due.dp_scan.scn_restart_txg ≠ 0 ∧
      pool_restart_due.dp_scan.scn_restart_txg ≤ ({ tx_txg := 60 } : dmu_tx).tx_txg) ∧
    queue_obj_allocated pool_restart_due ∧ scrub_reads_accounted pool_restart_due ∧
    ∃ dp2, dsl_scan_sync_restart env_idle pool_restart_due { tx_txg := 60 } = some dp2 ∧
      dp2.dp_scan.scn_phys.scn_state = DSS_SCANNING ∧ dp2.dp_scan.scn_restart_txg = 0 :=
  ⟨by decide, by unfold queue_obj_allocated; decide, by unfold scrub_reads_accounted; decide,
    ((sync_restart env_idle 0 pool_restart_due { tx_txg := 60 }).1 (by decide)
      (by unfold queue_obj_allocated; decide) (by unfold scrub_reads_accounted; decide)).elim
      fun _ h => h.elim fun dp2 h2 => ⟨dp2, h2.2.2.1, h2.2.2.2.2.1, h2.2.2.2.2.2.1⟩⟩


/-- The callback `dsl_scan_free_cb` leaves the scan record, the meta object
set, the pool-wide state and the calls of the scan callback alone. -/
theorem free_cb_frame (env : scan_env) (run : scan_run) (bp : blkptr) (tx : dmu_tx) :
    (dsl_scan_free_cb env run bp tx).2.run_dp.dp_scan.scn_phys = run.run_dp.dp_scan.scn_phys ∧
    (dsl_scan_free_cb env run bp tx).2.run_dp.dp_meta_objset = run.run_dp.dp_meta_objset ∧
    (dsl_scan_free_cb env run bp tx).2.run_dp.dp_spa = run.run_dp.dp_spa ∧
    (dsl_scan_free_cb env run bp tx).2.run_calls = run.run_calls := by
  unfold dsl_scan_free_cb
  simp only
  split_ifs <;> exact ⟨rfl, rfl, rfl, rfl⟩

/-- The walk of the deferred-free queue leaves the scan record, the meta
object set, the pool-wide state and the calls of the scan callback alone. -/
theorem bpobj_iterate_frame (env : scan_env) (tx : dmu_tx) :
    ∀ (bps : List blkptr) (run : scan_run),
      (bpobj_iterate env tx bps run).2.run_dp.dp_scan.scn_phys =
          run.run_dp.dp_scan.scn_phys ∧
        (bpobj_iterate env tx bps run).2.run_dp.dp_meta_objset = run.run_dp.dp_meta_objset ∧
        (bpobj_iterate env tx bps run).2.run_dp.dp_spa = run.run_dp.dp_spa ∧
        (bpobj_iterate env tx bps run).2.run_calls = run.run_calls
  | [], run => ⟨rfl, rfl, rfl, rfl⟩
  | bp :: bps, run => by
    obtain ⟨h1, h2, h3, h4⟩ := free_cb_frame env run bp tx
    unfold bpobj_iterate
    simp only
    split_ifs
    · exact ⟨h1, h2, h3, h4⟩
    · obtain ⟨k1, k2, k3, k4⟩ := bpobj_iterate_frame env tx bps
        { (dsl_scan_free_cb env run bp tx).2 with
          run_dp := { (dsl_scan_free_cb env run bp tx).2.run_dp with
            dp_free_bpobj :=
              bpobj_freed env (dsl_scan_free_cb env run bp tx).2.run_dp.dp_free_bpobj bp } }
      exact ⟨k1.trans h1, k2.trans h2, k3.trans h3, k4.trans h4⟩

/-- The block of `dsl_scan_sync` that processes the free list leaves the scan
record, the meta object set and the calls of the scan callback alone. -/
theorem sync_free_frame (env : scan_env) (tx : dmu_tx) (run : scan_run) :
    (dsl_scan_sync_free env tx run).2.run_dp.dp_scan.scn_phys = run.run_dp.dp_scan.scn_phys ∧
    (dsl_scan_sync_free env tx run).2.run_dp.dp_meta_objset = run.run_dp.dp_meta_objset ∧
    (dsl_scan_sync_free env tx run).2.run_calls = run.run_calls := by
  obtain ⟨k1, k2, -, k4⟩ := bpobj_iterate_frame env tx run.run_dp.dp_free_bpobj.bpo_blkptrs
    { run with run_dp := { run.run_dp with dp_scan := { run.run_dp.dp_scan with
        scn_zio_root := some 0 } } }
  unfold dsl_scan_sync_free
  simp only
  split_ifs
  · exact ⟨k1, k2, k4⟩
  · exact ⟨k1, k2, k4⟩

/-- Claim C19 (as stated, refuted): 1000 bytes have been examined, the work
queue is the object 7, a restart is scheduled for txg 5 and one block waits
on the deferred-free queue.  In the sync of txg 60 the clock is past the
budget at the first free, `dsl_scan_free_cb` returns `ERESTART` and the sync
returns without a call of the scan callback, but the restart at the head of
the sync has set up a new scan: the examined counter is 0 and the work
queue is the object 8. -/
theorem sync_free_restart_counterexample :
    pool_frees_restart.dp_scan.scn_phys.scn_examined = 1000 ∧
    pool_frees_restart.dp_scan.scn_phys.scn_queue_obj = 7 ∧
    (dsl_scan_sync_restart env_late pool_frees_restart { tx_txg := 60 }).map
      (fun dp2 => (dsl_scan_sync_free env_late { tx_txg := 60 }
        (dsl_scan_sync_begin env_late dp2)).1) = some ERESTART ∧
    (dsl_scan_sync env_late 0 pool_frees_restart { tx_txg := 60 }).map
      (fun run => (run.run_dp.dp_scan.scn_phys.scn_examined,
        run.run_dp.dp_scan.scn_phys.scn_queue_obj, run.run_calls)) = some (0, 8, []) := by
  decide

/-- Claim C19 (amended): `dsl_scan_free_cb` returns `ERESTART` exactly when
the elapsed seconds exceed `zfs_txg_timeout`, or the elapsed milliseconds
exceed `zfs_free_min_time_ms` while the txg sync is waiting, or the pool is
shutting down, and 0 otherwise.  When the walk of the deferred-free queue
ends with `ERESTART`, `dsl_scan_sync` returns without any traversal: the scan
callback is not called, and the scan record (bookmark, DDT bookmark, state,
examined counter) and the meta object set with the work queue are as the
restart block at the head of the sync left them: unchanged by the sync when
no restart is due. -/
theorem sync_free_restart (env : scan_env) (fuel : Nat) (dp dp2 : dsl_pool) (tx : dmu_tx)
    (run : scan_run) (bp : blkptr)
    (h2 : dsl_scan_sync_restart env dp tx = some dp2)
    (ha : dsl_scan_active dp2 = true) (hp : env.env_spa_sync_pass ≤ 1)
    (hv : dp2.dp_spa.spa_version ≥ SPA_VERSION_DEADLISTS)
    (he : (dsl_scan_sync_free env tx (dsl_scan_sync_begin env dp2)).1 = ERESTART) :
    ((dsl_scan_free_cb env run bp tx).1 =
        if wrap64 (env.env_gethrtime run.run_checks +
              (2 ^ 64 - run.run_dp.dp_scan.scn_sync_start_time % 2 ^ 64)) / NANOSEC >
              env.env_tun.zfs_txg_timeout ∨
            (wrap64 (env.env_gethrtime run.run_checks +
              (2 ^ 64 - run.run_dp.dp_scan.scn_sync_start_time % 2 ^ 64)) / MICROSEC >
                env.env_tun.zfs_free_min_time_ms ∧
              env.env_txg_sync_waiting run.run_checks = true) ∨
            run.run_dp.dp_spa.spa_shutting_down = true then ERESTART
        else 0) ∧
    ∃ run', dsl_scan_sync env fuel dp tx = some run' ∧
      run'.run_calls = [] ∧
      run'.run_dp.dp_scan.scn_phys = dp2.dp_scan.scn_phys ∧
      run'.run_dp.dp_meta_objset = dp2.dp_meta_objset ∧
      (¬ (dp.dp_scan.scn_restart_txg ≠ 0 ∧ dp.dp_scan.scn_restart_txg ≤ tx.tx_txg) →
        run'.run_dp.dp_scan.scn_phys = dp.dp_scan.scn_phys ∧
        run'.run_dp.dp_meta_objset = dp.dp_meta_objset) := by
  constructor
  · unfold dsl_scan_free_cb
    simp only
    split_ifs <;> rfl
  · obtain ⟨k1, k2, k4⟩ := sync_free_frame env tx (dsl_scan_sync_begin env dp2)
    have hna : ¬ (¬ dsl_scan_active dp2 = true ∨ env.env_spa_sync_pass > 1) := by
      intro h
      rcases h with h | h
      · exact h ha
      · omega
    have hv' : (dsl_scan_sync_begin env dp2).run_dp.dp_spa.spa_version ≥
        SPA_VERSION_DEADLISTS := hv
    refine ⟨(dsl_scan_sync_free env tx (dsl_scan_sync_begin env dp2)).2, ?_, k4, k1, k2, ?_⟩
    · unfold dsl_scan_sync
      rw [h2]
      simp only [Option.some_bind]
      rw [if_neg hna]
      simp only [hv', if_true, he, and_self]
    · intro hn
      have hdp : dp2 = dp := by
        unfold dsl_scan_sync_restart at h2
        rw [if_neg hn] at h2
        cases h2
        rfl
      rw [← hdp]
      exact ⟨k1, k2⟩

/-- Claim C19 (witness): 1000 bytes have been examined, one block waits on the
deferred-free queue and no restart is due; the clock is past the budget at the
first free. -/
theorem sync_free_restart_witness :
    dsl_scan_sync_restart env_late pool_frees_pending { tx_txg := 60 } =
      some pool_frees_pending ∧
    dsl_scan_active pool_frees_pending = true ∧ env_late.env_spa_sync_pass ≤ 1 ∧
    pool_frees_pending.dp_spa.spa_version ≥ SPA_VERSION_DEADLISTS ∧
    (dsl_scan_sync_free env_late { tx_txg := 60 }
      (dsl_scan_sync_begin env_late pool_frees_pending)).1 = ERESTART ∧
    ∃ run', dsl_scan_sync env_late 0 pool_frees_pending { tx_txg := 60 } = some run' ∧
      run'.run_calls = [] ∧
      run'.run_dp.dp_scan.scn_phys = pool_frees_pending.dp_scan.scn_phys ∧
      run'.run_dp.dp_meta_objset = pool_frees_pending.dp_meta_objset :=
  ⟨rfl, by decide, by decide, by decide, by decide,
    (sync_free_restart env_late 0 pool_frees_pending pool_frees_pending { tx_txg := 60 }
      { run_dp := pool_frees_pending, run_checks := 1, run_calls := [] } (bp_born 20)
      rfl (by decide) (by decide) (by decide) (by decide)).2.imp
      fun _ h => ⟨h.1, h.2.1, h.2.2.1, h.2.2.2.1⟩⟩

/-! ### The order of the bookmarks -/

/-- A left shift that does not overflow is a multiplication by a power of
two. -/
theorem shl64_of_lt (x : Nat) (s : Int) (hs : 0 ≤ s) (hx : 0 < x)
    (h : x * 2 ^ s.toNat < 2 ^ 64) : shl64 x s = x * 2 ^ s.toNat := by
  have hlt : s.toNat < 64 := by
    by_contra hge
    have h1 : 2 ^ 64 ≤ 2 ^ s.toNat := Nat.pow_le_pow_right (by decide) (by omega)
    have h2 : 2 ^ s.toNat ≤ x * 2 ^ s.toNat := Nat.le_mul_of_pos_left _ hx
    omega
  have hmod : s % 64 = s := Int.emod_eq_of_lt hs (by omega)
  unfold shl64
  rw [hmod]
  exact Nat.mod_eq_of_lt h

/-- Claim C21. For two bookmarks in the same object `obj`, which is neither
the meta-dnode nor the deadlist object, a dnode that is not `NULL`, and a shift
`s = zb1.zb_level * (dn_indblkshift - SPA_BLKPTRSHIFT)` that is not negative
and for which `(zb1.zb_blkid + 1) << s` does not overflow 64 bits:
`bookmark_is_before(dnp, zb1, zb2)` is true exactly when every level-0 block id
`b` of the subtree of `zb1`, `zb1.zb_blkid << s <= b < (zb1.zb_blkid + 1) << s`,
is below `zb2.zb_blkid`. -/
theorem bookmark_is_before_same_object (dn : dnode_phys) (zb1 zb2 : zbookmark)
    (hobj : zb2.zb_object = zb1.zb_object)
    (hmeta : zb1.zb_object ≠ DMU_META_DNODE_OBJECT)
    (hdead : zb1.zb_object ≠ DMU_DEADLIST_OBJECT)
    (hs : 0 ≤ zb1.zb_level * ((dn.dn_indblkshift : Int) - (SPA_BLKPTRSHIFT : Int)))
    (hov : (zb1.zb_blkid + 1) *
      2 ^ (zb1.zb_level * ((dn.dn_indblkshift : Int) - (SPA_BLKPTRSHIFT : Int))).toNat
        < 2 ^ 64) :
    bookmark_is_before (some dn) zb1 zb2 = true ↔
      ∀ b : Nat,
        zb1.zb_blkid *
          2 ^ (zb1.zb_level * ((dn.dn_indblkshift : Int) - (SPA_BLKPTRSHIFT : Int))).toNat ≤ b →
        b < (zb1.zb_blkid + 1) *
          2 ^ (zb1.zb_level * ((dn.dn_indblkshift : Int) - (SPA_BLKPTRSHIFT : Int))).toNat →
        b < zb2.zb_blkid := by
  generalize hsd : zb1.zb_level * ((dn.dn_indblkshift : Int) - (SPA_BLKPTRSHIFT : Int)) = s
    at hs hov ⊢
  have hpos : 0 < 2 ^ s.toNat := Nat.two_pow_pos _
  have hid : zb1.zb_blkid + 1 < 2 ^ 64 := by
    have : zb1.zb_blkid + 1 ≤ (zb1.zb_blkid + 1) * 2 ^ s.toNat := Nat.le_mul_of_pos_right _ hpos
    omega
  have hw : wrap64 (zb1.zb_blkid + 1) = zb1.zb_blkid + 1 := Nat.mod_eq_of_lt hid
  have hshl : shl64 (wrap64 (zb1.zb_blkid + 1)) s = (zb1.zb_blkid + 1) * 2 ^ s.toNat := by
    rw [hw]
    exact shl64_of_lt _ _ hs (Nat.succ_pos _) hov
  have h2 : ¬ zb2.zb_object = DMU_DEADLIST_OBJECT := by
    rw [hobj]
    exact hdead
  have h2m : ¬ zb2.zb_object = DMU_META_DNODE_OBJECT := by
    rw [hobj]
    exact hmeta
  have h20 : zb2.zb_object ≠ 0 := h2m
  have hval : bookmark_is_before (some dn) zb1 zb2 =
      decide ((zb1.zb_blkid + 1) * 2 ^ s.toNat ≤ zb2.zb_blkid) := by
    unfold bookmark_is_before
    rw [if_neg h2]
    simp only
    rw [hsd, hshl, if_pos h20, if_neg hmeta, hobj, if_neg (Nat.lt_irrefl _),
      if_neg (Nat.lt_irrefl _)]
    rw [← hobj, if_neg h2m]
  rw [hval, decide_eq_true_iff]
  constructor
  · intro hle b _ hb
    omega
  · intro hall
    by_contra hlt
    have hlast := hall ((zb1.zb_blkid + 1) * 2 ^ s.toNat - 1)
      (by
        have : (zb1.zb_blkid + 1) * 2 ^ s.toNat = zb1.zb_blkid * 2 ^ s.toNat + 2 ^ s.toNat := by
          ring
        omega)
      (by
        have : 0 < (zb1.zb_blkid + 1) * 2 ^ s.toNat := Nat.mul_pos (Nat.succ_pos _) hpos
        omega)
    omega

/-- Claim C21 (witness): under `dnode_file` (128 block pointers in an indirect
block) the level-1 block 2 of object 5 covers the level-0 blocks 256 to 383; it
is before the level-0 block 384 of the same object. -/
theorem bookmark_is_before_same_object_witness :
    bookmark_is_before (some dnode_file) zb_indirect2 zb_block384 = true ∧
      ∀ b : Nat, 2 * 2 ^ 7 ≤ b → b < 3 * 2 ^ 7 → b < 384 :=
  ⟨by decide,
    (bookmark_is_before_same_object dnode_file zb_indirect2 zb_block384 (by decide) (by decide)
      (by decide) (by decide) (by decide)).mp (by decide)⟩

/-! ### The test of the time budget -/

/-- Claim C22. The function `dsl_scan_check_pause` returns true exactly when
the object id of the bookmark is not negative (or the bookmark is `NULL`) and
either `scn_pausing` is set already, or the persisted bookmark is zero, the
bookmark is at level 0 (or `NULL`) and the budget is used up: the seconds
elapsed since `scn_sync_start_time` exceed `zfs_txg_timeout`, or the
milliseconds elapsed exceed the minimum time while the txg sync is waiting, or
the pool is shutting down.  The minimum time is `zfs_resilver_min_time_ms` for a
resilver and `zfs_scan_min_time_ms` otherwise; the time elapsed is the 64-bit
difference `gethrtime() - scn_sync_start_time`. -/
theorem check_pause_iff (tun : tunables) (dp : dsl_pool) (zb : Option zbookmark)
    (hrtime : Nat) (sync_waiting : Bool) :
    (dsl_scan_check_pause tun dp zb hrtime sync_waiting).1 = true ↔
      (∀ z, zb = some z → 0 ≤ to_int64 z.zb_object) ∧
      (dp.dp_scan.scn_pausing = true ∨
        (bookmark_is_zero dp.dp_scan.scn_phys.scn_bookmark = true ∧
          (∀ z, zb = some z → z.zb_level = 0) ∧
          (wrap64 (hrtime + (2 ^ 64 - dp.dp_scan.scn_sync_start_time % 2 ^ 64)) / NANOSEC >
              tun.zfs_txg_timeout ∨
            (wrap64 (hrtime + (2 ^ 64 - dp.dp_scan.scn_sync_start_time % 2 ^ 64)) / MICROSEC >
                (if dp.dp_scan.scn_phys.scn_func = POOL_SCAN_RESILVER then
                  tun.zfs_resilver_min_time_ms
                else tun.zfs_scan_min_time_ms) ∧
              sync_waiting = true) ∨
            dp.dp_spa.spa_shutting_down = true))) := by
  unfold dsl_scan_check_pause
  simp only
  generalize wrap64 (hrtime + (2 ^ 64 - dp.dp_scan.scn_sync_start_time % 2 ^ 64)) = el
  generalize (if dp.dp_scan.scn_phys.scn_func = POOL_SCAN_RESILVER then
      tun.zfs_resilver_min_time_ms else tun.zfs_scan_min_time_ms) = mintime
  cases zb with
  | none =>
    simp only [Bool.false_eq_true, if_false]
    by_cases hp : dp.dp_scan.scn_pausing = true
    · simp [hp]
    · rw [if_neg hp]
      by_cases hz : bookmark_is_zero dp.dp_scan.scn_phys.scn_bookmark = true
      · rw [if_neg (fun h => h hz)]
        by_cases hb : el / NANOSEC > tun.zfs_txg_timeout ∨
            (el / MICROSEC > mintime ∧ sync_waiting = true) ∨
            dp.dp_spa.spa_shutting_down = true
        · rw [if_pos hb]
          simp [hz, hb]
        · rw [if_neg hb]
          simp [hp, hb]
      · rw [if_pos hz]
        simp [hp, hz]
  | some z =>
    simp only [decide_eq_true_eq]
    by_cases hneg : to_int64 z.zb_object < 0
    · rw [if_pos hneg]
      have : ¬ 0 ≤ to_int64 z.zb_object := by omega
      simp [this]
    · rw [if_neg hneg]
      have hge : 0 ≤ to_int64 z.zb_object := by omega
      by_cases hp : dp.dp_scan.scn_pausing = true
      · simp [hp, hge]
      · rw [if_neg hp]
        by_cases hz : bookmark_is_zero dp.dp_scan.scn_phys.scn_bookmark = true
        · rw [if_neg (fun h => h hz)]
          by_cases hl : z.zb_level ≠ 0
          · rw [if_pos hl]
            simp [hp, hl]
          · rw [if_neg hl]
            have hl0 : z.zb_level = 0 := by simpa using hl
            by_cases hb : el / NANOSEC > tun.zfs_txg_timeout ∨
                (el / MICROSEC > mintime ∧ sync_waiting = true) ∨
                dp.dp_spa.spa_shutting_down = true
            · rw [if_pos hb]
              simp [hz, hb, hge, hl0]
            · rw [if_neg hb]
              simp [hp, hb]
        · rw [if_pos hz]
          simp [hp, hz]

/-- Claim C23. Whenever `dsl_scan_check_pause` returns true, `scn_pausing` is
set afterwards and nothing but `scn_pausing` and the persisted bookmark differs
from before.  The bookmark is written only on a fresh pause (`scn_pausing` was
not set) with a bookmark given, and then with that bookmark, whose level is 0
and whose object id is not negative; on every other return of true it is left
alone.  Whenever the function returns false the pool is unchanged. -/
theorem check_pause_state (tun : tunables) (dp : dsl_pool) (zb : Option zbookmark)
    (hrtime : Nat) (sync_waiting : Bool) :
    ((dsl_scan_check_pause tun dp zb hrtime sync_waiting).1 = true →
      (dsl_scan_check_pause tun dp zb hrtime sync_waiting).2.dp_scan.scn_pausing = true ∧
      (dsl_scan_check_pause tun dp zb hrtime sync_waiting).2 =
        { dp with dp_scan := { dp.dp_scan with
            scn_pausing := true
            scn_phys := { dp.dp_scan.scn_phys with
              scn_bookmark := (dsl_scan_check_pause tun dp zb hrtime
                sync_waiting).2.dp_scan.scn_phys.scn_bookmark } } } ∧
      (∀ z, dp.dp_scan.scn_pausing = false → zb = some z →
        (dsl_scan_check_pause tun dp zb hrtime sync_waiting).2.dp_scan.scn_phys.scn_bookmark
          = z ∧ z.zb_level = 0 ∧ 0 ≤ to_int64 z.zb_object) ∧
      (dp.dp_scan.scn_pausing = true ∨ zb = none →
        (dsl_scan_check_pause tun dp zb hrtime sync_waiting).2.dp_scan.scn_phys.scn_bookmark
          = dp.dp_scan.scn_phys.scn_bookmark)) ∧
    ((dsl_scan_check_pause tun dp zb hrtime sync_waiting).1 = false →
      (dsl_scan_check_pause tun dp zb hrtime sync_waiting).2 = dp) := by
  unfold dsl_scan_check_pause
  simp only
  generalize wrap64 (hrtime + (2 ^ 64 - dp.dp_scan.scn_sync_start_time % 2 ^ 64)) = el
  generalize (if dp.dp_scan.scn_phys.scn_func = POOL_SCAN_RESILVER then
      tun.zfs_resilver_min_time_ms else tun.zfs_scan_min_time_ms) = mintime
  cases zb with
  | none =>
    simp only [Bool.false_eq_true, if_false]
    by_cases hp : dp.dp_scan.scn_pausing = true
    · rw [if_pos hp]
      refine ⟨fun _ => ⟨hp, ?_, fun z hf => ?_, fun _ => rfl⟩, fun h => by cases h⟩
      · show dp = { dp with dp_scan := { dp.dp_scan with scn_pausing := true } }
        rw [← hp]
      · rw [hp] at hf
        cases hf
    · rw [if_neg hp]
      by_cases hz : bookmark_is_zero dp.dp_scan.scn_phys.scn_bookmark = true
      · rw [if_neg (fun h => h hz)]
        by_cases hb : el / NANOSEC > tun.zfs_txg_timeout ∨
            (el / MICROSEC > mintime ∧ sync_waiting = true) ∨
            dp.dp_spa.spa_shutting_down = true
        · rw [if_pos hb]
          exact ⟨fun _ => ⟨rfl, rfl, fun z _ hn => (by cases hn), fun _ => rfl⟩,
            fun h => by cases h⟩
        · rw [if_neg hb]
          exact ⟨fun h => (by cases h), fun _ => rfl⟩
      · rw [if_pos hz]
        exact ⟨fun h => (by cases h), fun _ => rfl⟩
  | some z =>
    simp only [decide_eq_true_eq]
    by_cases hneg : to_int64 z.zb_object < 0
    · rw [if_pos hneg]
      exact ⟨fun h => (by cases h), fun _ => rfl⟩
    · rw [if_neg hneg]
      have hge : 0 ≤ to_int64 z.zb_object := by omega
      by_cases hp : dp.dp_scan.scn_pausing = true
      · rw [if_pos hp]
        refine ⟨fun _ => ⟨hp, ?_, fun z hf => ?_, fun _ => rfl⟩, fun h => by cases h⟩
        · show dp = { dp with dp_scan := { dp.dp_scan with scn_pausing := true } }
          rw [← hp]
        · rw [hp] at hf
          cases hf
      · rw [if_neg hp]
        by_cases hz : bookmark_is_zero dp.dp_scan.scn_phys.scn_bookmark = true
        · rw [if_neg (fun h => h hz)]
          by_cases hl : z.zb_level ≠ 0
          · rw [if_pos hl]
            exact ⟨fun h => (by cases h), fun _ => rfl⟩
          · rw [if_neg hl]
            have hl0 : z.zb_level = 0 := by simpa using hl
            by_cases hb : el / NANOSEC > tun.zfs_txg_timeout ∨
                (el / MICROSEC > mintime ∧ sync_waiting = true) ∨
                dp.dp_spa.spa_shutting_down = true
            · rw [if_pos hb]
              refine ⟨fun _ => ⟨rfl, rfl, fun z' _ hz' => ?_, fun hor => ?_⟩, fun h => by cases h⟩
              · cases hz'
                exact ⟨rfl, hl0, hge⟩
              · rcases hor with h | h
                · exact absurd h hp
                · cases h
            · rw [if_neg hb]
              exact ⟨fun h => (by cases h), fun _ => rfl⟩
        · rw [if_pos hz]
          exact ⟨fun h => (by cases h), fun _ => rfl⟩

/-! ### The resume check -/

/-- Claim C24. With a persisted bookmark that is not zero and a bookmark `zb`
whose object id is not negative, `dsl_scan_check_resume` returns true exactly
when `bookmark_is_before(dnp, zb, scn_bookmark)`, and then changes nothing;
when it returns false it zeroes the persisted bookmark if `zb` equals it or the
object id of `zb` is greater than the one of the persisted bookmark, and
changes nothing otherwise.  With a zero persisted bookmark or a negative
object id it returns false and changes nothing. -/
theorem check_resume_cases (dp : dsl_pool) (dnp : Option dnode_phys) (zb : zbookmark) :
    (bookmark_is_zero dp.dp_scan.scn_phys.scn_bookmark = false → 0 ≤ to_int64 zb.zb_object →
      ((dsl_scan_check_resume dp dnp zb).1 = true ↔
        bookmark_is_before dnp zb dp.dp_scan.scn_phys.scn_bookmark = true) ∧
      ((dsl_scan_check_resume dp dnp zb).1 = true → (dsl_scan_check_resume dp dnp zb).2 = dp) ∧
      ((dsl_scan_check_resume dp dnp zb).1 = false →
        (zb = dp.dp_scan.scn_phys.scn_bookmark ∨
            zb.zb_object > dp.dp_scan.scn_phys.scn_bookmark.zb_object) →
        (dsl_scan_check_resume dp dnp zb).2 =
          { dp with dp_scan := { dp.dp_scan with
              scn_phys := { dp.dp_scan.scn_phys with scn_bookmark := zbookmark_zero } } }) ∧
      ((dsl_scan_check_resume dp dnp zb).1 = false →
        ¬ (zb = dp.dp_scan.scn_phys.scn_bookmark ∨
            zb.zb_object > dp.dp_scan.scn_phys.scn_bookmark.zb_object) →
        (dsl_scan_check_resume dp dnp zb).2 = dp)) ∧
    (bookmark_is_zero dp.dp_scan.scn_phys.scn_bookmark = true ∨ to_int64 zb.zb_object < 0 →
      dsl_scan_check_resume dp dnp zb = (false, dp)) := by
  unfold dsl_scan_check_resume
  simp only
  constructor
  · intro hz hge
    have hc : ¬ bookmark_is_zero dp.dp_scan.scn_phys.scn_bookmark = true ∧
        to_int64 zb.zb_object ≥ 0 := ⟨by simp [hz], hge⟩
    rw [if_pos hc]
    by_cases hb : bookmark_is_before dnp zb dp.dp_scan.scn_phys.scn_bookmark = true
    · rw [if_pos hb]
      exact ⟨⟨fun _ => hb, fun _ => rfl⟩, fun _ => rfl, fun h => (by cases h), fun h => by cases h⟩
    · rw [if_neg hb]
      by_cases he : zb = dp.dp_scan.scn_phys.scn_bookmark ∨
          zb.zb_object > dp.dp_scan.scn_phys.scn_bookmark.zb_object
      · rw [if_pos he]
        exact ⟨⟨fun h => (by cases h), fun h => absurd h hb⟩, fun h => (by cases h), fun _ _ => rfl,
          fun _ hn => absurd he hn⟩
      · rw [if_neg he]
        exact ⟨⟨fun h => (by cases h), fun h => absurd h hb⟩, fun h => (by cases h),
          fun _ h => absurd h he, fun _ _ => rfl⟩
  · intro hor
    have hc : ¬ (¬ bookmark_is_zero dp.dp_scan.scn_phys.scn_bookmark = true ∧
        to_int64 zb.zb_object ≥ 0) := by
      rintro ⟨h1, h2⟩
      rcases hor with h | h
      · exact h1 h
      · omega
    rw [if_neg hc]

/-! ### A scan that is not running -/

/-- Claim C27. While the scan is not SCANNING, `dsl_scan_ds_destroyed`,
`dsl_scan_ds_snapshotted`, `dsl_scan_ds_clone_swapped` and
`dsl_scan_ddt_entry` return at once: the pool (the scan record, the work queue
and the persisted record in the meta object set) is as it was, and no call of
the scan callback has been made. -/
theorem not_scanning_noop (env : scan_env) (run : scan_run) (ds ds1 ds2 : dsl_dataset)
    (tx : dmu_tx) (checksum : Nat) (dde : ddt_entry)
    (hs : run.run_dp.dp_scan.scn_phys.scn_state ≠ DSS_SCANNING) :
    dsl_scan_ds_destroyed run.run_dp ds tx = some run.run_dp ∧
    dsl_scan_ds_snapshotted run.run_dp ds tx = some run.run_dp ∧
    dsl_scan_ds_clone_swapped run.run_dp ds1 ds2 tx = some run.run_dp ∧
    dsl_scan_ddt_entry env checksum dde tx run = some run := by
  refine ⟨?_, ?_, ?_, ?_⟩
  · unfold dsl_scan_ds_destroyed
    simp only
    rw [if_pos hs]
  · unfold dsl_scan_ds_snapshotted
    simp only
    rw [if_pos hs]
  · unfold dsl_scan_ds_clone_swapped
    simp only
    rw [if_pos hs]
  · unfold dsl_scan_ddt_entry
    rw [if_pos hs]

/-- Claim C27 (witness): the pool without a scan, the dataset 9 and the dedup
entry with a copy born in txg 3. -/
theorem not_scanning_noop_witness :
    pool_idle.dp_scan.scn_phys.scn_state ≠ DSS_SCANNING ∧
    dsl_scan_ds_destroyed pool_idle ds_snapshot9 { tx_txg := 60 } = some pool_idle ∧
    dsl_scan_ds_snapshotted pool_idle ds_snapshot9 { tx_txg := 60 } = some pool_idle ∧
    dsl_scan_ds_clone_swapped pool_idle ds_head9 ds_head11 { tx_txg := 60 } = some pool_idle ∧
    (dsl_scan_ddt_entry env_idle 0 dde_born3 { tx_txg := 60 }
        { run_dp := pool_idle, run_checks := 0, run_calls := [] }).map
      (fun run => run.run_calls) = some [] :=
  ⟨by decide,
    (not_scanning_noop env_idle { run_dp := pool_idle, run_checks := 0, run_calls := [] }
      ds_snapshot9 ds_head9 ds_head11 { tx_txg := 60 } 0 dde_born3 (by decide)).1,
    (not_scanning_noop env_idle { run_dp := pool_idle, run_checks := 0, run_calls := [] }
      ds_snapshot9 ds_head9 ds_head11 { tx_txg := 60 } 0 dde_born3 (by decide)).2.1,
    (not_scanning_noop env_idle { run_dp := pool_idle, run_checks := 0, run_calls := [] }
      ds_snapshot9 ds_head9 ds_head11 { tx_txg := 60 } 0 dde_born3 (by decide)).2.2.1,
    by
      rw [(not_scanning_noop env_idle { run_dp := pool_idle, run_checks := 0, run_calls := [] }
        ds_snapshot9 ds_head9 ds_head11 { tx_txg := 60 } 0 dde_born3 (by decide)).2.2.2]
      rfl⟩

/-- Claim C29. On a scan that is not SCANNING `dsl_scan_done` returns (when
the work queue object named by `scn_queue_obj`, if any, can be freed) and
changes nothing in the scan context but `scn_queue_obj`, which is 0
afterwards: the state, the end time, the errors and the flags are as before,
whatever `complete` is; nothing is notified or logged, and the fields of the
pool the finish of a scan writes are left alone. -/
theorem done_not_scanning (dp : dsl_pool) (complete : Bool) (tx : dmu_tx) (now : Nat)
    (hs : dp.dp_scan.scn_phys.scn_state ≠ DSS_SCANNING) (hq : queue_obj_allocated dp) :
    ∃ dp', dsl_scan_done dp complete tx now = some dp' ∧
      dp'.dp_scan =
        { dp.dp_scan with scn_phys := { dp.dp_scan.scn_phys with scn_queue_obj := 0 } } ∧
      dp'.dp_scan.scn_phys.scn_state = dp.dp_scan.scn_phys.scn_state ∧
      dp'.dp_scan.scn_phys.scn_end_time = dp.dp_scan.scn_phys.scn_end_time ∧
      dp'.dp_scan.scn_phys.scn_errors = dp.dp_scan.scn_phys.scn_errors ∧
      dp'.dp_scan.scn_phys.scn_flags = dp.dp_scan.scn_phys.scn_flags ∧
      dp'.dp_trace = dp.dp_trace ∧ dp'.dp_spa = dp.dp_spa := by
  obtain ⟨os', hfree, -⟩ := done_free_queue_returns dp hq
  unfold dsl_scan_done
  rw [hfree]
  simp only [Option.some_bind]
  rw [if_pos hs]
  exact ⟨_, rfl, rfl, rfl, rfl, rfl, rfl, rfl, rfl⟩

/-- Claim C29 (witness): a finished scrub with two errors whose record still
names the work queue object 7; `dsl_scan_done` with `complete` set frees the
object and leaves the state FINISHED, the end time 900 and the errors. -/
theorem done_not_scanning_witness :
    pool_finished_queue7.dp_scan.scn_phys.scn_state ≠ DSS_SCANNING ∧
    queue_obj_allocated pool_finished_queue7 ∧
    ∃ dp', dsl_scan_done pool_finished_queue7 true { tx_txg := 60 } 1000 = some dp' ∧
      dp'.dp_scan.scn_phys.scn_queue_obj = 0 ∧
      dp'.dp_scan.scn_phys.scn_state = DSS_FINISHED ∧
      dp'.dp_scan.scn_phys.scn_end_time = 900 ∧
      dp'.dp_scan.scn_phys.scn_errors = 2 ∧
      dp'.dp_trace = [] :=
  ⟨by decide, by unfold queue_obj_allocated; decide,
    (done_not_scanning pool_finished_queue7 true { tx_txg := 60 } 1000 (by decide)
      (by unfold queue_obj_allocated; decide)).imp
      fun _ h => ⟨h.1, by rw [h.2.1], h.2.2.1, h.2.2.2.1, h.2.2.2.2.1, h.2.2.2.2.2.2.1⟩⟩

/-! ### The scan callback on a level-0 block -/

/-- The function `dsl_scan_recurse` on a level-0 block that is neither a
block of dnodes nor an objset returns 0 and leaves the run alone: a data block
is not read, a block of a user/group accounting object is read and nothing
else is done with it. -/
theorem recurse_level0 (env : scan_env) (bp : blkptr) (zb : zbookmark) (dnp : Option dnode_phys)
    (ds : Option dsl_dataset) (ostype : Nat) (tx : dmu_tx) (buf : arcbuf) (run : scan_run)
    (hl : BP_GET_LEVEL bp = 0)
    (h1 : BP_GET_TYPE bp = DMU_OT_USERGROUP_USED → buf = arcbuf.data)
    (h2 : BP_GET_TYPE bp ≠ DMU_OT_DNODE) (h3 : BP_GET_TYPE bp ≠ DMU_OT_OBJSET) :
    dsl_scan_recurse env bp zb dnp ds ostype tx buf run = some (0, run) := by
  by_cases ht : BP_GET_TYPE bp = DMU_OT_USERGROUP_USED
  · rw [h1 ht]
    unfold dsl_scan_recurse
    simp [hl, ht]
  · exact recurse_leaf env bp zb dnp ds ostype tx buf run hl ht h2 h3

/-- The function `dsl_scan_visitbp` on a block for which `dsl_scan_recurse`
returns 0 without a change, once the pause and resume checks have passed. -/
theorem visitbp_checked_eq (env : scan_env) (zb : zbookmark) (dnp : Option dnode_phys)
    (ds : Option dsl_dataset) (ostype : Nat) (tx : dmu_tx) (bp : blkptr) (buf : arcbuf)
    (run : scan_run)
    (hrec : ∀ r, dsl_scan_recurse env bp zb dnp ds ostype tx buf r = some (0, r))
    (hp : (run_check_pause env run (some zb)).1 = false)
    (hrs : (dsl_scan_check_resume run.run_dp dnp zb).1 = false) :
    dsl_scan_visitbp env zb dnp ds ostype tx (bptree.mk bp buf) run =
      if bp.blk_birth = 0 then
        some { (run_check_pause env run (some zb)).2 with
          run_dp := (dsl_scan_check_resume run.run_dp dnp zb).2 }
      else if bp.blk_birth ≤ run.run_dp.dp_scan.scn_phys.scn_cur_min_txg ∨
          env.env_ddt_class_contains run.run_dp.dp_scan.scn_phys.scn_ddt_class_max bp = true ∨
          ¬ bp.blk_birth ≤ run.run_dp.dp_scan.scn_phys.scn_cur_max_txg then
        some (run_visited_incr { (run_check_pause env run (some zb)).2 with
          run_dp := (dsl_scan_check_resume run.run_dp dnp zb).2 })
      else
        (scan_funcs env (run_visited_incr { (run_check_pause env run (some zb)).2 with
          run_dp := (dsl_scan_check_resume run.run_dp dnp zb).2 }) bp zb).map fun c => c.2 := by
  have hdp : (run_check_pause env run (some zb)).2.run_dp = run.run_dp :=
    check_pause_false _ _ _ _ _ hp
  have hfr := check_resume_frame run.run_dp dnp zb
  unfold dsl_scan_visitbp
  simp only
  rw [if_neg (by simp [hp]), hdp, if_neg (by simp [hrs])]
  by_cases hb : bp.blk_birth = 0
  · rw [if_pos hb, if_pos hb]
  · rw [if_neg hb, if_neg hb]
    have hmin : (run_visited_incr { (run_check_pause env run (some zb)).2 with
        run_dp := (dsl_scan_check_resume run.run_dp dnp zb).2 }).run_dp.dp_scan.scn_phys.scn_cur_min_txg
        = run.run_dp.dp_scan.scn_phys.scn_cur_min_txg := by
      show (dsl_scan_check_resume run.run_dp dnp zb).2.dp_scan.scn_phys.scn_cur_min_txg = _
      rw [hfr]
    have hmax : (run_visited_incr { (run_check_pause env run (some zb)).2 with
        run_dp := (dsl_scan_check_resume run.run_dp dnp zb).2 }).run_dp.dp_scan.scn_phys.scn_cur_max_txg
        = run.run_dp.dp_scan.scn_phys.scn_cur_max_txg := by
      show (dsl_scan_check_resume run.run_dp dnp zb).2.dp_scan.scn_phys.scn_cur_max_txg = _
      rw [hfr]
    have hcls : (run_visited_incr { (run_check_pause env run (some zb)).2 with
        run_dp := (dsl_scan_check_resume run.run_dp dnp zb).2 }).run_dp.dp_scan.scn_phys.scn_ddt_class_max
        = run.run_dp.dp_scan.scn_phys.scn_ddt_class_max := by
      show (dsl_scan_check_resume run.run_dp dnp zb).2.dp_scan.scn_phys.scn_ddt_class_max = _
      rw [hfr]
    rw [hmin]
    by_cases hc : bp.blk_birth ≤ run.run_dp.dp_scan.scn_phys.scn_cur_min_txg
    · rw [if_pos hc, if_pos (Or.inl hc)]
    · rw [if_neg hc, hrec]
      simp only [Option.some_bind, ne_eq, not_true_eq_false, if_false]
      rw [hcls, hmax]
      by_cases hd : env.env_ddt_class_contains
          run.run_dp.dp_scan.scn_phys.scn_ddt_class_max bp = true
      · rw [if_pos hd, if_pos (Or.inr (Or.inl hd))]
      · rw [if_neg hd]
        by_cases hx : bp.blk_birth ≤ run.run_dp.dp_scan.scn_phys.scn_cur_max_txg
        · rw [if_pos hx, if_neg]
          intro hor
          rcases hor with h | h | h
          · exact hc h
          · exact hd h
          · exact h hx
        · rw [if_neg hx, if_pos (Or.inr (Or.inr hx))]

/-- Claim C25. For a level-0 block pointer that `dsl_scan_recurse` does not
descend into (neither a block of dnodes nor an objset; a block of a user/group
accounting object is read, and the read is taken to succeed) and that passes
the pause and the resume check: when `blk_birth != 0`,
`blk_birth > scn_cur_min_txg`, the block is not in the DDT classes up to
`scn_ddt_class_max` and `blk_birth <= scn_cur_max_txg`, `dsl_scan_visitbp`
calls the scan callback once, on this block pointer and bookmark (and returns,
under the hypotheses under which the callback returns); in every other case it
returns without a call of the scan callback. -/
theorem visitbp_leaf_callback (env : scan_env) (zb : zbookmark) (dnp : Option dnode_phys)
    (ds : Option dsl_dataset) (ostype : Nat) (tx : dmu_tx) (bp : blkptr) (buf : arcbuf)
    (run : scan_run)
    (hl : BP_GET_LEVEL bp = 0)
    (h1 : BP_GET_TYPE bp = DMU_OT_USERGROUP_USED → buf = arcbuf.data)
    (h2 : BP_GET_TYPE bp ≠ DMU_OT_DNODE) (h3 : BP_GET_TYPE bp ≠ DMU_OT_OBJSET)
    (hp : (run_check_pause env run (some zb)).1 = false)
    (hrs : (dsl_scan_check_resume run.run_dp dnp zb).1 = false) :
    ((bp.blk_birth ≠ 0 ∧ run.run_dp.dp_scan.scn_phys.scn_cur_min_txg < bp.blk_birth ∧
        env.env_ddt_class_contains run.run_dp.dp_scan.scn_phys.scn_ddt_class_max bp = false ∧
        bp.blk_birth ≤ run.run_dp.dp_scan.scn_phys.scn_cur_max_txg) →
      scan_cb_ready run.run_dp →
      dvas_on_vdevs run.run_dp.dp_spa.spa_root_vdev (scrub_cb_dva_list bp) →
      ∃ run', dsl_scan_visitbp env zb dnp ds ostype tx (bptree.mk bp buf) run = some run' ∧
        run'.run_calls = run.run_calls ++ [(bp, zb)]) ∧
    (¬ (bp.blk_birth ≠ 0 ∧ run.run_dp.dp_scan.scn_phys.scn_cur_min_txg < bp.blk_birth ∧
        env.env_ddt_class_contains run.run_dp.dp_scan.scn_phys.scn_ddt_class_max bp = false ∧
        bp.blk_birth ≤ run.run_dp.dp_scan.scn_phys.scn_cur_max_txg) →
      ∃ run', dsl_scan_visitbp env zb dnp ds ostype tx (bptree.mk bp buf) run = some run' ∧
        run'.run_calls = run.run_calls) := by
  have hrec := fun r => recurse_level0 env bp zb dnp ds ostype tx buf r hl h1 h2 h3
  have heq := visitbp_checked_eq env zb dnp ds ostype tx bp buf run hrec hp hrs
  have hfr := check_resume_frame run.run_dp dnp zb
  constructor
  · rintro ⟨hb, hmin, hddt, hmax⟩ hr hv
    have hskip : ¬ (bp.blk_birth ≤ run.run_dp.dp_scan.scn_phys.scn_cur_min_txg ∨
        env.env_ddt_class_contains run.run_dp.dp_scan.scn_phys.scn_ddt_class_max bp = true ∨
        ¬ bp.blk_birth ≤ run.run_dp.dp_scan.scn_phys.scn_cur_max_txg) := by
      rintro (h | h | h)
      · omega
      · rw [hddt] at h
        cases h
      · exact h hmax
    rw [heq, if_neg hb, if_neg hskip]
    have hrd : scan_cb_ready (run_visited_incr
        { (run_check_pause env run (some zb)).2 with
          run_dp := (dsl_scan_check_resume run.run_dp dnp zb).2 }).run_dp := by
      show scan_cb_ready { (dsl_scan_check_resume run.run_dp dnp zb).2 with
        dp_scan := { (dsl_scan_check_resume run.run_dp dnp zb).2.dp_scan with
          scn_visited_this_txg := wrap64 ((dsl_scan_check_resume run.run_dp dnp
            zb).2.dp_scan.scn_visited_this_txg + 1) } }
      rw [hfr]
      exact hr
    have hvd : dvas_on_vdevs (run_visited_incr
        { (run_check_pause env run (some zb)).2 with
          run_dp := (dsl_scan_check_resume run.run_dp dnp
            zb).2 }).run_dp.dp_spa.spa_root_vdev (scrub_cb_dva_list bp) := by
      show dvas_on_vdevs (dsl_scan_check_resume run.run_dp dnp
        zb).2.dp_spa.spa_root_vdev _
      rw [hfr]
      exact hv
    obtain ⟨dp', hcb, -, -⟩ := scan_funcs_returns env _ bp zb hrd hvd
    rw [hcb]
    exact ⟨_, rfl, rfl⟩
  · intro hn
    rw [heq]
    by_cases hb : bp.blk_birth = 0
    · rw [if_pos hb]
      exact ⟨_, rfl, rfl⟩
    · rw [if_neg hb, if_pos]
      · exact ⟨_, rfl, rfl⟩
      · by_contra hskip
        apply hn
        refine ⟨hb, ?_, ?_, ?_⟩
        · by_contra hh
          exact hskip (Or.inl (by omega))
        · by_contra hh
          exact hskip (Or.inr (Or.inl (by simpa using hh)))
        · by_contra hh
          exact hskip (Or.inr (Or.inr hh))

/-- Claim C25 (witness): a data block born in txg 50, in the window
`cur_min_txg = 5`, `cur_max_txg = 100` of a scrub with no dedup table: the
scan callback is called once, on the block and its bookmark. -/
theorem visitbp_leaf_callback_witness :
    (run_check_pause env_idle
      { run_dp := pool_visiting_5_100, run_checks := 0, run_calls := [] }
      (some zb_block3)).1 = false ∧
    (dsl_scan_check_resume pool_visiting_5_100 none zb_block3).1 = false ∧
    ∃ run', dsl_scan_visitbp env_idle zb_block3 none none DMU_OST_NONE { tx_txg := 60 }
        (bptree.mk (bp_born 50) arcbuf.data)
        { run_dp := pool_visiting_5_100, run_checks := 0, run_calls := [] } = some run' ∧
      run'.run_calls = [(bp_born 50, zb_block3)] :=
  ⟨by decide, by decide,
    (visitbp_leaf_callback env_idle zb_block3 none none DMU_OST_NONE { tx_txg := 60 }
      (bp_born 50) arcbuf.data
      { run_dp := pool_visiting_5_100, run_checks := 0, run_calls := [] }
      (by decide) (fun _ => rfl) (by decide) (by decide) (by decide) (by decide)).1
      (by decide) (by unfold scan_cb_ready scrub_reads_accounted; decide)
      (by unfold dvas_on_vdevs; decide)⟩

/-! ### Two swaps of a clone with its origin head -/

/-- Swapping the objset of a bookmark twice gives the bookmark back. -/
theorem clone_swapped_bookmark_twice (zb : zbookmark) (o1 o2 : Nat) :
    clone_swapped_bookmark (clone_swapped_bookmark zb o1 o2) o1 o2 = zb := by
  unfold clone_swapped_bookmark
  by_cases h1 : zb.zb_objset = o1
  · rw [if_pos h1]
    by_cases h12 : o2 = o1
    · rw [if_pos h12]
      show { zb with zb_objset := o2 } = zb
      rw [h12, ← h1]
    · rw [if_neg h12, if_pos rfl]
      show { zb with zb_objset := o1 } = zb
      rw [← h1]
  · rw [if_neg h1]
    by_cases h2 : zb.zb_objset = o2
    · rw [if_pos h2, if_pos rfl]
      show { zb with zb_objset := o2 } = zb
      rw [← h2]
    · rw [if_neg h2, if_neg h1, if_neg h2]

/-- What one call of `dsl_scan_ds_clone_swapped` does while the scan is
SCANNING: it returns, the objset of the bookmark is swapped and nothing else
changes in the scan context; when both datasets are in the work queue the
queue maps every dataset as before, otherwise the entries of the two datasets
are exchanged. -/
theorem clone_swapped_effect (dp : dsl_pool) (ds1 ds2 : dsl_dataset) (tx : dmu_tx)
    (hs : dp.dp_scan.scn_phys.scn_state = DSS_SCANNING) :
    ∃ dp', dsl_scan_ds_clone_swapped dp ds1 ds2 tx = some dp' ∧
      dp'.dp_scan =
        { dp.dp_scan with scn_phys := { dp.dp_scan.scn_phys with
            scn_bookmark := clone_swapped_bookmark dp.dp_scan.scn_phys.scn_bookmark
              ds1.ds_object ds2.ds_object } } ∧
      (((∃ m1 m2,
            zap_lookup_int_key dp.dp_meta_objset dp.dp_scan.scn_phys.scn_queue_obj
              ds1.ds_object = Except.ok m1 ∧
            zap_lookup_int_key dp.dp_meta_objset dp.dp_scan.scn_phys.scn_queue_obj
              ds2.ds_object = Except.ok m2) ∧
          ∀ k, zap_lookup_int_key dp'.dp_meta_objset dp.dp_scan.scn_phys.scn_queue_obj k =
            zap_lookup_int_key dp.dp_meta_objset dp.dp_scan.scn_phys.scn_queue_obj k) ∨
        ((¬ ∃ m1 m2,
            zap_lookup_int_key dp.dp_meta_objset dp.dp_scan.scn_phys.scn_queue_obj
              ds1.ds_object = Except.ok m1 ∧
            zap_lookup_int_key dp.dp_meta_objset dp.dp_scan.scn_phys.scn_queue_obj
              ds2.ds_object = Except.ok m2) ∧
          ∀ k, zap_lookup_int_key dp'.dp_meta_objset dp.dp_scan.scn_phys.scn_queue_obj k =
            if k = ds1.ds_object then
              zap_lookup_int_key dp.dp_meta_objset dp.dp_scan.scn_phys.scn_queue_obj
                ds2.ds_object
            else if k = ds2.ds_object then
              zap_lookup_int_key dp.dp_meta_objset dp.dp_scan.scn_phys.scn_queue_obj
                ds1.ds_object
            else zap_lookup_int_key dp.dp_meta_objset dp.dp_scan.scn_phys.scn_queue_obj k)) := by
  have hs' : ¬ dp.dp_scan.scn_phys.scn_state ≠ DSS_SCANNING := fun h => h hs
  unfold dsl_scan_ds_clone_swapped
  simp only [hs', if_false]
  cases h1 : zap_lookup_int_key dp.dp_meta_objset dp.dp_scan.scn_phys.scn_queue_obj
      ds1.ds_object with
  | ok m1 =>
    have hrm := zap_remove_int_ok _ _ _ _ h1
    have hrl := zap_remove_int_lookup dp.dp_meta_objset dp.dp_scan.scn_phys.scn_queue_obj
      ds1.ds_object
    have hsome : ((zap_remove_int dp.dp_meta_objset dp.dp_scan.scn_phys.scn_queue_obj
        ds1.ds_object).2.os_zaps.lookup dp.dp_scan.scn_phys.scn_queue_obj).isSome = true := by
      rw [zap_remove_int_isSome]
      exact zap_lookup_int_key_isSome _ _ _ _ h1
    simp only [hrm, ne_eq, not_true_eq_false, if_false]
    cases h2 : zap_lookup_int_key
        (zap_remove_int dp.dp_meta_objset dp.dp_scan.scn_phys.scn_queue_obj ds1.ds_object).2
        dp.dp_scan.scn_phys.scn_queue_obj ds2.ds_object with
    | error e =>
      have had := (zap_add_int_key_err _ _ _ m1).1 _ h2 hsome
      have hal := fun k => zap_add_int_key_lookup _ _ _ _ k had
      have hnE : ¬ (0 : Nat) = EEXIST := by decide
      simp only [had, true_or, not_true_eq_false, if_false, hnE, Option.map_some']
      refine ⟨_, rfl, rfl, ?_⟩
      by_cases h12 : ds2.ds_object = ds1.ds_object
      · left
        refine ⟨⟨m1, m1, rfl, ?_⟩, fun k => ?_⟩
        · rw [h12]
          exact h1
        · rw [sync_state_lookup_int_key]
          show zap_lookup_int_key (zap_add_int_key _ _ _ _).2 _ _ = _
          rw [hal, hrl _ hrm, h12]
          by_cases hk : k = ds1.ds_object
          · rw [if_pos hk, hk, h1]
          · rw [if_neg hk, if_neg hk]
      · right
        have hl2 : zap_lookup_int_key dp.dp_meta_objset dp.dp_scan.scn_phys.scn_queue_obj
            ds2.ds_object = Except.error e := by
          rw [hrl _ hrm, if_neg h12] at h2
          exact h2
        have he := zap_lookup_int_key_error _ _ _ _ hl2
        subst he
        refine ⟨?_, fun k => ?_⟩
        · rintro ⟨a, b, -, hb⟩
          rw [hl2] at hb
          cases hb
        · rw [sync_state_lookup_int_key]
          show zap_lookup_int_key (zap_add_int_key _ _ _ _).2 _ _ = _
          rw [hal, hrl _ hrm, hl2]
          by_cases hk1 : k = ds1.ds_object
          · have hk2 : ¬ k = ds2.ds_object := fun h => h12 (h.symm.trans hk1)
            rw [if_neg hk2, if_pos hk1, if_pos hk1]
          · rw [if_neg hk1, if_neg hk1]
    | ok m2 =>
      have hne : ds2.ds_object ≠ ds1.ds_object := by
        intro h
        rw [hrl _ hrm, if_pos h] at h2
        cases h2
      have h2' : zap_lookup_int_key dp.dp_meta_objset dp.dp_scan.scn_phys.scn_queue_obj
          ds2.ds_object = Except.ok m2 := by
        rw [hrl _ hrm, if_neg hne] at h2
        exact h2
      have hex := (zap_add_int_key_err _ _ _ m1).2 _ h2
      have h1r : zap_lookup_int_key
          (zap_remove_int dp.dp_meta_objset dp.dp_scan.scn_phys.scn_queue_obj ds1.ds_object).2
          dp.dp_scan.scn_phys.scn_queue_obj ds1.ds_object = Except.error ENOENT := by
        rw [hrl _ hrm, if_pos rfl]
      have had := (zap_add_int_key_err _ _ _ m1).1 _ h1r hsome
      have hal := fun k => zap_add_int_key_lookup _ _ _ _ k had
      have hE : ¬ (EEXIST = 0) := by decide
      simp only [hex, hE, false_or, not_true_eq_false, if_false, if_true, had, ne_eq,
        Option.map_some']
      refine ⟨_, rfl, rfl, Or.inl ⟨⟨m1, m2, rfl, h2'⟩, fun k => ?_⟩⟩
      rw [sync_state_lookup_int_key]
      show zap_lookup_int_key (zap_add_int_key _ _ _ _).2 _ _ = _
      rw [hal, hrl _ hrm]
      by_cases hk : k = ds1.ds_object
      · rw [if_pos hk, hk, h1]
      · rw [if_neg hk, if_neg hk]
  | error e1 =>
    have he1 := zap_lookup_int_key_error _ _ _ _ h1
    subst he1
    simp only []
    cases h2 : zap_lookup_int_key dp.dp_meta_objset dp.dp_scan.scn_phys.scn_queue_obj
        ds2.ds_object with
    | error e2 =>
      have he2 := zap_lookup_int_key_error _ _ _ _ h2
      subst he2
      simp only [Option.map_some']
      refine ⟨_, rfl, rfl, Or.inr ⟨?_, fun k => ?_⟩⟩
      · rintro ⟨a, b, ha, -⟩
        cases ha
      · rw [sync_state_lookup_int_key]
        by_cases hk1 : k = ds1.ds_object
        · rw [if_pos hk1, hk1]
          exact h1
        · rw [if_neg hk1]
          by_cases hk2 : k = ds2.ds_object
          · rw [if_pos hk2, hk2]
            exact h2
          · rw [if_neg hk2]
    | ok m2 =>
      have hrm := zap_remove_int_ok _ _ _ _ h2
      have hrl := zap_remove_int_lookup dp.dp_meta_objset dp.dp_scan.scn_phys.scn_queue_obj
        ds2.ds_object
      have hsome : ((zap_remove_int dp.dp_meta_objset dp.dp_scan.scn_phys.scn_queue_obj
          ds2.ds_object).2.os_zaps.lookup dp.dp_scan.scn_phys.scn_queue_obj).isSome = true := by
        rw [zap_remove_int_isSome]
        exact zap_lookup_int_key_isSome _ _ _ _ h2
      have hne : ds1.ds_object ≠ ds2.ds_object := by
        intro h
        rw [h, h2] at h1
        cases h1
      have h1r : zap_lookup_int_key
          (zap_remove_int dp.dp_meta_objset dp.dp_scan.scn_phys.scn_queue_obj ds2.ds_object).2
          dp.dp_scan.scn_phys.scn_queue_obj ds1.ds_object = Except.error ENOENT := by
        rw [hrl _ hrm, if_neg hne, h1]
      have had := (zap_add_int_key_err _ _ _ m2).1 _ h1r hsome
      have hal := fun k => zap_add_int_key_lookup _ _ _ _ k had
      simp only [hrm, had, ne_eq, not_true_eq_false, if_false, Option.map_some']
      refine ⟨_, rfl, rfl, Or.inr ⟨?_, fun k => ?_⟩⟩
      · rintro ⟨a, b, ha, -⟩
        cases ha
      · rw [sync_state_lookup_int_key]
        show zap_lookup_int_key (zap_add_int_key _ _ _ _).2 _ _ = _
        rw [hal, hrl _ hrm]

/-- Claim C28. While the scan is SCANNING, two calls of
`dsl_scan_ds_clone_swapped(ds1, ds2)` in a row return and give back the scan
context, with the bookmark, as it was before the first call, and a work queue
that maps every dataset to the `mintxg` it had before the first call. -/
theorem clone_swapped_twice (dp : dsl_pool) (ds1 ds2 : dsl_dataset) (tx : dmu_tx)
    (hs : dp.dp_scan.scn_phys.scn_state = DSS_SCANNING) :
    ∃ dp1 dp2, dsl_scan_ds_clone_swapped dp ds1 ds2 tx = some dp1 ∧
      dsl_scan_ds_clone_swapped dp1 ds1 ds2 tx = some dp2 ∧
      dp2.dp_scan.scn_phys.scn_bookmark = dp.dp_scan.scn_phys.scn_bookmark ∧
      dp2.dp_scan = dp.dp_scan ∧
      ∀ k, zap_lookup_int_key dp2.dp_meta_objset dp2.dp_scan.scn_phys.scn_queue_obj k =
        zap_lookup_int_key dp.dp_meta_objset dp.dp_scan.scn_phys.scn_queue_obj k := by
  obtain ⟨dp1, h1, hsc1, hq1⟩ := clone_swapped_effect dp ds1 ds2 tx hs
  have hs1 : dp1.dp_scan.scn_phys.scn_state = DSS_SCANNING := by
    rw [hsc1]
    exact hs
  have hqo : dp1.dp_scan.scn_phys.scn_queue_obj = dp.dp_scan.scn_phys.scn_queue_obj := by
    rw [hsc1]
  obtain ⟨dp2, h2, hsc2, hq2⟩ := clone_swapped_effect dp1 ds1 ds2 tx hs1
  have hscan : dp2.dp_scan = dp.dp_scan := by
    rw [hsc2, hsc1]
    show { dp.dp_scan with scn_phys := { dp.dp_scan.scn_phys with
      scn_bookmark := clone_swapped_bookmark
        (clone_swapped_bookmark dp.dp_scan.scn_phys.scn_bookmark ds1.ds_object ds2.ds_object)
        ds1.ds_object ds2.ds_object } } = dp.dp_scan
    rw [clone_swapped_bookmark_twice]
  refine ⟨dp1, dp2, h1, h2, by rw [hscan], hscan, fun k => ?_⟩
  rw [hscan]
  rw [hqo] at hq2
  rcases hq1 with ⟨⟨m1, m2, hm1, hm2⟩, hq1⟩ | ⟨hn1, hq1⟩
  · -- both were in the queue: nothing moves, twice
    rcases hq2 with ⟨-, hq2⟩ | ⟨hn2, -⟩
    · rw [hq2, hq1]
    · exfalso
      apply hn2
      exact ⟨m1, m2, by rw [hq1]; exact hm1, by rw [hq1]; exact hm2⟩
  · -- the entries are exchanged, twice
    have hl1 : zap_lookup_int_key dp1.dp_meta_objset dp.dp_scan.scn_phys.scn_queue_obj
        ds1.ds_object =
        zap_lookup_int_key dp.dp_meta_objset dp.dp_scan.scn_phys.scn_queue_obj
          ds2.ds_object := by
      rw [hq1, if_pos rfl]
    have hl2 : zap_lookup_int_key dp1.dp_meta_objset dp.dp_scan.scn_phys.scn_queue_obj
        ds2.ds_object =
        zap_lookup_int_key dp.dp_meta_objset dp.dp_scan.scn_phys.scn_queue_obj
          ds1.ds_object := by
      rw [hq1, if_pos rfl]
      by_cases h12 : ds2.ds_object = ds1.ds_object
      · rw [if_pos h12, h12]
      · rw [if_neg h12]
    rcases hq2 with ⟨⟨m1, m2, hm1, hm2⟩, -⟩ | ⟨-, hq2⟩
    · exfalso
      apply hn1
      exact ⟨m2, m1, by rw [← hl2]; exact hm2, by rw [← hl1]; exact hm1⟩
    · rw [hq2, hl1, hl2]
      by_cases hk1 : k = ds1.ds_object
      · rw [if_pos hk1, hk1]
      · rw [if_neg hk1]
        by_cases hk2 : k = ds2.ds_object
        · rw [if_pos hk2, hk2]
        · rw [if_neg hk2, hq1, if_neg hk1, if_neg hk2]

/-- Claim C28 (witness): the scan is paused inside the dataset 11 and the
dataset 9 waits in the work queue; after one swap of 9 and 11 the bookmark is
in 9 and 11 waits in the queue, after the second swap the bookmark is in 11
again and the queue maps 9 to 5 and 13 to 8 as before. -/
theorem clone_swapped_twice_witness :
    pool_visiting11_queued9.dp_scan.scn_phys.scn_state = DSS_SCANNING ∧
    ∃ dp1 dp2,
      dsl_scan_ds_clone_swapped pool_visiting11_queued9 ds_head9 ds_head11 { tx_txg := 60 } =
        some dp1 ∧
      dsl_scan_ds_clone_swapped dp1 ds_head9 ds_head11 { tx_txg := 60 } = some dp2 ∧
      dp2.dp_scan.scn_phys.scn_bookmark =
        { zb_objset := 11, zb_object := 5, zb_level := 0, zb_blkid := 3 } ∧
      zap_lookup_int_key dp2.dp_meta_objset 7 9 = Except.ok 5 ∧
      zap_lookup_int_key dp2.dp_meta_objset 7 11 = Except.error ENOENT ∧
      zap_lookup_int_key dp2.dp_meta_objset 7 13 = Except.ok 8 :=
  ⟨by decide,
    (clone_swapped_twice pool_visiting11_queued9 ds_head9 ds_head11 { tx_txg := 60 }
      (by decide)).elim fun dp1 h => h.elim fun dp2 h =>
        ⟨dp1, dp2, h.1, h.2.1, h.2.2.1,
          by have := h.2.2.2.2 9; rw [h.2.2.2.1] at this; exact this,
          by have := h.2.2.2.2 11; rw [h.2.2.2.1] at this; exact this,
          by have := h.2.2.2.2 13; rw [h.2.2.2.1] at this; exact this⟩⟩

/-! ### What the tree walk leaves alone -/

/-- The test of the budget leaves the work queue and the flags alone. -/
theorem kept_check_pause (env : scan_env) (run : scan_run) (zb : Option zbookmark) :
    walk_kept (run_check_pause env run zb).2 = walk_kept run := by
  unfold run_check_pause dsl_scan_check_pause
  simp only
  split_ifs <;> first | rfl | (cases zb <;> rfl)

/-- The resume check leaves the work queue and the flags alone. -/
theorem kept_check_resume (run : scan_run) (dnp : Option dnode_phys) (zb : zbookmark) :
    walk_kept { run with run_dp := (dsl_scan_check_resume run.run_dp dnp zb).2 } =
      walk_kept run := by
  unfold dsl_scan_check_resume
  simp only
  split_ifs <;> rfl

/-- The scan callback leaves the work queue and the flags alone. -/
theorem kept_scan_funcs (env : scan_env) (run : scan_run) (bp : blkptr) (zb : zbookmark)
    (r : Nat × scan_run) (h : scan_funcs env run bp zb = some r) :
    walk_kept r.2 = walk_kept run := by
  obtain ⟨-, -, -, hf⟩ := scan_funcs_some env run bp zb r h
  obtain ⟨hsc, -, -, -, hmos, -⟩ := hf
  unfold walk_kept
  rw [hsc, hmos]

/-- A prefetch leaves the work queue and the flags alone. -/
theorem kept_prefetch (env : scan_env) (run : scan_run) (bp : blkptr)
    (objset object blkid : Nat) :
    walk_kept (dsl_scan_prefetch env run bp objset object blkid) = walk_kept run := by
  unfold dsl_scan_prefetch
  split_ifs <;> rfl

/-- The prefetch of the children of an indirect block leaves the work queue
and the flags alone. -/
theorem kept_prefetch_children (env : scan_env) (zb : zbookmark) (epb : Nat) :
    ∀ (cbps : List blkptr) (i : Nat) (run : scan_run),
      walk_kept (prefetch_children env zb epb cbps i run) = walk_kept run
  | [], _, _ => rfl
  | cbp :: cbps, i, run => by
    unfold prefetch_children
    split_ifs
    · rw [kept_prefetch_children env zb epb cbps (i + 1), kept_prefetch]
    · rfl

/-- The prefetch of the block pointers of a dnode leaves the work queue and
the flags alone. -/
theorem kept_prefetch_dnode (env : scan_env) (objset object nblkptr : Nat) :
    ∀ (cbps : List blkptr) (j : Nat) (run : scan_run),
      walk_kept (prefetch_dnode env objset object nblkptr cbps j run) = walk_kept run
  | [], _, _ => rfl
  | cbp :: cbps, j, run => by
    unfold prefetch_dnode
    split_ifs
    · rw [kept_prefetch_dnode env objset object nblkptr cbps (j + 1), kept_prefetch]
    · rfl

/-- The prefetch of a block of dnodes leaves the work queue and the flags
alone. -/
theorem kept_prefetch_dnodes (env : scan_env) (zb : zbookmark) (epb : Nat) :
    ∀ (ds : dntree_list) (i : Nat) (run : scan_run),
      walk_kept (prefetch_dnodes env zb epb ds i run) = walk_kept run
  | dntree_list.nil, _, _ => rfl
  | dntree_list.cons d ds, i, run => by
    unfold prefetch_dnodes
    split_ifs
    · rw [kept_prefetch_dnodes env zb epb ds (i + 1), kept_prefetch_dnode]
    · rfl

/-- The callback of the blocks of the intent log leaves the work queue and
the flags alone. -/
theorem kept_zil_block (env : scan_env) (zh : zil_header) (bp : blkptr) (seq claim_txg : Nat)
    (run : scan_run) (r : Nat × scan_run)
    (h : dsl_scan_zil_block env zh bp seq claim_txg run = some r) :
    walk_kept r.2 = walk_kept run := by
  unfold dsl_scan_zil_block at h
  split_ifs at h
  · cases h
    rfl
  · cases h
    rfl
  · obtain ⟨c, hc, h⟩ := Option.bind_eq_some.mp h
    have hk := kept_scan_funcs _ _ _ _ _ hc
    split_ifs at h
    cases h
    exact hk

/-- The callback of the records of the intent log leaves the work queue and
the flags alone. -/
theorem kept_zil_record (env : scan_env) (zh : zil_header) (lr : lr_write) (claim_txg : Nat)
    (run : scan_run) (r : Nat × scan_run)
    (h : dsl_scan_zil_record env zh lr claim_txg run = some r) :
    walk_kept r.2 = walk_kept run := by
  unfold dsl_scan_zil_record at h
  simp only at h
  split_ifs at h
  · cases h
    rfl
  · cases h
    rfl
  · obtain ⟨c, hc, h⟩ := Option.bind_eq_some.mp h
    have hk := kept_scan_funcs _ _ _ _ _ hc
    split_ifs at h
    cases h
    exact hk
  · cases h
    rfl

/-- The walk of the intent log leaves the work queue and the flags alone. -/
theorem kept_zil_parse (env : scan_env) (zh : zil_header) (claim_txg : Nat) :
    ∀ (items : List zil_item) (run run' : scan_run),
      zil_parse env zh claim_txg items run = some run' → walk_kept run' = walk_kept run
  | [], run, run', h => by
    unfold zil_parse at h
    cases h
    rfl
  | zil_item.block bp seq :: items, run, run', h => by
    unfold zil_parse at h
    obtain ⟨r, hr, h⟩ := Option.bind_eq_some.mp h
    have hk := kept_zil_block _ _ _ _ _ _ _ hr
    split_ifs at h
    · cases h
      exact hk
    · exact (kept_zil_parse env zh claim_txg items _ _ h).trans hk
  | zil_item.record lr :: items, run, run', h => by
    unfold zil_parse at h
    obtain ⟨r, hr, h⟩ := Option.bind_eq_some.mp h
    have hk := kept_zil_record _ _ _ _ _ _ hr
    split_ifs at h
    · cases h
      exact hk
    · exact (kept_zil_parse env zh claim_txg items _ _ h).trans hk

/-- The function `dsl_scan_zil` leaves the work queue and the flags alone. -/
theorem kept_zil (env : scan_env) (zh : zil_header) (run run' : scan_run)
    (h : dsl_scan_zil env zh run = some run') : walk_kept run' = walk_kept run := by
  unfold dsl_scan_zil at h
  simp only at h
  split_ifs at h
  · cases h
    rfl
  · exact kept_zil_parse _ _ _ _ _ _ h

mutual
/-- The function `dsl_scan_visitbp` leaves the work queue and the flags
alone. -/
theorem kept_visitbp (env : scan_env) (tx : dmu_tx) :
    ∀ (t : bptree) (zb : zbookmark) (dnp : Option dnode_phys) (ds : Option dsl_dataset)
      (ostype : Nat) (run run' : scan_run),
      dsl_scan_visitbp env zb dnp ds ostype tx t run = some run' →
        walk_kept run' = walk_kept run
  | bptree.mk bp buf, zb, dnp, ds, ostype, run, run', h => by
    have hp := kept_check_pause env run (some zb)
    have hrs := kept_check_resume (run_check_pause env run (some zb)).2 dnp zb
    unfold dsl_scan_visitbp at h
    simp only at h
    split_ifs at h
    · cases h
      exact hp
    · cases h
      exact hrs.trans hp
    · cases h
      exact hrs.trans hp
    · cases h
      exact hrs.trans hp
    · obtain ⟨rr, hrec, h⟩ := Option.bind_eq_some.mp h
      have hk := (kept_recurse env tx buf bp zb dnp ds ostype _ rr hrec).trans
        (hrs.trans hp)
      split_ifs at h
      · cases h
        exact hk
      · cases h
        exact hk
      · obtain ⟨c, hc, h⟩ := Option.map_eq_some'.mp h
        rw [← h]
        exact (kept_scan_funcs _ _ _ _ _ hc).trans hk
      · cases h
        exact hk
/-- The function `dsl_scan_recurse` leaves the work queue and the flags
alone. -/
theorem kept_recurse (env : scan_env) (tx : dmu_tx) :
    ∀ (buf : arcbuf) (bp : blkptr) (zb : zbookmark) (dnp : Option dnode_phys)
      (ds : Option dsl_dataset) (ostype : Nat) (run : scan_run) (rr : Nat × scan_run),
      dsl_scan_recurse env bp zb dnp ds ostype tx buf run = some rr →
        walk_kept rr.2 = walk_kept run
  | arcbuf.data, bp, zb, dnp, ds, ostype, run, rr, h => by
    unfold dsl_scan_recurse at h
    split_ifs at h <;> cases h <;> rfl
  | arcbuf.error err, bp, zb, dnp, ds, ostype, run, rr, h => by
    unfold dsl_scan_recurse at h
    split_ifs at h <;> cases h <;> rfl
  | arcbuf.indirect cbp, bp, zb, dnp, ds, ostype, run, rr, h => by
    unfold dsl_scan_recurse at h
    simp only at h
    split_ifs at h
    · obtain ⟨r, hr, h⟩ := Option.map_eq_some'.mp h
      rw [← h]
      exact (kept_visit_children env tx cbp zb dnp ds ostype _ _ _ r hr).trans
        (kept_prefetch_children _ _ _ _ _ _)
    · cases h
      rfl
  | arcbuf.dnodes cdnp, bp, zb, dnp, ds, ostype, run, rr, h => by
    unfold dsl_scan_recurse at h
    simp only at h
    split_ifs at h
    · obtain ⟨r, hr, h⟩ := Option.map_eq_some'.mp h
      rw [← h]
      exact (kept_visit_dnodes env tx cdnp zb ds ostype _ _ _ r hr).trans
        (kept_prefetch_dnodes _ _ _ _ _ _)
    · cases h
      rfl
  | arcbuf.objset os_type zh mdn has_userused gdn udn, bp, zb, dnp, ds, ostype, run, rr, h => by
    unfold dsl_scan_recurse at h
    by_cases h1 : BP_GET_LEVEL bp > 0
    · rw [if_pos h1] at h
      cases h
    · rw [if_neg h1] at h
      by_cases h2 : BP_GET_TYPE bp = DMU_OT_USERGROUP_USED
      · rw [if_pos h2] at h
        cases h
      · rw [if_neg h2] at h
        by_cases h3 : BP_GET_TYPE bp = DMU_OT_DNODE
        · rw [if_pos h3] at h
          cases h
        · rw [if_neg h3] at h
          by_cases h4 : BP_GET_TYPE bp = DMU_OT_OBJSET
          · rw [if_pos h4] at h
            obtain ⟨r1, hr1, h⟩ := Option.bind_eq_some.mp h
            have hz : walk_kept r1 = walk_kept run := by
              split_ifs at hr1
              · exact kept_zil _ _ _ _ hr1
              · cases hr1
                rfl
            obtain ⟨r2, hr2, h⟩ := Option.bind_eq_some.mp h
            have hm := (kept_visitdnode env tx mdn ds os_type DMU_META_DNODE_OBJECT r1 r2
              hr2).trans hz
            split_ifs at h
            · obtain ⟨r3, hr3, h⟩ := Option.bind_eq_some.mp h
              obtain ⟨r4, hr4, h⟩ := Option.map_eq_some'.mp h
              rw [← h]
              exact (kept_visitdnode env tx udn ds os_type DMU_USERUSED_OBJECT r3 r4 hr4).trans
                ((kept_visitdnode env tx gdn ds os_type DMU_GROUPUSED_OBJECT r2 r3 hr3).trans hm)
            · cases h
              exact hm
          · rw [if_neg h4] at h
            cases h
            rfl
/-- The visit of the children of an indirect block leaves the work queue and
the flags alone. -/
theorem kept_visit_children (env : scan_env) (tx : dmu_tx) :
    ∀ (ts : bptree_list) (zb : zbookmark) (dnp : Option dnode_phys) (ds : Option dsl_dataset)
      (ostype : Nat) (epb i : Nat) (run run' : scan_run),
      visit_children env zb dnp ds ostype tx epb ts i run = some run' →
        walk_kept run' = walk_kept run
  | bptree_list.nil, zb, dnp, ds, ostype, epb, i, run, run', h => by
    unfold visit_children at h
    cases h
    rfl
  | bptree_list.cons t ts, zb, dnp, ds, ostype, epb, i, run, run', h => by
    unfold visit_children at h
    split_ifs at h
    · obtain ⟨r, hr, h⟩ := Option.bind_eq_some.mp h
      exact (kept_visit_children env tx ts zb dnp ds ostype epb (i + 1) r run' h).trans
        (kept_visitbp env tx t _ dnp ds ostype run r hr)
    · cases h
      rfl
/-- The visit of a block of dnodes leaves the work queue and the flags
alone. -/
theorem kept_visit_dnodes (env : scan_env) (tx : dmu_tx) :
    ∀ (dns : dntree_list) (zb : zbookmark) (ds : Option dsl_dataset)
      (ostype : Nat) (epb i : Nat) (run run' : scan_run),
      visit_dnodes env zb ds ostype tx epb dns i run = some run' →
        walk_kept run' = walk_kept run
  | dntree_list.nil, zb, ds, ostype, epb, i, run, run', h => by
    unfold visit_dnodes at h
    cases h
    rfl
  | dntree_list.cons d dns, zb, ds, ostype, epb, i, run, run', h => by
    unfold visit_dnodes at h
    split_ifs at h
    · obtain ⟨r, hr, h⟩ := Option.bind_eq_some.mp h
      exact (kept_visit_dnodes env tx dns zb ds ostype epb (i + 1) r run' h).trans
        (kept_visitdnode env tx d ds ostype _ run r hr)
    · cases h
      rfl
/-- The function `dsl_scan_visitdnode` leaves the work queue and the flags
alone. -/
theorem kept_visitdnode (env : scan_env) (tx : dmu_tx) :
    ∀ (d : dntree) (ds : Option dsl_dataset) (ostype : Nat) (object : Nat)
      (run run' : scan_run),
      dsl_scan_visitdnode env ds ostype tx object d run = some run' →
        walk_kept run' = walk_kept run
  | dntree.mk dnp bps spill, ds, ostype, object, run, run', h => by
    unfold dsl_scan_visitdnode at h
    obtain ⟨r, hr, h⟩ := Option.bind_eq_some.mp h
    have hk := kept_visit_dnode_blkptrs env tx bps ds ostype object dnp 0 run r hr
    split_ifs at h
    · exact (kept_visitbp env tx spill _ (some dnp) ds ostype r run' h).trans hk
    · cases h
      exact hk
/-- The visit of the block pointers of a dnode leaves the work queue and the
flags alone. -/
theorem kept_visit_dnode_blkptrs (env : scan_env) (tx : dmu_tx) :
    ∀ (ts : bptree_list) (ds : Option dsl_dataset) (ostype : Nat) (object : Nat)
      (dnp : dnode_phys) (j : Nat) (run run' : scan_run),
      visit_dnode_blkptrs env ds ostype tx object dnp ts j run = some run' →
        walk_kept run' = walk_kept run
  | bptree_list.nil, ds, ostype, object, dnp, j, run, run', h => by
    unfold visit_dnode_blkptrs at h
    cases h
    rfl
  | bptree_list.cons t ts, ds, ostype, object, dnp, j, run, run', h => by
    unfold visit_dnode_blkptrs at h
    split_ifs at h
    · obtain ⟨r, hr, h⟩ := Option.bind_eq_some.mp h
      exact (kept_visit_dnode_blkptrs env tx ts ds ostype object dnp (j + 1) r run' h).trans
        (kept_visitbp env tx t _ (some dnp) ds ostype run r hr)
    · cases h
      rfl
end

/-! ### The work queue after the visit of a dataset -/

/-- The fields `walk_kept` holds. -/
theorem walk_kept_fields (run run' : scan_run) (h : walk_kept run' = walk_kept run) :
    run'.run_dp.dp_meta_objset = run.run_dp.dp_meta_objset ∧
    run'.run_dp.dp_scan.scn_phys.scn_flags = run.run_dp.dp_scan.scn_phys.scn_flags ∧
    run'.run_dp.dp_scan.scn_phys.scn_queue_obj = run.run_dp.dp_scan.scn_phys.scn_queue_obj ∧
    run'.run_dp.dp_scan.scn_phys.scn_cur_max_txg =
      run.run_dp.dp_scan.scn_phys.scn_cur_max_txg := by
  unfold walk_kept at h
  simp only [Prod.mk.injEq] at h
  exact h

/-- The function `dsl_scan_visit_rootbp` leaves the work queue and the flags
alone. -/
theorem kept_visit_rootbp (env : scan_env) (ds : Option dsl_dataset) (bp : bptree) (tx : dmu_tx)
    (run run' : scan_run) (h : dsl_scan_visit_rootbp env ds bp tx run = some run') :
    walk_kept run' = walk_kept run := by
  unfold dsl_scan_visit_rootbp at h
  exact kept_visitbp env tx bp _ none ds DMU_OST_NONE run run' h

/-- An entry of a ZAP object stays through a `zap_add_int_key` that returned
0. -/
theorem zap_add_int_key_mono (os : objset) (obj key value k v : Nat)
    (h : (zap_add_int_key os obj key value).1 = 0)
    (hk : zap_lookup_int_key os obj k = Except.ok v) :
    zap_lookup_int_key (zap_add_int_key os obj key value).2 obj k = Except.ok v := by
  rw [zap_add_int_key_lookup _ _ _ _ _ h]
  by_cases hkk : k = key
  · subst hkk
    have := (zap_add_int_key_err os obj k value).2 v hk
    rw [this] at h
    have h' : EEXIST = 0 := h
    exact absurd h' (by decide)
  · rw [if_neg hkk, hk]

/-- An entry of the target stays through the loop of `zap_join_key`. -/
theorem zap_join_keys_mono (intoobj value k v : Nat) :
    ∀ (es : List (Nat × Nat)) (os : objset), (zap_join_keys intoobj value es os).1 = 0 →
      zap_lookup_int_key os intoobj k = Except.ok v →
      zap_lookup_int_key (zap_join_keys intoobj value es os).2 intoobj k = Except.ok v
  | [], os, _, hk => hk
  | e :: es, os, h, hk => by
    unfold zap_join_keys at h ⊢
    simp only at h ⊢
    by_cases ha : (zap_add_int_key os intoobj e.1 value).1 = 0
    · have hne : ¬ (zap_add_int_key os intoobj e.1 value).1 ≠ 0 := fun hn => hn ha
      rw [if_neg hne] at h ⊢
      exact zap_join_keys_mono intoobj value k v es _ h
        (zap_add_int_key_mono _ _ _ _ _ _ ha hk)
    · rw [if_pos ha] at h
      exact absurd h ha

/-- An entry of the target stays through a `zap_join_key` that returned 0. -/
theorem zap_join_key_mono (os : objset) (fromobj intoobj value k v : Nat)
    (h : (zap_join_key os fromobj intoobj value).1 = 0)
    (hk : zap_lookup_int_key os intoobj k = Except.ok v) :
    zap_lookup_int_key (zap_join_key os fromobj intoobj value).2 intoobj k = Except.ok v := by
  unfold zap_join_key at h ⊢
  cases hf : os.os_zaps.lookup fromobj with
  | none =>
    rw [hf] at h
    have h' : ENOENT = 0 := h
    exact absurd h' (by decide)
  | some es =>
    rw [hf] at h
    exact zap_join_keys_mono intoobj value k v es os h hk

/-- The callback `enqueue_clones_cb` only adds to the work queue. -/
theorem enqueue_clones_cb_grown (env : scan_env) (originobj fuel dsobj : Nat) (run : scan_run)
    (r : Nat × scan_run) (h : enqueue_clones_cb env originobj fuel dsobj run = some r) :
    queue_grown run r.2 := by
  unfold enqueue_clones_cb at h
  cases hh : env.env_dsl_dataset_hold_obj dsobj with
  | none =>
    rw [hh] at h
    cases h
    exact ⟨rfl, fun _ _ hk => hk⟩
  | some ds =>
    rw [hh] at h
    simp only at h
    split_ifs at h
    · obtain ⟨w, -, h⟩ := Option.bind_eq_some.mp h
      cases w with
      | error err =>
        cases h
        exact ⟨rfl, fun _ _ hk => hk⟩
      | ok d =>
        simp only at h
        split_ifs at h with ha
        cases h
        refine ⟨rfl, fun k v hk => ?_⟩
        exact zap_add_int_key_mono _ _ _ _ _ _ (by simpa using ha) hk
    · cases h
      exact ⟨rfl, fun _ _ hk => hk⟩

/-- The loop of `dmu_objset_find_spa` over `enqueue_clones_cb` only adds to
the work queue. -/
theorem enqueue_clones_find_grown (env : scan_env) (originobj fuel : Nat) :
    ∀ (dsobjs : List Nat) (run : scan_run) (r : Nat × scan_run),
      dmu_objset_find_spa (enqueue_clones_cb env originobj fuel) dsobjs run = some r →
        queue_grown run r.2
  | [], run, r, h => by
    unfold dmu_objset_find_spa at h
    cases h
    exact ⟨rfl, fun _ _ hk => hk⟩
  | dsobj :: rest, run, r, h => by
    unfold dmu_objset_find_spa at h
    obtain ⟨c, hc, h⟩ := Option.bind_eq_some.mp h
    have hg := enqueue_clones_cb_grown _ _ _ _ _ _ hc
    split_ifs at h
    · cases h
      exact hg
    · have hg2 := enqueue_clones_find_grown env originobj fuel rest c.2 r h
      refine ⟨hg2.1.trans hg.1, fun k v hk => ?_⟩
      have h1 := hg.2 k v hk
      have h2 := hg2.2 k v
      rw [hg.1] at h2
      exact h2 h1

/-- Clearing `DSF_VISIT_DS_AGAIN` in the flags. -/
theorem visit_ds_again_cleared (flags : Nat) :
    (flags &&& (2 ^ 64 - 1 - DSF_VISIT_DS_AGAIN)) &&& DSF_VISIT_DS_AGAIN = 0 := by
  rw [Nat.land_assoc]
  have h : (2 ^ 64 - 1 - DSF_VISIT_DS_AGAIN) &&& DSF_VISIT_DS_AGAIN = 0 := by decide
  rw [h]
  exact Nat.and_zero _

/-- The function `dsl_scan_visitds` once the dataset is held and the walk of
its blocks has returned the run `run1`. -/
theorem visitds_eq (env : scan_env) (fuel dsobj : Nat) (tx : dmu_tx) (run run1 : scan_run)
    (ds : dsl_dataset) (ds_bp : bptree)
    (hh : env.env_dsl_dataset_hold_obj dsobj = some (ds, ds_bp))
    (hw : dsl_scan_visit_rootbp env (some ds) ds_bp tx
      (run_effect run (effect.dmu_buf_will_dirty ds.ds_object)) = some run1) :
    dsl_scan_visitds env fuel dsobj tx run =
      if run1.run_dp.dp_scan.scn_pausing = true then some run1
      else if run1.run_dp.dp_scan.scn_phys.scn_flags &&& DSF_VISIT_DS_AGAIN ≠ 0 then
        if (zap_add_int_key run1.run_dp.dp_meta_objset
            run1.run_dp.dp_scan.scn_phys.scn_queue_obj ds.ds_object
            run1.run_dp.dp_scan.scn_phys.scn_cur_max_txg).1 ≠ 0 then none
        else
          some (run_set_mos
            { run1 with run_dp := { run1.run_dp with dp_scan := { run1.run_dp.dp_scan with
                scn_phys := { run1.run_dp.dp_scan.scn_phys with
                  scn_flags := run1.run_dp.dp_scan.scn_phys.scn_flags &&&
                    (2 ^ 64 - 1 - DSF_VISIT_DS_AGAIN) } } } }
            (zap_add_int_key run1.run_dp.dp_meta_objset
              run1.run_dp.dp_scan.scn_phys.scn_queue_obj ds.ds_object
              run1.run_dp.dp_scan.scn_phys.scn_cur_max_txg).2)
      else
        (if ds.ds_next_snap_obj ≠ 0 then
            if (zap_add_int_key run1.run_dp.dp_meta_objset
                run1.run_dp.dp_scan.scn_phys.scn_queue_obj ds.ds_next_snap_obj
                ds.ds_creation_txg).1 ≠ 0 then none
            else
              some (run_set_mos run1
                (zap_add_int_key run1.run_dp.dp_meta_objset
                  run1.run_dp.dp_scan.scn_phys.scn_queue_obj ds.ds_next_snap_obj
                  ds.ds_creation_txg).2)
          else some run1).bind fun run2 =>
          if ds.ds_num_children > 1 then
            if (if ds.ds_next_clones_obj ≠ 0 then
                  match zap_count run2.run_dp.dp_meta_objset ds.ds_next_clones_obj with
                  | Except.ok count => decide (count = ds.ds_num_children - 1)
                  | Except.error _ => false
                else false) = true then
              if (zap_join_key run2.run_dp.dp_meta_objset ds.ds_next_clones_obj
                  run1.run_dp.dp_scan.scn_phys.scn_queue_obj ds.ds_creation_txg).1 ≠ 0 then none
              else
                some (run_set_mos run2
                  (zap_join_key run2.run_dp.dp_meta_objset ds.ds_next_clones_obj
                    run1.run_dp.dp_scan.scn_phys.scn_queue_obj ds.ds_creation_txg).2)
            else
              (dmu_objset_find_spa (enqueue_clones_cb env ds.ds_object fuel)
                env.env_dmu_objset_find run2).map fun r => r.2
          else some run2 := by
  unfold dsl_scan_visitds
  rw [hh]
  simp only
  rw [hw]
  rfl

/-- Claim C26 (as stated, refuted): `DSF_VISIT_DS_AGAIN` is set when the pass
over the snapshot 9, whose next snapshot is 12, ends without pausing.  The
flag is cleared and the dataset 9 is put in the work queue with
`scn_cur_max_txg = 100`, but the next snapshot 12 is not put in the queue: the
code leaves through `goto out` before it adds the descendants. -/
theorem visitds_again_counterexample :
    run_visit_again.run_dp.dp_scan.scn_phys.scn_flags &&& DSF_VISIT_DS_AGAIN ≠ 0 ∧
    ds_snapshot9.ds_next_snap_obj = 12 ∧
    (dsl_scan_visitds env_ds9 1 9 { tx_txg := 60 } run_visit_again).map
      (fun run =>
        (run.run_dp.dp_scan.scn_pausing, run.run_dp.dp_scan.scn_phys.scn_flags,
          (zap_lookup_int_key run.run_dp.dp_meta_objset 7 9).toOption,
          (zap_lookup_int_key run.run_dp.dp_meta_objset 7 12).toOption)) =
      some (false, 0, some 100, none) := by
  decide

/-- Claim C26 (amended).  The dataset `dsobj` is held as `ds` and the walk of
its blocks returns.  When the pass ends pausing, `dsl_scan_visitds` returns
with the work queue (the meta object set) and the flags as they were before
the pass.  When it ends without pausing and `DSF_VISIT_DS_AGAIN` was set, the
flag is cleared, the dataset is in the work queue with the value
`scn_cur_max_txg`, and no other entry of the queue has changed: the next
snapshot is not added in this pass; the call returns when the dataset was not
in the queue of an allocated queue object.  When it ends without pausing and
the flag was not set, the flags stay and the next snapshot of the dataset, if
it has one, is in the work queue with the value `ds_creation_txg`; the call
returns for a dataset without clones when the next snapshot was not in the
queue. -/
theorem visitds_queue (env : scan_env) (fuel dsobj : Nat) (tx : dmu_tx) (run run1 : scan_run)
    (ds : dsl_dataset) (ds_bp : bptree)
    (hh : env.env_dsl_dataset_hold_obj dsobj = some (ds, ds_bp))
    (hw : dsl_scan_visit_rootbp env (some ds) ds_bp tx
      (run_effect run (effect.dmu_buf_will_dirty ds.ds_object)) = some run1) :
    (run1.run_dp.dp_scan.scn_pausing = true →
      ∃ run', dsl_scan_visitds env fuel dsobj tx run = some run' ∧
        run'.run_dp.dp_scan.scn_pausing = true ∧
        run'.run_dp.dp_meta_objset = run.run_dp.dp_meta_objset ∧
        run'.run_dp.dp_scan.scn_phys.scn_flags = run.run_dp.dp_scan.scn_phys.scn_flags) ∧
    (run1.run_dp.dp_scan.scn_pausing = false →
      run.run_dp.dp_scan.scn_phys.scn_flags &&& DSF_VISIT_DS_AGAIN ≠ 0 →
      (∀ run', dsl_scan_visitds env fuel dsobj tx run = some run' →
        run'.run_dp.dp_scan.scn_pausing = false ∧
        run'.run_dp.dp_scan.scn_phys.scn_flags =
          run.run_dp.dp_scan.scn_phys.scn_flags &&& (2 ^ 64 - 1 - DSF_VISIT_DS_AGAIN) ∧
        run'.run_dp.dp_scan.scn_phys.scn_flags &&& DSF_VISIT_DS_AGAIN = 0 ∧
        zap_lookup_int_key run'.run_dp.dp_meta_objset
          run.run_dp.dp_scan.scn_phys.scn_queue_obj ds.ds_object =
            Except.ok run.run_dp.dp_scan.scn_phys.scn_cur_max_txg ∧
        ∀ k, k ≠ ds.ds_object →
          zap_lookup_int_key run'.run_dp.dp_meta_objset
              run.run_dp.dp_scan.scn_phys.scn_queue_obj k =
            zap_lookup_int_key run.run_dp.dp_meta_objset
              run.run_dp.dp_scan.scn_phys.scn_queue_obj k) ∧
      (zap_lookup_int_key run.run_dp.dp_meta_objset
          run.run_dp.dp_scan.scn_phys.scn_queue_obj ds.ds_object = Except.error ENOENT →
        (run.run_dp.dp_meta_objset.os_zaps.lookup
          run.run_dp.dp_scan.scn_phys.scn_queue_obj).isSome = true →
        ∃ run', dsl_scan_visitds env fuel dsobj tx run = some run')) ∧
    (run1.run_dp.dp_scan.scn_pausing = false →
      run.run_dp.dp_scan.scn_phys.scn_flags &&& DSF_VISIT_DS_AGAIN = 0 →
      (∀ run', dsl_scan_visitds env fuel dsobj tx run = some run' →
        run'.run_dp.dp_scan.scn_pausing = false ∧
        run'.run_dp.dp_scan.scn_phys.scn_flags = run.run_dp.dp_scan.scn_phys.scn_flags ∧
        (ds.ds_next_snap_obj ≠ 0 →
          zap_lookup_int_key run'.run_dp.dp_meta_objset
            run.run_dp.dp_scan.scn_phys.scn_queue_obj ds.ds_next_snap_obj =
              Except.ok ds.ds_creation_txg)) ∧
      (ds.ds_num_children ≤ 1 →
        (ds.ds_next_snap_obj ≠ 0 →
          zap_lookup_int_key run.run_dp.dp_meta_objset
            run.run_dp.dp_scan.scn_phys.scn_queue_obj ds.ds_next_snap_obj =
              Except.error ENOENT ∧
          (run.run_dp.dp_meta_objset.os_zaps.lookup
            run.run_dp.dp_scan.scn_phys.scn_queue_obj).isSome = true) →
        ∃ run', dsl_scan_visitds env fuel dsobj tx run = some run')) := by
  have heq := visitds_eq env fuel dsobj tx run run1 ds ds_bp hh hw
  obtain ⟨hmos, hfl, hq, hcm⟩ := walk_kept_fields _ _ (kept_visit_rootbp _ _ _ _ _ _ hw)
  have hmos : run1.run_dp.dp_meta_objset = run.run_dp.dp_meta_objset := hmos
  have hfl : run1.run_dp.dp_scan.scn_phys.scn_flags = run.run_dp.dp_scan.scn_phys.scn_flags :=
    hfl
  have hq : run1.run_dp.dp_scan.scn_phys.scn_queue_obj =
      run.run_dp.dp_scan.scn_phys.scn_queue_obj := hq
  have hcm : run1.run_dp.dp_scan.scn_phys.scn_cur_max_txg =
      run.run_dp.dp_scan.scn_phys.scn_cur_max_txg := hcm
  rw [hmos, hfl, hq, hcm] at heq
  refine ⟨?_, ?_, ?_⟩
  · intro hp
    rw [heq, if_pos hp]
    exact ⟨run1, rfl, hp, hmos, hfl⟩
  · intro hp hag
    have hnp : ¬ run1.run_dp.dp_scan.scn_pausing = true := by simp [hp]
    rw [heq, if_neg hnp, if_pos hag]
    constructor
    · intro run' h
      by_cases ha : (zap_add_int_key run.run_dp.dp_meta_objset
          run.run_dp.dp_scan.scn_phys.scn_queue_obj ds.ds_object
          run.run_dp.dp_scan.scn_phys.scn_cur_max_txg).1 = 0
      · rw [if_neg (fun hn => hn ha)] at h
        cases h
        refine ⟨hp, ?_, ?_, ?_, fun k hk => ?_⟩
        · rfl
        · exact visit_ds_again_cleared _
        · show zap_lookup_int_key (zap_add_int_key _ _ _ _).2 _ _ = _
          rw [zap_add_int_key_lookup _ _ _ _ _ ha, if_pos rfl]
        · show zap_lookup_int_key (zap_add_int_key _ _ _ _).2 _ _ = _
          rw [zap_add_int_key_lookup _ _ _ _ _ ha, if_neg hk]
      · rw [if_pos ha] at h
        cases h
    · intro hnq hsome
      have ha := (zap_add_int_key_err run.run_dp.dp_meta_objset
        run.run_dp.dp_scan.scn_phys.scn_queue_obj ds.ds_object
        run.run_dp.dp_scan.scn_phys.scn_cur_max_txg).1 _ hnq hsome
      rw [if_neg (fun hn => hn ha)]
      exact ⟨_, rfl⟩
  · intro hp hag
    have hnp : ¬ run1.run_dp.dp_scan.scn_pausing = true := by simp [hp]
    have hag' : ¬ run.run_dp.dp_scan.scn_phys.scn_flags &&& DSF_VISIT_DS_AGAIN ≠ 0 :=
      fun hn => hn hag
    rw [heq, if_neg hnp, if_neg hag']
    constructor
    · intro run' h
      obtain ⟨run2, h2, h⟩ := Option.bind_eq_some.mp h
      have hr2 : run2.run_dp.dp_scan = run1.run_dp.dp_scan ∧
          (ds.ds_next_snap_obj ≠ 0 →
            zap_lookup_int_key run2.run_dp.dp_meta_objset
              run.run_dp.dp_scan.scn_phys.scn_queue_obj ds.ds_next_snap_obj =
                Except.ok ds.ds_creation_txg) := by
        by_cases hn : ds.ds_next_snap_obj ≠ 0
        · rw [if_pos hn] at h2
          by_cases ha : (zap_add_int_key run.run_dp.dp_meta_objset
              run.run_dp.dp_scan.scn_phys.scn_queue_obj ds.ds_next_snap_obj
              ds.ds_creation_txg).1 = 0
          · rw [if_neg (fun hn => hn ha)] at h2
            cases h2
            refine ⟨rfl, fun _ => ?_⟩
            show zap_lookup_int_key (zap_add_int_key _ _ _ _).2 _ _ = _
            rw [zap_add_int_key_lookup _ _ _ _ _ ha, if_pos rfl]
          · rw [if_pos ha] at h2
            cases h2
        · rw [if_neg hn] at h2
          cases h2
          exact ⟨rfl, fun h => absurd h hn⟩
      have hfin : run'.run_dp.dp_scan = run2.run_dp.dp_scan ∧
          ∀ k v, zap_lookup_int_key run2.run_dp.dp_meta_objset
              run.run_dp.dp_scan.scn_phys.scn_queue_obj k = Except.ok v →
            zap_lookup_int_key run'.run_dp.dp_meta_objset
              run.run_dp.dp_scan.scn_phys.scn_queue_obj k = Except.ok v := by
        by_cases hc : ds.ds_num_children > 1
        · rw [if_pos hc] at h
          generalize (if ds.ds_next_clones_obj ≠ 0 then
              match zap_count run2.run_dp.dp_meta_objset ds.ds_next_clones_obj with
              | Except.ok count => decide (count = ds.ds_num_children - 1)
              | Except.error _ => false
            else false) = usenext at h
          cases usenext with
          | true =>
            rw [if_pos rfl] at h
            by_cases hj : (zap_join_key run2.run_dp.dp_meta_objset ds.ds_next_clones_obj
                run.run_dp.dp_scan.scn_phys.scn_queue_obj ds.ds_creation_txg).1 = 0
            · rw [if_neg (fun hn => hn hj)] at h
              cases h
              exact ⟨rfl, fun k v hk => zap_join_key_mono _ _ _ _ _ _ hj hk⟩
            · rw [if_pos hj] at h
              cases h
          | false =>
            rw [if_neg (by decide)] at h
            obtain ⟨r, hr, h⟩ := Option.map_eq_some'.mp h
            rw [← h]
            have hg := enqueue_clones_find_grown _ _ _ _ _ _ hr
            refine ⟨hg.1, fun k v hk => ?_⟩
            have := hg.2 k v
            rw [hr2.1, hq] at this
            exact this hk
        · rw [if_neg hc] at h
          cases h
          exact ⟨rfl, fun _ _ hk => hk⟩
      refine ⟨?_, ?_, fun hn => hfin.2 _ _ (hr2.2 hn)⟩
      · rw [hfin.1, hr2.1]
        exact hp
      · rw [hfin.1, hr2.1]
        exact hfl
    · intro hle hnq
      have hc : ¬ ds.ds_num_children > 1 := by omega
      by_cases hn : ds.ds_next_snap_obj ≠ 0
      · obtain ⟨hnq, hsome⟩ := hnq hn
        have ha := (zap_add_int_key_err run.run_dp.dp_meta_objset
          run.run_dp.dp_scan.scn_phys.scn_queue_obj ds.ds_next_snap_obj
          ds.ds_creation_txg).1 _ hnq hsome
        rw [if_pos hn, if_neg (fun hn => hn ha)]
        simp only [Option.some_bind]
        rw [if_neg hc]
        exact ⟨_, rfl⟩
      · rw [if_neg hn]
        simp only [Option.some_bind]
        rw [if_neg hc]
        exact ⟨_, rfl⟩

/-- Claim C26 (witness): a pass over the snapshot 9, created in txg 150, whose
next snapshot is 12, with `DSF_VISIT_DS_AGAIN` not set: the pass ends without
pausing and the snapshot 12 is in the work queue with the value 150. -/
theorem visitds_queue_witness :
    env_ds9.env_dsl_dataset_hold_obj 9 = some (ds_snapshot9, objset_empty 50) ∧
    run_scrubbing.run_dp.dp_scan.scn_phys.scn_flags &&& DSF_VISIT_DS_AGAIN = 0 ∧
    ∃ run', dsl_scan_visitds env_ds9 1 9 { tx_txg := 60 } run_scrubbing = some run' ∧
      run'.run_dp.dp_scan.scn_pausing = false ∧
      zap_lookup_int_key run'.run_dp.dp_meta_objset 7 12 = Except.ok 150 := by
  have hm : (dsl_scan_visit_rootbp env_ds9 (some ds_snapshot9) (objset_empty 50)
      { tx_txg := 60 }
      (run_effect run_scrubbing (effect.dmu_buf_will_dirty ds_snapshot9.ds_object))).map
      (fun r => r.run_dp.dp_scan.scn_pausing) = some false := by decide
  obtain ⟨run1, hw, hp⟩ := Option.map_eq_some'.mp hm
  have T := (visitds_queue env_ds9 1 9 { tx_txg := 60 } run_scrubbing run1
    ds_snapshot9 (objset_empty 50) rfl hw).2.2 hp (by decide)
  obtain ⟨run', h⟩ := T.2 (by decide) (fun _ => ⟨rfl, by decide⟩)
  exact ⟨rfl, by decide, run', h, (T.1 run' h).1, (T.1 run' h).2.2 (by decide)⟩

end DslScan

namespace Zpios

/-! ### The values of a range given as a list -/

/-- The calls of `get_next` on a list of more than one value, from the cursor
`i` on: each call returns 1 and stores the next value of the list. -/
theorem get_next_calls_from (r0 : range_repeat) (hc : r0.val_count = r0.val.length)
    (h2 : 1 < r0.val.length) (h32 : r0.val.length < 2 ^ 32) :
    ∀ (m i v0 : Nat), i + m = r0.val.length →
      ∃ v', get_next_calls m v0 { r0 with next_val := i } =
        some ((r0.val.drop i).map (fun v => (1, v)), v',
          { r0 with next_val := r0.val.length })
  | 0, i, v0, hi => by
    have hi' : i = r0.val.length := by omega
    subst hi'
    refine ⟨v0, ?_⟩
    unfold get_next_calls
    rw [List.drop_length]
    rfl
  | m + 1, i, v0, hi => by
    have hlt : i < r0.val.length := by omega
    obtain ⟨v', ih⟩ := get_next_calls_from r0 hc h2 h32 m (i + 1) (r0.val[i]) (by omega)
    refine ⟨v', ?_⟩
    have hstep : get_next v0 { r0 with next_val := i } =
        some (1, r0.val[i], { r0 with next_val := i + 1 }) := by
      unfold get_next
      have h0 : ¬ r0.val_count = 0 := by omega
      have h1 : ¬ r0.val_count = 1 := by omega
      have hgt : r0.val_count > 1 := by omega
      have hle : ¬ i > r0.val_count - 1 := by omega
      have hw : wrap32 (i + 1) = i + 1 := Nat.mod_eq_of_lt (by omega)
      simp only [h0, h1, hgt, hle, if_false, if_true, List.getElem?_eq_getElem hlt, hw]
    unfold get_next_calls
    rw [hstep]
    simp only [Option.some_bind]
    rw [ih]
    simp only [Option.map_some']
    rw [List.drop_eq_getElem_cons hlt]
    rfl

/-- Claim C30. For a range given as a list of `n >= 1` values (`val_count = n`
values in `val`) with the cursor `next_val = 0`, `n` calls of `get_next` in a
row each return 1 and store `val[0]`, .., `val[n - 1]` in `*val`, in this
order, and the call after them returns 0 and leaves `*val` and the range as
they are. -/
theorem get_next_list (val0 : Nat) (range : range_repeat)
    (hn : 1 ≤ range.val.length) (hc : range.val_count = range.val.length)
    (h0 : range.next_val = 0) (h32 : range.val_count < 2 ^ 32) :
    ∃ val' range',
      get_next_calls range.val.length val0 range =
        some (range.val.map (fun v => (1, v)), val', range') ∧
      get_next val' range' = some (0, val', range') := by
  obtain ⟨val, val_count, val_low, val_high, val_inc_perc, next_val⟩ := range
  simp only at hn hc h0 h32
  subst h0
  subst hc
  by_cases h1 : val.length = 1
  · -- one value: the second branch of `get_next`
    obtain ⟨v, hv⟩ := List.length_eq_one.mp h1
    subst hv
    refine ⟨v, { val := [v], val_count := 1, val_low := val_low, val_high := val_high
                 val_inc_perc := val_inc_perc, next_val := 1 }, rfl, rfl⟩
  · -- more than one value: the third branch
    have h2 : 1 < val.length := by omega
    obtain ⟨v', h⟩ := get_next_calls_from
      { val := val, val_count := val.length, val_low := val_low, val_high := val_high
        val_inc_perc := val_inc_perc, next_val := 0 } rfl h2 h32 val.length 0 val0 (by simp)
    refine ⟨v', _, h, ?_⟩
    unfold get_next
    have hc0 : ¬ val.length = 0 := by omega
    have hgt : val.length > 1 := h2
    have hlast : val.length > val.length - 1 := by omega
    simp only [hc0, h1, hgt, hlast, if_false, if_true]

/-- Claim C30 (witness): the range given as the list `4,8,16`: three calls
return 1 and store 4, 8 and 16, the fourth call returns 0 and leaves the 16. -/
theorem get_next_list_witness :
    1 ≤ range_4_8_16.val.length ∧ range_4_8_16.val_count = range_4_8_16.val.length ∧
    range_4_8_16.next_val = 0 ∧
    ∃ val' range',
      get_next_calls 3 0 range_4_8_16 = some ([(1, 4), (1, 8), (1, 16)], val', range') ∧
      get_next val' range' = some (0, val', range') :=
  ⟨by decide, by decide, by decide,
    get_next_list 0 range_4_8_16 (by decide) (by decide) (by decide) (by decide)⟩

end Zpios
